import Mathlib

/-!
Verification of the device-alias assignment subsystem (qemu_alias.c) and the
backup descriptor model (backup_conf.c) of the libvirt repository slice.

Strings are modelled as lists of characters (`Str`), mirroring C char arrays.
Device structures carry exactly the fields the alias code reads or writes.
-/

set_option maxRecDepth 4000

abbrev Str := List Char

/-- Coerce a Lean string literal to the `Str` model. -/
def str (x : String) : Str := x.data

namespace LibvirtModel

/-! ## Decimal formatting (the `%d` of g_strdup_printf) -/

/-- The character for a decimal digit value. -/
def digitCh (d : Nat) : Char := Char.ofNat (48 + d)

/-- Fuel-driven digit expansion (most significant first). -/
def decCore : Nat → Nat → Str
  | 0, _ => []
  | fuel + 1, n => if n = 0 then [] else decCore fuel (n / 10) ++ [digitCh (n % 10)]

/-- Decimal rendering of a natural number, as printf "%d" would produce. -/
def decN (n : Nat) : Str :=
  if n = 0 then ['0'] else decCore n n

theorem decCore_eq_digits (fuel n : Nat) (h : n ≤ fuel) :
    decCore fuel n = (Nat.digits 10 n).reverse.map digitCh := by
  induction fuel generalizing n with
  | zero =>
    interval_cases n
    simp [decCore]
  | succ f ih =>
    by_cases h0 : n = 0
    · subst h0
      simp [decCore]
    · rw [decCore, if_neg h0]
      rw [ih (n / 10) (by
        have := Nat.div_lt_self (Nat.pos_of_ne_zero h0) (by norm_num : (1:Nat) < 10)
        omega)]
      rw [Nat.digits_def' (by norm_num : (1:Nat) < 10) (Nat.pos_of_ne_zero h0)]
      simp

/-- `decN` agrees with the base-10 digit expansion. -/
theorem decN_eq_digitsForm (n : Nat) :
    decN n = if n = 0 then ['0'] else ((Nat.digits 10 n).reverse.map digitCh) := by
  unfold decN
  split
  · rfl
  · exact decCore_eq_digits n n (le_refl n)

/-- Decimal rendering of an int, as printf "%d" would produce. -/
def decZ (i : Int) : Str :=
  if i < 0 then '-' :: decN i.natAbs else decN i.natAbs

/-! ## Parsing (model of virStrToLong_i; the helper itself is outside the
source slice, modelled from the spec: accepts an optional sign followed by
base-10 digits, rejecting empty or malformed remainders). -/

/-- Numeric value of a digit character, if it is one. -/
def digitVal (c : Char) : Option Nat :=
  if 48 ≤ c.toNat ∧ c.toNat ≤ 57 then some (c.toNat - 48) else none

/-- Accumulating base-10 parse over the whole list. -/
def parseNatAux : Str → Nat → Option Nat
  | [], acc => some acc
  | c :: r, acc =>
    match digitVal c with
    | some d => parseNatAux r (10 * acc + d)
    | none => none

/-- Modelled from the spec: base-10 integer parse of the full string
(virStrToLong_i with a NULL end pointer). -/
def virStrToLong_i : Str → Option Int
  | [] => none
  | c :: r =>
    if c = '-' then
      if r.isEmpty then none else (parseNatAux r 0).map (fun n => -(n : Int))
    else (parseNatAux (c :: r) 0).map (fun n => (n : Int))

/-! ### Basic facts about decimal strings -/

theorem digitCh_toNat {d : Nat} (h : d < 10) : (digitCh d).toNat = 48 + d := by
  interval_cases d <;> rfl

theorem mem_decN_isDigitChar {n : Nat} {c : Char} (hc : c ∈ decN n) :
    48 ≤ c.toNat ∧ c.toNat ≤ 57 := by
  rw [decN_eq_digitsForm] at hc
  split at hc
  · simp at hc; subst hc; exact ⟨by decide, by decide⟩
  · simp only [List.mem_map, List.mem_reverse] at hc
    obtain ⟨d, hd, rfl⟩ := hc
    have hlt : d < 10 := Nat.digits_lt_base (by norm_num) hd
    rw [digitCh_toNat hlt]
    omega

theorem decN_ne_nil (n : Nat) : decN n ≠ [] := by
  rw [decN_eq_digitsForm]
  split
  · simp
  · simp only [ne_eq, List.map_eq_nil_iff, List.reverse_eq_nil_iff]
    exact Nat.digits_ne_nil_iff_ne_zero.mpr (by assumption)

theorem parseNatAux_map_digitCh (l : List Nat) (hl : ∀ d ∈ l, d < 10) (a : Nat) :
    parseNatAux (l.map digitCh) a = some (l.foldl (fun x d => 10 * x + d) a) := by
  induction l generalizing a with
  | nil => rfl
  | cons d t ih =>
    have hd : d < 10 := hl d (List.mem_cons_self ..)
    have : digitVal (digitCh d) = some d := by
      unfold digitVal
      rw [digitCh_toNat hd]
      simp [Nat.le_add_right]
      omega
    simp only [List.map_cons, parseNatAux, this, List.foldl_cons]
    exact ih (fun x hx => hl x (List.mem_cons_of_mem _ hx)) _

theorem foldl_reverse_digits (l : List Nat) (a : Nat) :
    l.reverse.foldl (fun x d => 10 * x + d) a = a * 10 ^ l.length + Nat.ofDigits 10 l := by
  induction l generalizing a with
  | nil => simp
  | cons d t ih =>
    simp only [List.reverse_cons, List.foldl_append, List.foldl_cons, List.foldl_nil,
      ih, Nat.ofDigits_cons, List.length_cons]
    ring

/-- Parsing a rendered natural number recovers it. -/
theorem parseNatAux_decN (n : Nat) : parseNatAux (decN n) 0 = some n := by
  rw [decN_eq_digitsForm]
  split
  · subst n
    rfl
  · rw [parseNatAux_map_digitCh _ (fun d hd => Nat.digits_lt_base (by norm_num) (List.mem_reverse.mp hd))]
    rw [foldl_reverse_digits]
    simp [Nat.ofDigits_digits]

theorem decN_head_digit (n : Nat) : ∃ c r, decN n = c :: r ∧ 48 ≤ c.toNat ∧ c.toNat ≤ 57 := by
  cases h : decN n with
  | nil => exact absurd h (decN_ne_nil n)
  | cons c r =>
    exact ⟨c, r, rfl, mem_decN_isDigitChar (h ▸ List.mem_cons_self ..)⟩

theorem virStrToLong_decN (n : Nat) : virStrToLong_i (decN n) = some (n : Int) := by
  obtain ⟨c, r, hd, hc1, hc2⟩ := decN_head_digit n
  have hcne : c ≠ '-' := by
    intro h
    subst h
    exact absurd hc1 (by decide)
  have := parseNatAux_decN n
  rw [hd] at this ⊢
  simp [virStrToLong_i, hcne, this]

/-- `decN` is injective (via the parse round-trip). -/
theorem decN_injective : Function.Injective decN := by
  intro a b h
  have ha := parseNatAux_decN a
  have hb := parseNatAux_decN b
  rw [h, hb] at ha
  exact (Option.some_inj.mp ha).symm

theorem decZ_ofNat (n : Nat) : decZ (n : Int) = decN n := by
  simp [decZ, Int.natAbs_ofNat]

theorem dash_not_mem_decN (n : Nat) : '-' ∉ decN n := by
  intro h
  have := mem_decN_isDigitChar h
  exact absurd this.1 (by decide)

/-! ### String (char-list) inequality toolkit -/

theorem append_ne_of_incomparable {p q : Str} (h1 : ¬ p <+: q) (h2 : ¬ q <+: p)
    (s t : Str) : p ++ s ≠ q ++ t := by
  intro h
  rcases List.append_eq_append_iff.mp h with ⟨a, ha, _⟩ | ⟨c, hc, _⟩
  · exact h1 ⟨a, ha.symm⟩
  · exact h2 ⟨c, hc.symm⟩

theorem ne_of_append_head_ne {p : Str} {c₁ c₂ : Char} (h : c₁ ≠ c₂) (s t : Str) :
    p ++ c₁ :: s ≠ p ++ c₂ :: t := by
  intro he
  have := List.append_cancel_left he
  simp at this
  exact h this.1

theorem append_ne_nil_suffix {p : Str} (s : Str) (hs : s ≠ []) : p ≠ p ++ s := by
  intro h
  have := congrArg List.length h
  simp only [List.length_append] at this
  exact hs (List.eq_nil_of_length_eq_zero (by omega))

/-- Splitting at the first dash: if neither left part contains a dash, equality
of the dash-joined strings forces componentwise equality. -/
theorem dash_split {l₁ l₂ r₁ r₂ : Str} (h₁ : '-' ∉ l₁) (h₂ : '-' ∉ l₂)
    (h : l₁ ++ '-' :: r₁ = l₂ ++ '-' :: r₂) : l₁ = l₂ ∧ r₁ = r₂ := by
  induction l₁ generalizing l₂ with
  | nil =>
    cases l₂ with
    | nil => simpa using h
    | cons c t =>
      simp only [List.nil_append, List.cons_append, List.cons.injEq] at h
      exact absurd (h.1 ▸ List.mem_cons_self ..) h₂
  | cons c t ih =>
    cases l₂ with
    | nil =>
      simp only [List.cons_append, List.nil_append, List.cons.injEq] at h
      exact absurd (h.1 ▸ List.mem_cons_self ..) h₁
    | cons c' t' =>
      simp only [List.cons_append, List.cons.injEq] at h
      obtain ⟨he, ht⟩ := h
      obtain ⟨ha, hb⟩ := ih (fun hm => h₁ (List.mem_cons_of_mem _ hm))
        (fun hm => h₂ (List.mem_cons_of_mem _ hm)) ht
      exact ⟨by rw [he, ha], hb⟩

/-- A dash-free string never equals a string with a dash appended after a
dash-free part of different content. -/
theorem no_dash_ne_append_dash {l p : Str} (hl : '-' ∉ l) (r : Str) :
    l ≠ p ++ '-' :: r := by
  intro h
  exact hl (h ▸ List.mem_append.mpr (Or.inr (List.mem_cons_self ..)))

/-- Equality of `decN`-headed dash-joined strings forces equal numbers. -/
theorem decN_dash_inj {a b : Nat} {r₁ r₂ : Str}
    (h : decN a ++ '-' :: r₁ = decN b ++ '-' :: r₂) : a = b ∧ r₁ = r₂ := by
  obtain ⟨h1, h2⟩ := dash_split (dash_not_mem_decN a) (dash_not_mem_decN b) h
  exact ⟨decN_injective h1, h2⟩

theorem decN_ne_append_dash (a b : Nat) (r : Str) : decN a ≠ decN b ++ '-' :: r :=
  no_dash_ne_append_dash (dash_not_mem_decN a) r

/-! ## Alias index scanner (qemuDomainDeviceAliasIndex) -/

/-- qemuDomainDeviceAliasIndex: extract the numeric suffix of an alias behind
a prefix; -1 when the alias is absent, the prefix does not match, or the
remainder does not parse. -/
def qemuDomainDeviceAliasIndex (al : Option Str) (pre : Str) : Int :=
  match al with
  | none => -1
  | some a =>
    if pre.isPrefixOf a then
      match virStrToLong_i (a.drop pre.length) with
      | some v => v
      | none => -1
    else -1

theorem aliasIndex_none (pre : Str) : qemuDomainDeviceAliasIndex none pre = -1 := rfl

theorem aliasIndex_append_decN (pre : Str) (k : Nat) :
    qemuDomainDeviceAliasIndex (some (pre ++ decN k)) pre = k := by
  simp only [qemuDomainDeviceAliasIndex]
  rw [if_pos ( List.isPrefixOf_iff_prefix.mpr ⟨decN k, rfl⟩)]
  rw [List.drop_left, virStrToLong_decN]

theorem aliasIndex_no_match {pre : Str} {a : Str} (h : ¬ pre <+: a) :
    qemuDomainDeviceAliasIndex (some a) pre = -1 := by
  simp only [qemuDomainDeviceAliasIndex]
  rw [if_neg (fun hp => h ( List.isPrefixOf_iff_prefix.mp hp))]

theorem aliasIndex_nonneg_match {al : Option Str} {pre : Str}
    (h : 0 ≤ qemuDomainDeviceAliasIndex al pre) : ∃ a, al = some a ∧ pre <+: a := by
  match al with
  | none => exact absurd h (by norm_num [qemuDomainDeviceAliasIndex])
  | some a =>
    refine ⟨a, rfl, ?_⟩
    by_contra hp
    rw [aliasIndex_no_match hp] at h
    exact absurd h (by norm_num)

/-! ## Scavenging folds

Two loop shapes occur in the source: one that explicitly `continue`s on a
negative scan result (net/hostdev/redirdev/shmem), and one that compares the
scan result directly against the accumulator (rng/memory/input). -/

/-- One step of the skip-negative scavenging loop. -/
def stepSkipNeg (pre : Str) (idx : Int) (al : Option Str) : Int :=
  let t := qemuDomainDeviceAliasIndex al pre
  if t < 0 then idx else if t ≥ idx then t + 1 else idx

/-- One step of the direct-comparison scavenging loop. -/
def stepGE (pre : Str) (idx : Int) (al : Option Str) : Int :=
  let t := qemuDomainDeviceAliasIndex al pre
  if t ≥ idx then t + 1 else idx

def scavengeSkipNeg (pre : Str) (start : Int) (aliases : List (Option Str)) : Int :=
  aliases.foldl (stepSkipNeg pre) start

def scavengeGE (pre : Str) (start : Int) (aliases : List (Option Str)) : Int :=
  aliases.foldl (stepGE pre) start

theorem scavengeSkipNeg_nil (pre : Str) (start : Int) :
    scavengeSkipNeg pre start [] = start := rfl

theorem scavengeGE_nil (pre : Str) (start : Int) :
    scavengeGE pre start [] = start := rfl

theorem scavengeSkipNeg_cons (pre : Str) (start : Int) (x : Option Str)
    (r : List (Option Str)) :
    scavengeSkipNeg pre start (x :: r) = scavengeSkipNeg pre (stepSkipNeg pre start x) r := rfl

theorem scavengeGE_cons (pre : Str) (start : Int) (x : Option Str)
    (r : List (Option Str)) :
    scavengeGE pre start (x :: r) = scavengeGE pre (stepGE pre start x) r := rfl

theorem scavengeSkipNeg_append (pre : Str) (start : Int) (l₁ l₂ : List (Option Str)) :
    scavengeSkipNeg pre start (l₁ ++ l₂) =
      scavengeSkipNeg pre (scavengeSkipNeg pre start l₁) l₂ := by
  simp [scavengeSkipNeg, List.foldl_append]

theorem scavengeGE_append (pre : Str) (start : Int) (l₁ l₂ : List (Option Str)) :
    scavengeGE pre start (l₁ ++ l₂) = scavengeGE pre (scavengeGE pre start l₁) l₂ := by
  simp [scavengeGE, List.foldl_append]

theorem stepSkipNeg_le (pre : Str) (idx : Int) (al : Option Str) :
    idx ≤ stepSkipNeg pre idx al := by
  unfold stepSkipNeg
  dsimp only
  split
  · exact le_refl _
  · split
    · omega
    · exact le_refl _

theorem stepGE_le (pre : Str) (idx : Int) (al : Option Str) :
    idx ≤ stepGE pre idx al := by
  unfold stepGE
  dsimp only
  split
  · omega
  · exact le_refl _

theorem stepSkipNeg_nonneg (pre : Str) {idx : Int} (h : 0 ≤ idx) (al : Option Str) :
    0 ≤ stepSkipNeg pre idx al := le_trans h (stepSkipNeg_le pre idx al)

theorem scavengeSkipNeg_le (pre : Str) (start : Int) (l : List (Option Str)) :
    start ≤ scavengeSkipNeg pre start l := by
  induction l generalizing start with
  | nil => exact le_refl _
  | cons x r ih =>
    rw [scavengeSkipNeg_cons]
    exact le_trans (stepSkipNeg_le pre start x) (ih _)

theorem scavengeGE_le (pre : Str) (start : Int) (l : List (Option Str)) :
    start ≤ scavengeGE pre start l := by
  induction l generalizing start with
  | nil => exact le_refl _
  | cons x r ih =>
    rw [scavengeGE_cons]
    exact le_trans (stepGE_le pre start x) (ih _)

theorem stepGE_gt_or (pre : Str) (start : Int) (al : Option Str) :
    qemuDomainDeviceAliasIndex al pre < stepGE pre start al ∨
      qemuDomainDeviceAliasIndex al pre < start := by
  unfold stepGE
  dsimp only
  split
  · left; omega
  · right; omega

theorem stepSkipNeg_gt (pre : Str) {start : Int} (hs : 0 ≤ start) (al : Option Str) :
    qemuDomainDeviceAliasIndex al pre < stepSkipNeg pre start al := by
  unfold stepSkipNeg
  dsimp only
  split
  · omega
  · split
    · omega
    · omega

/-- The scavenged value strictly exceeds every scanned index. -/
theorem scavengeGE_gt (pre : Str) (start : Int) (l : List (Option Str)) :
    ∀ al ∈ l, qemuDomainDeviceAliasIndex al pre < scavengeGE pre start l := by
  induction l generalizing start with
  | nil => intro al h; exact absurd h (List.not_mem_nil al)
  | cons x r ih =>
    intro al h
    rw [scavengeGE_cons]
    rcases List.mem_cons.mp h with rfl | hm
    · have hle := scavengeGE_le pre (stepGE pre start al) r
      have hst := stepGE_le pre start al
      rcases stepGE_gt_or pre start al with hlt | hlt <;> omega
    · exact ih _ al hm

/-- With a non-negative start the skip-negative loop also strictly exceeds
every scanned index. -/
theorem scavengeSkipNeg_gt (pre : Str) (start : Int) (hs : 0 ≤ start)
    (l : List (Option Str)) :
    ∀ al ∈ l, qemuDomainDeviceAliasIndex al pre < scavengeSkipNeg pre start l := by
  induction l generalizing start with
  | nil => intro al h; exact absurd h (List.not_mem_nil al)
  | cons x r ih =>
    intro al h
    rw [scavengeSkipNeg_cons]
    rcases List.mem_cons.mp h with rfl | hm
    · have hle := scavengeSkipNeg_le pre (stepSkipNeg pre start al) r
      have := stepSkipNeg_gt pre hs al
      omega
    · exact ih _ (stepSkipNeg_nonneg pre hs x) al hm

/-- The indices actually "seen" by a scavenging scan. -/
def seenIdxs (pre : Str) (aliases : List (Option Str)) : List Int :=
  (aliases.map (qemuDomainDeviceAliasIndex · pre)).filter (fun t => 0 ≤ t)

theorem foldl_max_init (l : List Int) (a b : Int) :
    l.foldl max (max a b) = max a (l.foldl max b) := by
  induction l generalizing b with
  | nil => rfl
  | cons c r ih =>
    simp only [List.foldl_cons]
    rw [max_assoc, ih]

/-- Max-plus-one characterization of index scavenging: the loop computes the
maximum seen non-negative suffix plus one (0 when nothing matches), never the
lowest unused value. -/
theorem scavengeSkipNeg_eq_max_add_one (pre : Str) (l : List (Option Str))
    (start : Int) (hs : 0 ≤ start) :
    scavengeSkipNeg pre start l = max (start - 1) ((seenIdxs pre l).foldl max (-1)) + 1 := by
  induction l generalizing start with
  | nil =>
    simp only [scavengeSkipNeg_nil, seenIdxs, List.map_nil, List.filter_nil,
      List.foldl_nil]
    omega
  | cons x r ih =>
    rw [scavengeSkipNeg_cons]
    have hseen : seenIdxs pre (x :: r) =
        if 0 ≤ qemuDomainDeviceAliasIndex x pre then
          qemuDomainDeviceAliasIndex x pre :: seenIdxs pre r
        else seenIdxs pre r := by
      simp only [seenIdxs, List.map_cons]
      split
      · rw [List.filter_cons_of_pos (by simpa using (by assumption : (0:Int) ≤ _))]
      · rw [List.filter_cons_of_neg (by simpa using (by assumption : ¬ (0:Int) ≤ _))]
    by_cases hneg : qemuDomainDeviceAliasIndex x pre < 0
    · rw [hseen, if_neg (by omega)]
      rw [show stepSkipNeg pre start x = start by unfold stepSkipNeg; simp only; rw [if_pos hneg]]
      exact ih start hs
    · rw [hseen, if_pos (by omega), List.foldl_cons]
      rw [show max (-1 : Int) (qemuDomainDeviceAliasIndex x pre) =
        max (qemuDomainDeviceAliasIndex x pre) (-1) from max_comm _ _, foldl_max_init]
      by_cases ht : qemuDomainDeviceAliasIndex x pre ≥ start
      · rw [show stepSkipNeg pre start x = qemuDomainDeviceAliasIndex x pre + 1 by
          unfold stepSkipNeg; simp only; rw [if_neg hneg, if_pos ht]]
        rw [ih (qemuDomainDeviceAliasIndex x pre + 1) (by omega)]
        omega
      · rw [show stepSkipNeg pre start x = start by
          unfold stepSkipNeg; simp only; rw [if_neg hneg, if_neg ht]]
        rw [ih start hs]
        omega

/-! ## Device data model (fields read or written by qemu_alias.c) -/

/-- Modelled from the spec: disk bus types with their names as used for alias
prefixes (virDomainDiskBusTypeToString lives outside the source slice). -/
inductive DiskBus | ide | fdc | scsi | virtio | xen | usb | uml | sata | sd
  deriving DecidableEq, Repr

def diskBusName : DiskBus → Str
  | .ide => str "ide"
  | .fdc => str "fdc"
  | .scsi => str "scsi"
  | .virtio => str "virtio"
  | .xen => str "xen"
  | .usb => str "usb"
  | .uml => str "uml"
  | .sata => str "sata"
  | .sd => str "sd"

/-- Modelled from the spec: controller types with their names
(virDomainControllerTypeToString lives outside the source slice). -/
inductive CtrlType | ide | fdc | scsi | sata | virtioSerial | ccid | usb | pci | xenbus
  deriving DecidableEq, Repr

def ctrlTypeName : CtrlType → Str
  | .ide => str "ide"
  | .fdc => str "fdc"
  | .scsi => str "scsi"
  | .sata => str "sata"
  | .virtioSerial => str "virtio-serial"
  | .ccid => str "ccid"
  | .usb => str "usb"
  | .pci => str "pci"
  | .xenbus => str "xenbus"

/-- Modelled from the spec: the controller models the alias code
distinguishes (PCIe root, the legacy single-target SCSI lsilogic model, the
NCR53C90 model); every other model behaves alike here. -/
inductive CtrlModel | pcieRoot | scsiLsilogic | scsiNcr53c90 | otherModel
  deriving DecidableEq, Repr

inductive MemModel | dimm | nvdimm | virtioPmem | noneModel
  deriving DecidableEq, Repr

inductive ChrDeviceType | parallel | serial | console | channel | last
  deriving DecidableEq, Repr

inductive MemballoonModel | mbNone | mbVirtio | mbOther
  deriving DecidableEq, Repr

/-- Modelled from the spec: machine-type family; builtin-IDE machines
(e.g. i440fx, G3Beige) and Q35-like machines are distinct families. -/
inductive MachineFamily | i440fxLike | q35Like | otherFamily
  deriving DecidableEq, Repr

/-- Drive address tuple (controller, bus, target, unit). -/
structure DriveAddr where
  controller : Nat
  bus : Nat
  target : Nat
  unit : Nat
  deriving DecidableEq, Repr

structure DiskDef where
  aliasOpt : Option Str
  bus : DiskBus
  /-- whether info.type is VIR_DOMAIN_DEVICE_ADDRESS_TYPE_DRIVE -/
  addrIsDrive : Bool
  drive : DriveAddr
  /-- target device name, e.g. "vda" -/
  dst : Str
  /-- qemuDomainDiskPrivate qomName cache -/
  qomName : Option Str
  deriving DecidableEq, Repr

structure ControllerDef where
  aliasOpt : Option Str
  type : CtrlType
  model : CtrlModel
  idx : Nat
  deriving DecidableEq, Repr

structure NetDef where
  aliasOpt : Option Str
  /-- Modelled from the spec: whether virDomainNetResolveActualType yields
  VIR_DOMAIN_NET_TYPE_HOSTDEV for this interface. -/
  actualHostdev : Bool
  deriving DecidableEq, Repr

structure HostdevDef where
  aliasOpt : Option Str
  deriving DecidableEq, Repr

structure FSDef where
  aliasOpt : Option Str
  deriving DecidableEq, Repr

structure SoundDef where
  aliasOpt : Option Str
  deriving DecidableEq, Repr

structure VideoDef where
  aliasOpt : Option Str
  deriving DecidableEq, Repr

structure HubDef where
  aliasOpt : Option Str
  deriving DecidableEq, Repr

structure SmartcardDef where
  aliasOpt : Option Str
  deriving DecidableEq, Repr

structure MemballoonDef where
  aliasOpt : Option Str
  model : MemballoonModel
  deriving DecidableEq, Repr

structure TPMDef where
  aliasOpt : Option Str
  deriving DecidableEq, Repr

structure RedirdevDef where
  aliasOpt : Option Str
  deriving DecidableEq, Repr

structure RNGDef where
  aliasOpt : Option Str
  deriving DecidableEq, Repr

structure ShmemDef where
  aliasOpt : Option Str
  deriving DecidableEq, Repr

structure WatchdogDef where
  aliasOpt : Option Str
  deriving DecidableEq, Repr

structure InputDef where
  aliasOpt : Option Str
  deriving DecidableEq, Repr

structure VsockDef where
  aliasOpt : Option Str
  deriving DecidableEq, Repr

structure ChrDef where
  aliasOpt : Option Str
  deviceType : ChrDeviceType
  deriving DecidableEq, Repr

structure MemoryDef where
  aliasOpt : Option Str
  model : MemModel
  /-- info.addr.dimm.slot -/
  slot : Nat
  deriving DecidableEq, Repr

/-- Capability handle: the boolean queries the alias code performs. -/
structure QemuCaps where
  /-- virQEMUCapsHasPCIMultiBus -/
  pciMultiBus : Bool
  /-- virQEMUCapsGet(qemuCaps, QEMU_CAPS_BLOCKDEV) -/
  blockdev : Bool
  deriving DecidableEq, Repr

structure DomainDef where
  family : MachineFamily
  disks : List DiskDef
  nets : List NetDef
  fss : List FSDef
  sounds : List SoundDef
  hostdevs : List HostdevDef
  redirdevs : List RedirdevDef
  videos : List VideoDef
  controllers : List ControllerDef
  inputs : List InputDef
  parallels : List ChrDef
  serials : List ChrDef
  channels : List ChrDef
  consoles : List ChrDef
  hubs : List HubDef
  shmems : List ShmemDef
  smartcards : List SmartcardDef
  watchdog : Option WatchdogDef
  memballoon : Option MemballoonDef
  rngs : List RNGDef
  tpms : List TPMDef
  mems : List MemoryDef
  vsock : Option VsockDef
  deriving DecidableEq, Repr

/-- Modelled from the spec: qemuDomainHasBuiltinIDE (machine family query,
outside the source slice). -/
def qemuDomainHasBuiltinIDE (d : DomainDef) : Bool := d.family = .i440fxLike

/-- Modelled from the spec: qemuDomainIsQ35 (machine family query, outside
the source slice). -/
def qemuDomainIsQ35 (d : DomainDef) : Bool := d.family = .q35Like

/-- Modelled from the spec: virDiskNameToIndex decodes a disk target name
such as "vdb" into its index (1); a known drive-name stem is skipped and the
remaining lowercase letters are read in bijective base 26; -1 when
malformed.  (The helper lives outside the source slice.) -/
def diskNameStems : List Str :=
  [str "fd", str "hd", str "vd", str "sd", str "xvd", str "ubd"]

def diskLetterVal (c : Char) : Option Nat :=
  if 97 ≤ c.toNat ∧ c.toNat ≤ 122 then some (c.toNat - 97) else none

def diskSuffixAux : Str → Nat → Option Nat
  | [], acc => some acc
  | c :: r, acc =>
    match diskLetterVal c with
    | some v => diskSuffixAux r ((acc + 1) * 26 + v)
    | none => none

def virDiskNameToIndex (dst : Str) : Int :=
  match diskNameStems.find? (fun p => p.isPrefixOf dst) with
  | none => -1
  | some p =>
    match dst.drop p.length with
    | [] => -1
    | c :: r =>
      match diskLetterVal c with
      | none => -1
      | some v =>
        match diskSuffixAux r v with
        | some idx => (idx : Int)
        | none => -1

/-- Modelled from the spec: qemuDomainFindSCSIControllerModel — look up the
SCSI controller with the disk's drive-address controller index and return
its model; error (none) when absent. -/
def qemuDomainFindSCSIControllerModel (d : DomainDef) (controllerIdx : Nat) :
    Option CtrlModel :=
  (d.controllers.find? (fun c => c.type = CtrlType.scsi ∧ c.idx = controllerIdx)).map
    (fun c => c.model)

/-! ## Per-device-class alias assigners (qemu_alias.c) -/

def qemuAssignDeviceControllerAlias (d : DomainDef) (caps : QemuCaps)
    (c : ControllerDef) : ControllerDef :=
  if c.aliasOpt.isSome then c
  else if c.type = CtrlType.pci then
    if ¬ caps.pciMultiBus then {c with aliasOpt := some (str "pci")}
    else if c.model = CtrlModel.pcieRoot then
      {c with aliasOpt := some (str "pcie." ++ decN c.idx)}
    else {c with aliasOpt := some (str "pci." ++ decN c.idx)}
  else if c.type = CtrlType.ide ∧ qemuDomainHasBuiltinIDE d ∧ c.idx = 0 then
    {c with aliasOpt := some (str "ide")}
  else if c.type = CtrlType.sata ∧ qemuDomainIsQ35 d ∧ c.idx = 0 then
    {c with aliasOpt := some (str "ide")}
  else if c.type = CtrlType.usb ∧ c.idx = 0 then
    {c with aliasOpt := some (str "usb")}
  else if c.type = CtrlType.scsi ∧ c.model = CtrlModel.scsiNcr53c90 ∧ c.idx = 0 then
    {c with aliasOpt := some (str "scsi")}
  else {c with aliasOpt := some (ctrlTypeName c.type ++ decN c.idx)}

/-- The alias-choosing half of qemuAssignDeviceDiskAlias. -/
def diskChooseAlias (d : DomainDef) (disk : DiskDef) : Except Str DiskDef :=
  if disk.aliasOpt.isSome then .ok disk
  else if disk.addrIsDrive then
    if disk.bus = DiskBus.scsi then
      match qemuDomainFindSCSIControllerModel d disk.drive.controller with
      | none => .error (str "unable to find a SCSI controller")
      | some m =>
        if m = CtrlModel.scsiLsilogic then
          .ok {disk with aliasOpt := some (diskBusName disk.bus ++
            (decN disk.drive.controller ++ '-' :: (decN disk.drive.bus ++
              '-' :: decN disk.drive.unit)))}
        else
          .ok {disk with aliasOpt := some (diskBusName disk.bus ++
            (decN disk.drive.controller ++ '-' :: (decN disk.drive.bus ++
              '-' :: (decN disk.drive.target ++ '-' :: decN disk.drive.unit))))}
    else
      .ok {disk with aliasOpt := some (diskBusName disk.bus ++
        (decN disk.drive.controller ++ '-' :: (decN disk.drive.bus ++
          '-' :: decN disk.drive.unit)))}
  else
    .ok {disk with aliasOpt := some (diskBusName disk.bus ++
      ('-' :: (str "disk" ++ decZ (virDiskNameToIndex disk.dst))))}

/-- The qom-name caching half of qemuAssignDeviceDiskAlias (-blockdev). -/
def diskSetQOMName (disk : DiskDef) (caps : QemuCaps) : DiskDef :=
  if disk.qomName.isNone ∧ caps.blockdev then
    match disk.bus with
    | DiskBus.fdc | DiskBus.ide | DiskBus.sata | DiskBus.scsi =>
      {disk with qomName := disk.aliasOpt}
    | DiskBus.virtio =>
      match disk.aliasOpt with
      | some a =>
        {disk with
          qomName := some (str "/machine/peripheral/" ++ a ++ str "/virtio-backend")}
      | none => disk
    | DiskBus.usb =>
      match disk.aliasOpt with
      | some a =>
        {disk with
          qomName := some (str "/machine/peripheral/" ++ a ++ '/' :: (a ++ str ".0/legacy[0]"))}
      | none => disk
    | DiskBus.xen | DiskBus.uml | DiskBus.sd => disk
  else disk

def qemuAssignDeviceDiskAlias (d : DomainDef) (disk : DiskDef) (caps : QemuCaps) :
    Except Str DiskDef :=
  match diskChooseAlias d disk with
  | .error e => .error e
  | .ok disk' => .ok (diskSetQOMName disk' caps)

def qemuAssignDeviceHostdevAlias (d : DomainDef) (al : Option Str) (idx : Int) :
    Option Str :=
  if al.isSome then al
  else
    let idx :=
      if idx = -1 then
        scavengeSkipNeg (str "hostdev")
          (scavengeSkipNeg (str "hostdev") 0 (d.hostdevs.map (fun h => h.aliasOpt)))
          (d.nets.map (fun n => n.aliasOpt))
      else idx
    some (str "hostdev" ++ decZ idx)

def qemuAssignDeviceNetAlias (d : DomainDef) (net : NetDef) (idx : Int) : NetDef :=
  if net.aliasOpt.isSome then net
  else if net.actualHostdev then
    {net with aliasOpt := qemuAssignDeviceHostdevAlias d net.aliasOpt (-1)}
  else
    let idx :=
      if idx = -1 then scavengeSkipNeg (str "net") 0 (d.nets.map (fun n => n.aliasOpt))
      else idx
    {net with aliasOpt := some (str "net" ++ decZ idx)}

def qemuAssignDeviceFSAlias (fss : FSDef) (idx : Int) : FSDef :=
  if fss.aliasOpt.isSome then fss
  else {fss with aliasOpt := some (str "fs" ++ decZ idx)}

def qemuAssignDeviceSoundAlias (sound : SoundDef) (idx : Int) : SoundDef :=
  if sound.aliasOpt.isSome then sound
  else {sound with aliasOpt := some (str "sound" ++ decZ idx)}

def qemuAssignDeviceVideoAlias (video : VideoDef) (idx : Int) : VideoDef :=
  if video.aliasOpt.isSome then video
  else {video with aliasOpt := some (str "video" ++ decZ idx)}

def qemuAssignDeviceHubAlias (hub : HubDef) (idx : Int) : HubDef :=
  if hub.aliasOpt.isSome then hub
  else {hub with aliasOpt := some (str "hub" ++ decZ idx)}

def qemuAssignDeviceSmartcardAlias (smartcard : SmartcardDef) (idx : Int) :
    SmartcardDef :=
  if smartcard.aliasOpt.isSome then smartcard
  else {smartcard with aliasOpt := some (str "smartcard" ++ decZ idx)}

def qemuAssignDeviceMemballoonAlias (memballoon : MemballoonDef) (idx : Int) :
    MemballoonDef :=
  if memballoon.aliasOpt.isSome then memballoon
  else {memballoon with aliasOpt := some (str "balloon" ++ decZ idx)}

def qemuAssignDeviceTPMAlias (tpm : TPMDef) (idx : Int) : TPMDef :=
  if tpm.aliasOpt.isSome then tpm
  else {tpm with aliasOpt := some (str "tpm" ++ decZ idx)}

def qemuAssignDeviceRedirdevAlias (d : DomainDef) (redirdev : RedirdevDef)
    (idx : Int) : RedirdevDef :=
  if redirdev.aliasOpt.isSome then redirdev
  else
    let idx :=
      if idx = -1 then
        scavengeSkipNeg (str "redir") 0 (d.redirdevs.map (fun r => r.aliasOpt))
      else idx
    {redirdev with aliasOpt := some (str "redir" ++ decZ idx)}

def qemuAssignDeviceRNGAlias (d : DomainDef) (rng : RNGDef) : RNGDef :=
  if rng.aliasOpt.isSome then rng
  else
    {rng with aliasOpt := some (str "rng" ++
      decZ (scavengeGE (str "rng") 0 (d.rngs.map (fun r => r.aliasOpt))))}

def qemuDeviceMemoryGetAliasID (d : DomainDef) (mem : MemoryDef) (oldAlias : Bool)
    (pre : Str) : Int :=
  /- virtio-pmem goes onto the PCI bus, so its DIMM address is not valid -/
  if ¬ oldAlias ∧ mem.model ≠ MemModel.virtioPmem then (mem.slot : Int)
  else scavengeGE pre 0 (d.mems.map (fun m => m.aliasOpt))

def qemuAssignDeviceMemoryAlias (d : DomainDef) (mem : MemoryDef) (oldAlias : Bool) :
    Except Str MemoryDef :=
  if mem.aliasOpt.isSome then .ok mem
  else
    match mem.model with
    | MemModel.dimm =>
      .ok {mem with aliasOpt := some (str "dimm" ++
        decZ (qemuDeviceMemoryGetAliasID d mem oldAlias (str "dimm")))}
    | MemModel.nvdimm =>
      .ok {mem with aliasOpt := some (str "nvdimm" ++
        decZ (qemuDeviceMemoryGetAliasID d mem oldAlias (str "nvdimm")))}
    | MemModel.virtioPmem =>
      .ok {mem with aliasOpt := some (str "virtiopmem" ++
        decZ (qemuDeviceMemoryGetAliasID d mem oldAlias (str "virtiopmem")))}
    | MemModel.noneModel => .error (str "invalid memory model")

def qemuAssignDeviceShmemAlias (d : DomainDef) (shmem : ShmemDef) (idx : Int) :
    ShmemDef :=
  if shmem.aliasOpt.isSome then shmem
  else
    let idx :=
      if idx = -1 then
        scavengeSkipNeg (str "shmem") 0 (d.shmems.map (fun s => s.aliasOpt))
      else idx
    {shmem with aliasOpt := some (str "shmem" ++ decZ idx)}

def qemuAssignDeviceWatchdogAlias (watchdog : WatchdogDef) : WatchdogDef :=
  /- Currently, there is just one watchdog per domain -/
  if watchdog.aliasOpt.isSome then watchdog
  else {watchdog with aliasOpt := some (str "watchdog0")}

/-- The input-device assigner.  Note that the source initializes the scan
accumulator with the incoming idx (-1), unlike the sibling scavengers. -/
def qemuAssignDeviceInputAlias (d : DomainDef) (input : InputDef) (idx : Int) :
    InputDef :=
  if input.aliasOpt.isSome then input
  else
    let idx :=
      if idx = -1 then scavengeGE (str "input") idx (d.inputs.map (fun i => i.aliasOpt))
      else idx
    {input with aliasOpt := some (str "input" ++ decZ idx)}

def qemuAssignDeviceVsockAlias (vsock : VsockDef) : VsockDef :=
  if vsock.aliasOpt.isSome then vsock
  else {vsock with aliasOpt := some (str "vsock0")}

/-- virDomainChrGetDomainPtrs: the per-device-type character device list. -/
def virDomainChrGetDomainPtrs (d : DomainDef) : ChrDeviceType → List ChrDef
  | ChrDeviceType.parallel => d.parallels
  | ChrDeviceType.serial => d.serials
  | ChrDeviceType.console => d.consoles
  | ChrDeviceType.channel => d.channels
  | ChrDeviceType.last => []

/-- One scan step of qemuGetNextChrDevIndex (primary then optional secondary
prefix, with the C short-circuit semantics). -/
def chrScanStep (pre : Str) (pre2 : Option Str) (idx : Int) (al : Option Str) : Int :=
  let t1 := qemuDomainDeviceAliasIndex al pre
  if 0 ≤ t1 then (if t1 ≥ idx then t1 + 1 else idx)
  else
    match pre2 with
    | none => if t1 ≥ idx then t1 + 1 else idx
    | some p2 =>
      let t2 := qemuDomainDeviceAliasIndex al p2
      if t2 < 0 then idx else if t2 ≥ idx then t2 + 1 else idx

def qemuGetNextChrDevIndex (d : DomainDef) (chr : ChrDef) (pre : Str) : Int :=
  let pre2 : Option Str :=
    if chr.deviceType = ChrDeviceType.console then some (str "serial") else none
  (virDomainChrGetDomainPtrs d chr.deviceType).foldl
    (fun idx c => chrScanStep pre pre2 idx c.aliasOpt) 0

/-- The per-device-type alias stem of a character device. -/
def chrDevPrefix : ChrDeviceType → Str
  | ChrDeviceType.parallel => str "parallel"
  | ChrDeviceType.serial => str "serial"
  | ChrDeviceType.console => str "console"
  | ChrDeviceType.channel => str "channel"
  | ChrDeviceType.last => str ""

/-- The index a character device gets: the caller's unless it is -1, in
which case the scavenged one. -/
def chrPickIdx (d : DomainDef) (chr : ChrDef) (idx : Int) : Int :=
  if idx = -1 then qemuGetNextChrDevIndex d chr (chrDevPrefix chr.deviceType) else idx

def qemuAssignDeviceChrAlias (d : DomainDef) (chr : ChrDef) (idx : Int) :
    Except Str ChrDef :=
  if chr.aliasOpt.isSome then .ok chr
  else if chr.deviceType = ChrDeviceType.last then .error (str "invalid chr device type")
  else if chrPickIdx d chr idx < 0 then .error (str "no chr index")
  else .ok {chr with aliasOpt := some (chrDevPrefix chr.deviceType ++
    decZ (chrPickIdx d chr idx))}

/-! ## Domain-wide orchestrator (qemuAssignDeviceAliases)

Each per-class loop of the source mutates one device array of the domain in
place; the generic `goLoop` below mirrors that: at every step the current
element is assigned against the current domain state, written back into its
slot, and the walk continues. -/

/-- A view of one device list inside the domain. -/
structure ListLens (α : Type) where
  get : DomainDef → List α
  set : DomainDef → List α → DomainDef

def goLoop (L : ListLens α) (f : DomainDef → Nat → α → Except Str α) :
    DomainDef → List α → List α → Nat → Except Str DomainDef
  | d, _, [], _ => .ok d
  | d, done, x :: rest, i =>
    match f d i x with
    | .error e => .error e
    | .ok x' => goLoop L f (L.set d (done ++ x' :: rest)) (done ++ [x']) rest (i + 1)

def runStage (L : ListLens α) (f : DomainDef → Nat → α → Except Str α)
    (d : DomainDef) : Except Str DomainDef :=
  goLoop L f d [] (L.get d) 0

def disksL : ListLens DiskDef := ⟨DomainDef.disks, fun d l => {d with disks := l}⟩
def netsL : ListLens NetDef := ⟨DomainDef.nets, fun d l => {d with nets := l}⟩
def fssL : ListLens FSDef := ⟨DomainDef.fss, fun d l => {d with fss := l}⟩
def soundsL : ListLens SoundDef := ⟨DomainDef.sounds, fun d l => {d with sounds := l}⟩
def hostdevsL : ListLens HostdevDef :=
  ⟨DomainDef.hostdevs, fun d l => {d with hostdevs := l}⟩
def redirdevsL : ListLens RedirdevDef :=
  ⟨DomainDef.redirdevs, fun d l => {d with redirdevs := l}⟩
def videosL : ListLens VideoDef := ⟨DomainDef.videos, fun d l => {d with videos := l}⟩
def controllersL : ListLens ControllerDef :=
  ⟨DomainDef.controllers, fun d l => {d with controllers := l}⟩
def inputsL : ListLens InputDef := ⟨DomainDef.inputs, fun d l => {d with inputs := l}⟩
def parallelsL : ListLens ChrDef :=
  ⟨DomainDef.parallels, fun d l => {d with parallels := l}⟩
def serialsL : ListLens ChrDef := ⟨DomainDef.serials, fun d l => {d with serials := l}⟩
def channelsL : ListLens ChrDef :=
  ⟨DomainDef.channels, fun d l => {d with channels := l}⟩
def consolesL : ListLens ChrDef :=
  ⟨DomainDef.consoles, fun d l => {d with consoles := l}⟩
def hubsL : ListLens HubDef := ⟨DomainDef.hubs, fun d l => {d with hubs := l}⟩
def shmemsL : ListLens ShmemDef := ⟨DomainDef.shmems, fun d l => {d with shmems := l}⟩
def smartcardsL : ListLens SmartcardDef :=
  ⟨DomainDef.smartcards, fun d l => {d with smartcards := l}⟩
def rngsL : ListLens RNGDef := ⟨DomainDef.rngs, fun d l => {d with rngs := l}⟩
def tpmsL : ListLens TPMDef := ⟨DomainDef.tpms, fun d l => {d with tpms := l}⟩
def memsL : ListLens MemoryDef := ⟨DomainDef.mems, fun d l => {d with mems := l}⟩

def diskStepF (caps : QemuCaps) (d : DomainDef) (_ : Nat) (x : DiskDef) :
    Except Str DiskDef := qemuAssignDeviceDiskAlias d x caps
def netStepF (d : DomainDef) (_ : Nat) (x : NetDef) : Except Str NetDef :=
  .ok (qemuAssignDeviceNetAlias d x (-1))
def fsStepF (_ : DomainDef) (i : Nat) (x : FSDef) : Except Str FSDef :=
  .ok (qemuAssignDeviceFSAlias x (i : Int))
def soundStepF (_ : DomainDef) (i : Nat) (x : SoundDef) : Except Str SoundDef :=
  .ok (qemuAssignDeviceSoundAlias x (i : Int))
def hostdevStepF (d : DomainDef) (_ : Nat) (x : HostdevDef) : Except Str HostdevDef :=
  .ok {x with aliasOpt := qemuAssignDeviceHostdevAlias d x.aliasOpt (-1)}
def redirdevStepF (d : DomainDef) (i : Nat) (x : RedirdevDef) :
    Except Str RedirdevDef := .ok (qemuAssignDeviceRedirdevAlias d x (i : Int))
def videoStepF (_ : DomainDef) (i : Nat) (x : VideoDef) : Except Str VideoDef :=
  .ok (qemuAssignDeviceVideoAlias x (i : Int))
def controllerStepF (caps : QemuCaps) (d : DomainDef) (_ : Nat) (x : ControllerDef) :
    Except Str ControllerDef := .ok (qemuAssignDeviceControllerAlias d caps x)
def inputStepF (d : DomainDef) (i : Nat) (x : InputDef) : Except Str InputDef :=
  .ok (qemuAssignDeviceInputAlias d x (i : Int))
def chrStepF (d : DomainDef) (i : Nat) (x : ChrDef) : Except Str ChrDef :=
  qemuAssignDeviceChrAlias d x (i : Int)
def hubStepF (_ : DomainDef) (i : Nat) (x : HubDef) : Except Str HubDef :=
  .ok (qemuAssignDeviceHubAlias x (i : Int))
def shmemStepF (d : DomainDef) (i : Nat) (x : ShmemDef) : Except Str ShmemDef :=
  .ok (qemuAssignDeviceShmemAlias d x (i : Int))
def smartcardStepF (_ : DomainDef) (i : Nat) (x : SmartcardDef) :
    Except Str SmartcardDef := .ok (qemuAssignDeviceSmartcardAlias x (i : Int))
def rngStepF (d : DomainDef) (_ : Nat) (x : RNGDef) : Except Str RNGDef :=
  .ok (qemuAssignDeviceRNGAlias d x)
def tpmStepF (_ : DomainDef) (i : Nat) (x : TPMDef) : Except Str TPMDef :=
  .ok (qemuAssignDeviceTPMAlias x (i : Int))
def memStepF (d : DomainDef) (_ : Nat) (x : MemoryDef) : Except Str MemoryDef :=
  qemuAssignDeviceMemoryAlias d x false

/-- The watchdog / memballoon / vsock singleton steps of the pass. -/
def watchdogStage (d : DomainDef) : DomainDef :=
  match d.watchdog with
  | some w => {d with watchdog := some (qemuAssignDeviceWatchdogAlias w)}
  | none => d

def memballoonStage (d : DomainDef) : DomainDef :=
  match d.memballoon with
  | some b =>
    if b.model ≠ MemballoonModel.mbNone then
      {d with memballoon := some (qemuAssignDeviceMemballoonAlias b 0)}
    else d
  | none => d

def vsockStage (d : DomainDef) : DomainDef :=
  match d.vsock with
  | some v => {d with vsock := some (qemuAssignDeviceVsockAlias v)}
  | none => d

/-- qemuAssignDeviceAliases: walk every device collection in the fixed
source order, assigning aliases in place, stopping at the first failure. -/
def qemuAssignDeviceAliases (d : DomainDef) (caps : QemuCaps) :
    Except Str DomainDef :=
  (runStage disksL (diskStepF caps) d).bind fun d =>
  (runStage netsL netStepF d).bind fun d =>
  (runStage fssL fsStepF d).bind fun d =>
  (runStage soundsL soundStepF d).bind fun d =>
  (runStage hostdevsL hostdevStepF d).bind fun d =>
  (runStage redirdevsL redirdevStepF d).bind fun d =>
  (runStage videosL videoStepF d).bind fun d =>
  (runStage controllersL (controllerStepF caps) d).bind fun d =>
  (runStage inputsL inputStepF d).bind fun d =>
  (runStage parallelsL chrStepF d).bind fun d =>
  (runStage serialsL chrStepF d).bind fun d =>
  (runStage channelsL chrStepF d).bind fun d =>
  (runStage consolesL chrStepF d).bind fun d =>
  (runStage hubsL hubStepF d).bind fun d =>
  (runStage shmemsL shmemStepF d).bind fun d =>
  (runStage smartcardsL smartcardStepF d).bind fun d =>
  (runStage rngsL rngStepF (memballoonStage (watchdogStage d))).bind fun d =>
  (runStage tpmsL tpmStepF d).bind fun d =>
  (runStage memsL memStepF d).bind fun d =>
  .ok (vsockStage d)

/-! ## Backup descriptor model (backup_conf.c)

The XML layer is abstracted: an input document is a record carrying exactly
the attributes and child elements the parser queries. -/

/-- VIR_ENUM_IMPL(virDomainBackup, ..., "default", "push", "pull"):
name-to-value lookup, -1 when unknown. -/
def virDomainBackupTypeFromString (s : Str) : Int :=
  if s = str "default" then 0
  else if s = str "push" then 1
  else if s = str "pull" then 2
  else -1

/-- Modelled from the spec: virTristateBool enum strings
("default", "yes", "no"); the helper lives outside the source slice. -/
def virTristateBoolTypeFromString (s : Str) : Int :=
  if s = str "default" then 0
  else if s = str "yes" then 1
  else if s = str "no" then 2
  else -1

/-- VIR_ENUM_IMPL(virDomainBackupDiskBackupMode, ..., "", "full",
"incremental"). -/
def virDomainBackupDiskBackupModeTypeFromString (s : Str) : Int :=
  if s = str "" then 0
  else if s = str "full" then 1
  else if s = str "incremental" then 2
  else -1

/-- Modelled from the spec: virStorageType enum strings; the helper lives
outside the source slice. -/
def virStorageTypeFromString (s : Str) : Int :=
  if s = str "none" then 0
  else if s = str "file" then 1
  else if s = str "block" then 2
  else if s = str "dir" then 3
  else if s = str "network" then 4
  else if s = str "volume" then 5
  else if s = str "nvme" then 6
  else -1

def VIR_STORAGE_TYPE_FILE : Int := 1
def VIR_STORAGE_TYPE_BLOCK : Int := 2

inductive TriBool | absent | yes | no
  deriving DecidableEq, Repr

inductive DiskBackupMode | modeDefault | modeFull | modeIncremental
  deriving DecidableEq, Repr

/-- The storage-source fields the backup code reads or writes. -/
structure StorageSource where
  stype : Int
  path : Option Str
  readonly : Bool
  /-- Modelled from the spec: whether virStorageSourceIsEmpty holds (no
  media present); the helper lives outside the source slice. -/
  isEmptySrc : Bool
  deriving DecidableEq, Repr

def virStorageSourceIsEmpty (s : StorageSource) : Bool := s.isEmptySrc

/-- Modelled from the spec: virStorageSourceGetActualType (the effective
storage type); the helper lives outside the source slice. -/
def virStorageSourceGetActualType (s : StorageSource) : Int := s.stype

structure VirDomainBackupDiskDef where
  name : Str
  backup : TriBool
  backupmode : DiskBackupMode
  incremental : Option Str
  exportname : Option Str
  exportbitmap : Option Str
  store : Option StorageSource
  deriving DecidableEq, Repr

inductive NetTransport | tcp | unixTransport | rdma
  deriving DecidableEq, Repr

structure XMLServerNode where
  transport : NetTransport
  socket : Str
  tls : Option Str
  deriving DecidableEq, Repr

structure XMLDiskNode where
  name : Option Str
  backup : Option Str
  backupmode : Option Str
  incremental : Option Str
  exportname : Option Str
  exportbitmap : Option Str
  typeAttr : Option Str
  targetPath : Option Str
  scratchPath : Option Str
  deriving DecidableEq, Repr

structure BackupXML where
  mode : Option Str
  incremental : Option Str
  server : Option XMLServerNode
  disks : List XMLDiskNode
  deriving DecidableEq, Repr

structure VirDomainBackupDef where
  btype : Int
  incremental : Option Str
  server : Option XMLServerNode
  tls : TriBool
  disks : List VirDomainBackupDiskDef
  deriving DecidableEq, Repr

/-- Modelled from the spec: virDomainStorageSourceParseBase — build a
storage source from the type attribute (defaulting to file), rejecting
unknown type names; the helper lives outside the source slice. -/
def virDomainStorageSourceParseBase (typeAttr : Option Str) :
    Except Str StorageSource :=
  match typeAttr with
  | none => .ok ⟨VIR_STORAGE_TYPE_FILE, none, false, false⟩
  | some t =>
    let v := virStorageTypeFromString t
    if v ≤ 0 then .error (str "unknown storage type")
    else .ok ⟨v, none, false, false⟩

def mapExcept (f : α → Except ε β) : List α → Except ε (List β)
  | [] => .ok []
  | x :: r =>
    match f x with
    | .error e => .error e
    | .ok y =>
      match mapExcept f r with
      | .error e => .error e
      | .ok ys => .ok (y :: ys)

def virDomainBackupDiskDefParseXML (node : XMLDiskNode) (push : Bool) :
    Except Str VirDomainBackupDiskDef :=
  match node.name with
  | none => .error (str "missing name from disk backup element")
  | some name =>
    let backupE : Except Str TriBool :=
      match node.backup with
      | none => .ok TriBool.yes
      | some b =>
        let v := virTristateBoolTypeFromString b
        if v ≤ 0 then .error (str "invalid disk backup state")
        else .ok (if v = 1 then TriBool.yes else TriBool.no)
    match backupE with
    | .error e => .error e
    | .ok backup =>
      /- do not parse anything else if backup is disabled -/
      if backup = TriBool.no then
        .ok ⟨name, TriBool.no, DiskBackupMode.modeDefault, none, none, none, none⟩
      else
        let exportname := if ¬ push then node.exportname else none
        let exportbitmap := if ¬ push then node.exportbitmap else none
        let backupmodeE : Except Str DiskBackupMode :=
          match node.backupmode with
          | none => .ok DiskBackupMode.modeDefault
          | some m =>
            let v := virDomainBackupDiskBackupModeTypeFromString m
            if v < 0 then .error (str "invalid backupmode of disk")
            else .ok (if v = 1 then DiskBackupMode.modeFull
              else if v = 2 then DiskBackupMode.modeIncremental
              else DiskBackupMode.modeDefault)
        match backupmodeE with
        | .error e => .error e
        | .ok backupmode =>
          match virDomainStorageSourceParseBase node.typeAttr with
          | .error e => .error e
          | .ok store =>
            if store.stype ≠ VIR_STORAGE_TYPE_FILE ∧
                store.stype ≠ VIR_STORAGE_TYPE_BLOCK then
              .error (str "unsupported disk backup type")
            else
              let srcNode := if push then node.targetPath else node.scratchPath
              let store :=
                match srcNode with
                | some p => {store with path := some p}
                | none => store
              .ok ⟨name, backup, backupmode, node.incremental, exportname,
                exportbitmap, some store⟩

def virDomainBackupDefParse (xml : BackupXML) : Except Str VirDomainBackupDef :=
  let btypeE : Except Str Int :=
    match xml.mode with
    | none => .ok 1
    | some m =>
      let v := virDomainBackupTypeFromString m
      if v ≤ 0 then .error (str "unknown backup mode")
      else .ok v
  match btypeE with
  | .error e => .error e
  | .ok btype =>
    let push := btype = 1
    let serverE : Except Str (Option XMLServerNode × TriBool) :=
      match xml.server with
      | none => .ok (none, TriBool.absent)
      | some s =>
        if btype ≠ 2 then
          .error (str "use of server requires pull mode backup")
        else if s.transport = NetTransport.rdma then
          .error (str "transport rdma is not supported for server")
        else if s.transport = NetTransport.unixTransport ∧ s.socket.head? ≠ some '/' then
          .error (str "backup socket path must be absolute")
        else
          match s.tls with
          | none => .ok (some s, TriBool.absent)
          | some t =>
            let v := virTristateBoolTypeFromString t
            if v ≤ 0 then .error (str "unknown value of tls attribute")
            else .ok (some s, if v = 1 then TriBool.yes else TriBool.no)
    match serverE with
    | .error e => .error e
    | .ok (server, tls) =>
      match mapExcept (fun n => virDomainBackupDiskDefParseXML n push) xml.disks with
      | .error e => .error e
      | .ok disks => .ok ⟨btype, xml.incremental, server, tls, disks⟩

/-! ### Disk-set reconciliation (virDomainBackupAlignDisks) -/

/-- A domain disk as seen by the backup alignment code. -/
structure BackupDomDisk where
  dst : Str
  src : StorageSource
  deriving DecidableEq, Repr

def virDomainDiskByTarget (dom : List BackupDomDisk) (target : Str) :
    Option BackupDomDisk :=
  dom.find? (fun d => d.dst = target)

def virDomainBackupDefAssignStore (disk : VirDomainBackupDiskDef)
    (src : StorageSource) (suffix : Str) : Except Str VirDomainBackupDiskDef :=
  if virStorageSourceIsEmpty src then
    if disk.store.isSome then .error (str "disk has no media")
    else .ok disk
  else if disk.store.isNone then
    if virStorageSourceGetActualType src = VIR_STORAGE_TYPE_FILE then
      .ok {disk with
        store := some ⟨VIR_STORAGE_TYPE_FILE,
          some ((src.path.getD []) ++ '.' :: suffix), false, false⟩}
    else .error (str "refusing to generate file name for disk")
  else .ok disk

/-- First loop of virDomainBackupAlignDisks: validate the requested disks
(existence, duplicates, incremental checkpoint) and assign stores for the
enabled ones. -/
def backupAlignCheckLoop (dom : List BackupDomDisk) (defIncr : Option Str)
    (suffix : Str) :
    List VirDomainBackupDiskDef → List VirDomainBackupDiskDef → List Str →
    Option Str × List VirDomainBackupDiskDef × List Str
  | done, [], seen => (none, done, seen)
  | done, bd :: rest, seen =>
    match virDomainDiskByTarget dom bd.name with
    | none => (some (str "no disk named"), done ++ bd :: rest, seen)
    | some domdisk =>
      if bd.name ∈ seen then (some (str "disk specified twice"), done ++ bd :: rest, seen)
      else
        let seen' := bd.name :: seen
        if bd.backupmode = DiskBackupMode.modeIncremental ∧ bd.incremental = none ∧
            defIncr = none then
          (some (str "incremental backup mode requires incremental field"),
            done ++ bd :: rest, seen')
        else if bd.backup = TriBool.yes then
          match virDomainBackupDefAssignStore bd domdisk.src suffix with
          | .error e => (some e, done ++ bd :: rest, seen')
          | .ok bd' => backupAlignCheckLoop dom defIncr suffix (done ++ [bd']) rest seen'
        else backupAlignCheckLoop dom defIncr suffix (done ++ [bd]) rest seen'

/-- Second loop of virDomainBackupAlignDisks: synthesize a directive for
every domain disk absent from the request. -/
def backupAlignFillLoop (seen : List Str) (backupAll : Bool) (suffix : Str) :
    List VirDomainBackupDiskDef → List BackupDomDisk →
    Option Str × List VirDomainBackupDiskDef
  | acc, [] => (none, acc)
  | acc, domdisk :: rest =>
    if domdisk.dst ∈ seen then backupAlignFillLoop seen backupAll suffix acc rest
    else
      let nb : VirDomainBackupDiskDef :=
        ⟨domdisk.dst, TriBool.absent, DiskBackupMode.modeDefault, none, none, none, none⟩
      if backupAll ∧ ¬ virStorageSourceIsEmpty domdisk.src ∧ ¬ domdisk.src.readonly then
        let nb := {nb with backup := TriBool.yes}
        match virDomainBackupDefAssignStore nb domdisk.src suffix with
        | .error e => (some e, acc ++ [nb])
        | .ok nb' => backupAlignFillLoop seen backupAll suffix (acc ++ [nb']) rest
      else backupAlignFillLoop seen backupAll suffix
        (acc ++ [{nb with backup := TriBool.no}]) rest

/-- One directive's share of the third loop of virDomainBackupAlignDisks:
backfill the effective backup mode and checkpoint name from the job-wide
defaults. -/
def backupModeFillOne (defIncr : Option Str) (bd : VirDomainBackupDiskDef) :
    VirDomainBackupDiskDef :=
  let bd :=
    if bd.backupmode = DiskBackupMode.modeDefault then
      if defIncr.isSome ∨ bd.incremental.isSome then
        {bd with backupmode := DiskBackupMode.modeIncremental}
      else {bd with backupmode := DiskBackupMode.modeFull}
    else bd
  if bd.incremental = none ∧ bd.backupmode = DiskBackupMode.modeIncremental then
    {bd with incremental := defIncr}
  else bd

/-- Third loop of virDomainBackupAlignDisks. -/
def backupModeFill (defIncr : Option Str) (l : List VirDomainBackupDiskDef) :
    List VirDomainBackupDiskDef :=
  l.map (backupModeFillOne defIncr)

/-- virDomainBackupAlignDisks.  Returns the error message (if any) together
with the job state as left by the source's in-place mutation. -/
def virDomainBackupAlignDisks (bdef : VirDomainBackupDef)
    (dom : List BackupDomDisk) (suffix : Str) :
    Option Str × VirDomainBackupDef :=
  if dom.isEmpty then
    (some (str "domain must have at least one disk to perform backup"), bdef)
  else
    match backupAlignCheckLoop dom bdef.incremental suffix [] bdef.disks [] with
    | (some e, disks', _) => (some e, {bdef with disks := disks'})
    | (none, disks', seen) =>
      let backupAll := bdef.disks.length = 0
      match backupAlignFillLoop seen backupAll suffix disks' dom with
      | (some e, disks'') => (some e, {bdef with disks := disks''})
      | (none, disks'') =>
        (none, {bdef with disks := backupModeFill bdef.incremental disks''})

instance {ε α : Type} [DecidableEq ε] [DecidableEq α] : DecidableEq (Except ε α) :=
  fun a b =>
    match a, b with
    | .ok x, .ok y => decidable_of_iff (x = y) (by simp)
    | .error x, .error y => decidable_of_iff (x = y) (by simp)
    | .ok _, .error _ => isFalse (by simp)
    | .error _, .ok _ => isFalse (by simp)

/-- A domain with no devices (shared base for concrete instances). -/
def domain0 : DomainDef :=
  { family := MachineFamily.otherFamily, disks := [], nets := [], fss := [],
    sounds := [], hostdevs := [], redirdevs := [], videos := [], controllers := [],
    inputs := [], parallels := [], serials := [], channels := [], consoles := [],
    hubs := [], shmems := [], smartcards := [], watchdog := none, memballoon := none,
    rngs := [], tpms := [], mems := [], vsock := none }

/-! ## Further scavenging facts shared by the claims -/

theorem le_foldl_max (l : List Int) (a : Int) : a ≤ l.foldl max a := by
  induction l generalizing a with
  | nil => exact le_refl _
  | cons c r ih => exact le_trans (le_max_left a c) (ih _)

/-- With a non-negative accumulator the two loop shapes agree. -/
theorem scavengeGE_eq_skipNeg (pre : Str) (start : Int) (hs : 0 ≤ start)
    (l : List (Option Str)) : scavengeGE pre start l = scavengeSkipNeg pre start l := by
  induction l generalizing start with
  | nil => rfl
  | cons x r ih =>
    rw [scavengeGE_cons, scavengeSkipNeg_cons]
    have hstep : stepGE pre start x = stepSkipNeg pre start x := by
      unfold stepGE stepSkipNeg
      dsimp only
      by_cases hneg : qemuDomainDeviceAliasIndex x pre < 0
      · rw [if_pos hneg, if_neg (by omega)]
      · rw [if_neg hneg]
    rw [hstep]
    exact ih _ (stepSkipNeg_nonneg pre hs x)

/-- Zero-start scavenging is exactly "maximum seen suffix plus one" (with the
empty maximum taken as -1, so an empty scan yields 0). -/
theorem scavengeSkipNeg_zero_eq (pre : Str) (l : List (Option Str)) :
    scavengeSkipNeg pre 0 l = (seenIdxs pre l).foldl max (-1) + 1 := by
  rw [scavengeSkipNeg_eq_max_add_one pre l 0 (le_refl 0)]
  have := le_foldl_max (seenIdxs pre l) (-1)
  omega

/-! ## Claim C4 -/

/-- C4: for every device list and prefix, the scavenged next index is the
maximum numeric suffix seen among matching aliases plus one (0 when nothing
matches), never the lowest unused value; in particular the net assigner on a
fresh non-hostdev interface appends exactly that index after "net". -/
theorem C4_scavenge_is_max_plus_one (l : List (Option Str)) (pre : Str)
    (d : DomainDef) (net : NetDef) (hfresh : net.aliasOpt = none)
    (hnothd : net.actualHostdev = false) :
    scavengeSkipNeg pre 0 l = (seenIdxs pre l).foldl max (-1) + 1 ∧
    (qemuAssignDeviceNetAlias d net (-1)).aliasOpt =
      some (str "net" ++ decZ
        ((seenIdxs (str "net") (d.nets.map (fun n => n.aliasOpt))).foldl max (-1) + 1)) := by
  refine ⟨scavengeSkipNeg_zero_eq pre l, ?_⟩
  have h1 : qemuAssignDeviceNetAlias d net (-1) =
      {net with aliasOpt := some (str "net" ++ decZ
        (scavengeSkipNeg (str "net") 0 (d.nets.map (fun n => n.aliasOpt))))} := by
    unfold qemuAssignDeviceNetAlias
    rw [hfresh, hnothd]
    norm_num
  rw [h1, scavengeSkipNeg_zero_eq]

/-- Witness for C4: nets aliased "net0" and "net2" scavenge to "net3",
not "net1". -/
theorem C4_witness :
    ((⟨none, false⟩ : NetDef).aliasOpt = none) ∧
    (qemuAssignDeviceNetAlias
      {domain0 with nets := [⟨some (str "net0"), false⟩, ⟨some (str "net2"), false⟩]}
      ⟨none, false⟩ (-1)).aliasOpt = some (str "net3") := by
  refine ⟨rfl, ?_⟩
  have h := (C4_scavenge_is_max_plus_one [] (str "net")
    {domain0 with nets := [⟨some (str "net0"), false⟩, ⟨some (str "net2"), false⟩]}
    ⟨none, false⟩ rfl rfl).2
  rw [h]
  decide

/-! ## Claim C5 -/

/-- C5: contrary to the claim that every scavenging assigner invoked with
index -1 on an empty device list assigns suffix 0, the input-device assigner
leaves its accumulator at the incoming -1 when the input list is empty
(it lacks the idx = 0 reset of its siblings) and assigns alias "input-1";
the shared-memory assigner does assign suffix 0. -/
theorem C5_input_empty_list_suffix :
    (qemuAssignDeviceInputAlias domain0 ⟨none⟩ (-1)).aliasOpt =
      some (str "input-1") ∧
    (qemuAssignDeviceShmemAlias domain0 ⟨none⟩ (-1)).aliasOpt =
      some (str "shmem0") := by decide

/-! ## Claim C6 -/

/-- The alias name stem of a memory device model. -/
def memPrefixName : MemModel → Str
  | MemModel.dimm => str "dimm"
  | MemModel.nvdimm => str "nvdimm"
  | MemModel.virtioPmem => str "virtiopmem"
  | MemModel.noneModel => str ""

/-- C6 counterexample: a fresh virtio-pmem memory device with DIMM slot 5 is
scavenged (alias "virtiopmem0") even though legacy mode is not requested,
contradicting "index equals the device's own DIMM slot number when legacy
mode is not requested" for the virtio-pmem model. -/
theorem C6_counterexample :
    qemuAssignDeviceMemoryAlias
      {domain0 with mems := [⟨none, MemModel.virtioPmem, 5⟩]}
      ⟨none, MemModel.virtioPmem, 5⟩ false =
      .ok ⟨some (str "virtiopmem0"), MemModel.virtioPmem, 5⟩ ∧
    str "virtiopmem0" ≠ str "virtiopmem5" := by decide

/-- C6 (amended): for a fresh memory device of a valid model, the assigned
index is the device's own DIMM slot number when legacy mode is not requested
and the model is not virtio-pmem; when legacy mode is requested, or the model
is virtio-pmem, the index is scavenged as maximum seen suffix plus one over
the domain's memory devices for the model's stem. -/
theorem C6_memory_alias_index (d : DomainDef) (mem : MemoryDef) (oldAlias : Bool)
    (hfresh : mem.aliasOpt = none) (hm : mem.model ≠ MemModel.noneModel) :
    qemuAssignDeviceMemoryAlias d mem oldAlias =
      .ok {mem with aliasOpt := some (memPrefixName mem.model ++
        (if oldAlias = false ∧ mem.model ≠ MemModel.virtioPmem then decN mem.slot
         else decZ ((seenIdxs (memPrefixName mem.model)
             (d.mems.map (fun m => m.aliasOpt))).foldl max (-1) + 1)))} := by
  have hscav : ∀ pre : Str, scavengeGE pre 0 (d.mems.map (fun m => m.aliasOpt)) =
      (seenIdxs pre (d.mems.map (fun m => m.aliasOpt))).foldl max (-1) + 1 := by
    intro pre
    rw [scavengeGE_eq_skipNeg pre 0 (le_refl 0), scavengeSkipNeg_zero_eq]
  unfold qemuAssignDeviceMemoryAlias
  rw [hfresh]
  simp only [Option.isSome_none, Bool.false_eq_true, if_false]
  cases hmod : mem.model with
  | noneModel => exact absurd hmod hm
  | dimm =>
    unfold qemuDeviceMemoryGetAliasID
    rw [hmod]
    simp only [memPrefixName]
    by_cases hold : oldAlias
    · rw [if_neg (by simp [hold]), if_neg (by simp [hold]), hscav]
    · have hold' : oldAlias = false := by simpa using hold
      rw [if_pos (by simp [hold']), if_pos (by simp [hold']), decZ_ofNat]
  | nvdimm =>
    unfold qemuDeviceMemoryGetAliasID
    rw [hmod]
    simp only [memPrefixName]
    by_cases hold : oldAlias
    · rw [if_neg (by simp [hold]), if_neg (by simp [hold]), hscav]
    · have hold' : oldAlias = false := by simpa using hold
      rw [if_pos (by simp [hold']), if_pos (by simp [hold']), decZ_ofNat]
  | virtioPmem =>
    unfold qemuDeviceMemoryGetAliasID
    rw [hmod]
    simp only [memPrefixName]
    rw [if_neg (by simp), if_neg (by simp), hscav]

/-- Witness for C6: a fresh DIMM in slot 3 without legacy mode gets alias
"dimm3" (its own slot number). -/
theorem C6_witness :
    ((⟨none, MemModel.dimm, 3⟩ : MemoryDef).aliasOpt = none) ∧
    (MemModel.dimm ≠ MemModel.noneModel) ∧
    qemuAssignDeviceMemoryAlias domain0 ⟨none, MemModel.dimm, 3⟩ false =
      .ok ⟨some (str "dimm3"), MemModel.dimm, 3⟩ := by
  refine ⟨rfl, by decide, ?_⟩
  have h := C6_memory_alias_index domain0 ⟨none, MemModel.dimm, 3⟩ false rfl (by decide)
  rw [h]
  decide

/-! ## Claim C8 -/

/-- C8 counterexample: an explicit mode='default' attribute (an otherwise
fully valid document: no server, no disks) is rejected by the parser, because
virDomainBackupTypeFromString("default") is 0 and the code treats any value
≤ 0 as unknown. -/
theorem C8_counterexample :
    virDomainBackupDefParse ⟨some (str "default"), none, none, []⟩ =
      .error (str "unknown backup mode") := by decide

/-- C8 (amended): parsing succeeds exactly for mode ∈ {push, pull} (an
absent mode defaults to push); every other explicit value — including the
literal "default" — fails with an error. -/
theorem C8_mode_parsing (m : Option Str) :
    (∀ v, m = some v → virDomainBackupDefParse ⟨m, none, none, []⟩ =
      (if v = str "push" then .ok ⟨1, none, none, TriBool.absent, []⟩
       else if v = str "pull" then .ok ⟨2, none, none, TriBool.absent, []⟩
       else .error (str "unknown backup mode"))) ∧
    (m = none → virDomainBackupDefParse ⟨m, none, none, []⟩ =
      .ok ⟨1, none, none, TriBool.absent, []⟩) := by
  constructor
  · intro v hv
    subst hv
    by_cases h1 : v = str "default"
    · subst h1
      decide
    · by_cases h2 : v = str "push"
      · subst h2
        decide
      · by_cases h3 : v = str "pull"
        · subst h3
          decide
        · rw [if_neg h2, if_neg h3]
          simp [virDomainBackupDefParse, virDomainBackupTypeFromString, h1, h2, h3]
  · intro hv
    subst hv
    decide

/-- Witness for C8: mode='pull' parses to the pull type. -/
theorem C8_witness :
    virDomainBackupDefParse ⟨some (str "pull"), none, none, []⟩ =
      .ok ⟨2, none, none, TriBool.absent, []⟩ := by
  have h := (C8_mode_parsing (some (str "pull"))).1 (str "pull") rfl
  rw [h]
  decide

/-! ## Claim C10 -/

/-- C10: aligning any backup job against a diskless domain fails with an
error and leaves the job (in particular its disk list) unchanged. -/
theorem C10_align_diskless_domain (bdef : VirDomainBackupDef) (suffix : Str) :
    virDomainBackupAlignDisks bdef [] suffix =
      (some (str "domain must have at least one disk to perform backup"), bdef) := by
  rfl

/-! ## Claim C9 -/

/-- The directive the backfill loop synthesizes for one domain disk when the
request was empty (before the mode-backfill pass). -/
def fillDirective (suffix : Str) (dd : BackupDomDisk) : VirDomainBackupDiskDef :=
  if virStorageSourceIsEmpty dd.src ∨ dd.src.readonly then
    ⟨dd.dst, TriBool.no, DiskBackupMode.modeDefault, none, none, none, none⟩
  else
    ⟨dd.dst, TriBool.yes, DiskBackupMode.modeDefault, none, none, none,
      some ⟨VIR_STORAGE_TYPE_FILE, some ((dd.src.path.getD []) ++ '.' :: suffix),
        false, false⟩⟩

/-- On the success path, the backfill loop with an empty seen-set and
backup-all semantics appends exactly one synthesized directive per domain
disk. -/
theorem backupAlignFillLoop_ok (suffix : Str) (dom : List BackupDomDisk) :
    ∀ acc res, backupAlignFillLoop [] true suffix acc dom = (none, res) →
      res = acc ++ dom.map (fillDirective suffix) := by
  induction dom with
  | nil =>
    intro acc res h
    simp only [backupAlignFillLoop] at h
    injection h with h1 h2
    simp [← h2]
  | cons dd rest ih =>
    intro acc res h
    simp only [backupAlignFillLoop] at h
    rw [if_neg (List.not_mem_nil dd.dst)] at h
    by_cases hq : ¬ virStorageSourceIsEmpty dd.src ∧ ¬ dd.src.readonly
    · rw [if_pos ⟨trivial, hq.1, hq.2⟩] at h
      unfold virDomainBackupDefAssignStore at h
      rw [if_neg (by simpa using hq.1)] at h
      simp only [Option.isNone_some, Option.isNone_none, if_true] at h
      by_cases hf : virStorageSourceGetActualType dd.src = VIR_STORAGE_TYPE_FILE
      · rw [if_pos hf] at h
        have hres := ih _ _ h
        have hfd : fillDirective suffix dd =
            ⟨dd.dst, TriBool.yes, DiskBackupMode.modeDefault, none, none, none,
              some ⟨VIR_STORAGE_TYPE_FILE,
                some ((dd.src.path.getD []) ++ '.' :: suffix), false, false⟩⟩ := by
          unfold fillDirective
          rw [if_neg (by
            intro hor
            rcases hor with h1 | h1
            · exact hq.1 h1
            · exact hq.2 h1)]
        rw [hres]
        simp [List.map_cons, hfd]
      · rw [if_neg hf] at h
        exact absurd (congrArg Prod.fst h) (by simp)
    · rw [if_neg (by
        intro hcon
        exact hq ⟨hcon.2.1, hcon.2.2⟩)] at h
      have hres := ih _ _ h
      have hfd : fillDirective suffix dd =
          ⟨dd.dst, TriBool.no, DiskBackupMode.modeDefault, none, none, none, none⟩ := by
        unfold fillDirective
        rw [if_pos (by
          by_contra hor
          push_neg at hor
          exact hq ⟨by simpa using hor.1, by simpa using hor.2⟩)]
      rw [hres]
      simp [List.map_cons, hfd]

/-- The backfill loop fails whenever some domain disk with media that is not
read-only has a non-file storage type. -/
theorem backupAlignFillLoop_err (suffix : Str) (dom : List BackupDomDisk)
    (dd₀ : BackupDomDisk) (h₀ : dd₀ ∈ dom)
    (hq1 : ¬ virStorageSourceIsEmpty dd₀.src) (hq2 : ¬ dd₀.src.readonly)
    (hq3 : dd₀.src.stype ≠ VIR_STORAGE_TYPE_FILE) :
    ∀ acc, (backupAlignFillLoop [] true suffix acc dom).1.isSome := by
  induction dom with
  | nil => exact absurd h₀ (List.not_mem_nil dd₀)
  | cons dd rest ih =>
    intro acc
    simp only [backupAlignFillLoop]
    rw [if_neg (List.not_mem_nil dd.dst)]
    by_cases hqd : ¬ virStorageSourceIsEmpty dd.src ∧ ¬ dd.src.readonly
    · rw [if_pos ⟨trivial, hqd.1, hqd.2⟩]
      unfold virDomainBackupDefAssignStore
      rw [if_neg (by simpa using hqd.1)]
      simp only [Option.isNone_some, Option.isNone_none, if_true]
      by_cases hf : virStorageSourceGetActualType dd.src = VIR_STORAGE_TYPE_FILE
      · rw [if_pos hf]
        rcases List.mem_cons.mp h₀ with rfl | hm
        · exact absurd hf hq3
        · exact ih hm _
      · rw [if_neg hf]
        simp
    · rw [if_neg (by
        intro hcon
        exact hqd ⟨hcon.2.1, hcon.2.2⟩)]
      rcases List.mem_cons.mp h₀ with rfl | hm
      · exact absurd ⟨hq1, hq2⟩ hqd
      · exact ih hm _

theorem backupModeFillOne_fields (defIncr : Option Str) (bd : VirDomainBackupDiskDef) :
    (backupModeFillOne defIncr bd).name = bd.name ∧
    (backupModeFillOne defIncr bd).backup = bd.backup ∧
    (backupModeFillOne defIncr bd).store = bd.store := by
  unfold backupModeFillOne
  dsimp only
  split <;> split <;> first | exact ⟨rfl, rfl, rfl⟩ | skip
  all_goals split <;> exact ⟨rfl, rfl, rfl⟩

/-- C9: aligning a backup job whose explicit disk list is empty against a
domain with at least one disk yields, on success, exactly one directive per
domain disk (in domain order): disabled (backup no, no store) for disks that
are read-only or have no media, enabled (backup yes) otherwise with the
backing-store target path equal to the live disk's path with '.' and the
given suffix appended; and the alignment fails whenever some disk with media
that is not read-only has storage that is not a plain file. -/
theorem C9_align_empty_request (bdef : VirDomainBackupDef)
    (dom : List BackupDomDisk) (suffix : Str)
    (hempty : bdef.disks = []) (hdom : dom ≠ []) :
    (∀ err bdef', virDomainBackupAlignDisks bdef dom suffix = (err, bdef') →
      err = none →
      bdef'.disks.length = dom.length ∧
      (∀ i, i < dom.length → ∃ dd bd, dom[i]? = some dd ∧
        bdef'.disks[i]? = some bd ∧ bd.name = dd.dst ∧
        ((virStorageSourceIsEmpty dd.src ∨ dd.src.readonly) →
          bd.backup = TriBool.no ∧ bd.store = none) ∧
        (¬ (virStorageSourceIsEmpty dd.src ∨ dd.src.readonly) →
          bd.backup = TriBool.yes ∧
          bd.store = some ⟨VIR_STORAGE_TYPE_FILE,
            some ((dd.src.path.getD []) ++ '.' :: suffix), false, false⟩))) ∧
    (∀ dd ∈ dom, ¬ virStorageSourceIsEmpty dd.src → ¬ dd.src.readonly →
      dd.src.stype ≠ VIR_STORAGE_TYPE_FILE →
      (virDomainBackupAlignDisks bdef dom suffix).1.isSome) := by
  have halign : virDomainBackupAlignDisks bdef dom suffix =
      (match backupAlignFillLoop [] true suffix [] dom with
       | (some e, disks'') => (some e, {bdef with disks := disks''})
       | (none, disks'') =>
         (none, {bdef with disks := backupModeFill bdef.incremental disks''})) := by
    unfold virDomainBackupAlignDisks
    rw [if_neg (by simpa using hdom)]
    rw [hempty]
    simp only [backupAlignCheckLoop, List.length_nil]
    rfl
  constructor
  · intro err bdef' heq hnone
    subst hnone
    rw [halign] at heq
    rcases hfill : backupAlignFillLoop [] true suffix [] dom with ⟨e?, disks''⟩
    rw [hfill] at heq
    cases e? with
    | some e => exact absurd heq (by simp)
    | none =>
      simp only at heq
      have hdisks := backupAlignFillLoop_ok suffix dom [] disks'' hfill
      simp only [List.nil_append] at hdisks
      subst hdisks
      have hb' : bdef'.disks = backupModeFill bdef.incremental
          (dom.map (fillDirective suffix)) := by
        injection heq with h1 h2
        rw [← h2]
      constructor
      · rw [hb']
        simp [backupModeFill]
      · intro i hi
        have hddx : ∃ dd, dom[i]? = some dd := by
          rw [List.getElem?_eq_getElem hi]
          exact ⟨_, rfl⟩
        obtain ⟨dd, hdd⟩ := hddx
        refine ⟨dd, backupModeFillOne bdef.incremental (fillDirective suffix dd),
          hdd, ?_, ?_⟩
        · rw [hb']
          unfold backupModeFill
          rw [List.getElem?_map, List.getElem?_map, hdd]
          rfl
        · obtain ⟨hn, hbk, hst⟩ :=
            backupModeFillOne_fields bdef.incremental (fillDirective suffix dd)
          refine ⟨?_, ?_, ?_⟩
          · rw [hn]
            unfold fillDirective
            split <;> rfl
          · intro hro
            rw [hbk, hst]
            unfold fillDirective
            rw [if_pos hro]
            exact ⟨rfl, rfl⟩
          · intro hro
            rw [hbk, hst]
            unfold fillDirective
            rw [if_neg hro]
            exact ⟨rfl, rfl⟩
  · intro dd hdd hq1 hq2 hq3
    rw [halign]
    rcases hfill : backupAlignFillLoop [] true suffix [] dom with ⟨e?, disks''⟩
    have := backupAlignFillLoop_err suffix dom dd hdd hq1 hq2 hq3 []
    rw [hfill] at this
    cases e? with
    | some e => simp
    | none => exact absurd this (by simp)

/-- Concrete one-disk domain and empty backup request for the C9 witness. -/
def domC9 : List BackupDomDisk := [⟨str "vda", ⟨1, some (str "/a"), false, false⟩⟩]

def bdefC9 : VirDomainBackupDef := ⟨1, none, none, TriBool.absent, []⟩

/-- Witness for C9: a one-disk domain (file-backed, with media, writable)
aligned against an empty request. -/
theorem C9_witness :
    bdefC9.disks = [] ∧ domC9 ≠ [] ∧
    (∀ err bdef', virDomainBackupAlignDisks bdefC9 domC9 (str "sfx") = (err, bdef') →
      err = none →
      bdef'.disks.length = domC9.length ∧
      (∀ i, i < domC9.length →
        ∃ dd bd, domC9[i]? = some dd ∧
        bdef'.disks[i]? = some bd ∧ bd.name = dd.dst ∧
        ((virStorageSourceIsEmpty dd.src ∨ dd.src.readonly) →
          bd.backup = TriBool.no ∧ bd.store = none) ∧
        (¬ (virStorageSourceIsEmpty dd.src ∨ dd.src.readonly) →
          bd.backup = TriBool.yes ∧
          bd.store = some ⟨VIR_STORAGE_TYPE_FILE,
            some ((dd.src.path.getD []) ++ '.' :: str "sfx"), false, false⟩))) := by
  refine ⟨rfl, by decide, ?_⟩
  exact (C9_align_empty_request bdefC9 domC9 (str "sfx") rfl (by decide)).1

/-! ## Generic facts about the orchestrator's per-list walk -/

theorem goLoop_nil {α : Type} (L : ListLens α) (f : DomainDef → Nat → α → Except Str α)
    (d : DomainDef) (done : List α) (i : Nat) :
    goLoop L f d done [] i = .ok d := rfl

theorem goLoop_cons {α : Type} (L : ListLens α) (f : DomainDef → Nat → α → Except Str α)
    (d : DomainDef) (done : List α) (x : α) (rest : List α) (i : Nat) :
    goLoop L f d done (x :: rest) i =
      match f d i x with
      | .error e => .error e
      | .ok x' => goLoop L f (L.set d (done ++ x' :: rest)) (done ++ [x']) rest (i + 1) :=
  rfl

/-- A projection untouched by the lens is untouched by the whole walk. -/
theorem goLoop_preserves {α β : Type} (L : ListLens α)
    (f : DomainDef → Nat → α → Except Str α) (P : DomainDef → β)
    (hset : ∀ d l, P (L.set d l) = P d) :
    ∀ (todo : List α) (d : DomainDef) (done : List α) (i : Nat) (d' : DomainDef),
      goLoop L f d done todo i = .ok d' → P d' = P d := by
  intro todo
  induction todo with
  | nil =>
    intro d done i d' h
    injection h with h
    rw [h]
  | cons x rest ih =>
    intro d done i d' h
    rw [goLoop_cons] at h
    cases hf : f d i x with
    | error e =>
      rw [hf] at h
      exact absurd h (by simp)
    | ok x' =>
      rw [hf] at h
      rw [ih _ _ _ _ h, hset]

theorem runStage_preserves {α β : Type} (L : ListLens α)
    (f : DomainDef → Nat → α → Except Str α) (P : DomainDef → β)
    (hset : ∀ d l, P (L.set d l) = P d) (d d' : DomainDef)
    (h : runStage L f d = .ok d') : P d' = P d :=
  goLoop_preserves L f P hset _ _ _ _ _ h

/-- Elementwise specification of a successful walk: the processed list
relates pointwise to the input list through any postcondition the step
function guarantees. -/
theorem goLoop_ok_spec {α : Type} (L : ListLens α)
    (f : DomainDef → Nat → α → Except Str α)
    (hgs : ∀ d l, L.get (L.set d l) = l)
    (Q : α → α → Prop) (hf : ∀ d i x x', f d i x = .ok x' → Q x x') :
    ∀ (todo : List α) (d : DomainDef) (done : List α) (i : Nat) (d' : DomainDef),
      goLoop L f d done todo i = .ok d' → L.get d = done ++ todo →
      ∃ proc, L.get d' = done ++ proc ∧ List.Forall₂ Q todo proc := by
  intro todo
  induction todo with
  | nil =>
    intro d done i d' h hinv
    injection h with h
    exact ⟨[], by rw [← h, hinv], List.Forall₂.nil⟩
  | cons x rest ih =>
    intro d done i d' h hinv
    rw [goLoop_cons] at h
    cases hf' : f d i x with
    | error e =>
      rw [hf'] at h
      exact absurd h (by simp)
    | ok x' =>
      rw [hf'] at h
      obtain ⟨proc, hp, hfa⟩ := ih _ _ _ _ h (by rw [hgs]; simp)
      refine ⟨x' :: proc, ?_, List.Forall₂.cons (hf _ _ _ _ hf') hfa⟩
      rw [hp]
      simp

theorem runStage_ok_spec {α : Type} (L : ListLens α)
    (f : DomainDef → Nat → α → Except Str α)
    (hgs : ∀ d l, L.get (L.set d l) = l)
    (Q : α → α → Prop) (hf : ∀ d i x x', f d i x = .ok x' → Q x x')
    (d d' : DomainDef) (h : runStage L f d = .ok d') :
    ∃ proc, L.get d' = proc ∧ List.Forall₂ Q (L.get d) proc := by
  obtain ⟨proc, hp, hfa⟩ := goLoop_ok_spec L f hgs Q hf _ _ _ _ _ h rfl
  exact ⟨proc, by simpa using hp, hfa⟩

/-- A walk whose step function fixes every element of the list is the
identity. -/
theorem goLoop_id {α : Type} (L : ListLens α)
    (f : DomainDef → Nat → α → Except Str α)
    (hsg : ∀ d, L.set d (L.get d) = d) :
    ∀ (todo : List α) (d : DomainDef) (done : List α) (i : Nat),
      L.get d = done ++ todo →
      (∀ (d₂ : DomainDef) (j : Nat) (x : α), x ∈ todo → f d₂ j x = .ok x) →
      goLoop L f d done todo i = .ok d := by
  intro todo
  induction todo with
  | nil => intro d done i hinv hfix; rfl
  | cons x rest ih =>
    intro d done i hinv hfix
    rw [goLoop_cons, hfix d i x (List.mem_cons_self ..)]
    have hd : L.set d (done ++ x :: rest) = d := by
      rw [← hinv, hsg]
    dsimp only
    rw [hd]
    exact ih d (done ++ [x]) (i + 1) (by rw [hinv]; simp)
      (fun d₂ j y hy => hfix d₂ j y (List.mem_cons_of_mem _ hy))

theorem runStage_id {α : Type} (L : ListLens α)
    (f : DomainDef → Nat → α → Except Str α)
    (hsg : ∀ d, L.set d (L.get d) = d) (d : DomainDef)
    (hfix : ∀ (d₂ : DomainDef) (j : Nat) (x : α), x ∈ L.get d → f d₂ j x = .ok x) :
    runStage L f d = .ok d :=
  goLoop_id L f hsg _ d [] 0 rfl hfix

/-- Decomposing a bind over Except into its two successful halves. -/
theorem except_bind_ok {e : Except Str DomainDef}
    {g : DomainDef → Except Str DomainDef} {d' : DomainDef}
    (h : e.bind g = .ok d') : ∃ dm, e = .ok dm ∧ g dm = .ok d' := by
  cases e with
  | error msg => exact absurd h (by simp [Except.bind])
  | ok dm => exact ⟨dm, rfl, h⟩

/-- The full pass split into its 19 list stages and the three singleton
steps, in source order. -/
theorem assignAll_decompose (d : DomainDef) (caps : QemuCaps) (dF : DomainDef)
    (h : qemuAssignDeviceAliases d caps = .ok dF) :
    ∃ d1 d2 d3 d4 d5 d6 d7 d8 d9 d10 d11 d12 d13 d14 d15 d16 d17 d18 d19,
      runStage disksL (diskStepF caps) d = .ok d1 ∧
      runStage netsL netStepF d1 = .ok d2 ∧
      runStage fssL fsStepF d2 = .ok d3 ∧
      runStage soundsL soundStepF d3 = .ok d4 ∧
      runStage hostdevsL hostdevStepF d4 = .ok d5 ∧
      runStage redirdevsL redirdevStepF d5 = .ok d6 ∧
      runStage videosL videoStepF d6 = .ok d7 ∧
      runStage controllersL (controllerStepF caps) d7 = .ok d8 ∧
      runStage inputsL inputStepF d8 = .ok d9 ∧
      runStage parallelsL chrStepF d9 = .ok d10 ∧
      runStage serialsL chrStepF d10 = .ok d11 ∧
      runStage channelsL chrStepF d11 = .ok d12 ∧
      runStage consolesL chrStepF d12 = .ok d13 ∧
      runStage hubsL hubStepF d13 = .ok d14 ∧
      runStage shmemsL shmemStepF d14 = .ok d15 ∧
      runStage smartcardsL smartcardStepF d15 = .ok d16 ∧
      runStage rngsL rngStepF (memballoonStage (watchdogStage d16)) = .ok d17 ∧
      runStage tpmsL tpmStepF d17 = .ok d18 ∧
      runStage memsL memStepF d18 = .ok d19 ∧
      dF = vsockStage d19 := by
  unfold qemuAssignDeviceAliases at h
  obtain ⟨d1, h1, h⟩ := except_bind_ok h
  obtain ⟨d2, h2, h⟩ := except_bind_ok h
  obtain ⟨d3, h3, h⟩ := except_bind_ok h
  obtain ⟨d4, h4, h⟩ := except_bind_ok h
  obtain ⟨d5, h5, h⟩ := except_bind_ok h
  obtain ⟨d6, h6, h⟩ := except_bind_ok h
  obtain ⟨d7, h7, h⟩ := except_bind_ok h
  obtain ⟨d8, h8, h⟩ := except_bind_ok h
  obtain ⟨d9, h9, h⟩ := except_bind_ok h
  obtain ⟨d10, h10, h⟩ := except_bind_ok h
  obtain ⟨d11, h11, h⟩ := except_bind_ok h
  obtain ⟨d12, h12, h⟩ := except_bind_ok h
  obtain ⟨d13, h13, h⟩ := except_bind_ok h
  obtain ⟨d14, h14, h⟩ := except_bind_ok h
  obtain ⟨d15, h15, h⟩ := except_bind_ok h
  obtain ⟨d16, h16, h⟩ := except_bind_ok h
  obtain ⟨d17, h17, h⟩ := except_bind_ok h
  obtain ⟨d18, h18, h⟩ := except_bind_ok h
  obtain ⟨d19, h19, h⟩ := except_bind_ok h
  injection h with h
  exact ⟨d1, d2, d3, d4, d5, d6, d7, d8, d9, d10, d11, d12, d13, d14, d15, d16,
    d17, d18, d19, h1, h2, h3, h4, h5, h6, h7, h8, h9, h10, h11, h12, h13, h14,
    h15, h16, h17, h18, h19, h.symm⟩

theorem runStage_pres' {α β : Type} {L : ListLens α}
    {f : DomainDef → Nat → α → Except Str α} {d d' : DomainDef}
    (P : DomainDef → β) (hset : ∀ dd l, P (L.set dd l) = P dd)
    (h : runStage L f d = .ok d') : P d' = P d :=
  runStage_preserves L f P hset d d' h

theorem forall₂_mem_right {α β : Type} {p : β → Prop} {l : List α} {l' : List β}
    (h : List.Forall₂ (fun _ y => p y) l l') : ∀ y ∈ l', p y := by
  induction h with
  | nil => intro y hy; exact absurd hy (List.not_mem_nil y)
  | cons hq _ ih =>
    intro y hy
    rcases List.mem_cons.mp hy with rfl | hm
    · exact hq
    · exact ih y hm

/-! ### Per-assigner facts: the assigned alias is present, a pre-existing
alias is never overwritten, and an aliased device is a fixed point. -/

theorem hostdevAlias_isSome (d : DomainDef) (al : Option Str) (idx : Int) :
    (qemuAssignDeviceHostdevAlias d al idx).isSome := by
  unfold qemuAssignDeviceHostdevAlias
  split
  · assumption
  · simp

theorem hostdevAlias_preserve (d : DomainDef) (al : Option Str) (idx : Int)
    {a : Str} (h : al = some a) : qemuAssignDeviceHostdevAlias d al idx = some a := by
  unfold qemuAssignDeviceHostdevAlias
  rw [if_pos (by simp [h])]
  exact h

theorem assignNet_isSome (d : DomainDef) (x : NetDef) (idx : Int) :
    (qemuAssignDeviceNetAlias d x idx).aliasOpt.isSome := by
  unfold qemuAssignDeviceNetAlias
  split
  · assumption
  · split
    · exact hostdevAlias_isSome d x.aliasOpt (-1)
    · simp

theorem assignNet_preserve (d : DomainDef) (x : NetDef) (idx : Int)
    {a : Str} (h : x.aliasOpt = some a) :
    (qemuAssignDeviceNetAlias d x idx).aliasOpt = some a := by
  unfold qemuAssignDeviceNetAlias
  rw [if_pos (by simp [h])]
  exact h

theorem assignNet_id (d : DomainDef) (x : NetDef) (idx : Int)
    (h : x.aliasOpt.isSome) : qemuAssignDeviceNetAlias d x idx = x := by
  unfold qemuAssignDeviceNetAlias
  rw [if_pos h]

theorem assignFS_isSome (x : FSDef) (idx : Int) :
    (qemuAssignDeviceFSAlias x idx).aliasOpt.isSome := by
  unfold qemuAssignDeviceFSAlias
  split
  · assumption
  · simp

theorem assignFS_preserve (x : FSDef) (idx : Int) {a : Str}
    (h : x.aliasOpt = some a) : (qemuAssignDeviceFSAlias x idx).aliasOpt = some a := by
  unfold qemuAssignDeviceFSAlias
  rw [if_pos (by simp [h])]
  exact h

theorem assignFS_id (x : FSDef) (idx : Int) (h : x.aliasOpt.isSome) :
    qemuAssignDeviceFSAlias x idx = x := by
  unfold qemuAssignDeviceFSAlias
  rw [if_pos h]

theorem assignSound_isSome (x : SoundDef) (idx : Int) :
    (qemuAssignDeviceSoundAlias x idx).aliasOpt.isSome := by
  unfold qemuAssignDeviceSoundAlias
  split
  · assumption
  · simp

theorem assignSound_preserve (x : SoundDef) (idx : Int) {a : Str}
    (h : x.aliasOpt = some a) :
    (qemuAssignDeviceSoundAlias x idx).aliasOpt = some a := by
  unfold qemuAssignDeviceSoundAlias
  rw [if_pos (by simp [h])]
  exact h

theorem assignSound_id (x : SoundDef) (idx : Int) (h : x.aliasOpt.isSome) :
    qemuAssignDeviceSoundAlias x idx = x := by
  unfold qemuAssignDeviceSoundAlias
  rw [if_pos h]

theorem assignVideo_isSome (x : VideoDef) (idx : Int) :
    (qemuAssignDeviceVideoAlias x idx).aliasOpt.isSome := by
  unfold qemuAssignDeviceVideoAlias
  split
  · assumption
  · simp

theorem assignVideo_preserve (x : VideoDef) (idx : Int) {a : Str}
    (h : x.aliasOpt = some a) :
    (qemuAssignDeviceVideoAlias x idx).aliasOpt = some a := by
  unfold qemuAssignDeviceVideoAlias
  rw [if_pos (by simp [h])]
  exact h

theorem assignVideo_id (x : VideoDef) (idx : Int) (h : x.aliasOpt.isSome) :
    qemuAssignDeviceVideoAlias x idx = x := by
  unfold qemuAssignDeviceVideoAlias
  rw [if_pos h]

theorem assignHub_isSome (x : HubDef) (idx : Int) :
    (qemuAssignDeviceHubAlias x idx).aliasOpt.isSome := by
  unfold qemuAssignDeviceHubAlias
  split
  · assumption
  · simp

theorem assignHub_preserve (x : HubDef) (idx : Int) {a : Str}
    (h : x.aliasOpt = some a) : (qemuAssignDeviceHubAlias x idx).aliasOpt = some a := by
  unfold qemuAssignDeviceHubAlias
  rw [if_pos (by simp [h])]
  exact h

theorem assignHub_id (x : HubDef) (idx : Int) (h : x.aliasOpt.isSome) :
    qemuAssignDeviceHubAlias x idx = x := by
  unfold qemuAssignDeviceHubAlias
  rw [if_pos h]

theorem assignSmartcard_isSome (x : SmartcardDef) (idx : Int) :
    (qemuAssignDeviceSmartcardAlias x idx).aliasOpt.isSome := by
  unfold qemuAssignDeviceSmartcardAlias
  split
  · assumption
  · simp

theorem assignSmartcard_preserve (x : SmartcardDef) (idx : Int) {a : Str}
    (h : x.aliasOpt = some a) :
    (qemuAssignDeviceSmartcardAlias x idx).aliasOpt = some a := by
  unfold qemuAssignDeviceSmartcardAlias
  rw [if_pos (by simp [h])]
  exact h

theorem assignSmartcard_id (x : SmartcardDef) (idx : Int) (h : x.aliasOpt.isSome) :
    qemuAssignDeviceSmartcardAlias x idx = x := by
  unfold qemuAssignDeviceSmartcardAlias
  rw [if_pos h]

theorem assignMemballoon_isSome (x : MemballoonDef) (idx : Int) :
    (qemuAssignDeviceMemballoonAlias x idx).aliasOpt.isSome := by
  unfold qemuAssignDeviceMemballoonAlias
  split
  · assumption
  · simp

theorem assignMemballoon_preserve (x : MemballoonDef) (idx : Int) {a : Str}
    (h : x.aliasOpt = some a) :
    (qemuAssignDeviceMemballoonAlias x idx).aliasOpt = some a := by
  unfold qemuAssignDeviceMemballoonAlias
  rw [if_pos (by simp [h])]
  exact h

theorem assignMemballoon_id (x : MemballoonDef) (idx : Int) (h : x.aliasOpt.isSome) :
    qemuAssignDeviceMemballoonAlias x idx = x := by
  unfold qemuAssignDeviceMemballoonAlias
  rw [if_pos h]

theorem assignMemballoon_model (x : MemballoonDef) (idx : Int) :
    (qemuAssignDeviceMemballoonAlias x idx).model = x.model := by
  unfold qemuAssignDeviceMemballoonAlias
  split <;> rfl

theorem assignTPM_isSome (x : TPMDef) (idx : Int) :
    (qemuAssignDeviceTPMAlias x idx).aliasOpt.isSome := by
  unfold qemuAssignDeviceTPMAlias
  split
  · assumption
  · simp

theorem assignTPM_preserve (x : TPMDef) (idx : Int) {a : Str}
    (h : x.aliasOpt = some a) : (qemuAssignDeviceTPMAlias x idx).aliasOpt = some a := by
  unfold qemuAssignDeviceTPMAlias
  rw [if_pos (by simp [h])]
  exact h

theorem assignTPM_id (x : TPMDef) (idx : Int) (h : x.aliasOpt.isSome) :
    qemuAssignDeviceTPMAlias x idx = x := by
  unfold qemuAssignDeviceTPMAlias
  rw [if_pos h]

theorem assignRedirdev_isSome (d : DomainDef) (x : RedirdevDef) (idx : Int) :
    (qemuAssignDeviceRedirdevAlias d x idx).aliasOpt.isSome := by
  unfold qemuAssignDeviceRedirdevAlias
  split
  · assumption
  · simp

theorem assignRedirdev_preserve (d : DomainDef) (x : RedirdevDef) (idx : Int)
    {a : Str} (h : x.aliasOpt = some a) :
    (qemuAssignDeviceRedirdevAlias d x idx).aliasOpt = some a := by
  unfold qemuAssignDeviceRedirdevAlias
  rw [if_pos (by simp [h])]
  exact h

theorem assignRedirdev_id (d : DomainDef) (x : RedirdevDef) (idx : Int)
    (h : x.aliasOpt.isSome) : qemuAssignDeviceRedirdevAlias d x idx = x := by
  unfold qemuAssignDeviceRedirdevAlias
  rw [if_pos h]

theorem assignRNG_isSome (d : DomainDef) (x : RNGDef) :
    (qemuAssignDeviceRNGAlias d x).aliasOpt.isSome := by
  unfold qemuAssignDeviceRNGAlias
  split
  · assumption
  · simp

theorem assignRNG_preserve (d : DomainDef) (x : RNGDef) {a : Str}
    (h : x.aliasOpt = some a) : (qemuAssignDeviceRNGAlias d x).aliasOpt = some a := by
  unfold qemuAssignDeviceRNGAlias
  rw [if_pos (by simp [h])]
  exact h

theorem assignRNG_id (d : DomainDef) (x : RNGDef) (h : x.aliasOpt.isSome) :
    qemuAssignDeviceRNGAlias d x = x := by
  unfold qemuAssignDeviceRNGAlias
  rw [if_pos h]

theorem assignShmem_isSome (d : DomainDef) (x : ShmemDef) (idx : Int) :
    (qemuAssignDeviceShmemAlias d x idx).aliasOpt.isSome := by
  unfold qemuAssignDeviceShmemAlias
  split
  · assumption
  · simp

theorem assignShmem_preserve (d : DomainDef) (x : ShmemDef) (idx : Int)
    {a : Str} (h : x.aliasOpt = some a) :
    (qemuAssignDeviceShmemAlias d x idx).aliasOpt = some a := by
  unfold qemuAssignDeviceShmemAlias
  rw [if_pos (by simp [h])]
  exact h

theorem assignShmem_id (d : DomainDef) (x : ShmemDef) (idx : Int)
    (h : x.aliasOpt.isSome) : qemuAssignDeviceShmemAlias d x idx = x := by
  unfold qemuAssignDeviceShmemAlias
  rw [if_pos h]

theorem assignInput_isSome (d : DomainDef) (x : InputDef) (idx : Int) :
    (qemuAssignDeviceInputAlias d x idx).aliasOpt.isSome := by
  unfold qemuAssignDeviceInputAlias
  split
  · assumption
  · simp

theorem assignInput_preserve (d : DomainDef) (x : InputDef) (idx : Int)
    {a : Str} (h : x.aliasOpt = some a) :
    (qemuAssignDeviceInputAlias d x idx).aliasOpt = some a := by
  unfold qemuAssignDeviceInputAlias
  rw [if_pos (by simp [h])]
  exact h

theorem assignInput_id (d : DomainDef) (x : InputDef) (idx : Int)
    (h : x.aliasOpt.isSome) : qemuAssignDeviceInputAlias d x idx = x := by
  unfold qemuAssignDeviceInputAlias
  rw [if_pos h]

theorem assignWatchdog_isSome (x : WatchdogDef) :
    (qemuAssignDeviceWatchdogAlias x).aliasOpt.isSome := by
  unfold qemuAssignDeviceWatchdogAlias
  split
  · assumption
  · simp

theorem assignWatchdog_preserve (x : WatchdogDef) {a : Str}
    (h : x.aliasOpt = some a) : (qemuAssignDeviceWatchdogAlias x).aliasOpt = some a := by
  unfold qemuAssignDeviceWatchdogAlias
  rw [if_pos (by simp [h])]
  exact h

theorem assignWatchdog_id (x : WatchdogDef) (h : x.aliasOpt.isSome) :
    qemuAssignDeviceWatchdogAlias x = x := by
  unfold qemuAssignDeviceWatchdogAlias
  rw [if_pos h]

theorem assignVsock_isSome (x : VsockDef) :
    (qemuAssignDeviceVsockAlias x).aliasOpt.isSome := by
  unfold qemuAssignDeviceVsockAlias
  split
  · assumption
  · simp

theorem assignVsock_preserve (x : VsockDef) {a : Str}
    (h : x.aliasOpt = some a) : (qemuAssignDeviceVsockAlias x).aliasOpt = some a := by
  unfold qemuAssignDeviceVsockAlias
  rw [if_pos (by simp [h])]
  exact h

theorem assignVsock_id (x : VsockDef) (h : x.aliasOpt.isSome) :
    qemuAssignDeviceVsockAlias x = x := by
  unfold qemuAssignDeviceVsockAlias
  rw [if_pos h]

theorem assignController_isSome (d : DomainDef) (caps : QemuCaps)
    (c : ControllerDef) : (qemuAssignDeviceControllerAlias d caps c).aliasOpt.isSome := by
  unfold qemuAssignDeviceControllerAlias
  repeat' split
  all_goals first | assumption | simp

theorem assignController_preserve (d : DomainDef) (caps : QemuCaps)
    (c : ControllerDef) {a : Str} (h : c.aliasOpt = some a) :
    (qemuAssignDeviceControllerAlias d caps c).aliasOpt = some a := by
  unfold qemuAssignDeviceControllerAlias
  rw [if_pos (by simp [h])]
  exact h

theorem assignController_id (d : DomainDef) (caps : QemuCaps)
    (c : ControllerDef) (h : c.aliasOpt.isSome) :
    qemuAssignDeviceControllerAlias d caps c = c := by
  unfold qemuAssignDeviceControllerAlias
  rw [if_pos h]

theorem diskSetQOMName_alias (x : DiskDef) (caps : QemuCaps) :
    (diskSetQOMName x caps).aliasOpt = x.aliasOpt := by
  unfold diskSetQOMName
  split
  · split
    any_goals rfl
    all_goals (split <;> rfl)
  · rfl

theorem diskChooseAlias_isSome {d : DomainDef} {x x' : DiskDef}
    (h : diskChooseAlias d x = .ok x') : x'.aliasOpt.isSome := by
  unfold diskChooseAlias at h
  split at h
  · injection h with h
    rw [← h]
    assumption
  · split at h
    · split at h
      · split at h
        · exact absurd h (by simp)
        · split at h <;> (injection h with h; rw [← h]; simp)
      · injection h with h
        rw [← h]
        simp
    · injection h with h
      rw [← h]
      simp

theorem diskChooseAlias_preserve {d : DomainDef} {x x' : DiskDef} {a : Str}
    (h : diskChooseAlias d x = .ok x') (ha : x.aliasOpt = some a) :
    x'.aliasOpt = some a := by
  unfold diskChooseAlias at h
  rw [if_pos (by simp [ha])] at h
  injection h with h
  rw [← h]
  exact ha

theorem diskChooseAlias_id (d : DomainDef) (x : DiskDef) (h : x.aliasOpt.isSome) :
    diskChooseAlias d x = .ok x := by
  unfold diskChooseAlias
  rw [if_pos h]

theorem diskStep_isSome {caps : QemuCaps} {d : DomainDef} {i : Nat} {x x' : DiskDef}
    (h : diskStepF caps d i x = .ok x') : x'.aliasOpt.isSome := by
  unfold diskStepF qemuAssignDeviceDiskAlias at h
  cases hc : diskChooseAlias d x with
  | error e =>
    rw [hc] at h
    exact absurd h (by simp)
  | ok y =>
    rw [hc] at h
    injection h with h
    rw [← h, diskSetQOMName_alias]
    exact diskChooseAlias_isSome hc

theorem diskStep_preserve {caps : QemuCaps} {d : DomainDef} {i : Nat}
    {x x' : DiskDef} {a : Str} (h : diskStepF caps d i x = .ok x')
    (ha : x.aliasOpt = some a) : x'.aliasOpt = some a := by
  unfold diskStepF qemuAssignDeviceDiskAlias at h
  cases hc : diskChooseAlias d x with
  | error e =>
    rw [hc] at h
    exact absurd h (by simp)
  | ok y =>
    rw [hc] at h
    injection h with h
    rw [← h, diskSetQOMName_alias]
    exact diskChooseAlias_preserve hc ha

theorem chrStep_isSome {d : DomainDef} {i : Nat} {x x' : ChrDef}
    (h : chrStepF d i x = .ok x') : x'.aliasOpt.isSome := by
  unfold chrStepF qemuAssignDeviceChrAlias at h
  split at h
  · injection h with h
    rw [← h]
    assumption
  · split at h
    · exact absurd h (by simp)
    · split at h
      · exact absurd h (by simp)
      · injection h with h
        rw [← h]
        simp

theorem chrStep_preserve {d : DomainDef} {i : Nat} {x x' : ChrDef} {a : Str}
    (h : chrStepF d i x = .ok x') (ha : x.aliasOpt = some a) :
    x'.aliasOpt = some a := by
  unfold chrStepF qemuAssignDeviceChrAlias at h
  rw [if_pos (by simp [ha])] at h
  injection h with h
  rw [← h]
  exact ha

theorem chrStep_id (d : DomainDef) (i : Nat) (x : ChrDef) (h : x.aliasOpt.isSome) :
    chrStepF d i x = .ok x := by
  unfold chrStepF qemuAssignDeviceChrAlias
  rw [if_pos h]

theorem memStep_isSome {d : DomainDef} {i : Nat} {x x' : MemoryDef}
    (h : memStepF d i x = .ok x') : x'.aliasOpt.isSome := by
  unfold memStepF qemuAssignDeviceMemoryAlias at h
  split at h
  · injection h with h
    rw [← h]
    assumption
  · split at h <;> first
      | (injection h with h; rw [← h]; simp)
      | exact absurd h (by simp)

theorem memStep_preserve {d : DomainDef} {i : Nat} {x x' : MemoryDef} {a : Str}
    (h : memStepF d i x = .ok x') (ha : x.aliasOpt = some a) :
    x'.aliasOpt = some a := by
  unfold memStepF qemuAssignDeviceMemoryAlias at h
  rw [if_pos (by simp [ha])] at h
  injection h with h
  rw [← h]
  exact ha

theorem memStep_id (d : DomainDef) (i : Nat) (x : MemoryDef)
    (h : x.aliasOpt.isSome) : memStepF d i x = .ok x := by
  unfold memStepF qemuAssignDeviceMemoryAlias
  rw [if_pos h]


theorem hostdevAlias_id (d : DomainDef) (al : Option Str) (idx : Int)
    (h : al.isSome) : qemuAssignDeviceHostdevAlias d al idx = al := by
  unfold qemuAssignDeviceHostdevAlias
  rw [if_pos h]

theorem exbind_ok {ε α β : Type} (a : α) (f : α → Except ε β) :
    (Except.ok a).bind f = f a := rfl

/-- Caching the qom name is idempotent: a second application changes
nothing. -/
theorem diskSetQOMName_idem (y : DiskDef) (caps : QemuCaps) :
    diskSetQOMName (diskSetQOMName y caps) caps = diskSetQOMName y caps := by
  unfold diskSetQOMName
  by_cases hb : caps.blockdev
  · cases hq : y.qomName <;> cases hbus : y.bus <;> cases ha : y.aliasOpt <;>
      simp [hq, hbus, ha, hb]
  · simp [hb]

theorem diskStep_stable {caps : QemuCaps} {d : DomainDef} {i : Nat} {x x' : DiskDef}
    (h : diskStepF caps d i x = .ok x') : diskSetQOMName x' caps = x' := by
  unfold diskStepF qemuAssignDeviceDiskAlias at h
  cases hc : diskChooseAlias d x with
  | error e =>
    rw [hc] at h
    exact absurd h (by simp)
  | ok y =>
    rw [hc] at h
    injection h with h
    rw [← h]
    exact diskSetQOMName_idem y caps

/-! ### Singleton-stage frame lemmas -/

theorem watchdogStage_family (d : DomainDef) : (watchdogStage d).family = d.family := by
  unfold watchdogStage
  cases d.watchdog <;> rfl

theorem watchdogStage_disks (d : DomainDef) : (watchdogStage d).disks = d.disks := by
  unfold watchdogStage
  cases d.watchdog <;> rfl

theorem watchdogStage_nets (d : DomainDef) : (watchdogStage d).nets = d.nets := by
  unfold watchdogStage
  cases d.watchdog <;> rfl

theorem watchdogStage_fss (d : DomainDef) : (watchdogStage d).fss = d.fss := by
  unfold watchdogStage
  cases d.watchdog <;> rfl

theorem watchdogStage_sounds (d : DomainDef) : (watchdogStage d).sounds = d.sounds := by
  unfold watchdogStage
  cases d.watchdog <;> rfl

theorem watchdogStage_hostdevs (d : DomainDef) : (watchdogStage d).hostdevs = d.hostdevs := by
  unfold watchdogStage
  cases d.watchdog <;> rfl

theorem watchdogStage_redirdevs (d : DomainDef) : (watchdogStage d).redirdevs = d.redirdevs := by
  unfold watchdogStage
  cases d.watchdog <;> rfl

theorem watchdogStage_videos (d : DomainDef) : (watchdogStage d).videos = d.videos := by
  unfold watchdogStage
  cases d.watchdog <;> rfl

theorem watchdogStage_controllers (d : DomainDef) : (watchdogStage d).controllers = d.controllers := by
  unfold watchdogStage
  cases d.watchdog <;> rfl

theorem watchdogStage_inputs (d : DomainDef) : (watchdogStage d).inputs = d.inputs := by
  unfold watchdogStage
  cases d.watchdog <;> rfl

theorem watchdogStage_parallels (d : DomainDef) : (watchdogStage d).parallels = d.parallels := by
  unfold watchdogStage
  cases d.watchdog <;> rfl

theorem watchdogStage_serials (d : DomainDef) : (watchdogStage d).serials = d.serials := by
  unfold watchdogStage
  cases d.watchdog <;> rfl

theorem watchdogStage_channels (d : DomainDef) : (watchdogStage d).channels = d.channels := by
  unfold watchdogStage
  cases d.watchdog <;> rfl

theorem watchdogStage_consoles (d : DomainDef) : (watchdogStage d).consoles = d.consoles := by
  unfold watchdogStage
  cases d.watchdog <;> rfl

theorem watchdogStage_hubs (d : DomainDef) : (watchdogStage d).hubs = d.hubs := by
  unfold watchdogStage
  cases d.watchdog <;> rfl

theorem watchdogStage_shmems (d : DomainDef) : (watchdogStage d).shmems = d.shmems := by
  unfold watchdogStage
  cases d.watchdog <;> rfl

theorem watchdogStage_smartcards (d : DomainDef) : (watchdogStage d).smartcards = d.smartcards := by
  unfold watchdogStage
  cases d.watchdog <;> rfl

theorem watchdogStage_memballoon (d : DomainDef) : (watchdogStage d).memballoon = d.memballoon := by
  unfold watchdogStage
  cases d.watchdog <;> rfl

theorem watchdogStage_rngs (d : DomainDef) : (watchdogStage d).rngs = d.rngs := by
  unfold watchdogStage
  cases d.watchdog <;> rfl

theorem watchdogStage_tpms (d : DomainDef) : (watchdogStage d).tpms = d.tpms := by
  unfold watchdogStage
  cases d.watchdog <;> rfl

theorem watchdogStage_mems (d : DomainDef) : (watchdogStage d).mems = d.mems := by
  unfold watchdogStage
  cases d.watchdog <;> rfl

theorem watchdogStage_vsock (d : DomainDef) : (watchdogStage d).vsock = d.vsock := by
  unfold watchdogStage
  cases d.watchdog <;> rfl

theorem memballoonStage_family (d : DomainDef) : (memballoonStage d).family = d.family := by
  unfold memballoonStage
  cases d.memballoon <;> simp only [] <;> (try split) <;> rfl

theorem memballoonStage_disks (d : DomainDef) : (memballoonStage d).disks = d.disks := by
  unfold memballoonStage
  cases d.memballoon <;> simp only [] <;> (try split) <;> rfl

theorem memballoonStage_nets (d : DomainDef) : (memballoonStage d).nets = d.nets := by
  unfold memballoonStage
  cases d.memballoon <;> simp only [] <;> (try split) <;> rfl

theorem memballoonStage_fss (d : DomainDef) : (memballoonStage d).fss = d.fss := by
  unfold memballoonStage
  cases d.memballoon <;> simp only [] <;> (try split) <;> rfl

theorem memballoonStage_sounds (d : DomainDef) : (memballoonStage d).sounds = d.sounds := by
  unfold memballoonStage
  cases d.memballoon <;> simp only [] <;> (try split) <;> rfl

theorem memballoonStage_hostdevs (d : DomainDef) : (memballoonStage d).hostdevs = d.hostdevs := by
  unfold memballoonStage
  cases d.memballoon <;> simp only [] <;> (try split) <;> rfl

theorem memballoonStage_redirdevs (d : DomainDef) : (memballoonStage d).redirdevs = d.redirdevs := by
  unfold memballoonStage
  cases d.memballoon <;> simp only [] <;> (try split) <;> rfl

theorem memballoonStage_videos (d : DomainDef) : (memballoonStage d).videos = d.videos := by
  unfold memballoonStage
  cases d.memballoon <;> simp only [] <;> (try split) <;> rfl

theorem memballoonStage_controllers (d : DomainDef) : (memballoonStage d).controllers = d.controllers := by
  unfold memballoonStage
  cases d.memballoon <;> simp only [] <;> (try split) <;> rfl

theorem memballoonStage_inputs (d : DomainDef) : (memballoonStage d).inputs = d.inputs := by
  unfold memballoonStage
  cases d.memballoon <;> simp only [] <;> (try split) <;> rfl

theorem memballoonStage_parallels (d : DomainDef) : (memballoonStage d).parallels = d.parallels := by
  unfold memballoonStage
  cases d.memballoon <;> simp only [] <;> (try split) <;> rfl

theorem memballoonStage_serials (d : DomainDef) : (memballoonStage d).serials = d.serials := by
  unfold memballoonStage
  cases d.memballoon <;> simp only [] <;> (try split) <;> rfl

theorem memballoonStage_channels (d : DomainDef) : (memballoonStage d).channels = d.channels := by
  unfold memballoonStage
  cases d.memballoon <;> simp only [] <;> (try split) <;> rfl

theorem memballoonStage_consoles (d : DomainDef) : (memballoonStage d).consoles = d.consoles := by
  unfold memballoonStage
  cases d.memballoon <;> simp only [] <;> (try split) <;> rfl

theorem memballoonStage_hubs (d : DomainDef) : (memballoonStage d).hubs = d.hubs := by
  unfold memballoonStage
  cases d.memballoon <;> simp only [] <;> (try split) <;> rfl

theorem memballoonStage_shmems (d : DomainDef) : (memballoonStage d).shmems = d.shmems := by
  unfold memballoonStage
  cases d.memballoon <;> simp only [] <;> (try split) <;> rfl

theorem memballoonStage_smartcards (d : DomainDef) : (memballoonStage d).smartcards = d.smartcards := by
  unfold memballoonStage
  cases d.memballoon <;> simp only [] <;> (try split) <;> rfl

theorem memballoonStage_watchdog (d : DomainDef) : (memballoonStage d).watchdog = d.watchdog := by
  unfold memballoonStage
  cases d.memballoon <;> simp only [] <;> (try split) <;> rfl

theorem memballoonStage_rngs (d : DomainDef) : (memballoonStage d).rngs = d.rngs := by
  unfold memballoonStage
  cases d.memballoon <;> simp only [] <;> (try split) <;> rfl

theorem memballoonStage_tpms (d : DomainDef) : (memballoonStage d).tpms = d.tpms := by
  unfold memballoonStage
  cases d.memballoon <;> simp only [] <;> (try split) <;> rfl

theorem memballoonStage_mems (d : DomainDef) : (memballoonStage d).mems = d.mems := by
  unfold memballoonStage
  cases d.memballoon <;> simp only [] <;> (try split) <;> rfl

theorem memballoonStage_vsock (d : DomainDef) : (memballoonStage d).vsock = d.vsock := by
  unfold memballoonStage
  cases d.memballoon <;> simp only [] <;> (try split) <;> rfl

theorem vsockStage_family (d : DomainDef) : (vsockStage d).family = d.family := by
  unfold vsockStage
  cases d.vsock <;> rfl

theorem vsockStage_disks (d : DomainDef) : (vsockStage d).disks = d.disks := by
  unfold vsockStage
  cases d.vsock <;> rfl

theorem vsockStage_nets (d : DomainDef) : (vsockStage d).nets = d.nets := by
  unfold vsockStage
  cases d.vsock <;> rfl

theorem vsockStage_fss (d : DomainDef) : (vsockStage d).fss = d.fss := by
  unfold vsockStage
  cases d.vsock <;> rfl

theorem vsockStage_sounds (d : DomainDef) : (vsockStage d).sounds = d.sounds := by
  unfold vsockStage
  cases d.vsock <;> rfl

theorem vsockStage_hostdevs (d : DomainDef) : (vsockStage d).hostdevs = d.hostdevs := by
  unfold vsockStage
  cases d.vsock <;> rfl

theorem vsockStage_redirdevs (d : DomainDef) : (vsockStage d).redirdevs = d.redirdevs := by
  unfold vsockStage
  cases d.vsock <;> rfl

theorem vsockStage_videos (d : DomainDef) : (vsockStage d).videos = d.videos := by
  unfold vsockStage
  cases d.vsock <;> rfl

theorem vsockStage_controllers (d : DomainDef) : (vsockStage d).controllers = d.controllers := by
  unfold vsockStage
  cases d.vsock <;> rfl

theorem vsockStage_inputs (d : DomainDef) : (vsockStage d).inputs = d.inputs := by
  unfold vsockStage
  cases d.vsock <;> rfl

theorem vsockStage_parallels (d : DomainDef) : (vsockStage d).parallels = d.parallels := by
  unfold vsockStage
  cases d.vsock <;> rfl

theorem vsockStage_serials (d : DomainDef) : (vsockStage d).serials = d.serials := by
  unfold vsockStage
  cases d.vsock <;> rfl

theorem vsockStage_channels (d : DomainDef) : (vsockStage d).channels = d.channels := by
  unfold vsockStage
  cases d.vsock <;> rfl

theorem vsockStage_consoles (d : DomainDef) : (vsockStage d).consoles = d.consoles := by
  unfold vsockStage
  cases d.vsock <;> rfl

theorem vsockStage_hubs (d : DomainDef) : (vsockStage d).hubs = d.hubs := by
  unfold vsockStage
  cases d.vsock <;> rfl

theorem vsockStage_shmems (d : DomainDef) : (vsockStage d).shmems = d.shmems := by
  unfold vsockStage
  cases d.vsock <;> rfl

theorem vsockStage_smartcards (d : DomainDef) : (vsockStage d).smartcards = d.smartcards := by
  unfold vsockStage
  cases d.vsock <;> rfl

theorem vsockStage_watchdog (d : DomainDef) : (vsockStage d).watchdog = d.watchdog := by
  unfold vsockStage
  cases d.vsock <;> rfl

theorem vsockStage_memballoon (d : DomainDef) : (vsockStage d).memballoon = d.memballoon := by
  unfold vsockStage
  cases d.vsock <;> rfl

theorem vsockStage_rngs (d : DomainDef) : (vsockStage d).rngs = d.rngs := by
  unfold vsockStage
  cases d.vsock <;> rfl

theorem vsockStage_tpms (d : DomainDef) : (vsockStage d).tpms = d.tpms := by
  unfold vsockStage
  cases d.vsock <;> rfl

theorem vsockStage_mems (d : DomainDef) : (vsockStage d).mems = d.mems := by
  unfold vsockStage
  cases d.vsock <;> rfl

/-! ## Claim C3 -/

/-- C3 counterexample: a domain whose only device is a memory balloon with
model "none" passes alias assignment successfully, yet the balloon (a device
of the domain with alias = None before the run) still has no alias after. -/
theorem C3_counterexample :
    qemuAssignDeviceAliases
      {domain0 with memballoon := some ⟨none, MemballoonModel.mbNone⟩} ⟨true, true⟩ =
      .ok {domain0 with memballoon := some ⟨none, MemballoonModel.mbNone⟩} := by decide

/-- Concrete mixed domain for the coverage witness: three interfaces (the
middle one resolving to hostdev type), one host device, a watchdog and a
vsock, none pre-aliased. -/
def dC3 : DomainDef :=
  {domain0 with
    nets := [⟨none, false⟩, ⟨none, true⟩, ⟨none, false⟩],
    hostdevs := [⟨none⟩],
    watchdog := some ⟨none⟩,
    vsock := some ⟨none⟩}

/-- The result the pass computes on dC3. -/
def dC3res : DomainDef :=
  {domain0 with
    nets := [⟨some (str "net0"), false⟩, ⟨some (str "hostdev0"), true⟩,
             ⟨some (str "net1"), false⟩],
    hostdevs := [⟨some (str "hostdev1")⟩],
    watchdog := some ⟨some (str "watchdog0")⟩,
    vsock := some ⟨some (str "vsock0")⟩}

/-- Concrete domain for the no-overwrite witness: the first sound device is
pre-aliased "mysound", the second is fresh. -/
def dC2 : DomainDef :=
  {domain0 with sounds := [⟨some (str "mysound")⟩, ⟨none⟩]}

/-- The result the pass computes on dC2: the preset alias survives and the
fresh device gets the positional alias "sound1". -/
def dC2res : DomainDef :=
  {domain0 with sounds := [⟨some (str "mysound")⟩, ⟨some (str "sound1")⟩]}

/-- Master coverage helper: after a successful pass every device of every
collection carries an alias (the memory balloon provided its model is not
"none"), and every disk is a fixed point of the qom-name caching step. -/
theorem assignAll_spec (d : DomainDef) (caps : QemuCaps) (dF : DomainDef)
    (h : qemuAssignDeviceAliases d caps = .ok dF) :
    (∀ x ∈ dF.disks, x.aliasOpt.isSome = true) ∧
    (∀ x ∈ dF.nets, x.aliasOpt.isSome = true) ∧
    (∀ x ∈ dF.fss, x.aliasOpt.isSome = true) ∧
    (∀ x ∈ dF.sounds, x.aliasOpt.isSome = true) ∧
    (∀ x ∈ dF.hostdevs, x.aliasOpt.isSome = true) ∧
    (∀ x ∈ dF.redirdevs, x.aliasOpt.isSome = true) ∧
    (∀ x ∈ dF.videos, x.aliasOpt.isSome = true) ∧
    (∀ x ∈ dF.controllers, x.aliasOpt.isSome = true) ∧
    (∀ x ∈ dF.inputs, x.aliasOpt.isSome = true) ∧
    (∀ x ∈ dF.parallels, x.aliasOpt.isSome = true) ∧
    (∀ x ∈ dF.serials, x.aliasOpt.isSome = true) ∧
    (∀ x ∈ dF.channels, x.aliasOpt.isSome = true) ∧
    (∀ x ∈ dF.consoles, x.aliasOpt.isSome = true) ∧
    (∀ x ∈ dF.hubs, x.aliasOpt.isSome = true) ∧
    (∀ x ∈ dF.shmems, x.aliasOpt.isSome = true) ∧
    (∀ x ∈ dF.smartcards, x.aliasOpt.isSome = true) ∧
    (∀ x ∈ dF.rngs, x.aliasOpt.isSome = true) ∧
    (∀ x ∈ dF.tpms, x.aliasOpt.isSome = true) ∧
    (∀ x ∈ dF.mems, x.aliasOpt.isSome = true) ∧
    (∀ w, dF.watchdog = some w → w.aliasOpt.isSome = true) ∧
    (∀ b, dF.memballoon = some b → b.model ≠ MemballoonModel.mbNone → b.aliasOpt.isSome = true) ∧
    (∀ v, dF.vsock = some v → v.aliasOpt.isSome = true) ∧
    (∀ x ∈ dF.disks, diskSetQOMName x caps = x) := by
  obtain ⟨d1, d2, d3, d4, d5, d6, d7, d8, d9, d10, d11, d12, d13, d14, d15, d16,
    d17, d18, d19, h1, h2, h3, h4, h5, h6, h7, h8, h9, h10, h11, h12, h13, h14,
    h15, h16, h17, h18, h19, hvs⟩ := assignAll_decompose d caps dF h
  obtain ⟨proc1, hp1, hfa1⟩ := runStage_ok_spec disksL (diskStepF caps) (fun _ _ => rfl)
    (fun _ y => y.aliasOpt.isSome = true ∧ diskSetQOMName y caps = y)
    (fun _ _ _ _ hh => ⟨diskStep_isSome hh, diskStep_stable hh⟩) _ _ h1
  have hfp1 : d1.disks = proc1 := hp1
  have hall1 : ∀ y ∈ d1.disks, y.aliasOpt.isSome = true ∧ diskSetQOMName y caps = y := by
    rw [hfp1]
    exact forall₂_mem_right hfa1
  obtain ⟨proc2, hp2, hfa2⟩ := runStage_ok_spec netsL netStepF (fun _ _ => rfl)
    (fun _ y => y.aliasOpt.isSome = true) (fun d i x x2 hh => by unfold netStepF at hh; injection hh with hh; rw [← hh]; exact assignNet_isSome d x (-1)) _ _ h2
  have hfp2 : d2.nets = proc2 := hp2
  have hall2 : ∀ y ∈ d2.nets, y.aliasOpt.isSome = true := by
    rw [hfp2]
    exact forall₂_mem_right hfa2
  obtain ⟨proc3, hp3, hfa3⟩ := runStage_ok_spec fssL fsStepF (fun _ _ => rfl)
    (fun _ y => y.aliasOpt.isSome = true) (fun d i x x2 hh => by unfold fsStepF at hh; injection hh with hh; rw [← hh]; exact assignFS_isSome x (i : Int)) _ _ h3
  have hfp3 : d3.fss = proc3 := hp3
  have hall3 : ∀ y ∈ d3.fss, y.aliasOpt.isSome = true := by
    rw [hfp3]
    exact forall₂_mem_right hfa3
  obtain ⟨proc4, hp4, hfa4⟩ := runStage_ok_spec soundsL soundStepF (fun _ _ => rfl)
    (fun _ y => y.aliasOpt.isSome = true) (fun d i x x2 hh => by unfold soundStepF at hh; injection hh with hh; rw [← hh]; exact assignSound_isSome x (i : Int)) _ _ h4
  have hfp4 : d4.sounds = proc4 := hp4
  have hall4 : ∀ y ∈ d4.sounds, y.aliasOpt.isSome = true := by
    rw [hfp4]
    exact forall₂_mem_right hfa4
  obtain ⟨proc5, hp5, hfa5⟩ := runStage_ok_spec hostdevsL hostdevStepF (fun _ _ => rfl)
    (fun _ y => y.aliasOpt.isSome = true) (fun d i x x2 hh => by unfold hostdevStepF at hh; injection hh with hh; rw [← hh]; exact hostdevAlias_isSome d x.aliasOpt (-1)) _ _ h5
  have hfp5 : d5.hostdevs = proc5 := hp5
  have hall5 : ∀ y ∈ d5.hostdevs, y.aliasOpt.isSome = true := by
    rw [hfp5]
    exact forall₂_mem_right hfa5
  obtain ⟨proc6, hp6, hfa6⟩ := runStage_ok_spec redirdevsL redirdevStepF (fun _ _ => rfl)
    (fun _ y => y.aliasOpt.isSome = true) (fun d i x x2 hh => by unfold redirdevStepF at hh; injection hh with hh; rw [← hh]; exact assignRedirdev_isSome d x (i : Int)) _ _ h6
  have hfp6 : d6.redirdevs = proc6 := hp6
  have hall6 : ∀ y ∈ d6.redirdevs, y.aliasOpt.isSome = true := by
    rw [hfp6]
    exact forall₂_mem_right hfa6
  obtain ⟨proc7, hp7, hfa7⟩ := runStage_ok_spec videosL videoStepF (fun _ _ => rfl)
    (fun _ y => y.aliasOpt.isSome = true) (fun d i x x2 hh => by unfold videoStepF at hh; injection hh with hh; rw [← hh]; exact assignVideo_isSome x (i : Int)) _ _ h7
  have hfp7 : d7.videos = proc7 := hp7
  have hall7 : ∀ y ∈ d7.videos, y.aliasOpt.isSome = true := by
    rw [hfp7]
    exact forall₂_mem_right hfa7
  obtain ⟨proc8, hp8, hfa8⟩ := runStage_ok_spec controllersL (controllerStepF caps) (fun _ _ => rfl)
    (fun _ y => y.aliasOpt.isSome = true) (fun d i x x2 hh => by unfold controllerStepF at hh; injection hh with hh; rw [← hh]; exact assignController_isSome d caps x) _ _ h8
  have hfp8 : d8.controllers = proc8 := hp8
  have hall8 : ∀ y ∈ d8.controllers, y.aliasOpt.isSome = true := by
    rw [hfp8]
    exact forall₂_mem_right hfa8
  obtain ⟨proc9, hp9, hfa9⟩ := runStage_ok_spec inputsL inputStepF (fun _ _ => rfl)
    (fun _ y => y.aliasOpt.isSome = true) (fun d i x x2 hh => by unfold inputStepF at hh; injection hh with hh; rw [← hh]; exact assignInput_isSome d x (i : Int)) _ _ h9
  have hfp9 : d9.inputs = proc9 := hp9
  have hall9 : ∀ y ∈ d9.inputs, y.aliasOpt.isSome = true := by
    rw [hfp9]
    exact forall₂_mem_right hfa9
  obtain ⟨proc10, hp10, hfa10⟩ := runStage_ok_spec parallelsL chrStepF (fun _ _ => rfl)
    (fun _ y => y.aliasOpt.isSome = true) (fun _ _ _ _ hh => chrStep_isSome hh) _ _ h10
  have hfp10 : d10.parallels = proc10 := hp10
  have hall10 : ∀ y ∈ d10.parallels, y.aliasOpt.isSome = true := by
    rw [hfp10]
    exact forall₂_mem_right hfa10
  obtain ⟨proc11, hp11, hfa11⟩ := runStage_ok_spec serialsL chrStepF (fun _ _ => rfl)
    (fun _ y => y.aliasOpt.isSome = true) (fun _ _ _ _ hh => chrStep_isSome hh) _ _ h11
  have hfp11 : d11.serials = proc11 := hp11
  have hall11 : ∀ y ∈ d11.serials, y.aliasOpt.isSome = true := by
    rw [hfp11]
    exact forall₂_mem_right hfa11
  obtain ⟨proc12, hp12, hfa12⟩ := runStage_ok_spec channelsL chrStepF (fun _ _ => rfl)
    (fun _ y => y.aliasOpt.isSome = true) (fun _ _ _ _ hh => chrStep_isSome hh) _ _ h12
  have hfp12 : d12.channels = proc12 := hp12
  have hall12 : ∀ y ∈ d12.channels, y.aliasOpt.isSome = true := by
    rw [hfp12]
    exact forall₂_mem_right hfa12
  obtain ⟨proc13, hp13, hfa13⟩ := runStage_ok_spec consolesL chrStepF (fun _ _ => rfl)
    (fun _ y => y.aliasOpt.isSome = true) (fun _ _ _ _ hh => chrStep_isSome hh) _ _ h13
  have hfp13 : d13.consoles = proc13 := hp13
  have hall13 : ∀ y ∈ d13.consoles, y.aliasOpt.isSome = true := by
    rw [hfp13]
    exact forall₂_mem_right hfa13
  obtain ⟨proc14, hp14, hfa14⟩ := runStage_ok_spec hubsL hubStepF (fun _ _ => rfl)
    (fun _ y => y.aliasOpt.isSome = true) (fun d i x x2 hh => by unfold hubStepF at hh; injection hh with hh; rw [← hh]; exact assignHub_isSome x (i : Int)) _ _ h14
  have hfp14 : d14.hubs = proc14 := hp14
  have hall14 : ∀ y ∈ d14.hubs, y.aliasOpt.isSome = true := by
    rw [hfp14]
    exact forall₂_mem_right hfa14
  obtain ⟨proc15, hp15, hfa15⟩ := runStage_ok_spec shmemsL shmemStepF (fun _ _ => rfl)
    (fun _ y => y.aliasOpt.isSome = true) (fun d i x x2 hh => by unfold shmemStepF at hh; injection hh with hh; rw [← hh]; exact assignShmem_isSome d x (i : Int)) _ _ h15
  have hfp15 : d15.shmems = proc15 := hp15
  have hall15 : ∀ y ∈ d15.shmems, y.aliasOpt.isSome = true := by
    rw [hfp15]
    exact forall₂_mem_right hfa15
  obtain ⟨proc16, hp16, hfa16⟩ := runStage_ok_spec smartcardsL smartcardStepF (fun _ _ => rfl)
    (fun _ y => y.aliasOpt.isSome = true) (fun d i x x2 hh => by unfold smartcardStepF at hh; injection hh with hh; rw [← hh]; exact assignSmartcard_isSome x (i : Int)) _ _ h16
  have hfp16 : d16.smartcards = proc16 := hp16
  have hall16 : ∀ y ∈ d16.smartcards, y.aliasOpt.isSome = true := by
    rw [hfp16]
    exact forall₂_mem_right hfa16
  obtain ⟨proc17, hp17, hfa17⟩ := runStage_ok_spec rngsL rngStepF (fun _ _ => rfl)
    (fun _ y => y.aliasOpt.isSome = true) (fun d i x x2 hh => by unfold rngStepF at hh; injection hh with hh; rw [← hh]; exact assignRNG_isSome d x) _ _ h17
  have hfp17 : d17.rngs = proc17 := hp17
  have hall17 : ∀ y ∈ d17.rngs, y.aliasOpt.isSome = true := by
    rw [hfp17]
    exact forall₂_mem_right hfa17
  obtain ⟨proc18, hp18, hfa18⟩ := runStage_ok_spec tpmsL tpmStepF (fun _ _ => rfl)
    (fun _ y => y.aliasOpt.isSome = true) (fun d i x x2 hh => by unfold tpmStepF at hh; injection hh with hh; rw [← hh]; exact assignTPM_isSome x (i : Int)) _ _ h18
  have hfp18 : d18.tpms = proc18 := hp18
  have hall18 : ∀ y ∈ d18.tpms, y.aliasOpt.isSome = true := by
    rw [hfp18]
    exact forall₂_mem_right hfa18
  obtain ⟨proc19, hp19, hfa19⟩ := runStage_ok_spec memsL memStepF (fun _ _ => rfl)
    (fun _ y => y.aliasOpt.isSome = true) (fun _ _ _ _ hh => memStep_isSome hh) _ _ h19
  have hfp19 : d19.mems = proc19 := hp19
  have hall19 : ∀ y ∈ d19.mems, y.aliasOpt.isSome = true := by
    rw [hfp19]
    exact forall₂_mem_right hfa19
  have e1 : dF.disks = d1.disks := by
    rw [hvs, vsockStage_disks]
    rw [runStage_pres' (fun dd => dd.disks) (fun _ _ => rfl) h19]
    rw [runStage_pres' (fun dd => dd.disks) (fun _ _ => rfl) h18]
    rw [runStage_pres' (fun dd => dd.disks) (fun _ _ => rfl) h17]
    rw [memballoonStage_disks, watchdogStage_disks]
    rw [runStage_pres' (fun dd => dd.disks) (fun _ _ => rfl) h16]
    rw [runStage_pres' (fun dd => dd.disks) (fun _ _ => rfl) h15]
    rw [runStage_pres' (fun dd => dd.disks) (fun _ _ => rfl) h14]
    rw [runStage_pres' (fun dd => dd.disks) (fun _ _ => rfl) h13]
    rw [runStage_pres' (fun dd => dd.disks) (fun _ _ => rfl) h12]
    rw [runStage_pres' (fun dd => dd.disks) (fun _ _ => rfl) h11]
    rw [runStage_pres' (fun dd => dd.disks) (fun _ _ => rfl) h10]
    rw [runStage_pres' (fun dd => dd.disks) (fun _ _ => rfl) h9]
    rw [runStage_pres' (fun dd => dd.disks) (fun _ _ => rfl) h8]
    rw [runStage_pres' (fun dd => dd.disks) (fun _ _ => rfl) h7]
    rw [runStage_pres' (fun dd => dd.disks) (fun _ _ => rfl) h6]
    rw [runStage_pres' (fun dd => dd.disks) (fun _ _ => rfl) h5]
    rw [runStage_pres' (fun dd => dd.disks) (fun _ _ => rfl) h4]
    rw [runStage_pres' (fun dd => dd.disks) (fun _ _ => rfl) h3]
    rw [runStage_pres' (fun dd => dd.disks) (fun _ _ => rfl) h2]
  have e2 : dF.nets = d2.nets := by
    rw [hvs, vsockStage_nets]
    rw [runStage_pres' (fun dd => dd.nets) (fun _ _ => rfl) h19]
    rw [runStage_pres' (fun dd => dd.nets) (fun _ _ => rfl) h18]
    rw [runStage_pres' (fun dd => dd.nets) (fun _ _ => rfl) h17]
    rw [memballoonStage_nets, watchdogStage_nets]
    rw [runStage_pres' (fun dd => dd.nets) (fun _ _ => rfl) h16]
    rw [runStage_pres' (fun dd => dd.nets) (fun _ _ => rfl) h15]
    rw [runStage_pres' (fun dd => dd.nets) (fun _ _ => rfl) h14]
    rw [runStage_pres' (fun dd => dd.nets) (fun _ _ => rfl) h13]
    rw [runStage_pres' (fun dd => dd.nets) (fun _ _ => rfl) h12]
    rw [runStage_pres' (fun dd => dd.nets) (fun _ _ => rfl) h11]
    rw [runStage_pres' (fun dd => dd.nets) (fun _ _ => rfl) h10]
    rw [runStage_pres' (fun dd => dd.nets) (fun _ _ => rfl) h9]
    rw [runStage_pres' (fun dd => dd.nets) (fun _ _ => rfl) h8]
    rw [runStage_pres' (fun dd => dd.nets) (fun _ _ => rfl) h7]
    rw [runStage_pres' (fun dd => dd.nets) (fun _ _ => rfl) h6]
    rw [runStage_pres' (fun dd => dd.nets) (fun _ _ => rfl) h5]
    rw [runStage_pres' (fun dd => dd.nets) (fun _ _ => rfl) h4]
    rw [runStage_pres' (fun dd => dd.nets) (fun _ _ => rfl) h3]
  have e3 : dF.fss = d3.fss := by
    rw [hvs, vsockStage_fss]
    rw [runStage_pres' (fun dd => dd.fss) (fun _ _ => rfl) h19]
    rw [runStage_pres' (fun dd => dd.fss) (fun _ _ => rfl) h18]
    rw [runStage_pres' (fun dd => dd.fss) (fun _ _ => rfl) h17]
    rw [memballoonStage_fss, watchdogStage_fss]
    rw [runStage_pres' (fun dd => dd.fss) (fun _ _ => rfl) h16]
    rw [runStage_pres' (fun dd => dd.fss) (fun _ _ => rfl) h15]
    rw [runStage_pres' (fun dd => dd.fss) (fun _ _ => rfl) h14]
    rw [runStage_pres' (fun dd => dd.fss) (fun _ _ => rfl) h13]
    rw [runStage_pres' (fun dd => dd.fss) (fun _ _ => rfl) h12]
    rw [runStage_pres' (fun dd => dd.fss) (fun _ _ => rfl) h11]
    rw [runStage_pres' (fun dd => dd.fss) (fun _ _ => rfl) h10]
    rw [runStage_pres' (fun dd => dd.fss) (fun _ _ => rfl) h9]
    rw [runStage_pres' (fun dd => dd.fss) (fun _ _ => rfl) h8]
    rw [runStage_pres' (fun dd => dd.fss) (fun _ _ => rfl) h7]
    rw [runStage_pres' (fun dd => dd.fss) (fun _ _ => rfl) h6]
    rw [runStage_pres' (fun dd => dd.fss) (fun _ _ => rfl) h5]
    rw [runStage_pres' (fun dd => dd.fss) (fun _ _ => rfl) h4]
  have e4 : dF.sounds = d4.sounds := by
    rw [hvs, vsockStage_sounds]
    rw [runStage_pres' (fun dd => dd.sounds) (fun _ _ => rfl) h19]
    rw [runStage_pres' (fun dd => dd.sounds) (fun _ _ => rfl) h18]
    rw [runStage_pres' (fun dd => dd.sounds) (fun _ _ => rfl) h17]
    rw [memballoonStage_sounds, watchdogStage_sounds]
    rw [runStage_pres' (fun dd => dd.sounds) (fun _ _ => rfl) h16]
    rw [runStage_pres' (fun dd => dd.sounds) (fun _ _ => rfl) h15]
    rw [runStage_pres' (fun dd => dd.sounds) (fun _ _ => rfl) h14]
    rw [runStage_pres' (fun dd => dd.sounds) (fun _ _ => rfl) h13]
    rw [runStage_pres' (fun dd => dd.sounds) (fun _ _ => rfl) h12]
    rw [runStage_pres' (fun dd => dd.sounds) (fun _ _ => rfl) h11]
    rw [runStage_pres' (fun dd => dd.sounds) (fun _ _ => rfl) h10]
    rw [runStage_pres' (fun dd => dd.sounds) (fun _ _ => rfl) h9]
    rw [runStage_pres' (fun dd => dd.sounds) (fun _ _ => rfl) h8]
    rw [runStage_pres' (fun dd => dd.sounds) (fun _ _ => rfl) h7]
    rw [runStage_pres' (fun dd => dd.sounds) (fun _ _ => rfl) h6]
    rw [runStage_pres' (fun dd => dd.sounds) (fun _ _ => rfl) h5]
  have e5 : dF.hostdevs = d5.hostdevs := by
    rw [hvs, vsockStage_hostdevs]
    rw [runStage_pres' (fun dd => dd.hostdevs) (fun _ _ => rfl) h19]
    rw [runStage_pres' (fun dd => dd.hostdevs) (fun _ _ => rfl) h18]
    rw [runStage_pres' (fun dd => dd.hostdevs) (fun _ _ => rfl) h17]
    rw [memballoonStage_hostdevs, watchdogStage_hostdevs]
    rw [runStage_pres' (fun dd => dd.hostdevs) (fun _ _ => rfl) h16]
    rw [runStage_pres' (fun dd => dd.hostdevs) (fun _ _ => rfl) h15]
    rw [runStage_pres' (fun dd => dd.hostdevs) (fun _ _ => rfl) h14]
    rw [runStage_pres' (fun dd => dd.hostdevs) (fun _ _ => rfl) h13]
    rw [runStage_pres' (fun dd => dd.hostdevs) (fun _ _ => rfl) h12]
    rw [runStage_pres' (fun dd => dd.hostdevs) (fun _ _ => rfl) h11]
    rw [runStage_pres' (fun dd => dd.hostdevs) (fun _ _ => rfl) h10]
    rw [runStage_pres' (fun dd => dd.hostdevs) (fun _ _ => rfl) h9]
    rw [runStage_pres' (fun dd => dd.hostdevs) (fun _ _ => rfl) h8]
    rw [runStage_pres' (fun dd => dd.hostdevs) (fun _ _ => rfl) h7]
    rw [runStage_pres' (fun dd => dd.hostdevs) (fun _ _ => rfl) h6]
  have e6 : dF.redirdevs = d6.redirdevs := by
    rw [hvs, vsockStage_redirdevs]
    rw [runStage_pres' (fun dd => dd.redirdevs) (fun _ _ => rfl) h19]
    rw [runStage_pres' (fun dd => dd.redirdevs) (fun _ _ => rfl) h18]
    rw [runStage_pres' (fun dd => dd.redirdevs) (fun _ _ => rfl) h17]
    rw [memballoonStage_redirdevs, watchdogStage_redirdevs]
    rw [runStage_pres' (fun dd => dd.redirdevs) (fun _ _ => rfl) h16]
    rw [runStage_pres' (fun dd => dd.redirdevs) (fun _ _ => rfl) h15]
    rw [runStage_pres' (fun dd => dd.redirdevs) (fun _ _ => rfl) h14]
    rw [runStage_pres' (fun dd => dd.redirdevs) (fun _ _ => rfl) h13]
    rw [runStage_pres' (fun dd => dd.redirdevs) (fun _ _ => rfl) h12]
    rw [runStage_pres' (fun dd => dd.redirdevs) (fun _ _ => rfl) h11]
    rw [runStage_pres' (fun dd => dd.redirdevs) (fun _ _ => rfl) h10]
    rw [runStage_pres' (fun dd => dd.redirdevs) (fun _ _ => rfl) h9]
    rw [runStage_pres' (fun dd => dd.redirdevs) (fun _ _ => rfl) h8]
    rw [runStage_pres' (fun dd => dd.redirdevs) (fun _ _ => rfl) h7]
  have e7 : dF.videos = d7.videos := by
    rw [hvs, vsockStage_videos]
    rw [runStage_pres' (fun dd => dd.videos) (fun _ _ => rfl) h19]
    rw [runStage_pres' (fun dd => dd.videos) (fun _ _ => rfl) h18]
    rw [runStage_pres' (fun dd => dd.videos) (fun _ _ => rfl) h17]
    rw [memballoonStage_videos, watchdogStage_videos]
    rw [runStage_pres' (fun dd => dd.videos) (fun _ _ => rfl) h16]
    rw [runStage_pres' (fun dd => dd.videos) (fun _ _ => rfl) h15]
    rw [runStage_pres' (fun dd => dd.videos) (fun _ _ => rfl) h14]
    rw [runStage_pres' (fun dd => dd.videos) (fun _ _ => rfl) h13]
    rw [runStage_pres' (fun dd => dd.videos) (fun _ _ => rfl) h12]
    rw [runStage_pres' (fun dd => dd.videos) (fun _ _ => rfl) h11]
    rw [runStage_pres' (fun dd => dd.videos) (fun _ _ => rfl) h10]
    rw [runStage_pres' (fun dd => dd.videos) (fun _ _ => rfl) h9]
    rw [runStage_pres' (fun dd => dd.videos) (fun _ _ => rfl) h8]
  have e8 : dF.controllers = d8.controllers := by
    rw [hvs, vsockStage_controllers]
    rw [runStage_pres' (fun dd => dd.controllers) (fun _ _ => rfl) h19]
    rw [runStage_pres' (fun dd => dd.controllers) (fun _ _ => rfl) h18]
    rw [runStage_pres' (fun dd => dd.controllers) (fun _ _ => rfl) h17]
    rw [memballoonStage_controllers, watchdogStage_controllers]
    rw [runStage_pres' (fun dd => dd.controllers) (fun _ _ => rfl) h16]
    rw [runStage_pres' (fun dd => dd.controllers) (fun _ _ => rfl) h15]
    rw [runStage_pres' (fun dd => dd.controllers) (fun _ _ => rfl) h14]
    rw [runStage_pres' (fun dd => dd.controllers) (fun _ _ => rfl) h13]
    rw [runStage_pres' (fun dd => dd.controllers) (fun _ _ => rfl) h12]
    rw [runStage_pres' (fun dd => dd.controllers) (fun _ _ => rfl) h11]
    rw [runStage_pres' (fun dd => dd.controllers) (fun _ _ => rfl) h10]
    rw [runStage_pres' (fun dd => dd.controllers) (fun _ _ => rfl) h9]
  have e9 : dF.inputs = d9.inputs := by
    rw [hvs, vsockStage_inputs]
    rw [runStage_pres' (fun dd => dd.inputs) (fun _ _ => rfl) h19]
    rw [runStage_pres' (fun dd => dd.inputs) (fun _ _ => rfl) h18]
    rw [runStage_pres' (fun dd => dd.inputs) (fun _ _ => rfl) h17]
    rw [memballoonStage_inputs, watchdogStage_inputs]
    rw [runStage_pres' (fun dd => dd.inputs) (fun _ _ => rfl) h16]
    rw [runStage_pres' (fun dd => dd.inputs) (fun _ _ => rfl) h15]
    rw [runStage_pres' (fun dd => dd.inputs) (fun _ _ => rfl) h14]
    rw [runStage_pres' (fun dd => dd.inputs) (fun _ _ => rfl) h13]
    rw [runStage_pres' (fun dd => dd.inputs) (fun _ _ => rfl) h12]
    rw [runStage_pres' (fun dd => dd.inputs) (fun _ _ => rfl) h11]
    rw [runStage_pres' (fun dd => dd.inputs) (fun _ _ => rfl) h10]
  have e10 : dF.parallels = d10.parallels := by
    rw [hvs, vsockStage_parallels]
    rw [runStage_pres' (fun dd => dd.parallels) (fun _ _ => rfl) h19]
    rw [runStage_pres' (fun dd => dd.parallels) (fun _ _ => rfl) h18]
    rw [runStage_pres' (fun dd => dd.parallels) (fun _ _ => rfl) h17]
    rw [memballoonStage_parallels, watchdogStage_parallels]
    rw [runStage_pres' (fun dd => dd.parallels) (fun _ _ => rfl) h16]
    rw [runStage_pres' (fun dd => dd.parallels) (fun _ _ => rfl) h15]
    rw [runStage_pres' (fun dd => dd.parallels) (fun _ _ => rfl) h14]
    rw [runStage_pres' (fun dd => dd.parallels) (fun _ _ => rfl) h13]
    rw [runStage_pres' (fun dd => dd.parallels) (fun _ _ => rfl) h12]
    rw [runStage_pres' (fun dd => dd.parallels) (fun _ _ => rfl) h11]
  have e11 : dF.serials = d11.serials := by
    rw [hvs, vsockStage_serials]
    rw [runStage_pres' (fun dd => dd.serials) (fun _ _ => rfl) h19]
    rw [runStage_pres' (fun dd => dd.serials) (fun _ _ => rfl) h18]
    rw [runStage_pres' (fun dd => dd.serials) (fun _ _ => rfl) h17]
    rw [memballoonStage_serials, watchdogStage_serials]
    rw [runStage_pres' (fun dd => dd.serials) (fun _ _ => rfl) h16]
    rw [runStage_pres' (fun dd => dd.serials) (fun _ _ => rfl) h15]
    rw [runStage_pres' (fun dd => dd.serials) (fun _ _ => rfl) h14]
    rw [runStage_pres' (fun dd => dd.serials) (fun _ _ => rfl) h13]
    rw [runStage_pres' (fun dd => dd.serials) (fun _ _ => rfl) h12]
  have e12 : dF.channels = d12.channels := by
    rw [hvs, vsockStage_channels]
    rw [runStage_pres' (fun dd => dd.channels) (fun _ _ => rfl) h19]
    rw [runStage_pres' (fun dd => dd.channels) (fun _ _ => rfl) h18]
    rw [runStage_pres' (fun dd => dd.channels) (fun _ _ => rfl) h17]
    rw [memballoonStage_channels, watchdogStage_channels]
    rw [runStage_pres' (fun dd => dd.channels) (fun _ _ => rfl) h16]
    rw [runStage_pres' (fun dd => dd.channels) (fun _ _ => rfl) h15]
    rw [runStage_pres' (fun dd => dd.channels) (fun _ _ => rfl) h14]
    rw [runStage_pres' (fun dd => dd.channels) (fun _ _ => rfl) h13]
  have e13 : dF.consoles = d13.consoles := by
    rw [hvs, vsockStage_consoles]
    rw [runStage_pres' (fun dd => dd.consoles) (fun _ _ => rfl) h19]
    rw [runStage_pres' (fun dd => dd.consoles) (fun _ _ => rfl) h18]
    rw [runStage_pres' (fun dd => dd.consoles) (fun _ _ => rfl) h17]
    rw [memballoonStage_consoles, watchdogStage_consoles]
    rw [runStage_pres' (fun dd => dd.consoles) (fun _ _ => rfl) h16]
    rw [runStage_pres' (fun dd => dd.consoles) (fun _ _ => rfl) h15]
    rw [runStage_pres' (fun dd => dd.consoles) (fun _ _ => rfl) h14]
  have e14 : dF.hubs = d14.hubs := by
    rw [hvs, vsockStage_hubs]
    rw [runStage_pres' (fun dd => dd.hubs) (fun _ _ => rfl) h19]
    rw [runStage_pres' (fun dd => dd.hubs) (fun _ _ => rfl) h18]
    rw [runStage_pres' (fun dd => dd.hubs) (fun _ _ => rfl) h17]
    rw [memballoonStage_hubs, watchdogStage_hubs]
    rw [runStage_pres' (fun dd => dd.hubs) (fun _ _ => rfl) h16]
    rw [runStage_pres' (fun dd => dd.hubs) (fun _ _ => rfl) h15]
  have e15 : dF.shmems = d15.shmems := by
    rw [hvs, vsockStage_shmems]
    rw [runStage_pres' (fun dd => dd.shmems) (fun _ _ => rfl) h19]
    rw [runStage_pres' (fun dd => dd.shmems) (fun _ _ => rfl) h18]
    rw [runStage_pres' (fun dd => dd.shmems) (fun _ _ => rfl) h17]
    rw [memballoonStage_shmems, watchdogStage_shmems]
    rw [runStage_pres' (fun dd => dd.shmems) (fun _ _ => rfl) h16]
  have e16 : dF.smartcards = d16.smartcards := by
    rw [hvs, vsockStage_smartcards]
    rw [runStage_pres' (fun dd => dd.smartcards) (fun _ _ => rfl) h19]
    rw [runStage_pres' (fun dd => dd.smartcards) (fun _ _ => rfl) h18]
    rw [runStage_pres' (fun dd => dd.smartcards) (fun _ _ => rfl) h17]
    rw [memballoonStage_smartcards, watchdogStage_smartcards]
  have e17 : dF.rngs = d17.rngs := by
    rw [hvs, vsockStage_rngs]
    rw [runStage_pres' (fun dd => dd.rngs) (fun _ _ => rfl) h19]
    rw [runStage_pres' (fun dd => dd.rngs) (fun _ _ => rfl) h18]
  have e18 : dF.tpms = d18.tpms := by
    rw [hvs, vsockStage_tpms]
    rw [runStage_pres' (fun dd => dd.tpms) (fun _ _ => rfl) h19]
  have e19 : dF.mems = d19.mems := by
    rw [hvs, vsockStage_mems]
  have ewd : dF.watchdog = (watchdogStage d16).watchdog := by
    rw [hvs, vsockStage_watchdog]
    rw [runStage_pres' (fun dd => dd.watchdog) (fun _ _ => rfl) h19]
    rw [runStage_pres' (fun dd => dd.watchdog) (fun _ _ => rfl) h18]
    rw [runStage_pres' (fun dd => dd.watchdog) (fun _ _ => rfl) h17]
    rw [memballoonStage_watchdog]
  have emb : dF.memballoon = (memballoonStage (watchdogStage d16)).memballoon := by
    rw [hvs, vsockStage_memballoon]
    rw [runStage_pres' (fun dd => dd.memballoon) (fun _ _ => rfl) h19]
    rw [runStage_pres' (fun dd => dd.memballoon) (fun _ _ => rfl) h18]
    rw [runStage_pres' (fun dd => dd.memballoon) (fun _ _ => rfl) h17]
  have evs : dF.vsock = (vsockStage d19).vsock := by rw [hvs]
  refine ⟨?_, ?_, ?_, ?_, ?_, ?_, ?_, ?_, ?_, ?_, ?_, ?_, ?_, ?_, ?_, ?_, ?_, ?_, ?_, ?_, ?_, ?_, ?_⟩
  · intro x hx
    exact (hall1 x (by rw [← e1]; exact hx)).1
  · intro x hx
    exact hall2 x (by rw [← e2]; exact hx)
  · intro x hx
    exact hall3 x (by rw [← e3]; exact hx)
  · intro x hx
    exact hall4 x (by rw [← e4]; exact hx)
  · intro x hx
    exact hall5 x (by rw [← e5]; exact hx)
  · intro x hx
    exact hall6 x (by rw [← e6]; exact hx)
  · intro x hx
    exact hall7 x (by rw [← e7]; exact hx)
  · intro x hx
    exact hall8 x (by rw [← e8]; exact hx)
  · intro x hx
    exact hall9 x (by rw [← e9]; exact hx)
  · intro x hx
    exact hall10 x (by rw [← e10]; exact hx)
  · intro x hx
    exact hall11 x (by rw [← e11]; exact hx)
  · intro x hx
    exact hall12 x (by rw [← e12]; exact hx)
  · intro x hx
    exact hall13 x (by rw [← e13]; exact hx)
  · intro x hx
    exact hall14 x (by rw [← e14]; exact hx)
  · intro x hx
    exact hall15 x (by rw [← e15]; exact hx)
  · intro x hx
    exact hall16 x (by rw [← e16]; exact hx)
  · intro x hx
    exact hall17 x (by rw [← e17]; exact hx)
  · intro x hx
    exact hall18 x (by rw [← e18]; exact hx)
  · intro x hx
    exact hall19 x (by rw [← e19]; exact hx)
  · intro wdev hw
    rw [ewd] at hw
    unfold watchdogStage at hw
    cases hw16 : d16.watchdog with
    | none => simp [hw16] at hw
    | some w0 =>
      rw [hw16] at hw
      dsimp only at hw
      injection hw with hw
      rw [← hw]
      exact assignWatchdog_isSome w0
  · intro b hb hbm
    rw [emb] at hb
    unfold memballoonStage at hb
    cases hb16 : (watchdogStage d16).memballoon with
    | none => simp [hb16] at hb
    | some b0 =>
      rw [hb16] at hb
      dsimp only at hb
      by_cases hm0 : b0.model ≠ MemballoonModel.mbNone
      · rw [if_pos hm0] at hb
        dsimp only at hb
        injection hb with hb
        rw [← hb]
        exact assignMemballoon_isSome b0 0
      · rw [if_neg hm0] at hb
        rw [hb16] at hb
        injection hb with hb
        rw [← hb] at hbm
        exact absurd hbm (by simpa using hm0)
  · intro v hv
    rw [evs] at hv
    unfold vsockStage at hv
    cases hv19 : d19.vsock with
    | none => simp [hv19] at hv
    | some v0 =>
      rw [hv19] at hv
      dsimp only at hv
      injection hv with hv
      rw [← hv]
      exact assignVsock_isSome v0
  · intro x hx
    exact (hall1 x (by rw [← e1]; exact hx)).2

/-- C3 (amended): after a successful run of the domain-wide alias
assignment, every device in every device collection of the domain that had
alias = None before the run has an alias afterwards — in fact every device
of the final domain carries one, including the watchdog and vsock
singletons, and the memory balloon provided its model is not "none" (a
model-none balloon is skipped by the pass and keeps alias = none). -/
theorem C3_total_coverage (d : DomainDef) (caps : QemuCaps) (dF : DomainDef)
    (h : qemuAssignDeviceAliases d caps = .ok dF) :
    (∀ x ∈ dF.disks, x.aliasOpt.isSome = true) ∧
    (∀ x ∈ dF.nets, x.aliasOpt.isSome = true) ∧
    (∀ x ∈ dF.fss, x.aliasOpt.isSome = true) ∧
    (∀ x ∈ dF.sounds, x.aliasOpt.isSome = true) ∧
    (∀ x ∈ dF.hostdevs, x.aliasOpt.isSome = true) ∧
    (∀ x ∈ dF.redirdevs, x.aliasOpt.isSome = true) ∧
    (∀ x ∈ dF.videos, x.aliasOpt.isSome = true) ∧
    (∀ x ∈ dF.controllers, x.aliasOpt.isSome = true) ∧
    (∀ x ∈ dF.inputs, x.aliasOpt.isSome = true) ∧
    (∀ x ∈ dF.parallels, x.aliasOpt.isSome = true) ∧
    (∀ x ∈ dF.serials, x.aliasOpt.isSome = true) ∧
    (∀ x ∈ dF.channels, x.aliasOpt.isSome = true) ∧
    (∀ x ∈ dF.consoles, x.aliasOpt.isSome = true) ∧
    (∀ x ∈ dF.hubs, x.aliasOpt.isSome = true) ∧
    (∀ x ∈ dF.shmems, x.aliasOpt.isSome = true) ∧
    (∀ x ∈ dF.smartcards, x.aliasOpt.isSome = true) ∧
    (∀ x ∈ dF.rngs, x.aliasOpt.isSome = true) ∧
    (∀ x ∈ dF.tpms, x.aliasOpt.isSome = true) ∧
    (∀ x ∈ dF.mems, x.aliasOpt.isSome = true) ∧
    (∀ w, dF.watchdog = some w → w.aliasOpt.isSome = true) ∧
    (∀ b, dF.memballoon = some b → b.model ≠ MemballoonModel.mbNone → b.aliasOpt.isSome = true) ∧
    (∀ v, dF.vsock = some v → v.aliasOpt.isSome = true) := by
  obtain ⟨c1, c2, c3, c4, c5, c6, c7, c8, c9, c10, c11, c12, c13, c14, c15, c16, c17, c18, c19, c20, c21, c22, c23⟩ := assignAll_spec d caps dF h
  exact ⟨c1, c2, c3, c4, c5, c6, c7, c8, c9, c10, c11, c12, c13, c14, c15, c16, c17, c18, c19, c20, c21, c22⟩

/-- Witness for C3: a concrete mixed domain (normal and hostdev-type
interfaces, a host device, watchdog and vsock) is fully aliased. -/
theorem C3_witness :
    qemuAssignDeviceAliases dC3 ⟨true, false⟩ = .ok dC3res ∧
    (∀ x ∈ dC3res.nets, x.aliasOpt.isSome = true) ∧
    (∀ w, dC3res.watchdog = some w → w.aliasOpt.isSome = true) := by
  have hrun : qemuAssignDeviceAliases dC3 ⟨true, false⟩ = .ok dC3res := by decide
  obtain ⟨c1, c2, c3, c4, c5, c6, c7, c8, c9, c10, c11, c12, c13, c14, c15, c16, c17, c18, c19, c20, c21, c22⟩ :=
    C3_total_coverage dC3 ⟨true, false⟩ dC3res hrun
  exact ⟨hrun, c2, c20⟩

/-- Pass-level no-overwrite helper: every pre-existing alias survives the
pass unchanged, positionally in every device collection. -/
theorem assignAll_preserveAll (d : DomainDef) (caps : QemuCaps) (dF : DomainDef)
    (h : qemuAssignDeviceAliases d caps = .ok dF) :
    List.Forall₂ (fun x y => ∀ a : Str, x.aliasOpt = some a → y.aliasOpt = some a) d.disks dF.disks ∧
    List.Forall₂ (fun x y => ∀ a : Str, x.aliasOpt = some a → y.aliasOpt = some a) d.nets dF.nets ∧
    List.Forall₂ (fun x y => ∀ a : Str, x.aliasOpt = some a → y.aliasOpt = some a) d.fss dF.fss ∧
    List.Forall₂ (fun x y => ∀ a : Str, x.aliasOpt = some a → y.aliasOpt = some a) d.sounds dF.sounds ∧
    List.Forall₂ (fun x y => ∀ a : Str, x.aliasOpt = some a → y.aliasOpt = some a) d.hostdevs dF.hostdevs ∧
    List.Forall₂ (fun x y => ∀ a : Str, x.aliasOpt = some a → y.aliasOpt = some a) d.redirdevs dF.redirdevs ∧
    List.Forall₂ (fun x y => ∀ a : Str, x.aliasOpt = some a → y.aliasOpt = some a) d.videos dF.videos ∧
    List.Forall₂ (fun x y => ∀ a : Str, x.aliasOpt = some a → y.aliasOpt = some a) d.controllers dF.controllers ∧
    List.Forall₂ (fun x y => ∀ a : Str, x.aliasOpt = some a → y.aliasOpt = some a) d.inputs dF.inputs ∧
    List.Forall₂ (fun x y => ∀ a : Str, x.aliasOpt = some a → y.aliasOpt = some a) d.parallels dF.parallels ∧
    List.Forall₂ (fun x y => ∀ a : Str, x.aliasOpt = some a → y.aliasOpt = some a) d.serials dF.serials ∧
    List.Forall₂ (fun x y => ∀ a : Str, x.aliasOpt = some a → y.aliasOpt = some a) d.channels dF.channels ∧
    List.Forall₂ (fun x y => ∀ a : Str, x.aliasOpt = some a → y.aliasOpt = some a) d.consoles dF.consoles ∧
    List.Forall₂ (fun x y => ∀ a : Str, x.aliasOpt = some a → y.aliasOpt = some a) d.hubs dF.hubs ∧
    List.Forall₂ (fun x y => ∀ a : Str, x.aliasOpt = some a → y.aliasOpt = some a) d.shmems dF.shmems ∧
    List.Forall₂ (fun x y => ∀ a : Str, x.aliasOpt = some a → y.aliasOpt = some a) d.smartcards dF.smartcards ∧
    List.Forall₂ (fun x y => ∀ a : Str, x.aliasOpt = some a → y.aliasOpt = some a) d.rngs dF.rngs ∧
    List.Forall₂ (fun x y => ∀ a : Str, x.aliasOpt = some a → y.aliasOpt = some a) d.tpms dF.tpms ∧
    List.Forall₂ (fun x y => ∀ a : Str, x.aliasOpt = some a → y.aliasOpt = some a) d.mems dF.mems ∧
    (∀ w a, d.watchdog = some w → w.aliasOpt = some a →
      ∃ w2, dF.watchdog = some w2 ∧ w2.aliasOpt = some a) ∧
    (∀ b a, d.memballoon = some b → b.aliasOpt = some a →
      ∃ b2, dF.memballoon = some b2 ∧ b2.aliasOpt = some a) ∧
    (∀ v a, d.vsock = some v → v.aliasOpt = some a →
      ∃ v2, dF.vsock = some v2 ∧ v2.aliasOpt = some a) := by
  obtain ⟨d1, d2, d3, d4, d5, d6, d7, d8, d9, d10, d11, d12, d13, d14, d15, d16,
    d17, d18, d19, h1, h2, h3, h4, h5, h6, h7, h8, h9, h10, h11, h12, h13, h14,
    h15, h16, h17, h18, h19, hvs⟩ := assignAll_decompose d caps dF h
  obtain ⟨proc1, hp1, hfa1⟩ := runStage_ok_spec disksL (diskStepF caps) (fun _ _ => rfl)
    (fun x y => ∀ a : Str, x.aliasOpt = some a → y.aliasOpt = some a)
    (fun _ _ _ _ hh => fun a ha => diskStep_preserve hh ha) _ _ h1
  have hfp1 : d1.disks = proc1 := hp1
  obtain ⟨proc2, hp2, hfa2⟩ := runStage_ok_spec netsL netStepF (fun _ _ => rfl)
    (fun x y => ∀ a : Str, x.aliasOpt = some a → y.aliasOpt = some a)
    (fun d i x x2 hh => fun a ha => by unfold netStepF at hh; injection hh with hh; rw [← hh]; exact assignNet_preserve d x (-1) ha) _ _ h2
  have hfp2 : d2.nets = proc2 := hp2
  obtain ⟨proc3, hp3, hfa3⟩ := runStage_ok_spec fssL fsStepF (fun _ _ => rfl)
    (fun x y => ∀ a : Str, x.aliasOpt = some a → y.aliasOpt = some a)
    (fun d i x x2 hh => fun a ha => by unfold fsStepF at hh; injection hh with hh; rw [← hh]; exact assignFS_preserve x (i : Int) ha) _ _ h3
  have hfp3 : d3.fss = proc3 := hp3
  obtain ⟨proc4, hp4, hfa4⟩ := runStage_ok_spec soundsL soundStepF (fun _ _ => rfl)
    (fun x y => ∀ a : Str, x.aliasOpt = some a → y.aliasOpt = some a)
    (fun d i x x2 hh => fun a ha => by unfold soundStepF at hh; injection hh with hh; rw [← hh]; exact assignSound_preserve x (i : Int) ha) _ _ h4
  have hfp4 : d4.sounds = proc4 := hp4
  obtain ⟨proc5, hp5, hfa5⟩ := runStage_ok_spec hostdevsL hostdevStepF (fun _ _ => rfl)
    (fun x y => ∀ a : Str, x.aliasOpt = some a → y.aliasOpt = some a)
    (fun d i x x2 hh => fun a ha => by unfold hostdevStepF at hh; injection hh with hh; rw [← hh]; exact hostdevAlias_preserve d x.aliasOpt (-1) ha) _ _ h5
  have hfp5 : d5.hostdevs = proc5 := hp5
  obtain ⟨proc6, hp6, hfa6⟩ := runStage_ok_spec redirdevsL redirdevStepF (fun _ _ => rfl)
    (fun x y => ∀ a : Str, x.aliasOpt = some a → y.aliasOpt = some a)
    (fun d i x x2 hh => fun a ha => by unfold redirdevStepF at hh; injection hh with hh; rw [← hh]; exact assignRedirdev_preserve d x (i : Int) ha) _ _ h6
  have hfp6 : d6.redirdevs = proc6 := hp6
  obtain ⟨proc7, hp7, hfa7⟩ := runStage_ok_spec videosL videoStepF (fun _ _ => rfl)
    (fun x y => ∀ a : Str, x.aliasOpt = some a → y.aliasOpt = some a)
    (fun d i x x2 hh => fun a ha => by unfold videoStepF at hh; injection hh with hh; rw [← hh]; exact assignVideo_preserve x (i : Int) ha) _ _ h7
  have hfp7 : d7.videos = proc7 := hp7
  obtain ⟨proc8, hp8, hfa8⟩ := runStage_ok_spec controllersL (controllerStepF caps) (fun _ _ => rfl)
    (fun x y => ∀ a : Str, x.aliasOpt = some a → y.aliasOpt = some a)
    (fun d i x x2 hh => fun a ha => by unfold controllerStepF at hh; injection hh with hh; rw [← hh]; exact assignController_preserve d caps x ha) _ _ h8
  have hfp8 : d8.controllers = proc8 := hp8
  obtain ⟨proc9, hp9, hfa9⟩ := runStage_ok_spec inputsL inputStepF (fun _ _ => rfl)
    (fun x y => ∀ a : Str, x.aliasOpt = some a → y.aliasOpt = some a)
    (fun d i x x2 hh => fun a ha => by unfold inputStepF at hh; injection hh with hh; rw [← hh]; exact assignInput_preserve d x (i : Int) ha) _ _ h9
  have hfp9 : d9.inputs = proc9 := hp9
  obtain ⟨proc10, hp10, hfa10⟩ := runStage_ok_spec parallelsL chrStepF (fun _ _ => rfl)
    (fun x y => ∀ a : Str, x.aliasOpt = some a → y.aliasOpt = some a)
    (fun _ _ _ _ hh => fun a ha => chrStep_preserve hh ha) _ _ h10
  have hfp10 : d10.parallels = proc10 := hp10
  obtain ⟨proc11, hp11, hfa11⟩ := runStage_ok_spec serialsL chrStepF (fun _ _ => rfl)
    (fun x y => ∀ a : Str, x.aliasOpt = some a → y.aliasOpt = some a)
    (fun _ _ _ _ hh => fun a ha => chrStep_preserve hh ha) _ _ h11
  have hfp11 : d11.serials = proc11 := hp11
  obtain ⟨proc12, hp12, hfa12⟩ := runStage_ok_spec channelsL chrStepF (fun _ _ => rfl)
    (fun x y => ∀ a : Str, x.aliasOpt = some a → y.aliasOpt = some a)
    (fun _ _ _ _ hh => fun a ha => chrStep_preserve hh ha) _ _ h12
  have hfp12 : d12.channels = proc12 := hp12
  obtain ⟨proc13, hp13, hfa13⟩ := runStage_ok_spec consolesL chrStepF (fun _ _ => rfl)
    (fun x y => ∀ a : Str, x.aliasOpt = some a → y.aliasOpt = some a)
    (fun _ _ _ _ hh => fun a ha => chrStep_preserve hh ha) _ _ h13
  have hfp13 : d13.consoles = proc13 := hp13
  obtain ⟨proc14, hp14, hfa14⟩ := runStage_ok_spec hubsL hubStepF (fun _ _ => rfl)
    (fun x y => ∀ a : Str, x.aliasOpt = some a → y.aliasOpt = some a)
    (fun d i x x2 hh => fun a ha => by unfold hubStepF at hh; injection hh with hh; rw [← hh]; exact assignHub_preserve x (i : Int) ha) _ _ h14
  have hfp14 : d14.hubs = proc14 := hp14
  obtain ⟨proc15, hp15, hfa15⟩ := runStage_ok_spec shmemsL shmemStepF (fun _ _ => rfl)
    (fun x y => ∀ a : Str, x.aliasOpt = some a → y.aliasOpt = some a)
    (fun d i x x2 hh => fun a ha => by unfold shmemStepF at hh; injection hh with hh; rw [← hh]; exact assignShmem_preserve d x (i : Int) ha) _ _ h15
  have hfp15 : d15.shmems = proc15 := hp15
  obtain ⟨proc16, hp16, hfa16⟩ := runStage_ok_spec smartcardsL smartcardStepF (fun _ _ => rfl)
    (fun x y => ∀ a : Str, x.aliasOpt = some a → y.aliasOpt = some a)
    (fun d i x x2 hh => fun a ha => by unfold smartcardStepF at hh; injection hh with hh; rw [← hh]; exact assignSmartcard_preserve x (i : Int) ha) _ _ h16
  have hfp16 : d16.smartcards = proc16 := hp16
  obtain ⟨proc17, hp17, hfa17⟩ := runStage_ok_spec rngsL rngStepF (fun _ _ => rfl)
    (fun x y => ∀ a : Str, x.aliasOpt = some a → y.aliasOpt = some a)
    (fun d i x x2 hh => fun a ha => by unfold rngStepF at hh; injection hh with hh; rw [← hh]; exact assignRNG_preserve d x ha) _ _ h17
  have hfp17 : d17.rngs = proc17 := hp17
  obtain ⟨proc18, hp18, hfa18⟩ := runStage_ok_spec tpmsL tpmStepF (fun _ _ => rfl)
    (fun x y => ∀ a : Str, x.aliasOpt = some a → y.aliasOpt = some a)
    (fun d i x x2 hh => fun a ha => by unfold tpmStepF at hh; injection hh with hh; rw [← hh]; exact assignTPM_preserve x (i : Int) ha) _ _ h18
  have hfp18 : d18.tpms = proc18 := hp18
  obtain ⟨proc19, hp19, hfa19⟩ := runStage_ok_spec memsL memStepF (fun _ _ => rfl)
    (fun x y => ∀ a : Str, x.aliasOpt = some a → y.aliasOpt = some a)
    (fun _ _ _ _ hh => fun a ha => memStep_preserve hh ha) _ _ h19
  have hfp19 : d19.mems = proc19 := hp19
  have e1 : dF.disks = d1.disks := by
    rw [hvs, vsockStage_disks]
    rw [runStage_pres' (fun dd => dd.disks) (fun _ _ => rfl) h19]
    rw [runStage_pres' (fun dd => dd.disks) (fun _ _ => rfl) h18]
    rw [runStage_pres' (fun dd => dd.disks) (fun _ _ => rfl) h17]
    rw [memballoonStage_disks, watchdogStage_disks]
    rw [runStage_pres' (fun dd => dd.disks) (fun _ _ => rfl) h16]
    rw [runStage_pres' (fun dd => dd.disks) (fun _ _ => rfl) h15]
    rw [runStage_pres' (fun dd => dd.disks) (fun _ _ => rfl) h14]
    rw [runStage_pres' (fun dd => dd.disks) (fun _ _ => rfl) h13]
    rw [runStage_pres' (fun dd => dd.disks) (fun _ _ => rfl) h12]
    rw [runStage_pres' (fun dd => dd.disks) (fun _ _ => rfl) h11]
    rw [runStage_pres' (fun dd => dd.disks) (fun _ _ => rfl) h10]
    rw [runStage_pres' (fun dd => dd.disks) (fun _ _ => rfl) h9]
    rw [runStage_pres' (fun dd => dd.disks) (fun _ _ => rfl) h8]
    rw [runStage_pres' (fun dd => dd.disks) (fun _ _ => rfl) h7]
    rw [runStage_pres' (fun dd => dd.disks) (fun _ _ => rfl) h6]
    rw [runStage_pres' (fun dd => dd.disks) (fun _ _ => rfl) h5]
    rw [runStage_pres' (fun dd => dd.disks) (fun _ _ => rfl) h4]
    rw [runStage_pres' (fun dd => dd.disks) (fun _ _ => rfl) h3]
    rw [runStage_pres' (fun dd => dd.disks) (fun _ _ => rfl) h2]
  have e2 : dF.nets = d2.nets := by
    rw [hvs, vsockStage_nets]
    rw [runStage_pres' (fun dd => dd.nets) (fun _ _ => rfl) h19]
    rw [runStage_pres' (fun dd => dd.nets) (fun _ _ => rfl) h18]
    rw [runStage_pres' (fun dd => dd.nets) (fun _ _ => rfl) h17]
    rw [memballoonStage_nets, watchdogStage_nets]
    rw [runStage_pres' (fun dd => dd.nets) (fun _ _ => rfl) h16]
    rw [runStage_pres' (fun dd => dd.nets) (fun _ _ => rfl) h15]
    rw [runStage_pres' (fun dd => dd.nets) (fun _ _ => rfl) h14]
    rw [runStage_pres' (fun dd => dd.nets) (fun _ _ => rfl) h13]
    rw [runStage_pres' (fun dd => dd.nets) (fun _ _ => rfl) h12]
    rw [runStage_pres' (fun dd => dd.nets) (fun _ _ => rfl) h11]
    rw [runStage_pres' (fun dd => dd.nets) (fun _ _ => rfl) h10]
    rw [runStage_pres' (fun dd => dd.nets) (fun _ _ => rfl) h9]
    rw [runStage_pres' (fun dd => dd.nets) (fun _ _ => rfl) h8]
    rw [runStage_pres' (fun dd => dd.nets) (fun _ _ => rfl) h7]
    rw [runStage_pres' (fun dd => dd.nets) (fun _ _ => rfl) h6]
    rw [runStage_pres' (fun dd => dd.nets) (fun _ _ => rfl) h5]
    rw [runStage_pres' (fun dd => dd.nets) (fun _ _ => rfl) h4]
    rw [runStage_pres' (fun dd => dd.nets) (fun _ _ => rfl) h3]
  have pre2 : d1.nets = d.nets := by
    rw [runStage_pres' (fun dd => dd.nets) (fun _ _ => rfl) h1]
  have e3 : dF.fss = d3.fss := by
    rw [hvs, vsockStage_fss]
    rw [runStage_pres' (fun dd => dd.fss) (fun _ _ => rfl) h19]
    rw [runStage_pres' (fun dd => dd.fss) (fun _ _ => rfl) h18]
    rw [runStage_pres' (fun dd => dd.fss) (fun _ _ => rfl) h17]
    rw [memballoonStage_fss, watchdogStage_fss]
    rw [runStage_pres' (fun dd => dd.fss) (fun _ _ => rfl) h16]
    rw [runStage_pres' (fun dd => dd.fss) (fun _ _ => rfl) h15]
    rw [runStage_pres' (fun dd => dd.fss) (fun _ _ => rfl) h14]
    rw [runStage_pres' (fun dd => dd.fss) (fun _ _ => rfl) h13]
    rw [runStage_pres' (fun dd => dd.fss) (fun _ _ => rfl) h12]
    rw [runStage_pres' (fun dd => dd.fss) (fun _ _ => rfl) h11]
    rw [runStage_pres' (fun dd => dd.fss) (fun _ _ => rfl) h10]
    rw [runStage_pres' (fun dd => dd.fss) (fun _ _ => rfl) h9]
    rw [runStage_pres' (fun dd => dd.fss) (fun _ _ => rfl) h8]
    rw [runStage_pres' (fun dd => dd.fss) (fun _ _ => rfl) h7]
    rw [runStage_pres' (fun dd => dd.fss) (fun _ _ => rfl) h6]
    rw [runStage_pres' (fun dd => dd.fss) (fun _ _ => rfl) h5]
    rw [runStage_pres' (fun dd => dd.fss) (fun _ _ => rfl) h4]
  have pre3 : d2.fss = d.fss := by
    rw [runStage_pres' (fun dd => dd.fss) (fun _ _ => rfl) h2]
    rw [runStage_pres' (fun dd => dd.fss) (fun _ _ => rfl) h1]
  have e4 : dF.sounds = d4.sounds := by
    rw [hvs, vsockStage_sounds]
    rw [runStage_pres' (fun dd => dd.sounds) (fun _ _ => rfl) h19]
    rw [runStage_pres' (fun dd => dd.sounds) (fun _ _ => rfl) h18]
    rw [runStage_pres' (fun dd => dd.sounds) (fun _ _ => rfl) h17]
    rw [memballoonStage_sounds, watchdogStage_sounds]
    rw [runStage_pres' (fun dd => dd.sounds) (fun _ _ => rfl) h16]
    rw [runStage_pres' (fun dd => dd.sounds) (fun _ _ => rfl) h15]
    rw [runStage_pres' (fun dd => dd.sounds) (fun _ _ => rfl) h14]
    rw [runStage_pres' (fun dd => dd.sounds) (fun _ _ => rfl) h13]
    rw [runStage_pres' (fun dd => dd.sounds) (fun _ _ => rfl) h12]
    rw [runStage_pres' (fun dd => dd.sounds) (fun _ _ => rfl) h11]
    rw [runStage_pres' (fun dd => dd.sounds) (fun _ _ => rfl) h10]
    rw [runStage_pres' (fun dd => dd.sounds) (fun _ _ => rfl) h9]
    rw [runStage_pres' (fun dd => dd.sounds) (fun _ _ => rfl) h8]
    rw [runStage_pres' (fun dd => dd.sounds) (fun _ _ => rfl) h7]
    rw [runStage_pres' (fun dd => dd.sounds) (fun _ _ => rfl) h6]
    rw [runStage_pres' (fun dd => dd.sounds) (fun _ _ => rfl) h5]
  have pre4 : d3.sounds = d.sounds := by
    rw [runStage_pres' (fun dd => dd.sounds) (fun _ _ => rfl) h3]
    rw [runStage_pres' (fun dd => dd.sounds) (fun _ _ => rfl) h2]
    rw [runStage_pres' (fun dd => dd.sounds) (fun _ _ => rfl) h1]
  have e5 : dF.hostdevs = d5.hostdevs := by
    rw [hvs, vsockStage_hostdevs]
    rw [runStage_pres' (fun dd => dd.hostdevs) (fun _ _ => rfl) h19]
    rw [runStage_pres' (fun dd => dd.hostdevs) (fun _ _ => rfl) h18]
    rw [runStage_pres' (fun dd => dd.hostdevs) (fun _ _ => rfl) h17]
    rw [memballoonStage_hostdevs, watchdogStage_hostdevs]
    rw [runStage_pres' (fun dd => dd.hostdevs) (fun _ _ => rfl) h16]
    rw [runStage_pres' (fun dd => dd.hostdevs) (fun _ _ => rfl) h15]
    rw [runStage_pres' (fun dd => dd.hostdevs) (fun _ _ => rfl) h14]
    rw [runStage_pres' (fun dd => dd.hostdevs) (fun _ _ => rfl) h13]
    rw [runStage_pres' (fun dd => dd.hostdevs) (fun _ _ => rfl) h12]
    rw [runStage_pres' (fun dd => dd.hostdevs) (fun _ _ => rfl) h11]
    rw [runStage_pres' (fun dd => dd.hostdevs) (fun _ _ => rfl) h10]
    rw [runStage_pres' (fun dd => dd.hostdevs) (fun _ _ => rfl) h9]
    rw [runStage_pres' (fun dd => dd.hostdevs) (fun _ _ => rfl) h8]
    rw [runStage_pres' (fun dd => dd.hostdevs) (fun _ _ => rfl) h7]
    rw [runStage_pres' (fun dd => dd.hostdevs) (fun _ _ => rfl) h6]
  have pre5 : d4.hostdevs = d.hostdevs := by
    rw [runStage_pres' (fun dd => dd.hostdevs) (fun _ _ => rfl) h4]
    rw [runStage_pres' (fun dd => dd.hostdevs) (fun _ _ => rfl) h3]
    rw [runStage_pres' (fun dd => dd.hostdevs) (fun _ _ => rfl) h2]
    rw [runStage_pres' (fun dd => dd.hostdevs) (fun _ _ => rfl) h1]
  have e6 : dF.redirdevs = d6.redirdevs := by
    rw [hvs, vsockStage_redirdevs]
    rw [runStage_pres' (fun dd => dd.redirdevs) (fun _ _ => rfl) h19]
    rw [runStage_pres' (fun dd => dd.redirdevs) (fun _ _ => rfl) h18]
    rw [runStage_pres' (fun dd => dd.redirdevs) (fun _ _ => rfl) h17]
    rw [memballoonStage_redirdevs, watchdogStage_redirdevs]
    rw [runStage_pres' (fun dd => dd.redirdevs) (fun _ _ => rfl) h16]
    rw [runStage_pres' (fun dd => dd.redirdevs) (fun _ _ => rfl) h15]
    rw [runStage_pres' (fun dd => dd.redirdevs) (fun _ _ => rfl) h14]
    rw [runStage_pres' (fun dd => dd.redirdevs) (fun _ _ => rfl) h13]
    rw [runStage_pres' (fun dd => dd.redirdevs) (fun _ _ => rfl) h12]
    rw [runStage_pres' (fun dd => dd.redirdevs) (fun _ _ => rfl) h11]
    rw [runStage_pres' (fun dd => dd.redirdevs) (fun _ _ => rfl) h10]
    rw [runStage_pres' (fun dd => dd.redirdevs) (fun _ _ => rfl) h9]
    rw [runStage_pres' (fun dd => dd.redirdevs) (fun _ _ => rfl) h8]
    rw [runStage_pres' (fun dd => dd.redirdevs) (fun _ _ => rfl) h7]
  have pre6 : d5.redirdevs = d.redirdevs := by
    rw [runStage_pres' (fun dd => dd.redirdevs) (fun _ _ => rfl) h5]
    rw [runStage_pres' (fun dd => dd.redirdevs) (fun _ _ => rfl) h4]
    rw [runStage_pres' (fun dd => dd.redirdevs) (fun _ _ => rfl) h3]
    rw [runStage_pres' (fun dd => dd.redirdevs) (fun _ _ => rfl) h2]
    rw [runStage_pres' (fun dd => dd.redirdevs) (fun _ _ => rfl) h1]
  have e7 : dF.videos = d7.videos := by
    rw [hvs, vsockStage_videos]
    rw [runStage_pres' (fun dd => dd.videos) (fun _ _ => rfl) h19]
    rw [runStage_pres' (fun dd => dd.videos) (fun _ _ => rfl) h18]
    rw [runStage_pres' (fun dd => dd.videos) (fun _ _ => rfl) h17]
    rw [memballoonStage_videos, watchdogStage_videos]
    rw [runStage_pres' (fun dd => dd.videos) (fun _ _ => rfl) h16]
    rw [runStage_pres' (fun dd => dd.videos) (fun _ _ => rfl) h15]
    rw [runStage_pres' (fun dd => dd.videos) (fun _ _ => rfl) h14]
    rw [runStage_pres' (fun dd => dd.videos) (fun _ _ => rfl) h13]
    rw [runStage_pres' (fun dd => dd.videos) (fun _ _ => rfl) h12]
    rw [runStage_pres' (fun dd => dd.videos) (fun _ _ => rfl) h11]
    rw [runStage_pres' (fun dd => dd.videos) (fun _ _ => rfl) h10]
    rw [runStage_pres' (fun dd => dd.videos) (fun _ _ => rfl) h9]
    rw [runStage_pres' (fun dd => dd.videos) (fun _ _ => rfl) h8]
  have pre7 : d6.videos = d.videos := by
    rw [runStage_pres' (fun dd => dd.videos) (fun _ _ => rfl) h6]
    rw [runStage_pres' (fun dd => dd.videos) (fun _ _ => rfl) h5]
    rw [runStage_pres' (fun dd => dd.videos) (fun _ _ => rfl) h4]
    rw [runStage_pres' (fun dd => dd.videos) (fun _ _ => rfl) h3]
    rw [runStage_pres' (fun dd => dd.videos) (fun _ _ => rfl) h2]
    rw [runStage_pres' (fun dd => dd.videos) (fun _ _ => rfl) h1]
  have e8 : dF.controllers = d8.controllers := by
    rw [hvs, vsockStage_controllers]
    rw [runStage_pres' (fun dd => dd.controllers) (fun _ _ => rfl) h19]
    rw [runStage_pres' (fun dd => dd.controllers) (fun _ _ => rfl) h18]
    rw [runStage_pres' (fun dd => dd.controllers) (fun _ _ => rfl) h17]
    rw [memballoonStage_controllers, watchdogStage_controllers]
    rw [runStage_pres' (fun dd => dd.controllers) (fun _ _ => rfl) h16]
    rw [runStage_pres' (fun dd => dd.controllers) (fun _ _ => rfl) h15]
    rw [runStage_pres' (fun dd => dd.controllers) (fun _ _ => rfl) h14]
    rw [runStage_pres' (fun dd => dd.controllers) (fun _ _ => rfl) h13]
    rw [runStage_pres' (fun dd => dd.controllers) (fun _ _ => rfl) h12]
    rw [runStage_pres' (fun dd => dd.controllers) (fun _ _ => rfl) h11]
    rw [runStage_pres' (fun dd => dd.controllers) (fun _ _ => rfl) h10]
    rw [runStage_pres' (fun dd => dd.controllers) (fun _ _ => rfl) h9]
  have pre8 : d7.controllers = d.controllers := by
    rw [runStage_pres' (fun dd => dd.controllers) (fun _ _ => rfl) h7]
    rw [runStage_pres' (fun dd => dd.controllers) (fun _ _ => rfl) h6]
    rw [runStage_pres' (fun dd => dd.controllers) (fun _ _ => rfl) h5]
    rw [runStage_pres' (fun dd => dd.controllers) (fun _ _ => rfl) h4]
    rw [runStage_pres' (fun dd => dd.controllers) (fun _ _ => rfl) h3]
    rw [runStage_pres' (fun dd => dd.controllers) (fun _ _ => rfl) h2]
    rw [runStage_pres' (fun dd => dd.controllers) (fun _ _ => rfl) h1]
  have e9 : dF.inputs = d9.inputs := by
    rw [hvs, vsockStage_inputs]
    rw [runStage_pres' (fun dd => dd.inputs) (fun _ _ => rfl) h19]
    rw [runStage_pres' (fun dd => dd.inputs) (fun _ _ => rfl) h18]
    rw [runStage_pres' (fun dd => dd.inputs) (fun _ _ => rfl) h17]
    rw [memballoonStage_inputs, watchdogStage_inputs]
    rw [runStage_pres' (fun dd => dd.inputs) (fun _ _ => rfl) h16]
    rw [runStage_pres' (fun dd => dd.inputs) (fun _ _ => rfl) h15]
    rw [runStage_pres' (fun dd => dd.inputs) (fun _ _ => rfl) h14]
    rw [runStage_pres' (fun dd => dd.inputs) (fun _ _ => rfl) h13]
    rw [runStage_pres' (fun dd => dd.inputs) (fun _ _ => rfl) h12]
    rw [runStage_pres' (fun dd => dd.inputs) (fun _ _ => rfl) h11]
    rw [runStage_pres' (fun dd => dd.inputs) (fun _ _ => rfl) h10]
  have pre9 : d8.inputs = d.inputs := by
    rw [runStage_pres' (fun dd => dd.inputs) (fun _ _ => rfl) h8]
    rw [runStage_pres' (fun dd => dd.inputs) (fun _ _ => rfl) h7]
    rw [runStage_pres' (fun dd => dd.inputs) (fun _ _ => rfl) h6]
    rw [runStage_pres' (fun dd => dd.inputs) (fun _ _ => rfl) h5]
    rw [runStage_pres' (fun dd => dd.inputs) (fun _ _ => rfl) h4]
    rw [runStage_pres' (fun dd => dd.inputs) (fun _ _ => rfl) h3]
    rw [runStage_pres' (fun dd => dd.inputs) (fun _ _ => rfl) h2]
    rw [runStage_pres' (fun dd => dd.inputs) (fun _ _ => rfl) h1]
  have e10 : dF.parallels = d10.parallels := by
    rw [hvs, vsockStage_parallels]
    rw [runStage_pres' (fun dd => dd.parallels) (fun _ _ => rfl) h19]
    rw [runStage_pres' (fun dd => dd.parallels) (fun _ _ => rfl) h18]
    rw [runStage_pres' (fun dd => dd.parallels) (fun _ _ => rfl) h17]
    rw [memballoonStage_parallels, watchdogStage_parallels]
    rw [runStage_pres' (fun dd => dd.parallels) (fun _ _ => rfl) h16]
    rw [runStage_pres' (fun dd => dd.parallels) (fun _ _ => rfl) h15]
    rw [runStage_pres' (fun dd => dd.parallels) (fun _ _ => rfl) h14]
    rw [runStage_pres' (fun dd => dd.parallels) (fun _ _ => rfl) h13]
    rw [runStage_pres' (fun dd => dd.parallels) (fun _ _ => rfl) h12]
    rw [runStage_pres' (fun dd => dd.parallels) (fun _ _ => rfl) h11]
  have pre10 : d9.parallels = d.parallels := by
    rw [runStage_pres' (fun dd => dd.parallels) (fun _ _ => rfl) h9]
    rw [runStage_pres' (fun dd => dd.parallels) (fun _ _ => rfl) h8]
    rw [runStage_pres' (fun dd => dd.parallels) (fun _ _ => rfl) h7]
    rw [runStage_pres' (fun dd => dd.parallels) (fun _ _ => rfl) h6]
    rw [runStage_pres' (fun dd => dd.parallels) (fun _ _ => rfl) h5]
    rw [runStage_pres' (fun dd => dd.parallels) (fun _ _ => rfl) h4]
    rw [runStage_pres' (fun dd => dd.parallels) (fun _ _ => rfl) h3]
    rw [runStage_pres' (fun dd => dd.parallels) (fun _ _ => rfl) h2]
    rw [runStage_pres' (fun dd => dd.parallels) (fun _ _ => rfl) h1]
  have e11 : dF.serials = d11.serials := by
    rw [hvs, vsockStage_serials]
    rw [runStage_pres' (fun dd => dd.serials) (fun _ _ => rfl) h19]
    rw [runStage_pres' (fun dd => dd.serials) (fun _ _ => rfl) h18]
    rw [runStage_pres' (fun dd => dd.serials) (fun _ _ => rfl) h17]
    rw [memballoonStage_serials, watchdogStage_serials]
    rw [runStage_pres' (fun dd => dd.serials) (fun _ _ => rfl) h16]
    rw [runStage_pres' (fun dd => dd.serials) (fun _ _ => rfl) h15]
    rw [runStage_pres' (fun dd => dd.serials) (fun _ _ => rfl) h14]
    rw [runStage_pres' (fun dd => dd.serials) (fun _ _ => rfl) h13]
    rw [runStage_pres' (fun dd => dd.serials) (fun _ _ => rfl) h12]
  have pre11 : d10.serials = d.serials := by
    rw [runStage_pres' (fun dd => dd.serials) (fun _ _ => rfl) h10]
    rw [runStage_pres' (fun dd => dd.serials) (fun _ _ => rfl) h9]
    rw [runStage_pres' (fun dd => dd.serials) (fun _ _ => rfl) h8]
    rw [runStage_pres' (fun dd => dd.serials) (fun _ _ => rfl) h7]
    rw [runStage_pres' (fun dd => dd.serials) (fun _ _ => rfl) h6]
    rw [runStage_pres' (fun dd => dd.serials) (fun _ _ => rfl) h5]
    rw [runStage_pres' (fun dd => dd.serials) (fun _ _ => rfl) h4]
    rw [runStage_pres' (fun dd => dd.serials) (fun _ _ => rfl) h3]
    rw [runStage_pres' (fun dd => dd.serials) (fun _ _ => rfl) h2]
    rw [runStage_pres' (fun dd => dd.serials) (fun _ _ => rfl) h1]
  have e12 : dF.channels = d12.channels := by
    rw [hvs, vsockStage_channels]
    rw [runStage_pres' (fun dd => dd.channels) (fun _ _ => rfl) h19]
    rw [runStage_pres' (fun dd => dd.channels) (fun _ _ => rfl) h18]
    rw [runStage_pres' (fun dd => dd.channels) (fun _ _ => rfl) h17]
    rw [memballoonStage_channels, watchdogStage_channels]
    rw [runStage_pres' (fun dd => dd.channels) (fun _ _ => rfl) h16]
    rw [runStage_pres' (fun dd => dd.channels) (fun _ _ => rfl) h15]
    rw [runStage_pres' (fun dd => dd.channels) (fun _ _ => rfl) h14]
    rw [runStage_pres' (fun dd => dd.channels) (fun _ _ => rfl) h13]
  have pre12 : d11.channels = d.channels := by
    rw [runStage_pres' (fun dd => dd.channels) (fun _ _ => rfl) h11]
    rw [runStage_pres' (fun dd => dd.channels) (fun _ _ => rfl) h10]
    rw [runStage_pres' (fun dd => dd.channels) (fun _ _ => rfl) h9]
    rw [runStage_pres' (fun dd => dd.channels) (fun _ _ => rfl) h8]
    rw [runStage_pres' (fun dd => dd.channels) (fun _ _ => rfl) h7]
    rw [runStage_pres' (fun dd => dd.channels) (fun _ _ => rfl) h6]
    rw [runStage_pres' (fun dd => dd.channels) (fun _ _ => rfl) h5]
    rw [runStage_pres' (fun dd => dd.channels) (fun _ _ => rfl) h4]
    rw [runStage_pres' (fun dd => dd.channels) (fun _ _ => rfl) h3]
    rw [runStage_pres' (fun dd => dd.channels) (fun _ _ => rfl) h2]
    rw [runStage_pres' (fun dd => dd.channels) (fun _ _ => rfl) h1]
  have e13 : dF.consoles = d13.consoles := by
    rw [hvs, vsockStage_consoles]
    rw [runStage_pres' (fun dd => dd.consoles) (fun _ _ => rfl) h19]
    rw [runStage_pres' (fun dd => dd.consoles) (fun _ _ => rfl) h18]
    rw [runStage_pres' (fun dd => dd.consoles) (fun _ _ => rfl) h17]
    rw [memballoonStage_consoles, watchdogStage_consoles]
    rw [runStage_pres' (fun dd => dd.consoles) (fun _ _ => rfl) h16]
    rw [runStage_pres' (fun dd => dd.consoles) (fun _ _ => rfl) h15]
    rw [runStage_pres' (fun dd => dd.consoles) (fun _ _ => rfl) h14]
  have pre13 : d12.consoles = d.consoles := by
    rw [runStage_pres' (fun dd => dd.consoles) (fun _ _ => rfl) h12]
    rw [runStage_pres' (fun dd => dd.consoles) (fun _ _ => rfl) h11]
    rw [runStage_pres' (fun dd => dd.consoles) (fun _ _ => rfl) h10]
    rw [runStage_pres' (fun dd => dd.consoles) (fun _ _ => rfl) h9]
    rw [runStage_pres' (fun dd => dd.consoles) (fun _ _ => rfl) h8]
    rw [runStage_pres' (fun dd => dd.consoles) (fun _ _ => rfl) h7]
    rw [runStage_pres' (fun dd => dd.consoles) (fun _ _ => rfl) h6]
    rw [runStage_pres' (fun dd => dd.consoles) (fun _ _ => rfl) h5]
    rw [runStage_pres' (fun dd => dd.consoles) (fun _ _ => rfl) h4]
    rw [runStage_pres' (fun dd => dd.consoles) (fun _ _ => rfl) h3]
    rw [runStage_pres' (fun dd => dd.consoles) (fun _ _ => rfl) h2]
    rw [runStage_pres' (fun dd => dd.consoles) (fun _ _ => rfl) h1]
  have e14 : dF.hubs = d14.hubs := by
    rw [hvs, vsockStage_hubs]
    rw [runStage_pres' (fun dd => dd.hubs) (fun _ _ => rfl) h19]
    rw [runStage_pres' (fun dd => dd.hubs) (fun _ _ => rfl) h18]
    rw [runStage_pres' (fun dd => dd.hubs) (fun _ _ => rfl) h17]
    rw [memballoonStage_hubs, watchdogStage_hubs]
    rw [runStage_pres' (fun dd => dd.hubs) (fun _ _ => rfl) h16]
    rw [runStage_pres' (fun dd => dd.hubs) (fun _ _ => rfl) h15]
  have pre14 : d13.hubs = d.hubs := by
    rw [runStage_pres' (fun dd => dd.hubs) (fun _ _ => rfl) h13]
    rw [runStage_pres' (fun dd => dd.hubs) (fun _ _ => rfl) h12]
    rw [runStage_pres' (fun dd => dd.hubs) (fun _ _ => rfl) h11]
    rw [runStage_pres' (fun dd => dd.hubs) (fun _ _ => rfl) h10]
    rw [runStage_pres' (fun dd => dd.hubs) (fun _ _ => rfl) h9]
    rw [runStage_pres' (fun dd => dd.hubs) (fun _ _ => rfl) h8]
    rw [runStage_pres' (fun dd => dd.hubs) (fun _ _ => rfl) h7]
    rw [runStage_pres' (fun dd => dd.hubs) (fun _ _ => rfl) h6]
    rw [runStage_pres' (fun dd => dd.hubs) (fun _ _ => rfl) h5]
    rw [runStage_pres' (fun dd => dd.hubs) (fun _ _ => rfl) h4]
    rw [runStage_pres' (fun dd => dd.hubs) (fun _ _ => rfl) h3]
    rw [runStage_pres' (fun dd => dd.hubs) (fun _ _ => rfl) h2]
    rw [runStage_pres' (fun dd => dd.hubs) (fun _ _ => rfl) h1]
  have e15 : dF.shmems = d15.shmems := by
    rw [hvs, vsockStage_shmems]
    rw [runStage_pres' (fun dd => dd.shmems) (fun _ _ => rfl) h19]
    rw [runStage_pres' (fun dd => dd.shmems) (fun _ _ => rfl) h18]
    rw [runStage_pres' (fun dd => dd.shmems) (fun _ _ => rfl) h17]
    rw [memballoonStage_shmems, watchdogStage_shmems]
    rw [runStage_pres' (fun dd => dd.shmems) (fun _ _ => rfl) h16]
  have pre15 : d14.shmems = d.shmems := by
    rw [runStage_pres' (fun dd => dd.shmems) (fun _ _ => rfl) h14]
    rw [runStage_pres' (fun dd => dd.shmems) (fun _ _ => rfl) h13]
    rw [runStage_pres' (fun dd => dd.shmems) (fun _ _ => rfl) h12]
    rw [runStage_pres' (fun dd => dd.shmems) (fun _ _ => rfl) h11]
    rw [runStage_pres' (fun dd => dd.shmems) (fun _ _ => rfl) h10]
    rw [runStage_pres' (fun dd => dd.shmems) (fun _ _ => rfl) h9]
    rw [runStage_pres' (fun dd => dd.shmems) (fun _ _ => rfl) h8]
    rw [runStage_pres' (fun dd => dd.shmems) (fun _ _ => rfl) h7]
    rw [runStage_pres' (fun dd => dd.shmems) (fun _ _ => rfl) h6]
    rw [runStage_pres' (fun dd => dd.shmems) (fun _ _ => rfl) h5]
    rw [runStage_pres' (fun dd => dd.shmems) (fun _ _ => rfl) h4]
    rw [runStage_pres' (fun dd => dd.shmems) (fun _ _ => rfl) h3]
    rw [runStage_pres' (fun dd => dd.shmems) (fun _ _ => rfl) h2]
    rw [runStage_pres' (fun dd => dd.shmems) (fun _ _ => rfl) h1]
  have e16 : dF.smartcards = d16.smartcards := by
    rw [hvs, vsockStage_smartcards]
    rw [runStage_pres' (fun dd => dd.smartcards) (fun _ _ => rfl) h19]
    rw [runStage_pres' (fun dd => dd.smartcards) (fun _ _ => rfl) h18]
    rw [runStage_pres' (fun dd => dd.smartcards) (fun _ _ => rfl) h17]
    rw [memballoonStage_smartcards, watchdogStage_smartcards]
  have pre16 : d15.smartcards = d.smartcards := by
    rw [runStage_pres' (fun dd => dd.smartcards) (fun _ _ => rfl) h15]
    rw [runStage_pres' (fun dd => dd.smartcards) (fun _ _ => rfl) h14]
    rw [runStage_pres' (fun dd => dd.smartcards) (fun _ _ => rfl) h13]
    rw [runStage_pres' (fun dd => dd.smartcards) (fun _ _ => rfl) h12]
    rw [runStage_pres' (fun dd => dd.smartcards) (fun _ _ => rfl) h11]
    rw [runStage_pres' (fun dd => dd.smartcards) (fun _ _ => rfl) h10]
    rw [runStage_pres' (fun dd => dd.smartcards) (fun _ _ => rfl) h9]
    rw [runStage_pres' (fun dd => dd.smartcards) (fun _ _ => rfl) h8]
    rw [runStage_pres' (fun dd => dd.smartcards) (fun _ _ => rfl) h7]
    rw [runStage_pres' (fun dd => dd.smartcards) (fun _ _ => rfl) h6]
    rw [runStage_pres' (fun dd => dd.smartcards) (fun _ _ => rfl) h5]
    rw [runStage_pres' (fun dd => dd.smartcards) (fun _ _ => rfl) h4]
    rw [runStage_pres' (fun dd => dd.smartcards) (fun _ _ => rfl) h3]
    rw [runStage_pres' (fun dd => dd.smartcards) (fun _ _ => rfl) h2]
    rw [runStage_pres' (fun dd => dd.smartcards) (fun _ _ => rfl) h1]
  have e17 : dF.rngs = d17.rngs := by
    rw [hvs, vsockStage_rngs]
    rw [runStage_pres' (fun dd => dd.rngs) (fun _ _ => rfl) h19]
    rw [runStage_pres' (fun dd => dd.rngs) (fun _ _ => rfl) h18]
  have pre17 : (memballoonStage (watchdogStage d16)).rngs = d.rngs := by
    rw [memballoonStage_rngs, watchdogStage_rngs]
    rw [runStage_pres' (fun dd => dd.rngs) (fun _ _ => rfl) h16]
    rw [runStage_pres' (fun dd => dd.rngs) (fun _ _ => rfl) h15]
    rw [runStage_pres' (fun dd => dd.rngs) (fun _ _ => rfl) h14]
    rw [runStage_pres' (fun dd => dd.rngs) (fun _ _ => rfl) h13]
    rw [runStage_pres' (fun dd => dd.rngs) (fun _ _ => rfl) h12]
    rw [runStage_pres' (fun dd => dd.rngs) (fun _ _ => rfl) h11]
    rw [runStage_pres' (fun dd => dd.rngs) (fun _ _ => rfl) h10]
    rw [runStage_pres' (fun dd => dd.rngs) (fun _ _ => rfl) h9]
    rw [runStage_pres' (fun dd => dd.rngs) (fun _ _ => rfl) h8]
    rw [runStage_pres' (fun dd => dd.rngs) (fun _ _ => rfl) h7]
    rw [runStage_pres' (fun dd => dd.rngs) (fun _ _ => rfl) h6]
    rw [runStage_pres' (fun dd => dd.rngs) (fun _ _ => rfl) h5]
    rw [runStage_pres' (fun dd => dd.rngs) (fun _ _ => rfl) h4]
    rw [runStage_pres' (fun dd => dd.rngs) (fun _ _ => rfl) h3]
    rw [runStage_pres' (fun dd => dd.rngs) (fun _ _ => rfl) h2]
    rw [runStage_pres' (fun dd => dd.rngs) (fun _ _ => rfl) h1]
  have e18 : dF.tpms = d18.tpms := by
    rw [hvs, vsockStage_tpms]
    rw [runStage_pres' (fun dd => dd.tpms) (fun _ _ => rfl) h19]
  have pre18 : d17.tpms = d.tpms := by
    rw [runStage_pres' (fun dd => dd.tpms) (fun _ _ => rfl) h17]
    rw [memballoonStage_tpms, watchdogStage_tpms]
    rw [runStage_pres' (fun dd => dd.tpms) (fun _ _ => rfl) h16]
    rw [runStage_pres' (fun dd => dd.tpms) (fun _ _ => rfl) h15]
    rw [runStage_pres' (fun dd => dd.tpms) (fun _ _ => rfl) h14]
    rw [runStage_pres' (fun dd => dd.tpms) (fun _ _ => rfl) h13]
    rw [runStage_pres' (fun dd => dd.tpms) (fun _ _ => rfl) h12]
    rw [runStage_pres' (fun dd => dd.tpms) (fun _ _ => rfl) h11]
    rw [runStage_pres' (fun dd => dd.tpms) (fun _ _ => rfl) h10]
    rw [runStage_pres' (fun dd => dd.tpms) (fun _ _ => rfl) h9]
    rw [runStage_pres' (fun dd => dd.tpms) (fun _ _ => rfl) h8]
    rw [runStage_pres' (fun dd => dd.tpms) (fun _ _ => rfl) h7]
    rw [runStage_pres' (fun dd => dd.tpms) (fun _ _ => rfl) h6]
    rw [runStage_pres' (fun dd => dd.tpms) (fun _ _ => rfl) h5]
    rw [runStage_pres' (fun dd => dd.tpms) (fun _ _ => rfl) h4]
    rw [runStage_pres' (fun dd => dd.tpms) (fun _ _ => rfl) h3]
    rw [runStage_pres' (fun dd => dd.tpms) (fun _ _ => rfl) h2]
    rw [runStage_pres' (fun dd => dd.tpms) (fun _ _ => rfl) h1]
  have e19 : dF.mems = d19.mems := by
    rw [hvs, vsockStage_mems]
  have pre19 : d18.mems = d.mems := by
    rw [runStage_pres' (fun dd => dd.mems) (fun _ _ => rfl) h18]
    rw [runStage_pres' (fun dd => dd.mems) (fun _ _ => rfl) h17]
    rw [memballoonStage_mems, watchdogStage_mems]
    rw [runStage_pres' (fun dd => dd.mems) (fun _ _ => rfl) h16]
    rw [runStage_pres' (fun dd => dd.mems) (fun _ _ => rfl) h15]
    rw [runStage_pres' (fun dd => dd.mems) (fun _ _ => rfl) h14]
    rw [runStage_pres' (fun dd => dd.mems) (fun _ _ => rfl) h13]
    rw [runStage_pres' (fun dd => dd.mems) (fun _ _ => rfl) h12]
    rw [runStage_pres' (fun dd => dd.mems) (fun _ _ => rfl) h11]
    rw [runStage_pres' (fun dd => dd.mems) (fun _ _ => rfl) h10]
    rw [runStage_pres' (fun dd => dd.mems) (fun _ _ => rfl) h9]
    rw [runStage_pres' (fun dd => dd.mems) (fun _ _ => rfl) h8]
    rw [runStage_pres' (fun dd => dd.mems) (fun _ _ => rfl) h7]
    rw [runStage_pres' (fun dd => dd.mems) (fun _ _ => rfl) h6]
    rw [runStage_pres' (fun dd => dd.mems) (fun _ _ => rfl) h5]
    rw [runStage_pres' (fun dd => dd.mems) (fun _ _ => rfl) h4]
    rw [runStage_pres' (fun dd => dd.mems) (fun _ _ => rfl) h3]
    rw [runStage_pres' (fun dd => dd.mems) (fun _ _ => rfl) h2]
    rw [runStage_pres' (fun dd => dd.mems) (fun _ _ => rfl) h1]
  have ewd : dF.watchdog = (watchdogStage d16).watchdog := by
    rw [hvs, vsockStage_watchdog]
    rw [runStage_pres' (fun dd => dd.watchdog) (fun _ _ => rfl) h19]
    rw [runStage_pres' (fun dd => dd.watchdog) (fun _ _ => rfl) h18]
    rw [runStage_pres' (fun dd => dd.watchdog) (fun _ _ => rfl) h17]
    rw [memballoonStage_watchdog]
  have prewd : d16.watchdog = d.watchdog := by
    rw [runStage_pres' (fun dd => dd.watchdog) (fun _ _ => rfl) h16]
    rw [runStage_pres' (fun dd => dd.watchdog) (fun _ _ => rfl) h15]
    rw [runStage_pres' (fun dd => dd.watchdog) (fun _ _ => rfl) h14]
    rw [runStage_pres' (fun dd => dd.watchdog) (fun _ _ => rfl) h13]
    rw [runStage_pres' (fun dd => dd.watchdog) (fun _ _ => rfl) h12]
    rw [runStage_pres' (fun dd => dd.watchdog) (fun _ _ => rfl) h11]
    rw [runStage_pres' (fun dd => dd.watchdog) (fun _ _ => rfl) h10]
    rw [runStage_pres' (fun dd => dd.watchdog) (fun _ _ => rfl) h9]
    rw [runStage_pres' (fun dd => dd.watchdog) (fun _ _ => rfl) h8]
    rw [runStage_pres' (fun dd => dd.watchdog) (fun _ _ => rfl) h7]
    rw [runStage_pres' (fun dd => dd.watchdog) (fun _ _ => rfl) h6]
    rw [runStage_pres' (fun dd => dd.watchdog) (fun _ _ => rfl) h5]
    rw [runStage_pres' (fun dd => dd.watchdog) (fun _ _ => rfl) h4]
    rw [runStage_pres' (fun dd => dd.watchdog) (fun _ _ => rfl) h3]
    rw [runStage_pres' (fun dd => dd.watchdog) (fun _ _ => rfl) h2]
    rw [runStage_pres' (fun dd => dd.watchdog) (fun _ _ => rfl) h1]
  have emb : dF.memballoon = (memballoonStage (watchdogStage d16)).memballoon := by
    rw [hvs, vsockStage_memballoon]
    rw [runStage_pres' (fun dd => dd.memballoon) (fun _ _ => rfl) h19]
    rw [runStage_pres' (fun dd => dd.memballoon) (fun _ _ => rfl) h18]
    rw [runStage_pres' (fun dd => dd.memballoon) (fun _ _ => rfl) h17]
  have premb : (watchdogStage d16).memballoon = d.memballoon := by
    rw [watchdogStage_memballoon]
    rw [runStage_pres' (fun dd => dd.memballoon) (fun _ _ => rfl) h16]
    rw [runStage_pres' (fun dd => dd.memballoon) (fun _ _ => rfl) h15]
    rw [runStage_pres' (fun dd => dd.memballoon) (fun _ _ => rfl) h14]
    rw [runStage_pres' (fun dd => dd.memballoon) (fun _ _ => rfl) h13]
    rw [runStage_pres' (fun dd => dd.memballoon) (fun _ _ => rfl) h12]
    rw [runStage_pres' (fun dd => dd.memballoon) (fun _ _ => rfl) h11]
    rw [runStage_pres' (fun dd => dd.memballoon) (fun _ _ => rfl) h10]
    rw [runStage_pres' (fun dd => dd.memballoon) (fun _ _ => rfl) h9]
    rw [runStage_pres' (fun dd => dd.memballoon) (fun _ _ => rfl) h8]
    rw [runStage_pres' (fun dd => dd.memballoon) (fun _ _ => rfl) h7]
    rw [runStage_pres' (fun dd => dd.memballoon) (fun _ _ => rfl) h6]
    rw [runStage_pres' (fun dd => dd.memballoon) (fun _ _ => rfl) h5]
    rw [runStage_pres' (fun dd => dd.memballoon) (fun _ _ => rfl) h4]
    rw [runStage_pres' (fun dd => dd.memballoon) (fun _ _ => rfl) h3]
    rw [runStage_pres' (fun dd => dd.memballoon) (fun _ _ => rfl) h2]
    rw [runStage_pres' (fun dd => dd.memballoon) (fun _ _ => rfl) h1]
  have evs : dF.vsock = (vsockStage d19).vsock := by rw [hvs]
  have prevs : d19.vsock = d.vsock := by
    rw [runStage_pres' (fun dd => dd.vsock) (fun _ _ => rfl) h19]
    rw [runStage_pres' (fun dd => dd.vsock) (fun _ _ => rfl) h18]
    rw [runStage_pres' (fun dd => dd.vsock) (fun _ _ => rfl) h17]
    rw [memballoonStage_vsock, watchdogStage_vsock]
    rw [runStage_pres' (fun dd => dd.vsock) (fun _ _ => rfl) h16]
    rw [runStage_pres' (fun dd => dd.vsock) (fun _ _ => rfl) h15]
    rw [runStage_pres' (fun dd => dd.vsock) (fun _ _ => rfl) h14]
    rw [runStage_pres' (fun dd => dd.vsock) (fun _ _ => rfl) h13]
    rw [runStage_pres' (fun dd => dd.vsock) (fun _ _ => rfl) h12]
    rw [runStage_pres' (fun dd => dd.vsock) (fun _ _ => rfl) h11]
    rw [runStage_pres' (fun dd => dd.vsock) (fun _ _ => rfl) h10]
    rw [runStage_pres' (fun dd => dd.vsock) (fun _ _ => rfl) h9]
    rw [runStage_pres' (fun dd => dd.vsock) (fun _ _ => rfl) h8]
    rw [runStage_pres' (fun dd => dd.vsock) (fun _ _ => rfl) h7]
    rw [runStage_pres' (fun dd => dd.vsock) (fun _ _ => rfl) h6]
    rw [runStage_pres' (fun dd => dd.vsock) (fun _ _ => rfl) h5]
    rw [runStage_pres' (fun dd => dd.vsock) (fun _ _ => rfl) h4]
    rw [runStage_pres' (fun dd => dd.vsock) (fun _ _ => rfl) h3]
    rw [runStage_pres' (fun dd => dd.vsock) (fun _ _ => rfl) h2]
    rw [runStage_pres' (fun dd => dd.vsock) (fun _ _ => rfl) h1]
  refine ⟨?_, ?_, ?_, ?_, ?_, ?_, ?_, ?_, ?_, ?_, ?_, ?_, ?_, ?_, ?_, ?_, ?_, ?_, ?_, ?_, ?_, ?_⟩
  · have h0 : List.Forall₂ (fun x y => ∀ a : Str, x.aliasOpt = some a → y.aliasOpt = some a) (d.disks) proc1 := hfa1
    rw [e1, hfp1]
    exact h0
  · have h0 : List.Forall₂ (fun x y => ∀ a : Str, x.aliasOpt = some a → y.aliasOpt = some a) (d1.nets) proc2 := hfa2
    rw [pre2] at h0
    rw [e2, hfp2]
    exact h0
  · have h0 : List.Forall₂ (fun x y => ∀ a : Str, x.aliasOpt = some a → y.aliasOpt = some a) (d2.fss) proc3 := hfa3
    rw [pre3] at h0
    rw [e3, hfp3]
    exact h0
  · have h0 : List.Forall₂ (fun x y => ∀ a : Str, x.aliasOpt = some a → y.aliasOpt = some a) (d3.sounds) proc4 := hfa4
    rw [pre4] at h0
    rw [e4, hfp4]
    exact h0
  · have h0 : List.Forall₂ (fun x y => ∀ a : Str, x.aliasOpt = some a → y.aliasOpt = some a) (d4.hostdevs) proc5 := hfa5
    rw [pre5] at h0
    rw [e5, hfp5]
    exact h0
  · have h0 : List.Forall₂ (fun x y => ∀ a : Str, x.aliasOpt = some a → y.aliasOpt = some a) (d5.redirdevs) proc6 := hfa6
    rw [pre6] at h0
    rw [e6, hfp6]
    exact h0
  · have h0 : List.Forall₂ (fun x y => ∀ a : Str, x.aliasOpt = some a → y.aliasOpt = some a) (d6.videos) proc7 := hfa7
    rw [pre7] at h0
    rw [e7, hfp7]
    exact h0
  · have h0 : List.Forall₂ (fun x y => ∀ a : Str, x.aliasOpt = some a → y.aliasOpt = some a) (d7.controllers) proc8 := hfa8
    rw [pre8] at h0
    rw [e8, hfp8]
    exact h0
  · have h0 : List.Forall₂ (fun x y => ∀ a : Str, x.aliasOpt = some a → y.aliasOpt = some a) (d8.inputs) proc9 := hfa9
    rw [pre9] at h0
    rw [e9, hfp9]
    exact h0
  · have h0 : List.Forall₂ (fun x y => ∀ a : Str, x.aliasOpt = some a → y.aliasOpt = some a) (d9.parallels) proc10 := hfa10
    rw [pre10] at h0
    rw [e10, hfp10]
    exact h0
  · have h0 : List.Forall₂ (fun x y => ∀ a : Str, x.aliasOpt = some a → y.aliasOpt = some a) (d10.serials) proc11 := hfa11
    rw [pre11] at h0
    rw [e11, hfp11]
    exact h0
  · have h0 : List.Forall₂ (fun x y => ∀ a : Str, x.aliasOpt = some a → y.aliasOpt = some a) (d11.channels) proc12 := hfa12
    rw [pre12] at h0
    rw [e12, hfp12]
    exact h0
  · have h0 : List.Forall₂ (fun x y => ∀ a : Str, x.aliasOpt = some a → y.aliasOpt = some a) (d12.consoles) proc13 := hfa13
    rw [pre13] at h0
    rw [e13, hfp13]
    exact h0
  · have h0 : List.Forall₂ (fun x y => ∀ a : Str, x.aliasOpt = some a → y.aliasOpt = some a) (d13.hubs) proc14 := hfa14
    rw [pre14] at h0
    rw [e14, hfp14]
    exact h0
  · have h0 : List.Forall₂ (fun x y => ∀ a : Str, x.aliasOpt = some a → y.aliasOpt = some a) (d14.shmems) proc15 := hfa15
    rw [pre15] at h0
    rw [e15, hfp15]
    exact h0
  · have h0 : List.Forall₂ (fun x y => ∀ a : Str, x.aliasOpt = some a → y.aliasOpt = some a) (d15.smartcards) proc16 := hfa16
    rw [pre16] at h0
    rw [e16, hfp16]
    exact h0
  · have h0 : List.Forall₂ (fun x y => ∀ a : Str, x.aliasOpt = some a → y.aliasOpt = some a) ((memballoonStage (watchdogStage d16)).rngs) proc17 := hfa17
    rw [pre17] at h0
    rw [e17, hfp17]
    exact h0
  · have h0 : List.Forall₂ (fun x y => ∀ a : Str, x.aliasOpt = some a → y.aliasOpt = some a) (d17.tpms) proc18 := hfa18
    rw [pre18] at h0
    rw [e18, hfp18]
    exact h0
  · have h0 : List.Forall₂ (fun x y => ∀ a : Str, x.aliasOpt = some a → y.aliasOpt = some a) (d18.mems) proc19 := hfa19
    rw [pre19] at h0
    rw [e19, hfp19]
    exact h0
  · intro w0 a hw ha
    rw [← prewd] at hw
    refine ⟨qemuAssignDeviceWatchdogAlias w0, ?_, assignWatchdog_preserve w0 ha⟩
    rw [ewd]
    unfold watchdogStage
    rw [hw]
  · intro b0 a hb ha
    rw [← premb] at hb
    by_cases hm : b0.model ≠ MemballoonModel.mbNone
    · refine ⟨qemuAssignDeviceMemballoonAlias b0 0, ?_, assignMemballoon_preserve b0 0 ha⟩
      rw [emb]
      unfold memballoonStage
      rw [hb]
      dsimp only
      rw [if_pos hm]
    · refine ⟨b0, ?_, ha⟩
      rw [emb]
      unfold memballoonStage
      rw [hb]
      dsimp only
      rw [if_neg hm]
      exact hb
  · intro v0 a hv ha
    rw [← prevs] at hv
    refine ⟨qemuAssignDeviceVsockAlias v0, ?_, assignVsock_preserve v0 ha⟩
    rw [evs]
    unfold vsockStage
    rw [hv]

/-- Running the pass a second time changes nothing. -/
theorem assignAll_idem (d : DomainDef) (caps : QemuCaps) (dF : DomainDef)
    (h : qemuAssignDeviceAliases d caps = .ok dF) :
    qemuAssignDeviceAliases dF caps = .ok dF := by
  obtain ⟨a1, a2, a3, a4, a5, a6, a7, a8, a9, a10, a11, a12, a13, a14, a15, a16, a17, a18, a19, a20, a21, a22, a23⟩ := assignAll_spec d caps dF h
  have s1 : runStage disksL (diskStepF caps) dF = .ok dF :=
    runStage_id _ _ (fun _ => rfl) dF (fun d₂ j x hx => by
      unfold diskStepF qemuAssignDeviceDiskAlias
      rw [diskChooseAlias_id d₂ x (a1 x hx)]
      dsimp only
      rw [a23 x hx])
  have s2 : runStage netsL netStepF dF = .ok dF :=
    runStage_id _ _ (fun _ => rfl) dF (fun d₂ j x hx => by unfold netStepF; rw [assignNet_id d₂ x (-1) (a2 x hx)])
  have s3 : runStage fssL fsStepF dF = .ok dF :=
    runStage_id _ _ (fun _ => rfl) dF (fun d₂ j x hx => by unfold fsStepF; rw [assignFS_id x (j : Int) (a3 x hx)])
  have s4 : runStage soundsL soundStepF dF = .ok dF :=
    runStage_id _ _ (fun _ => rfl) dF (fun d₂ j x hx => by unfold soundStepF; rw [assignSound_id x (j : Int) (a4 x hx)])
  have s5 : runStage hostdevsL hostdevStepF dF = .ok dF :=
    runStage_id _ _ (fun _ => rfl) dF (fun d₂ j x hx => by unfold hostdevStepF; rw [hostdevAlias_id d₂ x.aliasOpt (-1) (a5 x hx)])
  have s6 : runStage redirdevsL redirdevStepF dF = .ok dF :=
    runStage_id _ _ (fun _ => rfl) dF (fun d₂ j x hx => by unfold redirdevStepF; rw [assignRedirdev_id d₂ x (j : Int) (a6 x hx)])
  have s7 : runStage videosL videoStepF dF = .ok dF :=
    runStage_id _ _ (fun _ => rfl) dF (fun d₂ j x hx => by unfold videoStepF; rw [assignVideo_id x (j : Int) (a7 x hx)])
  have s8 : runStage controllersL (controllerStepF caps) dF = .ok dF :=
    runStage_id _ _ (fun _ => rfl) dF (fun d₂ j x hx => by unfold controllerStepF; rw [assignController_id d₂ caps x (a8 x hx)])
  have s9 : runStage inputsL inputStepF dF = .ok dF :=
    runStage_id _ _ (fun _ => rfl) dF (fun d₂ j x hx => by unfold inputStepF; rw [assignInput_id d₂ x (j : Int) (a9 x hx)])
  have s10 : runStage parallelsL chrStepF dF = .ok dF :=
    runStage_id _ _ (fun _ => rfl) dF (fun d₂ j x hx => chrStep_id d₂ j x (a10 x hx))
  have s11 : runStage serialsL chrStepF dF = .ok dF :=
    runStage_id _ _ (fun _ => rfl) dF (fun d₂ j x hx => chrStep_id d₂ j x (a11 x hx))
  have s12 : runStage channelsL chrStepF dF = .ok dF :=
    runStage_id _ _ (fun _ => rfl) dF (fun d₂ j x hx => chrStep_id d₂ j x (a12 x hx))
  have s13 : runStage consolesL chrStepF dF = .ok dF :=
    runStage_id _ _ (fun _ => rfl) dF (fun d₂ j x hx => chrStep_id d₂ j x (a13 x hx))
  have s14 : runStage hubsL hubStepF dF = .ok dF :=
    runStage_id _ _ (fun _ => rfl) dF (fun d₂ j x hx => by unfold hubStepF; rw [assignHub_id x (j : Int) (a14 x hx)])
  have s15 : runStage shmemsL shmemStepF dF = .ok dF :=
    runStage_id _ _ (fun _ => rfl) dF (fun d₂ j x hx => by unfold shmemStepF; rw [assignShmem_id d₂ x (j : Int) (a15 x hx)])
  have s16 : runStage smartcardsL smartcardStepF dF = .ok dF :=
    runStage_id _ _ (fun _ => rfl) dF (fun d₂ j x hx => by unfold smartcardStepF; rw [assignSmartcard_id x (j : Int) (a16 x hx)])
  have s17 : runStage rngsL rngStepF dF = .ok dF :=
    runStage_id _ _ (fun _ => rfl) dF (fun d₂ j x hx => by unfold rngStepF; rw [assignRNG_id d₂ x (a17 x hx)])
  have s18 : runStage tpmsL tpmStepF dF = .ok dF :=
    runStage_id _ _ (fun _ => rfl) dF (fun d₂ j x hx => by unfold tpmStepF; rw [assignTPM_id x (j : Int) (a18 x hx)])
  have s19 : runStage memsL memStepF dF = .ok dF :=
    runStage_id _ _ (fun _ => rfl) dF (fun d₂ j x hx => memStep_id d₂ j x (a19 x hx))
  have swd : watchdogStage dF = dF := by
    unfold watchdogStage
    cases hw : dF.watchdog with
    | none => rfl
    | some w0 =>
      dsimp only
      rw [assignWatchdog_id w0 (a20 w0 hw), ← hw]
  have smb : memballoonStage dF = dF := by
    unfold memballoonStage
    cases hb : dF.memballoon with
    | none => rfl
    | some b0 =>
      dsimp only
      by_cases hm : b0.model ≠ MemballoonModel.mbNone
      · rw [if_pos hm, assignMemballoon_id b0 0 (a21 b0 hb hm), ← hb]
      · rw [if_neg hm]
  have svs : vsockStage dF = dF := by
    unfold vsockStage
    cases hv : dF.vsock with
    | none => rfl
    | some v0 =>
      dsimp only
      rw [assignVsock_id v0 (a22 v0 hv), ← hv]
  unfold qemuAssignDeviceAliases
  rw [s1, exbind_ok]
  rw [s2, exbind_ok]
  rw [s3, exbind_ok]
  rw [s4, exbind_ok]
  rw [s5, exbind_ok]
  rw [s6, exbind_ok]
  rw [s7, exbind_ok]
  rw [s8, exbind_ok]
  rw [s9, exbind_ok]
  rw [s10, exbind_ok]
  rw [s11, exbind_ok]
  rw [s12, exbind_ok]
  rw [s13, exbind_ok]
  rw [s14, exbind_ok]
  rw [s15, exbind_ok]
  rw [s16, exbind_ok]
  rw [swd, smb, s17, exbind_ok]
  rw [s18, exbind_ok]
  rw [s19, exbind_ok]
  rw [svs]

/-- C2: a pre-existing alias is never overwritten: the disk and controller
assigners leave a set alias exactly unchanged, the whole pass preserves
every pre-set alias positionally in every collection, and running the pass
twice yields the same result as running it once. -/
theorem C2_preset_alias_unchanged (d : DomainDef) (caps : QemuCaps)
    (dF : DomainDef) (h : qemuAssignDeviceAliases d caps = .ok dF) :
    (∀ (d₂ : DomainDef) (caps₂ : QemuCaps) (disk disk' : DiskDef) (a : Str),
      disk.aliasOpt = some a → qemuAssignDeviceDiskAlias d₂ disk caps₂ = .ok disk' →
      disk'.aliasOpt = some a) ∧
    (∀ (d₂ : DomainDef) (caps₂ : QemuCaps) (c : ControllerDef) (a : Str),
      c.aliasOpt = some a → (qemuAssignDeviceControllerAlias d₂ caps₂ c).aliasOpt = some a) ∧
    List.Forall₂ (fun x y => ∀ a : Str, x.aliasOpt = some a → y.aliasOpt = some a) d.disks dF.disks ∧
    List.Forall₂ (fun x y => ∀ a : Str, x.aliasOpt = some a → y.aliasOpt = some a) d.nets dF.nets ∧
    List.Forall₂ (fun x y => ∀ a : Str, x.aliasOpt = some a → y.aliasOpt = some a) d.fss dF.fss ∧
    List.Forall₂ (fun x y => ∀ a : Str, x.aliasOpt = some a → y.aliasOpt = some a) d.sounds dF.sounds ∧
    List.Forall₂ (fun x y => ∀ a : Str, x.aliasOpt = some a → y.aliasOpt = some a) d.hostdevs dF.hostdevs ∧
    List.Forall₂ (fun x y => ∀ a : Str, x.aliasOpt = some a → y.aliasOpt = some a) d.redirdevs dF.redirdevs ∧
    List.Forall₂ (fun x y => ∀ a : Str, x.aliasOpt = some a → y.aliasOpt = some a) d.videos dF.videos ∧
    List.Forall₂ (fun x y => ∀ a : Str, x.aliasOpt = some a → y.aliasOpt = some a) d.controllers dF.controllers ∧
    List.Forall₂ (fun x y => ∀ a : Str, x.aliasOpt = some a → y.aliasOpt = some a) d.inputs dF.inputs ∧
    List.Forall₂ (fun x y => ∀ a : Str, x.aliasOpt = some a → y.aliasOpt = some a) d.parallels dF.parallels ∧
    List.Forall₂ (fun x y => ∀ a : Str, x.aliasOpt = some a → y.aliasOpt = some a) d.serials dF.serials ∧
    List.Forall₂ (fun x y => ∀ a : Str, x.aliasOpt = some a → y.aliasOpt = some a) d.channels dF.channels ∧
    List.Forall₂ (fun x y => ∀ a : Str, x.aliasOpt = some a → y.aliasOpt = some a) d.consoles dF.consoles ∧
    List.Forall₂ (fun x y => ∀ a : Str, x.aliasOpt = some a → y.aliasOpt = some a) d.hubs dF.hubs ∧
    List.Forall₂ (fun x y => ∀ a : Str, x.aliasOpt = some a → y.aliasOpt = some a) d.shmems dF.shmems ∧
    List.Forall₂ (fun x y => ∀ a : Str, x.aliasOpt = some a → y.aliasOpt = some a) d.smartcards dF.smartcards ∧
    List.Forall₂ (fun x y => ∀ a : Str, x.aliasOpt = some a → y.aliasOpt = some a) d.rngs dF.rngs ∧
    List.Forall₂ (fun x y => ∀ a : Str, x.aliasOpt = some a → y.aliasOpt = some a) d.tpms dF.tpms ∧
    List.Forall₂ (fun x y => ∀ a : Str, x.aliasOpt = some a → y.aliasOpt = some a) d.mems dF.mems ∧
    (∀ w a, d.watchdog = some w → w.aliasOpt = some a →
      ∃ w2, dF.watchdog = some w2 ∧ w2.aliasOpt = some a) ∧
    (∀ b a, d.memballoon = some b → b.aliasOpt = some a →
      ∃ b2, dF.memballoon = some b2 ∧ b2.aliasOpt = some a) ∧
    (∀ v a, d.vsock = some v → v.aliasOpt = some a →
      ∃ v2, dF.vsock = some v2 ∧ v2.aliasOpt = some a) ∧
    qemuAssignDeviceAliases dF caps = .ok dF := by
  obtain ⟨p1, p2, p3, p4, p5, p6, p7, p8, p9, p10, p11, p12, p13, p14, p15, p16, p17, p18, p19, p20, p21, p22⟩ := assignAll_preserveAll d caps dF h
  refine ⟨?_, ?_, p1, p2, p3, p4, p5, p6, p7, p8, p9, p10, p11, p12, p13, p14, p15, p16, p17, p18, p19, p20, p21, p22, assignAll_idem d caps dF h⟩
  · intro d₂ caps₂ disk disk' a ha hh
    exact diskStep_preserve (show diskStepF caps₂ d₂ 0 disk = .ok disk' from hh) ha
  · intro d₂ caps₂ c a ha
    exact assignController_preserve d₂ caps₂ c ha

/-- Witness for C2: a domain whose sound device already carries alias
"mysound" keeps it through the pass, and a second pass is a no-op. -/
theorem C2_witness :
    qemuAssignDeviceAliases dC2 ⟨true, false⟩ = .ok dC2res ∧
    List.Forall₂ (fun x y => ∀ a : Str, x.aliasOpt = some a → y.aliasOpt = some a)
      dC2.sounds dC2res.sounds ∧
    qemuAssignDeviceAliases dC2res ⟨true, false⟩ = .ok dC2res := by
  have hrun : qemuAssignDeviceAliases dC2 ⟨true, false⟩ = .ok dC2res := by decide
  have hc := C2_preset_alias_unchanged dC2 ⟨true, false⟩ dC2res hrun
  obtain ⟨q1, q2, q3, q4, q5, q6, q7, q8, q9, q10, q11, q12, q13, q14, q15, q16, q17, q18, q19, q20, q21, q22, q23, q24, qidem⟩ := hc
  exact ⟨hrun, q6, qidem⟩

/-! ## Claim C7 -/

/-- Elementwise specification of a successful walk carrying a projection
invariant: the lens's set leaves the projection g unchanged, so the step
function may rely on g of the current domain keeping its initial value. -/
theorem goLoop_ok_spec_proj {α β : Type} (L : ListLens α)
    (f : DomainDef → Nat → α → Except Str α) (g : DomainDef → β) (v : β)
    (hgs : ∀ d l, L.get (L.set d l) = l)
    (hpres : ∀ d l, g (L.set d l) = g d)
    (Q : α → α → Prop)
    (hf : ∀ d i x x', g d = v → f d i x = .ok x' → Q x x') :
    ∀ (todo : List α) (d : DomainDef) (done : List α) (i : Nat) (d' : DomainDef),
      goLoop L f d done todo i = .ok d' → L.get d = done ++ todo → g d = v →
      ∃ proc, L.get d' = done ++ proc ∧ List.Forall₂ Q todo proc := by
  intro todo
  induction todo with
  | nil =>
    intro d done i d' h hinv hg
    injection h with h
    exact ⟨[], by rw [← h, hinv], List.Forall₂.nil⟩
  | cons x rest ih =>
    intro d done i d' h hinv hg
    rw [goLoop_cons] at h
    cases hf2 : f d i x with
    | error e =>
      rw [hf2] at h
      exact absurd h (by simp)
    | ok x2 =>
      rw [hf2] at h
      obtain ⟨proc, hp, hfa⟩ := ih _ _ _ _ h (by rw [hgs]; simp)
        (by rw [hpres]; exact hg)
      refine ⟨x2 :: proc, ?_, List.Forall₂.cons (hf _ _ _ _ hg hf2) hfa⟩
      rw [hp]
      simp

theorem runStage_ok_spec_proj {α β : Type} (L : ListLens α)
    (f : DomainDef → Nat → α → Except Str α) (g : DomainDef → β)
    (hgs : ∀ d l, L.get (L.set d l) = l)
    (hpres : ∀ d l, g (L.set d l) = g d)
    (Q : α → α → Prop) (d d' : DomainDef)
    (hf : ∀ d2 i x x', g d2 = g d → f d2 i x = .ok x' → Q x x')
    (h : runStage L f d = .ok d') :
    ∃ proc, L.get d' = proc ∧ List.Forall₂ Q (L.get d) proc := by
  obtain ⟨proc, hp, hfa⟩ :=
    goLoop_ok_spec_proj L f g (g d) hgs hpres Q hf _ _ _ _ _ h rfl rfl
  exact ⟨proc, by simpa using hp, hfa⟩

/-- The index the hostdev assigner scavenges for a fresh host device: the
nested skip-negative scan over the hostdev list and then the net list,
exactly the nested call in qemuAssignDeviceHostdevAlias. -/
def hostdevScavengedIdx (d : DomainDef) : Int :=
  scavengeSkipNeg (str "hostdev")
    (scavengeSkipNeg (str "hostdev") 0 (d.hostdevs.map (fun h => h.aliasOpt)))
    (d.nets.map (fun n => n.aliasOpt))

/-- A fresh scavenged hostdev alias exceeds every hostdev-prefixed suffix
seen on the union of the hostdev list and the net list. -/
theorem hostdevScavenged_spec (d : DomainDef) :
    qemuAssignDeviceHostdevAlias d none (-1) =
      some (str "hostdev" ++ decZ (hostdevScavengedIdx d)) ∧
    0 ≤ hostdevScavengedIdx d ∧
    (∀ x ∈ d.hostdevs,
      qemuDomainDeviceAliasIndex x.aliasOpt (str "hostdev") < hostdevScavengedIdx d) ∧
    (∀ n ∈ d.nets,
      qemuDomainDeviceAliasIndex n.aliasOpt (str "hostdev") < hostdevScavengedIdx d) := by
  have hM : (0:Int) ≤
      scavengeSkipNeg (str "hostdev") 0 (d.hostdevs.map (fun h => h.aliasOpt)) :=
    scavengeSkipNeg_le _ 0 _
  refine ⟨rfl, le_trans hM (scavengeSkipNeg_le _ _ _), ?_, ?_⟩
  · intro x hx
    have h1 := scavengeSkipNeg_gt (str "hostdev") 0 (le_refl 0)
      (d.hostdevs.map (fun h => h.aliasOpt)) x.aliasOpt
      (List.mem_map_of_mem _ hx)
    exact lt_of_lt_of_le h1 (scavengeSkipNeg_le _ _ _)
  · intro n hn
    exact scavengeSkipNeg_gt (str "hostdev") _ hM
      (d.nets.map (fun n => n.aliasOpt)) n.aliasOpt (List.mem_map_of_mem _ hn)

/-- C7: a scavenged host-device alias "hostdevN" has N strictly greater
than every hostdev-prefixed suffix on the union of the hostdev list and the
net list; and in the domain-wide pass host devices are assigned after all
network interfaces, so every host device that was fresh before a successful
pass ends with an index exceeding the hostdev-suffix of every interface of
the final domain (in particular of hostdev-type interfaces that consumed a
hostdevN alias earlier in the pass). -/
theorem C7_hostdev_after_nets (d : DomainDef) (caps : QemuCaps) (dF : DomainDef)
    (h : qemuAssignDeviceAliases d caps = .ok dF) :
    (∀ d₂ : DomainDef,
      qemuAssignDeviceHostdevAlias d₂ none (-1) =
        some (str "hostdev" ++ decZ (hostdevScavengedIdx d₂)) ∧
      (∀ x ∈ d₂.hostdevs,
        qemuDomainDeviceAliasIndex x.aliasOpt (str "hostdev") < hostdevScavengedIdx d₂) ∧
      (∀ n ∈ d₂.nets,
        qemuDomainDeviceAliasIndex n.aliasOpt (str "hostdev") < hostdevScavengedIdx d₂)) ∧
    List.Forall₂
      (fun x y => x.aliasOpt = none →
        ∃ N : Int, 0 ≤ N ∧ y.aliasOpt = some (str "hostdev" ++ decZ N) ∧
          ∀ n ∈ dF.nets,
            qemuDomainDeviceAliasIndex n.aliasOpt (str "hostdev") < N)
      d.hostdevs dF.hostdevs := by
  obtain ⟨d1, d2, d3, d4, d5, d6, d7, d8, d9, d10, d11, d12, d13, d14, d15, d16,
    d17, d18, d19, h1, h2, h3, h4, h5, h6, h7, h8, h9, h10, h11, h12, h13, h14,
    h15, h16, h17, h18, h19, hvs⟩ := assignAll_decompose d caps dF h
  have enets : dF.nets = d4.nets := by
    rw [hvs, vsockStage_nets]
    rw [runStage_pres' (fun dd => dd.nets) (fun _ _ => rfl) h19]
    rw [runStage_pres' (fun dd => dd.nets) (fun _ _ => rfl) h18]
    rw [runStage_pres' (fun dd => dd.nets) (fun _ _ => rfl) h17]
    rw [memballoonStage_nets, watchdogStage_nets]
    rw [runStage_pres' (fun dd => dd.nets) (fun _ _ => rfl) h16]
    rw [runStage_pres' (fun dd => dd.nets) (fun _ _ => rfl) h15]
    rw [runStage_pres' (fun dd => dd.nets) (fun _ _ => rfl) h14]
    rw [runStage_pres' (fun dd => dd.nets) (fun _ _ => rfl) h13]
    rw [runStage_pres' (fun dd => dd.nets) (fun _ _ => rfl) h12]
    rw [runStage_pres' (fun dd => dd.nets) (fun _ _ => rfl) h11]
    rw [runStage_pres' (fun dd => dd.nets) (fun _ _ => rfl) h10]
    rw [runStage_pres' (fun dd => dd.nets) (fun _ _ => rfl) h9]
    rw [runStage_pres' (fun dd => dd.nets) (fun _ _ => rfl) h8]
    rw [runStage_pres' (fun dd => dd.nets) (fun _ _ => rfl) h7]
    rw [runStage_pres' (fun dd => dd.nets) (fun _ _ => rfl) h6]
    rw [runStage_pres' (fun dd => dd.nets) (fun _ _ => rfl) h5]
  have ehost : dF.hostdevs = d5.hostdevs := by
    rw [hvs, vsockStage_hostdevs]
    rw [runStage_pres' (fun dd => dd.hostdevs) (fun _ _ => rfl) h19]
    rw [runStage_pres' (fun dd => dd.hostdevs) (fun _ _ => rfl) h18]
    rw [runStage_pres' (fun dd => dd.hostdevs) (fun _ _ => rfl) h17]
    rw [memballoonStage_hostdevs, watchdogStage_hostdevs]
    rw [runStage_pres' (fun dd => dd.hostdevs) (fun _ _ => rfl) h16]
    rw [runStage_pres' (fun dd => dd.hostdevs) (fun _ _ => rfl) h15]
    rw [runStage_pres' (fun dd => dd.hostdevs) (fun _ _ => rfl) h14]
    rw [runStage_pres' (fun dd => dd.hostdevs) (fun _ _ => rfl) h13]
    rw [runStage_pres' (fun dd => dd.hostdevs) (fun _ _ => rfl) h12]
    rw [runStage_pres' (fun dd => dd.hostdevs) (fun _ _ => rfl) h11]
    rw [runStage_pres' (fun dd => dd.hostdevs) (fun _ _ => rfl) h10]
    rw [runStage_pres' (fun dd => dd.hostdevs) (fun _ _ => rfl) h9]
    rw [runStage_pres' (fun dd => dd.hostdevs) (fun _ _ => rfl) h8]
    rw [runStage_pres' (fun dd => dd.hostdevs) (fun _ _ => rfl) h7]
    rw [runStage_pres' (fun dd => dd.hostdevs) (fun _ _ => rfl) h6]
  have prehost : d4.hostdevs = d.hostdevs := by
    rw [runStage_pres' (fun dd => dd.hostdevs) (fun _ _ => rfl) h4]
    rw [runStage_pres' (fun dd => dd.hostdevs) (fun _ _ => rfl) h3]
    rw [runStage_pres' (fun dd => dd.hostdevs) (fun _ _ => rfl) h2]
    rw [runStage_pres' (fun dd => dd.hostdevs) (fun _ _ => rfl) h1]
  refine ⟨fun d₂ => ?_, ?_⟩
  · obtain ⟨ha, _, hh, hn⟩ := hostdevScavenged_spec d₂
    exact ⟨ha, hh, hn⟩
  · obtain ⟨proc, hp, hfa⟩ := runStage_ok_spec_proj hostdevsL hostdevStepF
      (fun dd => dd.nets) (fun _ _ => rfl) (fun _ _ => rfl)
      (fun x y => x.aliasOpt = none →
        ∃ N : Int, 0 ≤ N ∧ y.aliasOpt = some (str "hostdev" ++ decZ N) ∧
          ∀ n ∈ dF.nets,
            qemuDomainDeviceAliasIndex n.aliasOpt (str "hostdev") < N)
      d4 d5
      (fun dd i x x2 hg hstep => by
        intro hx
        unfold hostdevStepF at hstep
        injection hstep with hstep
        obtain ⟨ha, hN0, _, hn⟩ := hostdevScavenged_spec dd
        refine ⟨hostdevScavengedIdx dd, hN0, ?_, ?_⟩
        · rw [← hstep]
          show qemuAssignDeviceHostdevAlias dd x.aliasOpt (-1) = _
          rw [hx]
          exact ha
        · intro n hn2
          exact hn n (by rw [show dd.nets = d4.nets from hg, ← enets]; exact hn2))
      h5
    have hfp : d5.hostdevs = proc := hp
    rw [ehost, hfp, ← prehost]
    exact hfa

/-- Concrete domain for the hostdev-ordering witness: one interface already
carrying alias "hostdev3" and one fresh host device. -/
def dC7 : DomainDef :=
  {domain0 with nets := [⟨some (str "hostdev3"), false⟩], hostdevs := [⟨none⟩]}

/-- The result the pass computes on dC7: the fresh host device scavenges
past the consumed index 3 and gets "hostdev4". -/
def dC7res : DomainDef :=
  {domain0 with
    nets := [⟨some (str "hostdev3"), false⟩],
    hostdevs := [⟨some (str "hostdev4")⟩]}

/-- Witness for C7: on dC7 the pass succeeds and the fresh host device's
scavenged index strictly exceeds the suffix of every interface alias. -/
theorem C7_witness :
    qemuAssignDeviceAliases dC7 ⟨true, false⟩ = .ok dC7res ∧
    List.Forall₂
      (fun x y => x.aliasOpt = none →
        ∃ N : Int, 0 ≤ N ∧ y.aliasOpt = some (str "hostdev" ++ decZ N) ∧
          ∀ n ∈ dC7res.nets,
            qemuDomainDeviceAliasIndex n.aliasOpt (str "hostdev") < N)
      dC7.hostdevs dC7res.hostdevs := by
  have hrun : qemuAssignDeviceAliases dC7 ⟨true, false⟩ = .ok dC7res := by decide
  exact ⟨hrun, (C7_hostdev_after_nets dC7 ⟨true, false⟩ dC7res hrun).2⟩


/-! ## Claim C1: global alias uniqueness -/

/-- Position-indexed elementwise specification of a successful walk. -/
theorem goLoop_ok_spec_at {α : Type} (L : ListLens α)
    (f : DomainDef → Nat → α → Except Str α)
    (hgs : ∀ d l, L.get (L.set d l) = l)
    (Q : Nat → α → α → Prop)
    (hf : ∀ d i x x', f d i x = .ok x' → Q i x x') :
    ∀ (todo : List α) (d : DomainDef) (done : List α) (i : Nat) (d' : DomainDef),
      goLoop L f d done todo i = .ok d' → L.get d = done ++ todo →
      ∃ proc, L.get d' = done ++ proc ∧ proc.length = todo.length ∧
        ∀ k (hk : k < todo.length) (hk2 : k < proc.length),
          Q (i + k) (todo.get ⟨k, hk⟩) (proc.get ⟨k, hk2⟩) := by
  intro todo
  induction todo with
  | nil =>
    intro d done i d' h hinv
    injection h with h
    refine ⟨[], by rw [← h, hinv], rfl, ?_⟩
    intro k hk
    exact absurd hk (Nat.not_lt_zero k)
  | cons x rest ih =>
    intro d done i d' h hinv
    rw [goLoop_cons] at h
    cases hf2 : f d i x with
    | error e =>
      rw [hf2] at h
      exact absurd h (by simp)
    | ok x2 =>
      rw [hf2] at h
      obtain ⟨proc, hp, hlen, hat⟩ := ih _ _ _ _ h (by rw [hgs]; simp)
      refine ⟨x2 :: proc, by rw [hp]; simp, by simp [hlen], ?_⟩
      intro k hk hk2
      cases k with
      | zero =>
        simpa using hf _ _ _ _ hf2
      | succ k2 =>
        have h1 : k2 < rest.length := Nat.lt_of_succ_lt_succ hk
        have h2 : k2 < proc.length := Nat.lt_of_succ_lt_succ hk2
        have h3 := hat k2 h1 h2
        have heq : i + (k2 + 1) = (i + 1) + k2 := by omega
        simp only [List.get_cons_succ]
        rw [heq]
        exact h3

theorem runStage_ok_spec_at {α : Type} (L : ListLens α)
    (f : DomainDef → Nat → α → Except Str α)
    (hgs : ∀ d l, L.get (L.set d l) = l)
    (Q : Nat → α → α → Prop)
    (hf : ∀ d i x x', f d i x = .ok x' → Q i x x')
    (d d' : DomainDef) (h : runStage L f d = .ok d') :
    (L.get d').length = (L.get d).length ∧
    ∀ k (hk : k < (L.get d).length) (hk2 : k < (L.get d').length),
      Q k ((L.get d).get ⟨k, hk⟩) ((L.get d').get ⟨k, hk2⟩) := by
  obtain ⟨proc, hp, hlen, hat⟩ := goLoop_ok_spec_at L f hgs Q hf _ _ _ _ _ h rfl
  have hp2 : L.get d' = proc := by simpa using hp
  rw [hp2]
  refine ⟨hlen, ?_⟩
  intro k hk hk2
  simpa using hat k hk hk2

theorem stepSkipNeg_none (pre : Str) (start : Int) :
    stepSkipNeg pre start none = start := by
  show (if (-1 : Int) < 0 then start else if (-1 : Int) ≥ start then -1 + 1 else start) = start
  norm_num

/-- A scan over alias slots that are all empty keeps the accumulator. -/
theorem scavengeSkipNeg_all_none (pre : Str) (start : Int) (l : List (Option Str))
    (h : ∀ o ∈ l, o = none) : scavengeSkipNeg pre start l = start := by
  induction l generalizing start with
  | nil => rfl
  | cons x r ih =>
    rw [scavengeSkipNeg_cons, h x (List.mem_cons_self ..), stepSkipNeg_none]
    exact ih start (fun o ho => h o (List.mem_cons_of_mem _ ho))

/-- Distinctness of two optional aliases: assigned payloads differ. -/
def optNe (o₁ o₂ : Option Str) : Prop :=
  ∀ a b : Str, o₁ = some a → o₂ = some b → a ≠ b

theorem optNe_of_ne {o₁ o₂ : Option Str} (h : o₁ ≠ o₂) : optNe o₁ o₂ := by
  intro a b h1 h2 hab
  exact h (by rw [h1, h2, hab])

theorem pairwise_optNe_of_nodup {l : List (Option Str)} (h : l.Nodup) :
    l.Pairwise optNe :=
  h.imp (fun hne => optNe_of_ne hne)

theorem nodup_filterMap_of_pairwise {l : List (Option Str)}
    (h : l.Pairwise optNe) : (l.filterMap (fun o => o)).Nodup := by
  induction l with
  | nil => exact List.nodup_nil
  | cons o r ih =>
    rw [List.pairwise_cons] at h
    cases o with
    | none =>
      simpa [List.filterMap_cons] using ih h.2
    | some a =>
      rw [show List.filterMap (fun o => o) (some a :: r) =
        a :: List.filterMap (fun o => o) r from by simp [List.filterMap_cons]]
      refine List.nodup_cons.mpr ⟨?_, ih h.2⟩
      intro hmem
      obtain ⟨o2, ho2, hoa⟩ := List.mem_filterMap.mp hmem
      exact h.1 o2 ho2 a a rfl hoa rfl

/-- Decidable check that no stem of one family is prefix-comparable with a
stem of another. -/
def stemsIncomp (S1 S2 : List Str) : Bool :=
  S1.all (fun s1 => S2.all (fun s2 => !(s1.isPrefixOf s2) && !(s2.isPrefixOf s1)))

theorem stemsIncomp_spec {S1 S2 : List Str} (h : stemsIncomp S1 S2 = true)
    {s1 s2 : Str} (h1 : s1 ∈ S1) (h2 : s2 ∈ S2) : ¬ s1 <+: s2 ∧ ¬ s2 <+: s1 := by
  unfold stemsIncomp at h
  rw [List.all_eq_true] at h
  have h3 := h s1 h1
  rw [List.all_eq_true] at h3
  have h4 := h3 s2 h2
  rw [Bool.and_eq_true, Bool.not_eq_true', Bool.not_eq_true'] at h4
  constructor
  · intro hp
    rw [ List.isPrefixOf_iff_prefix.mpr hp] at h4
    exact absurd h4.1 (by simp)
  · intro hp
    rw [ List.isPrefixOf_iff_prefix.mpr hp] at h4
    exact absurd h4.2 (by simp)

/-- Aliases drawn from prefix-incomparable stem families differ. -/
theorem cross_optNe_of_stems {S1 S2 : List Str}
    (hinc : stemsIncomp S1 S2 = true) {o₁ o₂ : Option Str}
    (h1 : ∀ a, o₁ = some a → ∃ s ∈ S1, ∃ t, a = s ++ t)
    (h2 : ∀ b, o₂ = some b → ∃ s ∈ S2, ∃ t, b = s ++ t) : optNe o₁ o₂ := by
  intro a b ha hb
  obtain ⟨s1, hs1, t1, rfl⟩ := h1 a ha
  obtain ⟨s2, hs2, t2, rfl⟩ := h2 b hb
  obtain ⟨hi1, hi2⟩ := stemsIncomp_spec hinc hs1 hs2
  exact append_ne_of_incomparable hi1 hi2 t1 t2

theorem decZ_nonneg {i : Int} (h : 0 ≤ i) : decZ i = decN i.toNat := by
  unfold decZ
  rw [if_neg (by omega)]
  have : i.natAbs = i.toNat := by omega
  rw [this]

theorem decZ_injective : Function.Injective decZ := by
  intro a b h
  unfold decZ at h
  by_cases ha : a < 0 <;> by_cases hb : b < 0
  · rw [if_pos ha, if_pos hb] at h
    injection h with _ h2
    have := decN_injective h2
    omega
  · rw [if_pos ha, if_neg hb] at h
    obtain ⟨c, r, hc, h1, _⟩ := decN_head_digit b.natAbs
    rw [hc] at h
    injection h with h3 _
    rw [← h3] at h1
    exact absurd h1 (by decide)
  · rw [if_neg ha, if_pos hb] at h
    obtain ⟨c, r, hc, h1, _⟩ := decN_head_digit a.natAbs
    rw [hc] at h
    injection h with h3 _
    rw [h3] at h1
    exact absurd h1 (by decide)
  · rw [if_neg ha, if_neg hb] at h
    have := decN_injective h
    omega

theorem stemDec_ne (s : Str) {a b : Nat} (h : a ≠ b) : s ++ decN a ≠ s ++ decN b := by
  intro he
  exact h (decN_injective (List.append_cancel_left he))

theorem stem_ne_exact {s x : Str} (t : Str) (h : ¬ s <+: x) : s ++ t ≠ x := by
  intro he
  exact h ⟨t, he⟩

/-- Every device alias slot of a domain, in declaration order. -/
def allAliasOpts (d : DomainDef) : List (Option Str) :=
  d.disks.map (fun x => x.aliasOpt) ++
  (d.nets.map (fun x => x.aliasOpt) ++
  (d.fss.map (fun x => x.aliasOpt) ++
  (d.sounds.map (fun x => x.aliasOpt) ++
  (d.hostdevs.map (fun x => x.aliasOpt) ++
  (d.redirdevs.map (fun x => x.aliasOpt) ++
  (d.videos.map (fun x => x.aliasOpt) ++
  (d.controllers.map (fun x => x.aliasOpt) ++
  (d.inputs.map (fun x => x.aliasOpt) ++
  (d.parallels.map (fun x => x.aliasOpt) ++
  (d.serials.map (fun x => x.aliasOpt) ++
  (d.channels.map (fun x => x.aliasOpt) ++
  (d.consoles.map (fun x => x.aliasOpt) ++
  (d.hubs.map (fun x => x.aliasOpt) ++
  (d.shmems.map (fun x => x.aliasOpt) ++
  (d.smartcards.map (fun x => x.aliasOpt) ++
  ((match d.watchdog with | some w => [w.aliasOpt] | none => []) ++
  ((match d.memballoon with | some b => [b.aliasOpt] | none => []) ++
  (d.rngs.map (fun x => x.aliasOpt) ++
  (d.tpms.map (fun x => x.aliasOpt) ++
  (d.mems.map (fun x => x.aliasOpt) ++
  (match d.vsock with | some v => [v.aliasOpt] | none => [])))))))))))))))))))))

/-- The aliases actually assigned in a domain. -/
def allAliases (d : DomainDef) : List Str :=
  (allAliasOpts d).filterMap (fun o => o)

/-- C1 counterexample: two sound devices pre-aliased identically survive the
pass untouched (aliases are never overwritten), so after a successful run the
aliases of the domain are not pairwise distinct. -/
theorem C1_counterexample :
    qemuAssignDeviceAliases
        {domain0 with sounds := [⟨some (str "dup")⟩, ⟨some (str "dup")⟩]} ⟨true, true⟩ =
      .ok {domain0 with sounds := [⟨some (str "dup")⟩, ⟨some (str "dup")⟩]} ∧
    ¬ (allAliases
        {domain0 with sounds := [⟨some (str "dup")⟩, ⟨some (str "dup")⟩]}).Nodup :=
  ⟨by decide, by decide⟩

/-! ### Positional stage characterizations -/

theorem fssStage_at (d d2 : DomainDef) (h : runStage fssL fsStepF d = .ok d2) :
    d2.fss.length = d.fss.length ∧
    ∀ k (hk : k < d.fss.length) (hk2 : k < d2.fss.length),
      (d.fss.get ⟨k, hk⟩).aliasOpt = none →
      (d2.fss.get ⟨k, hk2⟩).aliasOpt = some (str "fs" ++ decN k) := by
  exact runStage_ok_spec_at fssL fsStepF (fun _ _ => rfl)
    (fun k x y => x.aliasOpt = none → y.aliasOpt = some (str "fs" ++ decN k))
    (fun d3 i x x2 hh hx => by
      unfold fsStepF at hh
      injection hh with hh
      rw [← hh]
      unfold qemuAssignDeviceFSAlias
      rw [if_neg (by simp [hx])]
      dsimp only
      rw [decZ_ofNat]
      ) d d2 h

theorem soundsStage_at (d d2 : DomainDef) (h : runStage soundsL soundStepF d = .ok d2) :
    d2.sounds.length = d.sounds.length ∧
    ∀ k (hk : k < d.sounds.length) (hk2 : k < d2.sounds.length),
      (d.sounds.get ⟨k, hk⟩).aliasOpt = none →
      (d2.sounds.get ⟨k, hk2⟩).aliasOpt = some (str "sound" ++ decN k) := by
  exact runStage_ok_spec_at soundsL soundStepF (fun _ _ => rfl)
    (fun k x y => x.aliasOpt = none → y.aliasOpt = some (str "sound" ++ decN k))
    (fun d3 i x x2 hh hx => by
      unfold soundStepF at hh
      injection hh with hh
      rw [← hh]
      unfold qemuAssignDeviceSoundAlias
      rw [if_neg (by simp [hx])]
      dsimp only
      rw [decZ_ofNat]
      ) d d2 h

theorem videosStage_at (d d2 : DomainDef) (h : runStage videosL videoStepF d = .ok d2) :
    d2.videos.length = d.videos.length ∧
    ∀ k (hk : k < d.videos.length) (hk2 : k < d2.videos.length),
      (d.videos.get ⟨k, hk⟩).aliasOpt = none →
      (d2.videos.get ⟨k, hk2⟩).aliasOpt = some (str "video" ++ decN k) := by
  exact runStage_ok_spec_at videosL videoStepF (fun _ _ => rfl)
    (fun k x y => x.aliasOpt = none → y.aliasOpt = some (str "video" ++ decN k))
    (fun d3 i x x2 hh hx => by
      unfold videoStepF at hh
      injection hh with hh
      rw [← hh]
      unfold qemuAssignDeviceVideoAlias
      rw [if_neg (by simp [hx])]
      dsimp only
      rw [decZ_ofNat]
      ) d d2 h

theorem hubsStage_at (d d2 : DomainDef) (h : runStage hubsL hubStepF d = .ok d2) :
    d2.hubs.length = d.hubs.length ∧
    ∀ k (hk : k < d.hubs.length) (hk2 : k < d2.hubs.length),
      (d.hubs.get ⟨k, hk⟩).aliasOpt = none →
      (d2.hubs.get ⟨k, hk2⟩).aliasOpt = some (str "hub" ++ decN k) := by
  exact runStage_ok_spec_at hubsL hubStepF (fun _ _ => rfl)
    (fun k x y => x.aliasOpt = none → y.aliasOpt = some (str "hub" ++ decN k))
    (fun d3 i x x2 hh hx => by
      unfold hubStepF at hh
      injection hh with hh
      rw [← hh]
      unfold qemuAssignDeviceHubAlias
      rw [if_neg (by simp [hx])]
      dsimp only
      rw [decZ_ofNat]
      ) d d2 h

theorem smartcardsStage_at (d d2 : DomainDef) (h : runStage smartcardsL smartcardStepF d = .ok d2) :
    d2.smartcards.length = d.smartcards.length ∧
    ∀ k (hk : k < d.smartcards.length) (hk2 : k < d2.smartcards.length),
      (d.smartcards.get ⟨k, hk⟩).aliasOpt = none →
      (d2.smartcards.get ⟨k, hk2⟩).aliasOpt = some (str "smartcard" ++ decN k) := by
  exact runStage_ok_spec_at smartcardsL smartcardStepF (fun _ _ => rfl)
    (fun k x y => x.aliasOpt = none → y.aliasOpt = some (str "smartcard" ++ decN k))
    (fun d3 i x x2 hh hx => by
      unfold smartcardStepF at hh
      injection hh with hh
      rw [← hh]
      unfold qemuAssignDeviceSmartcardAlias
      rw [if_neg (by simp [hx])]
      dsimp only
      rw [decZ_ofNat]
      ) d d2 h

theorem tpmsStage_at (d d2 : DomainDef) (h : runStage tpmsL tpmStepF d = .ok d2) :
    d2.tpms.length = d.tpms.length ∧
    ∀ k (hk : k < d.tpms.length) (hk2 : k < d2.tpms.length),
      (d.tpms.get ⟨k, hk⟩).aliasOpt = none →
      (d2.tpms.get ⟨k, hk2⟩).aliasOpt = some (str "tpm" ++ decN k) := by
  exact runStage_ok_spec_at tpmsL tpmStepF (fun _ _ => rfl)
    (fun k x y => x.aliasOpt = none → y.aliasOpt = some (str "tpm" ++ decN k))
    (fun d3 i x x2 hh hx => by
      unfold tpmStepF at hh
      injection hh with hh
      rw [← hh]
      unfold qemuAssignDeviceTPMAlias
      rw [if_neg (by simp [hx])]
      dsimp only
      rw [decZ_ofNat]
      ) d d2 h

theorem redirdevsStage_at (d d2 : DomainDef) (h : runStage redirdevsL redirdevStepF d = .ok d2) :
    d2.redirdevs.length = d.redirdevs.length ∧
    ∀ k (hk : k < d.redirdevs.length) (hk2 : k < d2.redirdevs.length),
      (d.redirdevs.get ⟨k, hk⟩).aliasOpt = none →
      (d2.redirdevs.get ⟨k, hk2⟩).aliasOpt = some (str "redir" ++ decN k) := by
  exact runStage_ok_spec_at redirdevsL redirdevStepF (fun _ _ => rfl)
    (fun k x y => x.aliasOpt = none → y.aliasOpt = some (str "redir" ++ decN k))
    (fun d3 i x x2 hh hx => by
      unfold redirdevStepF at hh
      injection hh with hh
      rw [← hh]
      unfold qemuAssignDeviceRedirdevAlias
      rw [if_neg (by simp [hx])]
      dsimp only
      rw [if_neg (show ¬ ((i : Int) = -1) by omega), decZ_ofNat]
      ) d d2 h

theorem shmemsStage_at (d d2 : DomainDef) (h : runStage shmemsL shmemStepF d = .ok d2) :
    d2.shmems.length = d.shmems.length ∧
    ∀ k (hk : k < d.shmems.length) (hk2 : k < d2.shmems.length),
      (d.shmems.get ⟨k, hk⟩).aliasOpt = none →
      (d2.shmems.get ⟨k, hk2⟩).aliasOpt = some (str "shmem" ++ decN k) := by
  exact runStage_ok_spec_at shmemsL shmemStepF (fun _ _ => rfl)
    (fun k x y => x.aliasOpt = none → y.aliasOpt = some (str "shmem" ++ decN k))
    (fun d3 i x x2 hh hx => by
      unfold shmemStepF at hh
      injection hh with hh
      rw [← hh]
      unfold qemuAssignDeviceShmemAlias
      rw [if_neg (by simp [hx])]
      dsimp only
      rw [if_neg (show ¬ ((i : Int) = -1) by omega), decZ_ofNat]
      ) d d2 h

theorem inputsStage_at (d d2 : DomainDef) (h : runStage inputsL inputStepF d = .ok d2) :
    d2.inputs.length = d.inputs.length ∧
    ∀ k (hk : k < d.inputs.length) (hk2 : k < d2.inputs.length),
      (d.inputs.get ⟨k, hk⟩).aliasOpt = none →
      (d2.inputs.get ⟨k, hk2⟩).aliasOpt = some (str "input" ++ decN k) := by
  exact runStage_ok_spec_at inputsL inputStepF (fun _ _ => rfl)
    (fun k x y => x.aliasOpt = none → y.aliasOpt = some (str "input" ++ decN k))
    (fun d3 i x x2 hh hx => by
      unfold inputStepF at hh
      injection hh with hh
      rw [← hh]
      unfold qemuAssignDeviceInputAlias
      rw [if_neg (by simp [hx])]
      dsimp only
      rw [if_neg (show ¬ ((i : Int) = -1) by omega), decZ_ofNat]
      ) d d2 h

theorem parallelsStage_at (d d2 : DomainDef) (h : runStage parallelsL chrStepF d = .ok d2) :
    d2.parallels.length = d.parallels.length ∧
    ∀ k (hk : k < d.parallels.length) (hk2 : k < d2.parallels.length),
      (d.parallels.get ⟨k, hk⟩).aliasOpt = none → (d.parallels.get ⟨k, hk⟩).deviceType = ChrDeviceType.parallel →
      (d2.parallels.get ⟨k, hk2⟩).aliasOpt = some (str "parallel" ++ decN k) := by
  exact runStage_ok_spec_at parallelsL chrStepF (fun _ _ => rfl)
    (fun k x y => x.aliasOpt = none → x.deviceType = ChrDeviceType.parallel →
      y.aliasOpt = some (str "parallel" ++ decN k))
    (fun d3 i x x2 hh hx hdt => by
      unfold chrStepF qemuAssignDeviceChrAlias at hh
      rw [if_neg (by simp [hx])] at hh
      rw [if_neg (by rw [hdt]; decide)] at hh
      have hpick : chrPickIdx d3 x (i : Int) = (i : Int) := by
        unfold chrPickIdx
        rw [if_neg (show ¬ ((i : Int) = -1) by omega)]
      rw [hpick] at hh
      rw [if_neg (show ¬ ((i : Int) < 0) by omega)] at hh
      injection hh with hh
      rw [← hh]
      show some (chrDevPrefix x.deviceType ++ decZ (i : Int)) = _
      rw [hdt, decZ_ofNat]
      rfl
      ) d d2 h

theorem serialsStage_at (d d2 : DomainDef) (h : runStage serialsL chrStepF d = .ok d2) :
    d2.serials.length = d.serials.length ∧
    ∀ k (hk : k < d.serials.length) (hk2 : k < d2.serials.length),
      (d.serials.get ⟨k, hk⟩).aliasOpt = none → (d.serials.get ⟨k, hk⟩).deviceType = ChrDeviceType.serial →
      (d2.serials.get ⟨k, hk2⟩).aliasOpt = some (str "serial" ++ decN k) := by
  exact runStage_ok_spec_at serialsL chrStepF (fun _ _ => rfl)
    (fun k x y => x.aliasOpt = none → x.deviceType = ChrDeviceType.serial →
      y.aliasOpt = some (str "serial" ++ decN k))
    (fun d3 i x x2 hh hx hdt => by
      unfold chrStepF qemuAssignDeviceChrAlias at hh
      rw [if_neg (by simp [hx])] at hh
      rw [if_neg (by rw [hdt]; decide)] at hh
      have hpick : chrPickIdx d3 x (i : Int) = (i : Int) := by
        unfold chrPickIdx
        rw [if_neg (show ¬ ((i : Int) = -1) by omega)]
      rw [hpick] at hh
      rw [if_neg (show ¬ ((i : Int) < 0) by omega)] at hh
      injection hh with hh
      rw [← hh]
      show some (chrDevPrefix x.deviceType ++ decZ (i : Int)) = _
      rw [hdt, decZ_ofNat]
      rfl
      ) d d2 h

theorem channelsStage_at (d d2 : DomainDef) (h : runStage channelsL chrStepF d = .ok d2) :
    d2.channels.length = d.channels.length ∧
    ∀ k (hk : k < d.channels.length) (hk2 : k < d2.channels.length),
      (d.channels.get ⟨k, hk⟩).aliasOpt = none → (d.channels.get ⟨k, hk⟩).deviceType = ChrDeviceType.channel →
      (d2.channels.get ⟨k, hk2⟩).aliasOpt = some (str "channel" ++ decN k) := by
  exact runStage_ok_spec_at channelsL chrStepF (fun _ _ => rfl)
    (fun k x y => x.aliasOpt = none → x.deviceType = ChrDeviceType.channel →
      y.aliasOpt = some (str "channel" ++ decN k))
    (fun d3 i x x2 hh hx hdt => by
      unfold chrStepF qemuAssignDeviceChrAlias at hh
      rw [if_neg (by simp [hx])] at hh
      rw [if_neg (by rw [hdt]; decide)] at hh
      have hpick : chrPickIdx d3 x (i : Int) = (i : Int) := by
        unfold chrPickIdx
        rw [if_neg (show ¬ ((i : Int) = -1) by omega)]
      rw [hpick] at hh
      rw [if_neg (show ¬ ((i : Int) < 0) by omega)] at hh
      injection hh with hh
      rw [← hh]
      show some (chrDevPrefix x.deviceType ++ decZ (i : Int)) = _
      rw [hdt, decZ_ofNat]
      rfl
      ) d d2 h

theorem consolesStage_at (d d2 : DomainDef) (h : runStage consolesL chrStepF d = .ok d2) :
    d2.consoles.length = d.consoles.length ∧
    ∀ k (hk : k < d.consoles.length) (hk2 : k < d2.consoles.length),
      (d.consoles.get ⟨k, hk⟩).aliasOpt = none → (d.consoles.get ⟨k, hk⟩).deviceType = ChrDeviceType.console →
      (d2.consoles.get ⟨k, hk2⟩).aliasOpt = some (str "console" ++ decN k) := by
  exact runStage_ok_spec_at consolesL chrStepF (fun _ _ => rfl)
    (fun k x y => x.aliasOpt = none → x.deviceType = ChrDeviceType.console →
      y.aliasOpt = some (str "console" ++ decN k))
    (fun d3 i x x2 hh hx hdt => by
      unfold chrStepF qemuAssignDeviceChrAlias at hh
      rw [if_neg (by simp [hx])] at hh
      rw [if_neg (by rw [hdt]; decide)] at hh
      have hpick : chrPickIdx d3 x (i : Int) = (i : Int) := by
        unfold chrPickIdx
        rw [if_neg (show ¬ ((i : Int) = -1) by omega)]
      rw [hpick] at hh
      rw [if_neg (show ¬ ((i : Int) < 0) by omega)] at hh
      injection hh with hh
      rw [← hh]
      show some (chrDevPrefix x.deviceType ++ decZ (i : Int)) = _
      rw [hdt, decZ_ofNat]
      rfl
      ) d d2 h


/-! ### Controller and disk stage characterizations -/

/-- The alias the controller assigner chooses for a fresh controller, as a
function of the original domain (only the machine family matters). -/
def ctrlAliasFor (d : DomainDef) (caps : QemuCaps) (c : ControllerDef) : Str :=
  if c.type = CtrlType.pci then
    if ¬ caps.pciMultiBus then str "pci"
    else if c.model = CtrlModel.pcieRoot then str "pcie." ++ decN c.idx
    else str "pci." ++ decN c.idx
  else if c.type = CtrlType.ide ∧ qemuDomainHasBuiltinIDE d ∧ c.idx = 0 then str "ide"
  else if c.type = CtrlType.sata ∧ qemuDomainIsQ35 d ∧ c.idx = 0 then str "ide"
  else if c.type = CtrlType.usb ∧ c.idx = 0 then str "usb"
  else if c.type = CtrlType.scsi ∧ c.model = CtrlModel.scsiNcr53c90 ∧ c.idx = 0 then
    str "scsi"
  else ctrlTypeName c.type ++ decN c.idx

theorem assignController_fresh (dd d : DomainDef) (caps : QemuCaps) (c : ControllerDef)
    (hfam : dd.family = d.family) (hal : c.aliasOpt = none) :
    (qemuAssignDeviceControllerAlias dd caps c).aliasOpt = some (ctrlAliasFor d caps c) := by
  have hbi : qemuDomainHasBuiltinIDE dd = qemuDomainHasBuiltinIDE d := by
    unfold qemuDomainHasBuiltinIDE
    rw [hfam]
  have hq : qemuDomainIsQ35 dd = qemuDomainIsQ35 d := by
    unfold qemuDomainIsQ35
    rw [hfam]
  unfold qemuAssignDeviceControllerAlias ctrlAliasFor
  rw [if_neg (by simp [hal]), hbi, hq]
  by_cases h1 : c.type = CtrlType.pci
  · rw [if_pos h1, if_pos h1]
    by_cases h2 : caps.pciMultiBus
    · rw [if_neg (not_not_intro h2), if_neg (not_not_intro h2)]
      by_cases h3 : c.model = CtrlModel.pcieRoot
      · rw [if_pos h3, if_pos h3]
      · rw [if_neg h3, if_neg h3]
    · rw [if_pos h2, if_pos h2]
  · rw [if_neg h1, if_neg h1]
    by_cases h2 : c.type = CtrlType.ide ∧ qemuDomainHasBuiltinIDE d ∧ c.idx = 0
    · rw [if_pos h2, if_pos h2]
    · rw [if_neg h2, if_neg h2]
      by_cases h3 : c.type = CtrlType.sata ∧ qemuDomainIsQ35 d ∧ c.idx = 0
      · rw [if_pos h3, if_pos h3]
      · rw [if_neg h3, if_neg h3]
        by_cases h4 : c.type = CtrlType.usb ∧ c.idx = 0
        · rw [if_pos h4, if_pos h4]
        · rw [if_neg h4, if_neg h4]
          by_cases h5 : c.type = CtrlType.scsi ∧ c.model = CtrlModel.scsiNcr53c90 ∧
            c.idx = 0
          · rw [if_pos h5, if_pos h5]
          · rw [if_neg h5, if_neg h5]

theorem ctrlStage_forall (caps : QemuCaps) (d d2 : DomainDef)
    (h : runStage controllersL (controllerStepF caps) d = .ok d2) :
    ∃ proc, d2.controllers = proc ∧
      List.Forall₂ (fun x y => x.aliasOpt = none →
        y.aliasOpt = some (ctrlAliasFor d caps x)) d.controllers proc := by
  obtain ⟨proc, hp, hfa⟩ := runStage_ok_spec_proj controllersL (controllerStepF caps)
    (fun dd => dd.family) (fun _ _ => rfl) (fun _ _ => rfl)
    (fun x y => x.aliasOpt = none → y.aliasOpt = some (ctrlAliasFor d caps x))
    d d2
    (fun d3 i x x2 hg hh hx => by
      unfold controllerStepF at hh
      injection hh with hh
      rw [← hh]
      exact assignController_fresh d3 d caps x hg hx) h
  exact ⟨proc, hp, hfa⟩

/-- The alias the disk assigner chooses for a fresh disk, as a function of
the original domain (only the controller list matters, for the SCSI model
lookup); none when that lookup fails. -/
def diskAliasFor (d : DomainDef) (x : DiskDef) : Option Str :=
  if x.addrIsDrive then
    if x.bus = DiskBus.scsi then
      match qemuDomainFindSCSIControllerModel d x.drive.controller with
      | none => none
      | some m =>
        if m = CtrlModel.scsiLsilogic then
          some (diskBusName x.bus ++ (decN x.drive.controller ++ '-' :: (decN x.drive.bus ++
            '-' :: decN x.drive.unit)))
        else
          some (diskBusName x.bus ++ (decN x.drive.controller ++ '-' :: (decN x.drive.bus ++
            '-' :: (decN x.drive.target ++ '-' :: decN x.drive.unit))))
    else
      some (diskBusName x.bus ++ (decN x.drive.controller ++ '-' :: (decN x.drive.bus ++
        '-' :: decN x.drive.unit)))
  else
    some (diskBusName x.bus ++ ('-' :: (str "disk" ++ decZ (virDiskNameToIndex x.dst))))

theorem diskStep_fresh {caps : QemuCaps} {dd d : DomainDef} {i : Nat} {x x2 : DiskDef}
    (hctl : dd.controllers = d.controllers) (hh : diskStepF caps dd i x = .ok x2)
    (hx : x.aliasOpt = none) : x2.aliasOpt = diskAliasFor d x ∧ x2.aliasOpt.isSome := by
  unfold diskStepF qemuAssignDeviceDiskAlias at hh
  cases hc : diskChooseAlias dd x with
  | error e =>
    rw [hc] at hh
    exact absurd hh (by simp)
  | ok y =>
    have hys := diskChooseAlias_isSome hc
    rw [hc] at hh
    injection hh with hh
    have hfind : qemuDomainFindSCSIControllerModel dd x.drive.controller =
        qemuDomainFindSCSIControllerModel d x.drive.controller := by
      unfold qemuDomainFindSCSIControllerModel
      rw [hctl]
    have hy : y.aliasOpt = diskAliasFor d x := by
      unfold diskChooseAlias at hc
      rw [if_neg (by simp [hx])] at hc
      unfold diskAliasFor
      by_cases h1 : x.addrIsDrive
      · rw [if_pos h1] at hc
        rw [if_pos h1]
        by_cases h2 : x.bus = DiskBus.scsi
        · rw [if_pos h2] at hc
          rw [if_pos h2]
          rw [hfind] at hc
          cases hm : qemuDomainFindSCSIControllerModel d x.drive.controller with
          | none =>
            rw [hm] at hc
            exact absurd hc (by simp)
          | some m =>
            rw [hm] at hc
            dsimp only at hc ⊢
            by_cases h3 : m = CtrlModel.scsiLsilogic
            · rw [if_pos h3] at hc
              rw [if_pos h3]
              injection hc with hc
              rw [← hc]
            · rw [if_neg h3] at hc
              rw [if_neg h3]
              injection hc with hc
              rw [← hc]
        · rw [if_neg h2] at hc
          rw [if_neg h2]
          injection hc with hc
          rw [← hc]
      · rw [if_neg h1] at hc
        rw [if_neg h1]
        injection hc with hc
        rw [← hc]
    constructor
    · rw [← hh, diskSetQOMName_alias, hy]
    · rw [← hh, diskSetQOMName_alias]
      exact hys

theorem diskStage_forall (caps : QemuCaps) (d d2 : DomainDef)
    (h : runStage disksL (diskStepF caps) d = .ok d2) :
    ∃ proc, d2.disks = proc ∧
      List.Forall₂ (fun x y => x.aliasOpt = none →
        y.aliasOpt = diskAliasFor d x ∧ y.aliasOpt.isSome) d.disks proc := by
  obtain ⟨proc, hp, hfa⟩ := runStage_ok_spec_proj disksL (diskStepF caps)
    (fun dd => dd.controllers) (fun _ _ => rfl) (fun _ _ => rfl)
    (fun x y => x.aliasOpt = none → y.aliasOpt = diskAliasFor d x ∧ y.aliasOpt.isSome)
    d d2
    (fun d3 i x x2 hg hh hx => diskStep_fresh hg hh hx) h
  exact ⟨proc, hp, hfa⟩


/-! ### Scavenged stage characterizations (nets, hostdevs, rngs) -/

theorem nodup_append_singleton {β : Type} {l : List β} {a : β}
    (h : l.Nodup) (ha : a ∉ l) : (l ++ [a]).Nodup := by
  rw [List.nodup_append]
  refine ⟨h, List.nodup_singleton a, ?_⟩
  intro o ho hm
  rw [List.mem_singleton] at hm
  rw [hm] at ho
  exact ha ho

theorem forall₂_exists_left {α β : Type} {R : α → β → Prop} {l : List α} {l2 : List β}
    (h : List.Forall₂ R l l2) : ∀ b ∈ l2, ∃ a ∈ l, R a b := by
  induction h with
  | nil =>
    intro b hb
    exact absurd hb (List.not_mem_nil b)
  | cons hr hrest ih =>
    intro b hb
    rcases List.mem_cons.mp hb with rfl | hm
    · exact ⟨_, List.mem_cons_self .., hr⟩
    · obtain ⟨a, ha, hra⟩ := ih b hm
      exact ⟨a, List.mem_cons_of_mem _ ha, hra⟩

/-- A freshly scavenged alias cannot already occur among the slots the scan
strictly dominates. -/
theorem scavenged_alias_notmem {pre : Str} {N : Int} (hN0 : 0 ≤ N)
    {l : List (Option Str)} (hgt : ∀ o ∈ l, qemuDomainDeviceAliasIndex o pre < N) :
    some (pre ++ decN N.toNat) ∉ l := by
  intro hmem
  have h1 := hgt _ hmem
  rw [aliasIndex_append_decN] at h1
  omega

/-- The shape of an interface alias produced by the net stage. -/
def netAliasShape (o : Option Str) : Prop :=
  ∃ k : Nat, o = some (str "net" ++ decN k) ∨ o = some (str "hostdev" ++ decN k)

theorem netLoop_inv :
    ∀ (todo done : List NetDef) (d0 : DomainDef) (i : Nat) (d2 : DomainDef),
      goLoop netsL netStepF d0 done todo i = .ok d2 →
      d0.nets = done ++ todo →
      (∀ x ∈ todo, x.aliasOpt = none) →
      (∀ o ∈ done.map (fun y => y.aliasOpt), netAliasShape o) →
      (done.map (fun y => y.aliasOpt)).Nodup →
      (∀ o ∈ d2.nets.map (fun y => y.aliasOpt), netAliasShape o) ∧
      (d2.nets.map (fun y => y.aliasOpt)).Nodup := by
  intro todo
  induction todo with
  | nil =>
    intro done d0 i d2 h hinv hfresh hshape hnd
    injection h with h
    rw [← h]
    simp only [List.append_nil] at hinv
    rw [hinv]
    exact ⟨hshape, hnd⟩
  | cons x rest ih =>
    intro done d0 i d2 h hinv hfresh hshape hnd
    rw [goLoop_cons] at h
    cases hf2 : netStepF d0 i x with
    | error e =>
      rw [hf2] at h
      exact absurd h (by simp)
    | ok x2 =>
      rw [hf2] at h
      unfold netStepF at hf2
      injection hf2 with hf2
      have hx := hfresh x (List.mem_cons_self ..)
      have hmem_sub : ∀ o ∈ done.map (fun y => y.aliasOpt),
          o ∈ d0.nets.map (fun y => y.aliasOpt) := by
        intro o ho
        rw [hinv, List.map_append]
        exact List.mem_append.mpr (Or.inl ho)
      have hkey : netAliasShape x2.aliasOpt ∧
          x2.aliasOpt ∉ done.map (fun y => y.aliasOpt) := by
        by_cases hah : x.actualHostdev
        · have ha2 : x2.aliasOpt =
              some (str "hostdev" ++ decN (hostdevScavengedIdx d0).toNat) := by
            rw [← hf2]
            unfold qemuAssignDeviceNetAlias
            rw [if_neg (by simp [hx]), if_pos hah]
            show qemuAssignDeviceHostdevAlias d0 x.aliasOpt (-1) = _
            rw [hx, (hostdevScavenged_spec d0).1,
              decZ_nonneg (hostdevScavenged_spec d0).2.1]
          refine ⟨⟨_, Or.inr ha2⟩, ?_⟩
          rw [ha2]
          apply scavenged_alias_notmem (hostdevScavenged_spec d0).2.1
          intro o ho
          obtain ⟨y, hy, hye⟩ := List.mem_map.mp (hmem_sub o ho)
          rw [← hye]
          exact (hostdevScavenged_spec d0).2.2.2 y hy
        · have hM0 : (0:Int) ≤ scavengeSkipNeg (str "net") 0
              (d0.nets.map (fun n => n.aliasOpt)) := scavengeSkipNeg_le _ 0 _
          have ha2 : x2.aliasOpt = some (str "net" ++
              decN (scavengeSkipNeg (str "net") 0
                (d0.nets.map (fun n => n.aliasOpt))).toNat) := by
            rw [← hf2]
            unfold qemuAssignDeviceNetAlias
            rw [if_neg (by simp [hx]), if_neg hah]
            show some (str "net" ++ decZ (if (-1 : Int) = -1 then
              scavengeSkipNeg (str "net") 0 (d0.nets.map (fun n => n.aliasOpt))
              else -1)) = _
            rw [if_pos rfl, decZ_nonneg hM0]
          refine ⟨⟨_, Or.inl ha2⟩, ?_⟩
          rw [ha2]
          apply scavenged_alias_notmem hM0
          intro o ho
          exact scavengeSkipNeg_gt _ 0 (le_refl 0) _ o (hmem_sub o ho)
      refine ih (done ++ [x2]) _ _ _ h (by simp [netsL])
        (fun z hz => hfresh z (List.mem_cons_of_mem _ hz)) ?_ ?_
      · intro o ho
        simp only [List.map_append, List.map_cons, List.map_nil] at ho
        rcases List.mem_append.mp ho with ho2 | ho2
        · exact hshape o ho2
        · rw [List.mem_singleton.mp ho2]
          exact hkey.1
      · simp only [List.map_append, List.map_cons, List.map_nil]
        exact nodup_append_singleton hnd hkey.2

theorem netStage_spec (d d2 : DomainDef) (h : runStage netsL netStepF d = .ok d2)
    (hfresh : ∀ x ∈ d.nets, x.aliasOpt = none) :
    (∀ o ∈ d2.nets.map (fun y => y.aliasOpt), netAliasShape o) ∧
    (d2.nets.map (fun y => y.aliasOpt)).Nodup :=
  netLoop_inv d.nets [] d 0 d2 h rfl hfresh (by simp) (by simp)

theorem hostdevLoop_inv (NF : List (Option Str)) :
    ∀ (todo done : List HostdevDef) (d0 : DomainDef) (i : Nat) (d2 : DomainDef),
      goLoop hostdevsL hostdevStepF d0 done todo i = .ok d2 →
      d0.hostdevs = done ++ todo →
      d0.nets.map (fun y => y.aliasOpt) = NF →
      (∀ x ∈ todo, x.aliasOpt = none) →
      (∀ o ∈ done.map (fun y => y.aliasOpt),
        ∃ k : Nat, o = some (str "hostdev" ++ decN k)) →
      (NF ++ done.map (fun y => y.aliasOpt)).Nodup →
      (∀ o ∈ d2.hostdevs.map (fun y => y.aliasOpt),
        ∃ k : Nat, o = some (str "hostdev" ++ decN k)) ∧
      (NF ++ d2.hostdevs.map (fun y => y.aliasOpt)).Nodup := by
  intro todo
  induction todo with
  | nil =>
    intro done d0 i d2 h hinv hnf hfresh hshape hnd
    injection h with h
    rw [← h]
    simp only [List.append_nil] at hinv
    rw [hinv]
    exact ⟨hshape, hnd⟩
  | cons x rest ih =>
    intro done d0 i d2 h hinv hnf hfresh hshape hnd
    rw [goLoop_cons] at h
    cases hf2 : hostdevStepF d0 i x with
    | error e =>
      rw [hf2] at h
      exact absurd h (by simp)
    | ok x2 =>
      rw [hf2] at h
      unfold hostdevStepF at hf2
      injection hf2 with hf2
      have hx := hfresh x (List.mem_cons_self ..)
      have ha2 : x2.aliasOpt =
          some (str "hostdev" ++ decN (hostdevScavengedIdx d0).toNat) := by
        rw [← hf2]
        show qemuAssignDeviceHostdevAlias d0 x.aliasOpt (-1) = _
        rw [hx, (hostdevScavenged_spec d0).1,
          decZ_nonneg (hostdevScavenged_spec d0).2.1]
      have hnotmem : x2.aliasOpt ∉ NF ++ done.map (fun y => y.aliasOpt) := by
        rw [ha2]
        apply scavenged_alias_notmem (hostdevScavenged_spec d0).2.1
        intro o ho
        rcases List.mem_append.mp ho with ho2 | ho2
        · rw [← hnf] at ho2
          obtain ⟨y, hy, hye⟩ := List.mem_map.mp ho2
          rw [← hye]
          exact (hostdevScavenged_spec d0).2.2.2 y hy
        · have ho3 : o ∈ d0.hostdevs.map (fun y => y.aliasOpt) := by
            rw [hinv, List.map_append]
            exact List.mem_append.mpr (Or.inl ho2)
          obtain ⟨y, hy, hye⟩ := List.mem_map.mp ho3
          rw [← hye]
          exact (hostdevScavenged_spec d0).2.2.1 y hy
      refine ih (done ++ [x2]) _ _ _ h (by simp [hostdevsL]) hnf
        (fun z hz => hfresh z (List.mem_cons_of_mem _ hz)) ?_ ?_
      · intro o ho
        simp only [List.map_append, List.map_cons, List.map_nil] at ho
        rcases List.mem_append.mp ho with ho2 | ho2
        · exact hshape o ho2
        · rw [List.mem_singleton.mp ho2, ha2]
          exact ⟨_, rfl⟩
      · simp only [List.map_append, List.map_cons, List.map_nil]
        rw [← List.append_assoc]
        exact nodup_append_singleton hnd hnotmem

theorem hostdevStage_spec (d d2 : DomainDef)
    (h : runStage hostdevsL hostdevStepF d = .ok d2)
    (hfresh : ∀ x ∈ d.hostdevs, x.aliasOpt = none)
    (hnd : (d.nets.map (fun y => y.aliasOpt)).Nodup) :
    (∀ o ∈ d2.hostdevs.map (fun y => y.aliasOpt),
      ∃ k : Nat, o = some (str "hostdev" ++ decN k)) ∧
    (d.nets.map (fun y => y.aliasOpt) ++
      d2.hostdevs.map (fun y => y.aliasOpt)).Nodup :=
  hostdevLoop_inv (d.nets.map (fun y => y.aliasOpt)) d.hostdevs [] d 0 d2 h rfl rfl
    hfresh (by simp) (by simpa using hnd)

theorem rngLoop_inv :
    ∀ (todo done : List RNGDef) (d0 : DomainDef) (i : Nat) (d2 : DomainDef),
      goLoop rngsL rngStepF d0 done todo i = .ok d2 →
      d0.rngs = done ++ todo →
      (∀ x ∈ todo, x.aliasOpt = none) →
      (∀ o ∈ done.map (fun y => y.aliasOpt),
        ∃ k : Nat, o = some (str "rng" ++ decN k)) →
      (done.map (fun y => y.aliasOpt)).Nodup →
      (∀ o ∈ d2.rngs.map (fun y => y.aliasOpt),
        ∃ k : Nat, o = some (str "rng" ++ decN k)) ∧
      (d2.rngs.map (fun y => y.aliasOpt)).Nodup := by
  intro todo
  induction todo with
  | nil =>
    intro done d0 i d2 h hinv hfresh hshape hnd
    injection h with h
    rw [← h]
    simp only [List.append_nil] at hinv
    rw [hinv]
    exact ⟨hshape, hnd⟩
  | cons x rest ih =>
    intro done d0 i d2 h hinv hfresh hshape hnd
    rw [goLoop_cons] at h
    cases hf2 : rngStepF d0 i x with
    | error e =>
      rw [hf2] at h
      exact absurd h (by simp)
    | ok x2 =>
      rw [hf2] at h
      unfold rngStepF at hf2
      injection hf2 with hf2
      have hx := hfresh x (List.mem_cons_self ..)
      have hM0 : (0:Int) ≤ scavengeGE (str "rng") 0
          (d0.rngs.map (fun r => r.aliasOpt)) := scavengeGE_le _ 0 _
      have ha2 : x2.aliasOpt = some (str "rng" ++
          decN (scavengeGE (str "rng") 0 (d0.rngs.map (fun r => r.aliasOpt))).toNat) := by
        rw [← hf2]
        unfold qemuAssignDeviceRNGAlias
        rw [if_neg (by simp [hx])]
        show some (str "rng" ++ decZ (scavengeGE (str "rng") 0
          (d0.rngs.map (fun r => r.aliasOpt)))) = _
        rw [decZ_nonneg hM0]
      have hnotmem : x2.aliasOpt ∉ done.map (fun y => y.aliasOpt) := by
        rw [ha2]
        apply scavenged_alias_notmem hM0
        intro o ho
        have ho3 : o ∈ d0.rngs.map (fun y => y.aliasOpt) := by
          rw [hinv, List.map_append]
          exact List.mem_append.mpr (Or.inl ho)
        exact scavengeGE_gt _ 0 _ o ho3
      refine ih (done ++ [x2]) _ _ _ h (by simp [rngsL])
        (fun z hz => hfresh z (List.mem_cons_of_mem _ hz)) ?_ ?_
      · intro o ho
        simp only [List.map_append, List.map_cons, List.map_nil] at ho
        rcases List.mem_append.mp ho with ho2 | ho2
        · exact hshape o ho2
        · rw [List.mem_singleton.mp ho2, ha2]
          exact ⟨_, rfl⟩
      · simp only [List.map_append, List.map_cons, List.map_nil]
        exact nodup_append_singleton hnd hnotmem

theorem rngStage_spec (d d2 : DomainDef) (h : runStage rngsL rngStepF d = .ok d2)
    (hfresh : ∀ x ∈ d.rngs, x.aliasOpt = none) :
    (∀ o ∈ d2.rngs.map (fun y => y.aliasOpt),
      ∃ k : Nat, o = some (str "rng" ++ decN k)) ∧
    (d2.rngs.map (fun y => y.aliasOpt)).Nodup :=
  rngLoop_inv d.rngs [] d 0 d2 h rfl hfresh (by simp) (by simp)


/-! ### Memory stage characterization -/

/-- What the memory assigner gives a fresh memory device: slot-indexed alias
for DIMM/NVDIMM, scavenged index for virtio-pmem; the model cannot be none
(that errors out). -/
def memAliasMatches (x : MemoryDef) (o : Option Str) : Prop :=
  (x.model = MemModel.dimm → o = some (str "dimm" ++ decN x.slot)) ∧
  (x.model = MemModel.nvdimm → o = some (str "nvdimm" ++ decN x.slot)) ∧
  (x.model = MemModel.virtioPmem →
    ∃ k : Nat, o = some (str "virtiopmem" ++ decN k)) ∧
  x.model ≠ MemModel.noneModel

def memShape (o : Option Str) : Prop :=
  ∃ k : Nat, o = some (str "dimm" ++ decN k) ∨ o = some (str "nvdimm" ++ decN k) ∨
    o = some (str "virtiopmem" ++ decN k)

/-- The distinctness requirement on the memory devices themselves: equal-model
DIMM/NVDIMM devices occupy distinct slots. -/
def memPairHyp (a b : MemoryDef) : Prop :=
  (a.model = MemModel.dimm ∨ a.model = MemModel.nvdimm) → a.model = b.model →
    a.slot ≠ b.slot

theorem forall₂_append_single {α β : Type} {R : α → β → Prop} {l : List α}
    {l2 : List β} {a : α} {b : β} (h : List.Forall₂ R l l2) (hab : R a b) :
    List.Forall₂ R (l ++ [a]) (l2 ++ [b]) := by
  induction h with
  | nil => exact List.Forall₂.cons hab List.Forall₂.nil
  | cons hr _ ih => exact List.Forall₂.cons hr ih

theorem memLoop_inv :
    ∀ (todo orig done : List MemoryDef) (d0 : DomainDef) (i : Nat) (d2 : DomainDef),
      goLoop memsL memStepF d0 done todo i = .ok d2 →
      d0.mems = done ++ todo →
      (∀ x ∈ todo, x.aliasOpt = none) →
      List.Pairwise memPairHyp (orig ++ todo) →
      List.Forall₂ (fun x0 y => memAliasMatches x0 y.aliasOpt) orig done →
      (done.map (fun y => y.aliasOpt)).Nodup →
      (∀ o ∈ d2.mems.map (fun y => y.aliasOpt), memShape o) ∧
      (d2.mems.map (fun y => y.aliasOpt)).Nodup := by
  intro todo
  induction todo with
  | nil =>
    intro orig done d0 i d2 h hinv hfresh hpw hfa hnd
    injection h with h
    rw [← h]
    simp only [List.append_nil] at hinv
    rw [hinv]
    refine ⟨?_, hnd⟩
    intro o ho
    obtain ⟨y, hy, hye⟩ := List.mem_map.mp ho
    obtain ⟨x0, _, hm⟩ := forall₂_exists_left hfa y hy
    rw [← hye]
    cases hx0m : x0.model with
    | dimm => exact ⟨x0.slot, Or.inl (hm.1 hx0m)⟩
    | nvdimm => exact ⟨x0.slot, Or.inr (Or.inl (hm.2.1 hx0m))⟩
    | virtioPmem =>
      obtain ⟨k, hk⟩ := hm.2.2.1 hx0m
      exact ⟨k, Or.inr (Or.inr hk)⟩
    | noneModel => exact absurd hx0m hm.2.2.2
  | cons x rest ih =>
    intro orig done d0 i d2 h hinv hfresh hpw hfa hnd
    rw [goLoop_cons] at h
    cases hf2 : memStepF d0 i x with
    | error e =>
      rw [hf2] at h
      exact absurd h (by simp)
    | ok x2 =>
      rw [hf2] at h
      have hx := hfresh x (List.mem_cons_self ..)
      have hRx : ∀ x0 ∈ orig, memPairHyp x0 x := by
        intro x0 hx0
        exact (List.pairwise_append.mp hpw).2.2 x0 hx0 x (List.mem_cons_self ..)
      unfold memStepF qemuAssignDeviceMemoryAlias at hf2
      rw [if_neg (by simp [hx])] at hf2
      have hmain : memAliasMatches x x2.aliasOpt ∧
          x2.aliasOpt ∉ done.map (fun y => y.aliasOpt) := by
        cases hmod : x.model with
        | noneModel =>
          rw [hmod] at hf2
          dsimp only at hf2
          exact absurd hf2 (by simp)
        | dimm =>
          rw [hmod] at hf2
          dsimp only at hf2
          injection hf2 with hf2
          have hid : qemuDeviceMemoryGetAliasID d0 x false (str "dimm") =
              (x.slot : Int) := by
            unfold qemuDeviceMemoryGetAliasID
            rw [if_pos ⟨by simp, by rw [hmod]; decide⟩]
          have ha2 : x2.aliasOpt = some (str "dimm" ++ decN x.slot) := by
            rw [← hf2]
            show some (str "dimm" ++ decZ (qemuDeviceMemoryGetAliasID d0 x false
              (str "dimm"))) = _
            rw [hid, decZ_ofNat]
          refine ⟨⟨fun _ => ha2, fun h2 => absurd (hmod.symm.trans h2) (by decide),
            fun h2 => absurd (hmod.symm.trans h2) (by decide),
            by rw [hmod]; decide⟩, ?_⟩
          rw [ha2]
          intro hmem
          obtain ⟨y, hy, hye⟩ := List.mem_map.mp hmem
          obtain ⟨x0, hx0, hm⟩ := forall₂_exists_left hfa y hy
          have hR := hRx x0 hx0
          cases hx0m : x0.model with
          | dimm =>
            have h3 := (hm.1 hx0m).symm.trans hye
            injection h3 with h3
            have hslot : x0.slot = x.slot :=
              decN_injective (List.append_cancel_left h3)
            exact hR (Or.inl hx0m) (hx0m.trans hmod.symm) hslot
          | nvdimm =>
            have h3 := (hm.2.1 hx0m).symm.trans hye
            injection h3 with h3
            exact append_ne_of_incomparable (by decide) (by decide) _ _ h3.symm
          | virtioPmem =>
            obtain ⟨k, hk⟩ := hm.2.2.1 hx0m
            have h3 := hk.symm.trans hye
            injection h3 with h3
            exact append_ne_of_incomparable (by decide) (by decide) _ _ h3.symm
          | noneModel => exact absurd hx0m hm.2.2.2
        | nvdimm =>
          rw [hmod] at hf2
          dsimp only at hf2
          injection hf2 with hf2
          have hid : qemuDeviceMemoryGetAliasID d0 x false (str "nvdimm") =
              (x.slot : Int) := by
            unfold qemuDeviceMemoryGetAliasID
            rw [if_pos ⟨by simp, by rw [hmod]; decide⟩]
          have ha2 : x2.aliasOpt = some (str "nvdimm" ++ decN x.slot) := by
            rw [← hf2]
            show some (str "nvdimm" ++ decZ (qemuDeviceMemoryGetAliasID d0 x false
              (str "nvdimm"))) = _
            rw [hid, decZ_ofNat]
          refine ⟨⟨fun h2 => absurd (hmod.symm.trans h2) (by decide), fun _ => ha2,
            fun h2 => absurd (hmod.symm.trans h2) (by decide),
            by rw [hmod]; decide⟩, ?_⟩
          rw [ha2]
          intro hmem
          obtain ⟨y, hy, hye⟩ := List.mem_map.mp hmem
          obtain ⟨x0, hx0, hm⟩ := forall₂_exists_left hfa y hy
          have hR := hRx x0 hx0
          cases hx0m : x0.model with
          | dimm =>
            have h3 := (hm.1 hx0m).symm.trans hye
            injection h3 with h3
            exact append_ne_of_incomparable (by decide) (by decide) _ _ h3.symm
          | nvdimm =>
            have h3 := (hm.2.1 hx0m).symm.trans hye
            injection h3 with h3
            have hslot : x0.slot = x.slot :=
              decN_injective (List.append_cancel_left h3)
            exact hR (Or.inr hx0m) (hx0m.trans hmod.symm) hslot
          | virtioPmem =>
            obtain ⟨k, hk⟩ := hm.2.2.1 hx0m
            have h3 := hk.symm.trans hye
            injection h3 with h3
            exact append_ne_of_incomparable (by decide) (by decide) _ _ h3.symm
          | noneModel => exact absurd hx0m hm.2.2.2
        | virtioPmem =>
          rw [hmod] at hf2
          dsimp only at hf2
          injection hf2 with hf2
          have hid : qemuDeviceMemoryGetAliasID d0 x false (str "virtiopmem") =
              scavengeGE (str "virtiopmem") 0 (d0.mems.map (fun m => m.aliasOpt)) := by
            unfold qemuDeviceMemoryGetAliasID
            rw [if_neg (by rw [hmod]; simp)]
          have hM0 : (0:Int) ≤ scavengeGE (str "virtiopmem") 0
              (d0.mems.map (fun m => m.aliasOpt)) := scavengeGE_le _ 0 _
          have ha2 : x2.aliasOpt = some (str "virtiopmem" ++
              decN (scavengeGE (str "virtiopmem") 0
                (d0.mems.map (fun m => m.aliasOpt))).toNat) := by
            rw [← hf2]
            show some (str "virtiopmem" ++ decZ (qemuDeviceMemoryGetAliasID d0 x false
              (str "virtiopmem"))) = _
            rw [hid, decZ_nonneg hM0]
          refine ⟨⟨fun h2 => absurd (hmod.symm.trans h2) (by decide),
            fun h2 => absurd (hmod.symm.trans h2) (by decide),
            fun _ => ⟨_, ha2⟩, by rw [hmod]; decide⟩, ?_⟩
          rw [ha2]
          apply scavenged_alias_notmem hM0
          intro o ho
          have ho3 : o ∈ d0.mems.map (fun y => y.aliasOpt) := by
            rw [hinv, List.map_append]
            exact List.mem_append.mpr (Or.inl ho)
          exact scavengeGE_gt _ 0 _ o ho3
      refine ih (orig ++ [x]) (done ++ [x2]) _ _ _ h (by simp [memsL])
        (fun z hz => hfresh z (List.mem_cons_of_mem _ hz))
        (by
          have : (orig ++ [x]) ++ rest = orig ++ x :: rest := by simp
          rw [this]
          exact hpw)
        (forall₂_append_single hfa hmain.1)
        (by
          simp only [List.map_append, List.map_cons, List.map_nil]
          exact nodup_append_singleton hnd hmain.2)

theorem memStage_spec (d d2 : DomainDef) (h : runStage memsL memStepF d = .ok d2)
    (hfresh : ∀ x ∈ d.mems, x.aliasOpt = none)
    (hpw : List.Pairwise memPairHyp d.mems) :
    (∀ o ∈ d2.mems.map (fun y => y.aliasOpt), memShape o) ∧
    (d2.mems.map (fun y => y.aliasOpt)).Nodup :=
  memLoop_inv d.mems [] [] d 0 d2 h rfl hfresh (by simpa using hpw)
    List.Forall₂.nil (by simp)

/-! ### Controller alias injectivity -/

theorem not_bi_and_q35 (d : DomainDef) :
    ¬ (qemuDomainHasBuiltinIDE d = true ∧ qemuDomainIsQ35 d = true) := by
  unfold qemuDomainHasBuiltinIDE qemuDomainIsQ35
  cases d.family <;> simp

theorem ctrlName_cmp_pci (t : CtrlType) :
    ctrlTypeName t = str "pci" ∨ ¬ ctrlTypeName t <+: str "pci" := by
  cases t <;> first | exact Or.inl rfl | exact Or.inr (by decide)

theorem ctrlName_cmp_ide (t : CtrlType) :
    ctrlTypeName t = str "ide" ∨ ¬ ctrlTypeName t <+: str "ide" := by
  cases t <;> first | exact Or.inl rfl | exact Or.inr (by decide)

theorem ctrlName_cmp_usb (t : CtrlType) :
    ctrlTypeName t = str "usb" ∨ ¬ ctrlTypeName t <+: str "usb" := by
  cases t <;> first | exact Or.inl rfl | exact Or.inr (by decide)

theorem ctrlName_cmp_scsi (t : CtrlType) :
    ctrlTypeName t = str "scsi" ∨ ¬ ctrlTypeName t <+: str "scsi" := by
  cases t <;> first | exact Or.inl rfl | exact Or.inr (by decide)

theorem pcieStem_incomp (t : CtrlType) (h : t ≠ CtrlType.pci) :
    ¬ str "pcie." <+: ctrlTypeName t ∧ ¬ ctrlTypeName t <+: str "pcie." := by
  cases t <;> first | exact absurd rfl h | exact ⟨by decide, by decide⟩

theorem pciDotStem_incomp (t : CtrlType) (h : t ≠ CtrlType.pci) :
    ¬ str "pci." <+: ctrlTypeName t ∧ ¬ ctrlTypeName t <+: str "pci." := by
  cases t <;> first | exact absurd rfl h | exact ⟨by decide, by decide⟩

theorem ctrlStems_incomp (t u : CtrlType) (h : t ≠ u) :
    ¬ ctrlTypeName t <+: ctrlTypeName u ∧ ¬ ctrlTypeName u <+: ctrlTypeName t := by
  cases t <;> cases u <;> first | exact absurd rfl h | exact ⟨by decide, by decide⟩

theorem exact_ne_stemDec {s stem : Str} (n : Nat)
    (h : stem = s ∨ ¬ stem <+: s) : s ≠ stem ++ decN n := by
  rcases h with rfl | h
  · exact append_ne_nil_suffix (decN n) (decN_ne_nil n)
  · exact (stem_ne_exact _ h).symm

/-- The seven result shapes of the controller alias chooser, with the
conditions that select them. -/
theorem ctrlAliasFor_cases (d : DomainDef) (caps : QemuCaps) (c : ControllerDef) :
    (c.type = CtrlType.pci ∧ ¬ caps.pciMultiBus = true ∧
      ctrlAliasFor d caps c = str "pci") ∨
    (c.type = CtrlType.pci ∧ caps.pciMultiBus = true ∧
      ctrlAliasFor d caps c = str "pcie." ++ decN c.idx) ∨
    (c.type = CtrlType.pci ∧ caps.pciMultiBus = true ∧
      ctrlAliasFor d caps c = str "pci." ++ decN c.idx) ∨
    (c.type = CtrlType.ide ∧ qemuDomainHasBuiltinIDE d = true ∧ c.idx = 0 ∧
      ctrlAliasFor d caps c = str "ide") ∨
    (c.type = CtrlType.sata ∧ qemuDomainIsQ35 d = true ∧ c.idx = 0 ∧
      ctrlAliasFor d caps c = str "ide") ∨
    (c.type = CtrlType.usb ∧ c.idx = 0 ∧ ctrlAliasFor d caps c = str "usb") ∨
    (c.type = CtrlType.scsi ∧ c.idx = 0 ∧ ctrlAliasFor d caps c = str "scsi") ∨
    (c.type ≠ CtrlType.pci ∧
      ctrlAliasFor d caps c = ctrlTypeName c.type ++ decN c.idx) := by
  unfold ctrlAliasFor
  by_cases h1 : c.type = CtrlType.pci
  · rw [if_pos h1]
    by_cases h2 : caps.pciMultiBus
    · rw [if_neg (not_not_intro h2)]
      by_cases h3 : c.model = CtrlModel.pcieRoot
      · rw [if_pos h3]
        exact Or.inr (Or.inl ⟨h1, h2, rfl⟩)
      · rw [if_neg h3]
        exact Or.inr (Or.inr (Or.inl ⟨h1, h2, rfl⟩))
    · rw [if_pos h2]
      exact Or.inl ⟨h1, h2, rfl⟩
  · rw [if_neg h1]
    by_cases h2 : c.type = CtrlType.ide ∧ qemuDomainHasBuiltinIDE d ∧ c.idx = 0
    · rw [if_pos h2]
      exact Or.inr (Or.inr (Or.inr (Or.inl ⟨h2.1, h2.2.1, h2.2.2, rfl⟩)))
    · rw [if_neg h2]
      by_cases h3 : c.type = CtrlType.sata ∧ qemuDomainIsQ35 d ∧ c.idx = 0
      · rw [if_pos h3]
        exact Or.inr (Or.inr (Or.inr (Or.inr (Or.inl ⟨h3.1, h3.2.1, h3.2.2, rfl⟩))))
      · rw [if_neg h3]
        by_cases h4 : c.type = CtrlType.usb ∧ c.idx = 0
        · rw [if_pos h4]
          exact Or.inr (Or.inr (Or.inr (Or.inr (Or.inr (Or.inl ⟨h4.1, h4.2, rfl⟩)))))
        · rw [if_neg h4]
          by_cases h5 : c.type = CtrlType.scsi ∧ c.model = CtrlModel.scsiNcr53c90 ∧
            c.idx = 0
          · rw [if_pos h5]
            exact Or.inr (Or.inr (Or.inr (Or.inr (Or.inr (Or.inr (Or.inl
              ⟨h5.1, h5.2.2, rfl⟩))))))
          · rw [if_neg h5]
            exact Or.inr (Or.inr (Or.inr (Or.inr (Or.inr (Or.inr (Or.inr
              ⟨h1, rfl⟩))))))

/-- Distinct (type, index) controllers (with at most one PCI controller
when the binary lacks multi-bus PCI support) get distinct aliases. -/
theorem ctrlAliasFor_ne (d : DomainDef) (caps : QemuCaps) {a b : ControllerDef}
    (hd : a.type ≠ b.type ∨ a.idx ≠ b.idx)
    (hpci : ¬ caps.pciMultiBus = true → ¬(a.type = CtrlType.pci ∧ b.type = CtrlType.pci)) :
    ctrlAliasFor d caps a ≠ ctrlAliasFor d caps b := by
  rcases ctrlAliasFor_cases d caps a with ⟨hA1, hA2, hAv⟩|⟨hA1, hA2, hAv⟩|⟨hA1, hA2, hAv⟩|⟨hA1, hA2, hA3, hAv⟩|⟨hA1, hA2, hA3, hAv⟩|⟨hA1, hA2, hAv⟩|⟨hA1, hA2, hAv⟩|⟨hA1, hAv⟩
  · rcases ctrlAliasFor_cases d caps b with ⟨hB1, hB2, hBv⟩|⟨hB1, hB2, hBv⟩|⟨hB1, hB2, hBv⟩|⟨hB1, hB2, hB3, hBv⟩|⟨hB1, hB2, hB3, hBv⟩|⟨hB1, hB2, hBv⟩|⟨hB1, hB2, hBv⟩|⟨hB1, hBv⟩
    · exact absurd ⟨hA1, hB1⟩ (hpci hA2)
    · exact absurd hB2 hA2
    · exact absurd hB2 hA2
    · rw [hAv, hBv]
      decide
    · rw [hAv, hBv]
      decide
    · rw [hAv, hBv]
      decide
    · rw [hAv, hBv]
      decide
    · rw [hAv, hBv]
      exact exact_ne_stemDec b.idx (ctrlName_cmp_pci b.type)
  · rcases ctrlAliasFor_cases d caps b with ⟨hB1, hB2, hBv⟩|⟨hB1, hB2, hBv⟩|⟨hB1, hB2, hBv⟩|⟨hB1, hB2, hB3, hBv⟩|⟨hB1, hB2, hB3, hBv⟩|⟨hB1, hB2, hBv⟩|⟨hB1, hB2, hBv⟩|⟨hB1, hBv⟩
    · exact absurd hA2 hB2
    · have hidx := hd.resolve_left (fun hne => hne (hA1.trans hB1.symm))
      rw [hAv, hBv]
      exact stemDec_ne _ hidx
    · rw [hAv, hBv]
      exact append_ne_of_incomparable (by decide) (by decide) _ _
    · rw [hAv, hBv]
      exact stem_ne_exact _ (by decide)
    · rw [hAv, hBv]
      exact stem_ne_exact _ (by decide)
    · rw [hAv, hBv]
      exact stem_ne_exact _ (by decide)
    · rw [hAv, hBv]
      exact stem_ne_exact _ (by decide)
    · rw [hAv, hBv]
      exact append_ne_of_incomparable (pcieStem_incomp b.type hB1).1 (pcieStem_incomp b.type hB1).2 _ _
  · rcases ctrlAliasFor_cases d caps b with ⟨hB1, hB2, hBv⟩|⟨hB1, hB2, hBv⟩|⟨hB1, hB2, hBv⟩|⟨hB1, hB2, hB3, hBv⟩|⟨hB1, hB2, hB3, hBv⟩|⟨hB1, hB2, hBv⟩|⟨hB1, hB2, hBv⟩|⟨hB1, hBv⟩
    · exact absurd hA2 hB2
    · rw [hAv, hBv]
      exact append_ne_of_incomparable (by decide) (by decide) _ _
    · have hidx := hd.resolve_left (fun hne => hne (hA1.trans hB1.symm))
      rw [hAv, hBv]
      exact stemDec_ne _ hidx
    · rw [hAv, hBv]
      exact stem_ne_exact _ (by decide)
    · rw [hAv, hBv]
      exact stem_ne_exact _ (by decide)
    · rw [hAv, hBv]
      exact stem_ne_exact _ (by decide)
    · rw [hAv, hBv]
      exact stem_ne_exact _ (by decide)
    · rw [hAv, hBv]
      exact append_ne_of_incomparable (pciDotStem_incomp b.type hB1).1 (pciDotStem_incomp b.type hB1).2 _ _
  · rcases ctrlAliasFor_cases d caps b with ⟨hB1, hB2, hBv⟩|⟨hB1, hB2, hBv⟩|⟨hB1, hB2, hBv⟩|⟨hB1, hB2, hB3, hBv⟩|⟨hB1, hB2, hB3, hBv⟩|⟨hB1, hB2, hBv⟩|⟨hB1, hB2, hBv⟩|⟨hB1, hBv⟩
    · rw [hAv, hBv]
      decide
    · rw [hAv, hBv]
      exact (stem_ne_exact _ (by decide)).symm
    · rw [hAv, hBv]
      exact (stem_ne_exact _ (by decide)).symm
    · have hidx := hd.resolve_left (fun hne => hne (hA1.trans hB1.symm))
      exact absurd (hA3.trans hB3.symm) hidx
    · exact absurd ⟨hA2, hB2⟩ (not_bi_and_q35 d)
    · rw [hAv, hBv]
      decide
    · rw [hAv, hBv]
      decide
    · rw [hAv, hBv]
      exact exact_ne_stemDec b.idx (ctrlName_cmp_ide b.type)
  · rcases ctrlAliasFor_cases d caps b with ⟨hB1, hB2, hBv⟩|⟨hB1, hB2, hBv⟩|⟨hB1, hB2, hBv⟩|⟨hB1, hB2, hB3, hBv⟩|⟨hB1, hB2, hB3, hBv⟩|⟨hB1, hB2, hBv⟩|⟨hB1, hB2, hBv⟩|⟨hB1, hBv⟩
    · rw [hAv, hBv]
      decide
    · rw [hAv, hBv]
      exact (stem_ne_exact _ (by decide)).symm
    · rw [hAv, hBv]
      exact (stem_ne_exact _ (by decide)).symm
    · exact absurd ⟨hB2, hA2⟩ (not_bi_and_q35 d)
    · have hidx := hd.resolve_left (fun hne => hne (hA1.trans hB1.symm))
      exact absurd (hA3.trans hB3.symm) hidx
    · rw [hAv, hBv]
      decide
    · rw [hAv, hBv]
      decide
    · rw [hAv, hBv]
      exact exact_ne_stemDec b.idx (ctrlName_cmp_ide b.type)
  · rcases ctrlAliasFor_cases d caps b with ⟨hB1, hB2, hBv⟩|⟨hB1, hB2, hBv⟩|⟨hB1, hB2, hBv⟩|⟨hB1, hB2, hB3, hBv⟩|⟨hB1, hB2, hB3, hBv⟩|⟨hB1, hB2, hBv⟩|⟨hB1, hB2, hBv⟩|⟨hB1, hBv⟩
    · rw [hAv, hBv]
      decide
    · rw [hAv, hBv]
      exact (stem_ne_exact _ (by decide)).symm
    · rw [hAv, hBv]
      exact (stem_ne_exact _ (by decide)).symm
    · rw [hAv, hBv]
      decide
    · rw [hAv, hBv]
      decide
    · have hidx := hd.resolve_left (fun hne => hne (hA1.trans hB1.symm))
      exact absurd (hA2.trans hB2.symm) hidx
    · rw [hAv, hBv]
      decide
    · rw [hAv, hBv]
      exact exact_ne_stemDec b.idx (ctrlName_cmp_usb b.type)
  · rcases ctrlAliasFor_cases d caps b with ⟨hB1, hB2, hBv⟩|⟨hB1, hB2, hBv⟩|⟨hB1, hB2, hBv⟩|⟨hB1, hB2, hB3, hBv⟩|⟨hB1, hB2, hB3, hBv⟩|⟨hB1, hB2, hBv⟩|⟨hB1, hB2, hBv⟩|⟨hB1, hBv⟩
    · rw [hAv, hBv]
      decide
    · rw [hAv, hBv]
      exact (stem_ne_exact _ (by decide)).symm
    · rw [hAv, hBv]
      exact (stem_ne_exact _ (by decide)).symm
    · rw [hAv, hBv]
      decide
    · rw [hAv, hBv]
      decide
    · rw [hAv, hBv]
      decide
    · have hidx := hd.resolve_left (fun hne => hne (hA1.trans hB1.symm))
      exact absurd (hA2.trans hB2.symm) hidx
    · rw [hAv, hBv]
      exact exact_ne_stemDec b.idx (ctrlName_cmp_scsi b.type)
  · rcases ctrlAliasFor_cases d caps b with ⟨hB1, hB2, hBv⟩|⟨hB1, hB2, hBv⟩|⟨hB1, hB2, hBv⟩|⟨hB1, hB2, hB3, hBv⟩|⟨hB1, hB2, hB3, hBv⟩|⟨hB1, hB2, hBv⟩|⟨hB1, hB2, hBv⟩|⟨hB1, hBv⟩
    · rw [hAv, hBv]
      exact (exact_ne_stemDec a.idx (ctrlName_cmp_pci a.type)).symm
    · rw [hAv, hBv]
      exact append_ne_of_incomparable (pcieStem_incomp a.type hA1).2 (pcieStem_incomp a.type hA1).1 _ _
    · rw [hAv, hBv]
      exact append_ne_of_incomparable (pciDotStem_incomp a.type hA1).2 (pciDotStem_incomp a.type hA1).1 _ _
    · rw [hAv, hBv]
      exact (exact_ne_stemDec a.idx (ctrlName_cmp_ide a.type)).symm
    · rw [hAv, hBv]
      exact (exact_ne_stemDec a.idx (ctrlName_cmp_ide a.type)).symm
    · rw [hAv, hBv]
      exact (exact_ne_stemDec a.idx (ctrlName_cmp_usb a.type)).symm
    · rw [hAv, hBv]
      exact (exact_ne_stemDec a.idx (ctrlName_cmp_scsi a.type)).symm
    · by_cases hty : a.type = b.type
      · have hidx := hd.resolve_left (fun hne => hne hty)
        rw [hAv, hBv, hty]
        exact stemDec_ne _ hidx
      · rw [hAv, hBv]
        exact append_ne_of_incomparable (ctrlStems_incomp a.type b.type hty).1
          (ctrlStems_incomp a.type b.type hty).2 _ _

/-! ### Disk alias injectivity -/

theorem diskStems_incomp (t u : DiskBus) (h : t ≠ u) :
    ¬ diskBusName t <+: diskBusName u ∧ ¬ diskBusName u <+: diskBusName t := by
  cases t <;> cases u <;> first | exact absurd rfl h | exact ⟨by decide, by decide⟩

theorem tail3_inj {ba bb ua ub : Nat}
    (h : decN ba ++ '-' :: decN ua = decN bb ++ '-' :: decN ub) :
    ba = bb ∧ ua = ub := by
  obtain ⟨h1, h2⟩ := decN_dash_inj h
  exact ⟨h1, decN_injective h2⟩

theorem tail4_inj {ba bb ta tb ua ub : Nat}
    (h : decN ba ++ '-' :: (decN ta ++ '-' :: decN ua) =
         decN bb ++ '-' :: (decN tb ++ '-' :: decN ub)) :
    ba = bb ∧ ta = tb ∧ ua = ub := by
  obtain ⟨h1, h2⟩ := decN_dash_inj h
  obtain ⟨h3, h4⟩ := decN_dash_inj h2
  exact ⟨h1, h3, decN_injective h4⟩

theorem driveTail_ne_nondriveTail {s : Str} {c : Nat} {r r2 : Str} :
    s ++ (decN c ++ '-' :: r) ≠ s ++ ('-' :: r2) := by
  intro he
  have h2 := List.append_cancel_left he
  obtain ⟨ch, ct, hch, h1, _⟩ := decN_head_digit c
  rw [hch, List.cons_append] at h2
  injection h2 with h3 _
  rw [h3] at h1
  exact absurd h1 (by decide)

/-- The structural distinctness of two disks that the alias encoding relies
on: different bus, different address kind, a differing drive-address
component (target counting only for multi-target SCSI), or a different
decoded target-name index. -/
def diskDistinct (d : DomainDef) (x y : DiskDef) : Prop :=
  x.bus ≠ y.bus ∨ x.addrIsDrive ≠ y.addrIsDrive ∨
  (x.addrIsDrive = true ∧ y.addrIsDrive = true ∧
    (x.drive.controller ≠ y.drive.controller ∨ x.drive.bus ≠ y.drive.bus ∨
     x.drive.unit ≠ y.drive.unit ∨
     (x.bus = DiskBus.scsi ∧
      qemuDomainFindSCSIControllerModel d x.drive.controller ≠
        some CtrlModel.scsiLsilogic ∧
      x.drive.target ≠ y.drive.target))) ∨
  (x.addrIsDrive = false ∧ y.addrIsDrive = false ∧
    virDiskNameToIndex x.dst ≠ virDiskNameToIndex y.dst)

/-- The four result shapes of the disk alias chooser. -/
theorem diskAliasFor_cases (d : DomainDef) (x : DiskDef) {v : Str}
    (h : diskAliasFor d x = some v) :
    (x.addrIsDrive = true ∧ x.bus = DiskBus.scsi ∧
      qemuDomainFindSCSIControllerModel d x.drive.controller =
        some CtrlModel.scsiLsilogic ∧
      v = diskBusName x.bus ++ (decN x.drive.controller ++ '-' ::
        (decN x.drive.bus ++ '-' :: decN x.drive.unit))) ∨
    (x.addrIsDrive = true ∧ x.bus = DiskBus.scsi ∧
      qemuDomainFindSCSIControllerModel d x.drive.controller ≠
        some CtrlModel.scsiLsilogic ∧
      v = diskBusName x.bus ++ (decN x.drive.controller ++ '-' ::
        (decN x.drive.bus ++ '-' :: (decN x.drive.target ++ '-' ::
          decN x.drive.unit)))) ∨
    (x.addrIsDrive = true ∧ x.bus ≠ DiskBus.scsi ∧
      v = diskBusName x.bus ++ (decN x.drive.controller ++ '-' ::
        (decN x.drive.bus ++ '-' :: decN x.drive.unit))) ∨
    (x.addrIsDrive = false ∧
      v = diskBusName x.bus ++ ('-' :: (str "disk" ++
        decZ (virDiskNameToIndex x.dst)))) := by
  unfold diskAliasFor at h
  by_cases h1 : x.addrIsDrive
  · rw [if_pos h1] at h
    by_cases h2 : x.bus = DiskBus.scsi
    · rw [if_pos h2] at h
      cases hm : qemuDomainFindSCSIControllerModel d x.drive.controller with
      | none =>
        rw [hm] at h
        exact absurd h (by simp)
      | some m =>
        rw [hm] at h
        dsimp only at h
        by_cases h3 : m = CtrlModel.scsiLsilogic
        · rw [if_pos h3] at h
          injection h with h
          exact Or.inl ⟨h1, h2, by rw [h3], h.symm⟩
        · rw [if_neg h3] at h
          injection h with h
          refine Or.inr (Or.inl ⟨h1, h2, ?_, h.symm⟩)
          intro hcon
          injection hcon with hcon
          exact h3 hcon
    · rw [if_neg h2] at h
      injection h with h
      exact Or.inr (Or.inr (Or.inl ⟨h1, h2, h.symm⟩))
  · rw [if_neg h1] at h
    injection h with h
    exact Or.inr (Or.inr (Or.inr ⟨by simpa using h1, h.symm⟩))

theorem diskAliasFor_stem (d : DomainDef) (x : DiskDef) {v : Str}
    (h : diskAliasFor d x = some v) : ∃ t, v = diskBusName x.bus ++ t := by
  rcases diskAliasFor_cases d x h with ⟨_, _, _, hv⟩ | ⟨_, _, _, hv⟩ |
    ⟨_, _, hv⟩ | ⟨_, hv⟩ <;> exact ⟨_, hv⟩

/-- Structurally distinct disks get distinct aliases. -/
theorem diskAliasFor_ne (d : DomainDef) {a b : DiskDef} {va vb : Str}
    (hdist : diskDistinct d a b)
    (ha : diskAliasFor d a = some va) (hb : diskAliasFor d b = some vb) :
    va ≠ vb := by
  by_cases hbus : a.bus = b.bus
  case neg =>
    obtain ⟨ta, hta⟩ := diskAliasFor_stem d a ha
    obtain ⟨tb, htb⟩ := diskAliasFor_stem d b hb
    rw [hta, htb]
    exact append_ne_of_incomparable (diskStems_incomp a.bus b.bus hbus).1
      (diskStems_incomp a.bus b.bus hbus).2 _ _
  case pos =>
    rcases hdist with hbusne | haddr | ⟨ha1, hb1, hdr⟩ | ⟨ha0, hb0, hidx⟩
    · exact absurd hbus hbusne
    · rcases diskAliasFor_cases d a ha with ⟨hA1, hA2, hA3, hAv⟩|⟨hA1, hA2, hA3, hAv⟩|⟨hA1, hA2, hAv⟩|⟨hA1, hAv⟩
      · rcases diskAliasFor_cases d b hb with ⟨hB1, hB2, hB3, hBv⟩|⟨hB1, hB2, hB3, hBv⟩|⟨hB1, hB2, hBv⟩|⟨hB1, hBv⟩
        · exact absurd (hA1.trans hB1.symm) haddr
        · exact absurd (hA1.trans hB1.symm) haddr
        · exact absurd (hA1.trans hB1.symm) haddr
        · rw [hAv, hBv, hbus]
          exact driveTail_ne_nondriveTail
      · rcases diskAliasFor_cases d b hb with ⟨hB1, hB2, hB3, hBv⟩|⟨hB1, hB2, hB3, hBv⟩|⟨hB1, hB2, hBv⟩|⟨hB1, hBv⟩
        · exact absurd (hA1.trans hB1.symm) haddr
        · exact absurd (hA1.trans hB1.symm) haddr
        · exact absurd (hA1.trans hB1.symm) haddr
        · rw [hAv, hBv, hbus]
          exact driveTail_ne_nondriveTail
      · rcases diskAliasFor_cases d b hb with ⟨hB1, hB2, hB3, hBv⟩|⟨hB1, hB2, hB3, hBv⟩|⟨hB1, hB2, hBv⟩|⟨hB1, hBv⟩
        · exact absurd (hA1.trans hB1.symm) haddr
        · exact absurd (hA1.trans hB1.symm) haddr
        · exact absurd (hA1.trans hB1.symm) haddr
        · rw [hAv, hBv, hbus]
          exact driveTail_ne_nondriveTail
      · rcases diskAliasFor_cases d b hb with ⟨hB1, hB2, hB3, hBv⟩|⟨hB1, hB2, hB3, hBv⟩|⟨hB1, hB2, hBv⟩|⟨hB1, hBv⟩
        · rw [hAv, hBv, hbus]
          exact Ne.symm driveTail_ne_nondriveTail
        · rw [hAv, hBv, hbus]
          exact Ne.symm driveTail_ne_nondriveTail
        · rw [hAv, hBv, hbus]
          exact Ne.symm driveTail_ne_nondriveTail
        · exact absurd (hA1.trans hB1.symm) haddr
    · rcases diskAliasFor_cases d a ha with ⟨hA1, hA2, hA3, hAv⟩|⟨hA1, hA2, hA3, hAv⟩|⟨hA1, hA2, hAv⟩|⟨hA1, hAv⟩
      · rcases diskAliasFor_cases d b hb with ⟨hB1, hB2, hB3, hBv⟩|⟨hB1, hB2, hB3, hBv⟩|⟨hB1, hB2, hBv⟩|⟨hB1, hBv⟩
        · rw [hAv, hBv, hbus]
          by_cases hc : a.drive.controller = b.drive.controller
          · intro he
            have ht := List.append_cancel_left he
            obtain ⟨hceq, ht2⟩ := decN_dash_inj ht
            obtain ⟨hbeq, hueq⟩ := tail3_inj ht2
            rcases hdr with hx | hx | hx | ⟨hscsi, hml, htgt⟩
            · exact hx hc
            · exact hx hbeq
            · exact hx hueq
            · exact hml hA3
          · intro he
            exact hc (decN_dash_inj (List.append_cancel_left he)).1
        · by_cases hc : a.drive.controller = b.drive.controller
          · rw [← hc] at hB3
            exact absurd hA3 hB3
          · rw [hAv, hBv, hbus]
            intro he
            exact hc (decN_dash_inj (List.append_cancel_left he)).1
        · exact absurd (hbus.symm.trans hA2) hB2
        · exact absurd (hB1.symm.trans hb1) (by decide)
      · rcases diskAliasFor_cases d b hb with ⟨hB1, hB2, hB3, hBv⟩|⟨hB1, hB2, hB3, hBv⟩|⟨hB1, hB2, hBv⟩|⟨hB1, hBv⟩
        · by_cases hc : a.drive.controller = b.drive.controller
          · rw [← hc] at hB3
            exact absurd hB3 hA3
          · rw [hAv, hBv, hbus]
            intro he
            exact hc (decN_dash_inj (List.append_cancel_left he)).1
        · rw [hAv, hBv, hbus]
          by_cases hc : a.drive.controller = b.drive.controller
          · intro he
            have ht := List.append_cancel_left he
            obtain ⟨hceq, ht2⟩ := decN_dash_inj ht
            obtain ⟨hbeq, hteq, hueq⟩ := tail4_inj ht2
            rcases hdr with hx | hx | hx | ⟨hscsi, hml, htgt⟩
            · exact hx hc
            · exact hx hbeq
            · exact hx hueq
            · exact htgt hteq
          · intro he
            exact hc (decN_dash_inj (List.append_cancel_left he)).1
        · exact absurd (hbus.symm.trans hA2) hB2
        · exact absurd (hB1.symm.trans hb1) (by decide)
      · rcases diskAliasFor_cases d b hb with ⟨hB1, hB2, hB3, hBv⟩|⟨hB1, hB2, hB3, hBv⟩|⟨hB1, hB2, hBv⟩|⟨hB1, hBv⟩
        · exact absurd (hbus.trans hB2) hA2
        · exact absurd (hbus.trans hB2) hA2
        · rw [hAv, hBv, hbus]
          by_cases hc : a.drive.controller = b.drive.controller
          · intro he
            have ht := List.append_cancel_left he
            obtain ⟨hceq, ht2⟩ := decN_dash_inj ht
            obtain ⟨hbeq, hueq⟩ := tail3_inj ht2
            rcases hdr with hx | hx | hx | ⟨hscsi, hml, htgt⟩
            · exact hx hc
            · exact hx hbeq
            · exact hx hueq
            · exact hA2 hscsi
          · intro he
            exact hc (decN_dash_inj (List.append_cancel_left he)).1
        · exact absurd (hB1.symm.trans hb1) (by decide)
      · rcases diskAliasFor_cases d b hb with ⟨hB1, hB2, hB3, hBv⟩|⟨hB1, hB2, hB3, hBv⟩|⟨hB1, hB2, hBv⟩|⟨hB1, hBv⟩
        · exact absurd (hA1.symm.trans ha1) (by decide)
        · exact absurd (hA1.symm.trans ha1) (by decide)
        · exact absurd (hA1.symm.trans ha1) (by decide)
        · exact absurd (hA1.symm.trans ha1) (by decide)
    · rcases diskAliasFor_cases d a ha with ⟨hA1, hA2, hA3, hAv⟩|⟨hA1, hA2, hA3, hAv⟩|⟨hA1, hA2, hAv⟩|⟨hA1, hAv⟩
      · rcases diskAliasFor_cases d b hb with ⟨hB1, hB2, hB3, hBv⟩|⟨hB1, hB2, hB3, hBv⟩|⟨hB1, hB2, hBv⟩|⟨hB1, hBv⟩
        · exact absurd (ha0.symm.trans hA1) (by decide)
        · exact absurd (ha0.symm.trans hA1) (by decide)
        · exact absurd (ha0.symm.trans hA1) (by decide)
        · exact absurd (ha0.symm.trans hA1) (by decide)
      · rcases diskAliasFor_cases d b hb with ⟨hB1, hB2, hB3, hBv⟩|⟨hB1, hB2, hB3, hBv⟩|⟨hB1, hB2, hBv⟩|⟨hB1, hBv⟩
        · exact absurd (ha0.symm.trans hA1) (by decide)
        · exact absurd (ha0.symm.trans hA1) (by decide)
        · exact absurd (ha0.symm.trans hA1) (by decide)
        · exact absurd (ha0.symm.trans hA1) (by decide)
      · rcases diskAliasFor_cases d b hb with ⟨hB1, hB2, hB3, hBv⟩|⟨hB1, hB2, hB3, hBv⟩|⟨hB1, hB2, hBv⟩|⟨hB1, hBv⟩
        · exact absurd (ha0.symm.trans hA1) (by decide)
        · exact absurd (ha0.symm.trans hA1) (by decide)
        · exact absurd (ha0.symm.trans hA1) (by decide)
        · exact absurd (ha0.symm.trans hA1) (by decide)
      · rcases diskAliasFor_cases d b hb with ⟨hB1, hB2, hB3, hBv⟩|⟨hB1, hB2, hB3, hBv⟩|⟨hB1, hB2, hBv⟩|⟨hB1, hBv⟩
        · exact absurd (hb0.symm.trans hB1) (by decide)
        · exact absurd (hb0.symm.trans hB1) (by decide)
        · exact absurd (hb0.symm.trans hB1) (by decide)
        · rw [hAv, hBv, hbus]
          intro he
          have ht := List.append_cancel_left he
          injection ht with h1 ht2
          have ht3 := List.append_cancel_left ht2
          exact hidx (decZ_injective ht3)

/-! ### Disk vs controller / memory cross-class inequalities -/

theorem headDigit_ne_tail {s : Str} {c : Nat} {r : Str} {c2 : Char} {r2 : Str}
    (hc2 : ¬ (48 ≤ c2.toNat ∧ c2.toNat ≤ 57)) :
    s ++ (decN c ++ r) ≠ s ++ (c2 :: r2) := by
  intro he
  have h2 := List.append_cancel_left he
  obtain ⟨ch, ct, hch, h1a, h1b⟩ := decN_head_digit c
  rw [hch, List.cons_append] at h2
  injection h2 with h3 _
  rw [h3] at h1a h1b
  exact hc2 ⟨h1a, h1b⟩

theorem dashHead_ne_decN {s r : Str} {idx : Nat} :
    s ++ ('-' :: r) ≠ s ++ decN idx := by
  intro he
  have h2 := List.append_cancel_left he
  obtain ⟨ch, ct, hch, h1a, _⟩ := decN_head_digit idx
  rw [hch] at h2
  injection h2 with h3 _
  rw [← h3] at h1a
  exact absurd h1a (by decide)

theorem stemDrive_ne_stemDec {s : Str} {c : Nat} {r : Str} {idx : Nat} :
    s ++ (decN c ++ '-' :: r) ≠ s ++ decN idx := by
  intro he
  exact (decN_ne_append_dash idx c r) (List.append_cancel_left he).symm

theorem diskDrive_ne_ctrlStem (bus : DiskBus) (ty : CtrlType)
    (hty : ty ≠ CtrlType.pci) (c : Nat) (r : Str) (idx : Nat) :
    diskBusName bus ++ (decN c ++ '-' :: r) ≠ ctrlTypeName ty ++ decN idx := by
  cases bus <;> cases ty <;> first
    | exact absurd rfl hty
    | exact stemDrive_ne_stemDec
    | exact (show str "virtio" ++ (decN c ++ '-' :: r) ≠ str "virtio" ++
        ('-' :: (str "serial" ++ decN idx)) from driveTail_ne_nondriveTail)
    | exact (show str "xen" ++ (decN c ++ '-' :: r) ≠ str "xen" ++
        ('b' :: (str "us" ++ decN idx)) from headDigit_ne_tail (by decide))
    | exact append_ne_of_incomparable (by decide) (by decide) _ _

theorem diskNonDrive_ne_ctrlStem (bus : DiskBus) (ty : CtrlType)
    (hty : ty ≠ CtrlType.pci) (n : Int) (idx : Nat) :
    diskBusName bus ++ ('-' :: (str "disk" ++ decZ n)) ≠
      ctrlTypeName ty ++ decN idx := by
  cases bus <;> cases ty <;> first
    | exact absurd rfl hty
    | exact dashHead_ne_decN
    | exact (show str "virtio-disk" ++ decZ n ≠ str "virtio-serial" ++ decN idx
        from append_ne_of_incomparable (by decide) (by decide) _ _)
    | exact (show str "xen" ++ '-' :: (str "disk" ++ decZ n) ≠ str "xen" ++
        'b' :: (str "us" ++ decN idx) from ne_of_append_head_ne (by decide) _ _)
    | exact append_ne_of_incomparable (by decide) (by decide) _ _

theorem diskDrive_ne_memVal (bus : DiskBus) (c : Nat) (r : Str) (k : Nat) :
    (diskBusName bus ++ (decN c ++ '-' :: r) ≠ str "dimm" ++ decN k) ∧
    (diskBusName bus ++ (decN c ++ '-' :: r) ≠ str "nvdimm" ++ decN k) ∧
    (diskBusName bus ++ (decN c ++ '-' :: r) ≠ str "virtiopmem" ++ decN k) := by
  refine ⟨?_, ?_, ?_⟩ <;> cases bus <;> first
    | exact (show str "virtio" ++ (decN c ++ '-' :: r) ≠ str "virtio" ++
        ('p' :: (str "mem" ++ decN k)) from headDigit_ne_tail (by decide))
    | exact append_ne_of_incomparable (by decide) (by decide) _ _

theorem diskNonDrive_ne_memVal (bus : DiskBus) (n : Int) (k : Nat) :
    (diskBusName bus ++ ('-' :: (str "disk" ++ decZ n)) ≠ str "dimm" ++ decN k) ∧
    (diskBusName bus ++ ('-' :: (str "disk" ++ decZ n)) ≠ str "nvdimm" ++ decN k) ∧
    (diskBusName bus ++ ('-' :: (str "disk" ++ decZ n)) ≠
      str "virtiopmem" ++ decN k) := by
  refine ⟨?_, ?_, ?_⟩ <;> cases bus <;> first
    | exact (show str "virtio" ++ '-' :: (str "disk" ++ decZ n) ≠ str "virtio" ++
        'p' :: (str "mem" ++ decN k) from ne_of_append_head_ne (by decide) _ _)
    | exact append_ne_of_incomparable (by decide) (by decide) _ _

theorem diskAliasFor_shape (d : DomainDef) (x : DiskDef) {v : Str}
    (h : diskAliasFor d x = some v) :
    (∃ cc r, v = diskBusName x.bus ++ (decN cc ++ '-' :: r)) ∨
    v = diskBusName x.bus ++ ('-' :: (str "disk" ++
      decZ (virDiskNameToIndex x.dst))) := by
  rcases diskAliasFor_cases d x h with ⟨h1,h2,h3,hv⟩|⟨h1,h2,h3,hv⟩|⟨h1,h2,hv⟩|⟨h1,hv⟩
  · exact Or.inl ⟨_, _, hv⟩
  · exact Or.inl ⟨_, _, hv⟩
  · exact Or.inl ⟨_, _, hv⟩
  · exact Or.inr hv

/-- A disk alias never coincides with a controller alias. -/
theorem diskVal_ne_ctrlVal (d : DomainDef) (caps : QemuCaps) {x : DiskDef}
    {c : ControllerDef} {va : Str} (ha : diskAliasFor d x = some va) :
    va ≠ ctrlAliasFor d caps c := by
  rcases ctrlAliasFor_cases d caps c with ⟨hB1, hB2, hBv⟩|⟨hB1, hB2, hBv⟩|⟨hB1, hB2, hBv⟩|⟨hB1, hB2, hB3, hBv⟩|⟨hB1, hB2, hB3, hBv⟩|⟨hB1, hB2, hBv⟩|⟨hB1, hB2, hBv⟩|⟨hB1, hBv⟩
  · rw [hBv]
    rcases diskAliasFor_shape d x ha with ⟨cc, r, hv⟩ | hv <;> rw [hv]
    · cases hbus : x.bus <;> first | exact (append_ne_nil_suffix _ (by simp)).symm | exact stem_ne_exact _ (by decide)
    · cases hbus : x.bus <;> first | exact (append_ne_nil_suffix _ (by simp)).symm | exact stem_ne_exact _ (by decide)
  · rw [hBv]
    rcases diskAliasFor_shape d x ha with ⟨cc, r, hv⟩ | hv <;> rw [hv]
    · cases hbus : x.bus <;> exact append_ne_of_incomparable (by decide) (by decide) _ _
    · cases hbus : x.bus <;> exact append_ne_of_incomparable (by decide) (by decide) _ _
  · rw [hBv]
    rcases diskAliasFor_shape d x ha with ⟨cc, r, hv⟩ | hv <;> rw [hv]
    · cases hbus : x.bus <;> exact append_ne_of_incomparable (by decide) (by decide) _ _
    · cases hbus : x.bus <;> exact append_ne_of_incomparable (by decide) (by decide) _ _
  · rw [hBv]
    rcases diskAliasFor_shape d x ha with ⟨cc, r, hv⟩ | hv <;> rw [hv]
    · cases hbus : x.bus <;> first | exact (append_ne_nil_suffix _ (by simp)).symm | exact stem_ne_exact _ (by decide)
    · cases hbus : x.bus <;> first | exact (append_ne_nil_suffix _ (by simp)).symm | exact stem_ne_exact _ (by decide)
  · rw [hBv]
    rcases diskAliasFor_shape d x ha with ⟨cc, r, hv⟩ | hv <;> rw [hv]
    · cases hbus : x.bus <;> first | exact (append_ne_nil_suffix _ (by simp)).symm | exact stem_ne_exact _ (by decide)
    · cases hbus : x.bus <;> first | exact (append_ne_nil_suffix _ (by simp)).symm | exact stem_ne_exact _ (by decide)
  · rw [hBv]
    rcases diskAliasFor_shape d x ha with ⟨cc, r, hv⟩ | hv <;> rw [hv]
    · cases hbus : x.bus <;> first | exact (append_ne_nil_suffix _ (by simp)).symm | exact stem_ne_exact _ (by decide)
    · cases hbus : x.bus <;> first | exact (append_ne_nil_suffix _ (by simp)).symm | exact stem_ne_exact _ (by decide)
  · rw [hBv]
    rcases diskAliasFor_shape d x ha with ⟨cc, r, hv⟩ | hv <;> rw [hv]
    · cases hbus : x.bus <;> first | exact (append_ne_nil_suffix _ (by simp)).symm | exact stem_ne_exact _ (by decide)
    · cases hbus : x.bus <;> first | exact (append_ne_nil_suffix _ (by simp)).symm | exact stem_ne_exact _ (by decide)
  · rw [hBv]
    rcases diskAliasFor_shape d x ha with ⟨cc, r, hv⟩ | hv <;> rw [hv]
    · exact diskDrive_ne_ctrlStem x.bus c.type hB1 cc r c.idx
    · exact diskNonDrive_ne_ctrlStem x.bus c.type hB1 _ c.idx

/-- A disk alias never coincides with a memory-device alias. -/
theorem diskVal_ne_memVal (d : DomainDef) {x : DiskDef} {va vb : Str}
    (ha : diskAliasFor d x = some va) (hb : memShape (some vb)) : va ≠ vb := by
  obtain ⟨k, hk⟩ := hb
  rcases diskAliasFor_shape d x ha with ⟨cc, r, hv⟩ | hv <;> rw [hv] <;>
    rcases hk with hk | hk | hk <;> (injection hk with hk) <;> rw [hk]
  · exact (diskDrive_ne_memVal x.bus cc r k).1
  · exact (diskDrive_ne_memVal x.bus cc r k).2.1
  · exact (diskDrive_ne_memVal x.bus cc r k).2.2
  · exact (diskNonDrive_ne_memVal x.bus _ k).1
  · exact (diskNonDrive_ne_memVal x.bus _ k).2.1
  · exact (diskNonDrive_ne_memVal x.bus _ k).2.2


/-! ### Assembly helpers for the uniqueness theorem -/

theorem forall₂_exists_right {α β : Type} {R : α → β → Prop} {l : List α}
    {l2 : List β} (h : List.Forall₂ R l l2) : ∀ a ∈ l, ∃ b ∈ l2, R a b := by
  induction h with
  | nil =>
    intro a ha
    exact absurd ha (List.not_mem_nil a)
  | cons hr hrest ih =>
    intro a ha
    rcases List.mem_cons.mp ha with rfl | hm
    · exact ⟨_, List.mem_cons_self .., hr⟩
    · obtain ⟨b, hb, hrb⟩ := ih a hm
      exact ⟨b, List.mem_cons_of_mem _ hb, hrb⟩

theorem forall₂_to_map {α β : Type} {g1 : α → Option Str} {g2 : β → Option Str}
    {F : α → Option Str} {l : List α} {l2 : List β}
    (hfa : List.Forall₂ (fun x y => g1 x = none → g2 y = F x) l l2)
    (hfr : ∀ x ∈ l, g1 x = none) :
    l2.map g2 = l.map F := by
  induction hfa with
  | nil => rfl
  | cons hr hrest ih =>
    simp only [List.map_cons]
    rw [hr (hfr _ (List.mem_cons_self ..)),
      ih (fun x hx => hfr x (List.mem_cons_of_mem _ hx))]

theorem stage_at_facts {β : Type} {g : β → Option Str} {l : List β} {stem : Str}
    (h : ∀ k (hk : k < l.length), g (l.get ⟨k, hk⟩) = some (stem ++ decN k)) :
    (∀ o ∈ l.map g, ∃ k : Nat, o = some (stem ++ decN k)) ∧ (l.map g).Nodup := by
  constructor
  · intro o ho
    obtain ⟨y, hy, hye⟩ := List.mem_map.mp ho
    obtain ⟨⟨k, hk⟩, hg⟩ := List.mem_iff_get.mp hy
    exact ⟨k, by rw [← hye, ← hg, h k hk]⟩
  · show List.Pairwise (fun o1 o2 => o1 ≠ o2) (l.map g)
    rw [List.pairwise_iff_getElem]
    intro i j hi hj hij
    have hi2 : i < l.length := by simpa using hi
    have hj2 : j < l.length := by simpa using hj
    have e1 : (l.map g)[i] = g (l.get ⟨i, hi2⟩) := by simp
    have e2 : (l.map g)[j] = g (l.get ⟨j, hj2⟩) := by simp
    rw [e1, e2, h i hi2, h j hj2]
    intro hcon
    injection hcon with hcon
    exact stemDec_ne stem (by omega) hcon

theorem stage_at_to_facts {β : Type} {g : β → Option Str} {lin lout : List β}
    {stem : Str} (hlen : lout.length = lin.length)
    (hat : ∀ k (hk : k < lin.length) (hk2 : k < lout.length),
      g (lin.get ⟨k, hk⟩) = none → g (lout.get ⟨k, hk2⟩) = some (stem ++ decN k))
    (hfr : ∀ x ∈ lin, g x = none) :
    (∀ o ∈ lout.map g, ∃ k : Nat, o = some (stem ++ decN k)) ∧ (lout.map g).Nodup := by
  refine stage_at_facts ?_
  intro k hk
  have hk1 : k < lin.length := by omega
  exact hat k hk1 hk (hfr _ (lin.get_mem ..))

theorem chrStage_to_facts {lin lout : List ChrDef} {stem : Str} {dt : ChrDeviceType}
    (hlen : lout.length = lin.length)
    (hat : ∀ k (hk : k < lin.length) (hk2 : k < lout.length),
      (lin.get ⟨k, hk⟩).aliasOpt = none → (lin.get ⟨k, hk⟩).deviceType = dt →
      (lout.get ⟨k, hk2⟩).aliasOpt = some (stem ++ decN k))
    (hfr : ∀ x ∈ lin, x.aliasOpt = none) (hdt : ∀ x ∈ lin, x.deviceType = dt) :
    (∀ o ∈ lout.map (fun y => y.aliasOpt), ∃ k : Nat, o = some (stem ++ decN k)) ∧
    (lout.map (fun y => y.aliasOpt)).Nodup := by
  refine stage_at_facts ?_
  intro k hk
  have hk1 : k < lin.length := by omega
  exact hat k hk1 hk (hfr _ (lin.get_mem ..)) (hdt _ (lin.get_mem ..))

theorem weakShape_of_stemIdx {A : List (Option Str)} {stem : Str}
    (h : ∀ o ∈ A, ∃ k : Nat, o = some (stem ++ decN k)) :
    ∀ o ∈ A, ∀ a, o = some a → ∃ s ∈ [stem], ∃ t, a = s ++ t := by
  intro o ho a hoa
  obtain ⟨k, hk⟩ := h o ho
  rw [hoa] at hk
  injection hk with hk
  exact ⟨stem, List.mem_singleton.mpr rfl, decN k, hk⟩

theorem weakShape_nets {A : List (Option Str)} (h : ∀ o ∈ A, netAliasShape o) :
    ∀ o ∈ A, ∀ a, o = some a →
      ∃ s ∈ [str "net", str "hostdev"], ∃ t, a = s ++ t := by
  intro o ho a hoa
  obtain ⟨k, hk | hk⟩ := h o ho <;> rw [hoa] at hk <;> injection hk with hk
  · exact ⟨str "net", by simp, decN k, hk⟩
  · exact ⟨str "hostdev", by simp, decN k, hk⟩

theorem weakShape_mems {A : List (Option Str)} (h : ∀ o ∈ A, memShape o) :
    ∀ o ∈ A, ∀ a, o = some a →
      ∃ s ∈ [str "dimm", str "nvdimm", str "virtiopmem"], ∃ t, a = s ++ t := by
  intro o ho a hoa
  obtain ⟨k, hk | hk | hk⟩ := h o ho <;> rw [hoa] at hk <;> injection hk with hk
  · exact ⟨str "dimm", by simp, decN k, hk⟩
  · exact ⟨str "nvdimm", by simp, decN k, hk⟩
  · exact ⟨str "virtiopmem", by simp, decN k, hk⟩

theorem weakShape_exact {A : List (Option Str)} {s : Str}
    (h : ∀ o ∈ A, ∀ a, o = some a → a = s) :
    ∀ o ∈ A, ∀ a, o = some a → ∃ s2 ∈ [s], ∃ t, a = s2 ++ t := by
  intro o ho a hoa
  refine ⟨s, by simp, [], ?_⟩
  rw [List.append_nil]
  exact h o ho a hoa

theorem weakShape_disks (d : DomainDef) {A : List (Option Str)}
    (h : ∀ o ∈ A, ∀ a, o = some a → ∃ x, diskAliasFor d x = some a) :
    ∀ o ∈ A, ∀ a, o = some a →
      ∃ s ∈ [str "ide", str "fdc", str "scsi", str "virtio", str "xen", str "usb",
        str "uml", str "sata", str "sd"], ∃ t, a = s ++ t := by
  intro o ho a hoa
  obtain ⟨x, hx⟩ := h o ho a hoa
  obtain ⟨t, ht⟩ := diskAliasFor_stem d x hx
  refine ⟨diskBusName x.bus, ?_, t, ht⟩
  cases x.bus <;> decide

theorem ctrlAliasFor_congr {d1 d2 : DomainDef} (h : d1.family = d2.family)
    (caps : QemuCaps) (c : ControllerDef) :
    ctrlAliasFor d1 caps c = ctrlAliasFor d2 caps c := by
  unfold ctrlAliasFor qemuDomainHasBuiltinIDE qemuDomainIsQ35
  rw [h]

theorem weakShape_ctrl (d : DomainDef) (caps : QemuCaps) {A : List (Option Str)}
    (h : ∀ o ∈ A, ∀ a, o = some a → ∃ c, a = ctrlAliasFor d caps c) :
    ∀ o ∈ A, ∀ a, o = some a →
      ∃ s ∈ [str "ide", str "fdc", str "scsi", str "sata", str "virtio-serial",
        str "ccid", str "usb", str "pci", str "xenbus"], ∃ t, a = s ++ t := by
  intro o ho a hoa
  obtain ⟨c, hc⟩ := h o ho a hoa
  rcases ctrlAliasFor_cases d caps c with ⟨h1, h2, hv⟩ | ⟨h1, h2, hv⟩ | ⟨h1, h2, hv⟩ |
    ⟨h1, h2, h3, hv⟩ | ⟨h1, h2, h3, hv⟩ | ⟨h1, h2, hv⟩ | ⟨h1, h2, hv⟩ | ⟨h1, hv⟩
  · refine ⟨str "pci", by simp, [], ?_⟩
    rw [List.append_nil]
    exact hc.trans hv
  · refine ⟨str "pci", by simp, str "e." ++ decN c.idx, ?_⟩
    rw [hc, hv, show str "pcie." = str "pci" ++ str "e." from by decide,
      List.append_assoc]
  · refine ⟨str "pci", by simp, '.' :: decN c.idx, ?_⟩
    rw [hc, hv, show str "pci." = str "pci" ++ ['.'] from by decide,
      List.append_assoc]
    rfl
  · refine ⟨str "ide", by simp, [], ?_⟩
    rw [List.append_nil]
    exact hc.trans hv
  · refine ⟨str "ide", by simp, [], ?_⟩
    rw [List.append_nil]
    exact hc.trans hv
  · refine ⟨str "usb", by simp, [], ?_⟩
    rw [List.append_nil]
    exact hc.trans hv
  · refine ⟨str "scsi", by simp, [], ?_⟩
    rw [List.append_nil]
    exact hc.trans hv
  · refine ⟨ctrlTypeName c.type, ?_, decN c.idx, hc.trans hv⟩
    cases c.type <;> decide

/-- The freshness requirement: no device of the domain carries an alias yet. -/
def freshDomain (d : DomainDef) : Prop :=
  (∀ x ∈ d.disks, x.aliasOpt = none) ∧ (∀ x ∈ d.nets, x.aliasOpt = none) ∧
  (∀ x ∈ d.fss, x.aliasOpt = none) ∧ (∀ x ∈ d.sounds, x.aliasOpt = none) ∧
  (∀ x ∈ d.hostdevs, x.aliasOpt = none) ∧ (∀ x ∈ d.redirdevs, x.aliasOpt = none) ∧
  (∀ x ∈ d.videos, x.aliasOpt = none) ∧ (∀ x ∈ d.controllers, x.aliasOpt = none) ∧
  (∀ x ∈ d.inputs, x.aliasOpt = none) ∧ (∀ x ∈ d.parallels, x.aliasOpt = none) ∧
  (∀ x ∈ d.serials, x.aliasOpt = none) ∧ (∀ x ∈ d.channels, x.aliasOpt = none) ∧
  (∀ x ∈ d.consoles, x.aliasOpt = none) ∧ (∀ x ∈ d.hubs, x.aliasOpt = none) ∧
  (∀ x ∈ d.shmems, x.aliasOpt = none) ∧ (∀ x ∈ d.smartcards, x.aliasOpt = none) ∧
  (∀ x ∈ d.rngs, x.aliasOpt = none) ∧ (∀ x ∈ d.tpms, x.aliasOpt = none) ∧
  (∀ x ∈ d.mems, x.aliasOpt = none) ∧
  (∀ w ∈ d.watchdog.toList, w.aliasOpt = none) ∧
  (∀ b ∈ d.memballoon.toList, b.aliasOpt = none) ∧
  (∀ v ∈ d.vsock.toList, v.aliasOpt = none)

/-- Character devices must sit in the list of their own device type. -/
def chrTypesOK (d : DomainDef) : Prop :=
  (∀ c ∈ d.parallels, c.deviceType = ChrDeviceType.parallel) ∧
  (∀ c ∈ d.serials, c.deviceType = ChrDeviceType.serial) ∧
  (∀ c ∈ d.channels, c.deviceType = ChrDeviceType.channel) ∧
  (∀ c ∈ d.consoles, c.deviceType = ChrDeviceType.console)

set_option maxHeartbeats 1600000 in
/-- C1 (amended): on a domain with no pre-existing aliases whose controllers,
disks, character devices and memory devices are structurally distinguishable,
a successful pass yields pairwise distinct aliases across every device of the
domain. -/
theorem C1_alias_uniqueness (d : DomainDef) (caps : QemuCaps) (dF : DomainDef)
    (h : qemuAssignDeviceAliases d caps = .ok dF)
    (hfr : freshDomain d) (hchr : chrTypesOK d)
    (hctrl : List.Pairwise (fun a b => (a.type ≠ b.type ∨ a.idx ≠ b.idx) ∧
      (¬ caps.pciMultiBus = true → ¬(a.type = CtrlType.pci ∧ b.type = CtrlType.pci)))
      d.controllers)
    (hdisk : List.Pairwise (diskDistinct d) d.disks)
    (hmem : List.Pairwise memPairHyp d.mems) :
    (allAliases dF).Nodup := by
  obtain ⟨f1, f2, f3, f4, f5, f6, f7, f8, f9, f10, f11, f12, f13, f14, f15, f16,
    f17, f18, f19, m20, m21, m22⟩ := hfr
  have f20 : ∀ w, d.watchdog = some w → w.aliasOpt = none := by
    intro w hw
    refine m20 w ?_
    rw [hw]
    exact List.mem_singleton.mpr rfl
  have f21 : ∀ b, d.memballoon = some b → b.aliasOpt = none := by
    intro b hb
    refine m21 b ?_
    rw [hb]
    exact List.mem_singleton.mpr rfl
  have f22 : ∀ v, d.vsock = some v → v.aliasOpt = none := by
    intro v hv
    refine m22 v ?_
    rw [hv]
    exact List.mem_singleton.mpr rfl
  obtain ⟨c10, c11, c12, c13⟩ := hchr
  obtain ⟨d1, d2, d3, d4, d5, d6, d7, d8, d9, d10, d11, d12, d13, d14, d15, d16,
    d17, d18, d19, h1, h2, h3, h4, h5, h6, h7, h8, h9, h10, h11, h12, h13, h14,
    h15, h16, h17, h18, h19, hvs⟩ := assignAll_decompose d caps dF h
  have e1 : dF.disks = d1.disks := by
    rw [hvs, vsockStage_disks]
    rw [runStage_pres' (fun dd => dd.disks) (fun _ _ => rfl) h19]
    rw [runStage_pres' (fun dd => dd.disks) (fun _ _ => rfl) h18]
    rw [runStage_pres' (fun dd => dd.disks) (fun _ _ => rfl) h17]
    rw [memballoonStage_disks, watchdogStage_disks]
    rw [runStage_pres' (fun dd => dd.disks) (fun _ _ => rfl) h16]
    rw [runStage_pres' (fun dd => dd.disks) (fun _ _ => rfl) h15]
    rw [runStage_pres' (fun dd => dd.disks) (fun _ _ => rfl) h14]
    rw [runStage_pres' (fun dd => dd.disks) (fun _ _ => rfl) h13]
    rw [runStage_pres' (fun dd => dd.disks) (fun _ _ => rfl) h12]
    rw [runStage_pres' (fun dd => dd.disks) (fun _ _ => rfl) h11]
    rw [runStage_pres' (fun dd => dd.disks) (fun _ _ => rfl) h10]
    rw [runStage_pres' (fun dd => dd.disks) (fun _ _ => rfl) h9]
    rw [runStage_pres' (fun dd => dd.disks) (fun _ _ => rfl) h8]
    rw [runStage_pres' (fun dd => dd.disks) (fun _ _ => rfl) h7]
    rw [runStage_pres' (fun dd => dd.disks) (fun _ _ => rfl) h6]
    rw [runStage_pres' (fun dd => dd.disks) (fun _ _ => rfl) h5]
    rw [runStage_pres' (fun dd => dd.disks) (fun _ _ => rfl) h4]
    rw [runStage_pres' (fun dd => dd.disks) (fun _ _ => rfl) h3]
    rw [runStage_pres' (fun dd => dd.disks) (fun _ _ => rfl) h2]
  have e2 : dF.nets = d2.nets := by
    rw [hvs, vsockStage_nets]
    rw [runStage_pres' (fun dd => dd.nets) (fun _ _ => rfl) h19]
    rw [runStage_pres' (fun dd => dd.nets) (fun _ _ => rfl) h18]
    rw [runStage_pres' (fun dd => dd.nets) (fun _ _ => rfl) h17]
    rw [memballoonStage_nets, watchdogStage_nets]
    rw [runStage_pres' (fun dd => dd.nets) (fun _ _ => rfl) h16]
    rw [runStage_pres' (fun dd => dd.nets) (fun _ _ => rfl) h15]
    rw [runStage_pres' (fun dd => dd.nets) (fun _ _ => rfl) h14]
    rw [runStage_pres' (fun dd => dd.nets) (fun _ _ => rfl) h13]
    rw [runStage_pres' (fun dd => dd.nets) (fun _ _ => rfl) h12]
    rw [runStage_pres' (fun dd => dd.nets) (fun _ _ => rfl) h11]
    rw [runStage_pres' (fun dd => dd.nets) (fun _ _ => rfl) h10]
    rw [runStage_pres' (fun dd => dd.nets) (fun _ _ => rfl) h9]
    rw [runStage_pres' (fun dd => dd.nets) (fun _ _ => rfl) h8]
    rw [runStage_pres' (fun dd => dd.nets) (fun _ _ => rfl) h7]
    rw [runStage_pres' (fun dd => dd.nets) (fun _ _ => rfl) h6]
    rw [runStage_pres' (fun dd => dd.nets) (fun _ _ => rfl) h5]
    rw [runStage_pres' (fun dd => dd.nets) (fun _ _ => rfl) h4]
    rw [runStage_pres' (fun dd => dd.nets) (fun _ _ => rfl) h3]
  have e3 : dF.fss = d3.fss := by
    rw [hvs, vsockStage_fss]
    rw [runStage_pres' (fun dd => dd.fss) (fun _ _ => rfl) h19]
    rw [runStage_pres' (fun dd => dd.fss) (fun _ _ => rfl) h18]
    rw [runStage_pres' (fun dd => dd.fss) (fun _ _ => rfl) h17]
    rw [memballoonStage_fss, watchdogStage_fss]
    rw [runStage_pres' (fun dd => dd.fss) (fun _ _ => rfl) h16]
    rw [runStage_pres' (fun dd => dd.fss) (fun _ _ => rfl) h15]
    rw [runStage_pres' (fun dd => dd.fss) (fun _ _ => rfl) h14]
    rw [runStage_pres' (fun dd => dd.fss) (fun _ _ => rfl) h13]
    rw [runStage_pres' (fun dd => dd.fss) (fun _ _ => rfl) h12]
    rw [runStage_pres' (fun dd => dd.fss) (fun _ _ => rfl) h11]
    rw [runStage_pres' (fun dd => dd.fss) (fun _ _ => rfl) h10]
    rw [runStage_pres' (fun dd => dd.fss) (fun _ _ => rfl) h9]
    rw [runStage_pres' (fun dd => dd.fss) (fun _ _ => rfl) h8]
    rw [runStage_pres' (fun dd => dd.fss) (fun _ _ => rfl) h7]
    rw [runStage_pres' (fun dd => dd.fss) (fun _ _ => rfl) h6]
    rw [runStage_pres' (fun dd => dd.fss) (fun _ _ => rfl) h5]
    rw [runStage_pres' (fun dd => dd.fss) (fun _ _ => rfl) h4]
  have e4 : dF.sounds = d4.sounds := by
    rw [hvs, vsockStage_sounds]
    rw [runStage_pres' (fun dd => dd.sounds) (fun _ _ => rfl) h19]
    rw [runStage_pres' (fun dd => dd.sounds) (fun _ _ => rfl) h18]
    rw [runStage_pres' (fun dd => dd.sounds) (fun _ _ => rfl) h17]
    rw [memballoonStage_sounds, watchdogStage_sounds]
    rw [runStage_pres' (fun dd => dd.sounds) (fun _ _ => rfl) h16]
    rw [runStage_pres' (fun dd => dd.sounds) (fun _ _ => rfl) h15]
    rw [runStage_pres' (fun dd => dd.sounds) (fun _ _ => rfl) h14]
    rw [runStage_pres' (fun dd => dd.sounds) (fun _ _ => rfl) h13]
    rw [runStage_pres' (fun dd => dd.sounds) (fun _ _ => rfl) h12]
    rw [runStage_pres' (fun dd => dd.sounds) (fun _ _ => rfl) h11]
    rw [runStage_pres' (fun dd => dd.sounds) (fun _ _ => rfl) h10]
    rw [runStage_pres' (fun dd => dd.sounds) (fun _ _ => rfl) h9]
    rw [runStage_pres' (fun dd => dd.sounds) (fun _ _ => rfl) h8]
    rw [runStage_pres' (fun dd => dd.sounds) (fun _ _ => rfl) h7]
    rw [runStage_pres' (fun dd => dd.sounds) (fun _ _ => rfl) h6]
    rw [runStage_pres' (fun dd => dd.sounds) (fun _ _ => rfl) h5]
  have e5 : dF.hostdevs = d5.hostdevs := by
    rw [hvs, vsockStage_hostdevs]
    rw [runStage_pres' (fun dd => dd.hostdevs) (fun _ _ => rfl) h19]
    rw [runStage_pres' (fun dd => dd.hostdevs) (fun _ _ => rfl) h18]
    rw [runStage_pres' (fun dd => dd.hostdevs) (fun _ _ => rfl) h17]
    rw [memballoonStage_hostdevs, watchdogStage_hostdevs]
    rw [runStage_pres' (fun dd => dd.hostdevs) (fun _ _ => rfl) h16]
    rw [runStage_pres' (fun dd => dd.hostdevs) (fun _ _ => rfl) h15]
    rw [runStage_pres' (fun dd => dd.hostdevs) (fun _ _ => rfl) h14]
    rw [runStage_pres' (fun dd => dd.hostdevs) (fun _ _ => rfl) h13]
    rw [runStage_pres' (fun dd => dd.hostdevs) (fun _ _ => rfl) h12]
    rw [runStage_pres' (fun dd => dd.hostdevs) (fun _ _ => rfl) h11]
    rw [runStage_pres' (fun dd => dd.hostdevs) (fun _ _ => rfl) h10]
    rw [runStage_pres' (fun dd => dd.hostdevs) (fun _ _ => rfl) h9]
    rw [runStage_pres' (fun dd => dd.hostdevs) (fun _ _ => rfl) h8]
    rw [runStage_pres' (fun dd => dd.hostdevs) (fun _ _ => rfl) h7]
    rw [runStage_pres' (fun dd => dd.hostdevs) (fun _ _ => rfl) h6]
  have e6 : dF.redirdevs = d6.redirdevs := by
    rw [hvs, vsockStage_redirdevs]
    rw [runStage_pres' (fun dd => dd.redirdevs) (fun _ _ => rfl) h19]
    rw [runStage_pres' (fun dd => dd.redirdevs) (fun _ _ => rfl) h18]
    rw [runStage_pres' (fun dd => dd.redirdevs) (fun _ _ => rfl) h17]
    rw [memballoonStage_redirdevs, watchdogStage_redirdevs]
    rw [runStage_pres' (fun dd => dd.redirdevs) (fun _ _ => rfl) h16]
    rw [runStage_pres' (fun dd => dd.redirdevs) (fun _ _ => rfl) h15]
    rw [runStage_pres' (fun dd => dd.redirdevs) (fun _ _ => rfl) h14]
    rw [runStage_pres' (fun dd => dd.redirdevs) (fun _ _ => rfl) h13]
    rw [runStage_pres' (fun dd => dd.redirdevs) (fun _ _ => rfl) h12]
    rw [runStage_pres' (fun dd => dd.redirdevs) (fun _ _ => rfl) h11]
    rw [runStage_pres' (fun dd => dd.redirdevs) (fun _ _ => rfl) h10]
    rw [runStage_pres' (fun dd => dd.redirdevs) (fun _ _ => rfl) h9]
    rw [runStage_pres' (fun dd => dd.redirdevs) (fun _ _ => rfl) h8]
    rw [runStage_pres' (fun dd => dd.redirdevs) (fun _ _ => rfl) h7]
  have e7 : dF.videos = d7.videos := by
    rw [hvs, vsockStage_videos]
    rw [runStage_pres' (fun dd => dd.videos) (fun _ _ => rfl) h19]
    rw [runStage_pres' (fun dd => dd.videos) (fun _ _ => rfl) h18]
    rw [runStage_pres' (fun dd => dd.videos) (fun _ _ => rfl) h17]
    rw [memballoonStage_videos, watchdogStage_videos]
    rw [runStage_pres' (fun dd => dd.videos) (fun _ _ => rfl) h16]
    rw [runStage_pres' (fun dd => dd.videos) (fun _ _ => rfl) h15]
    rw [runStage_pres' (fun dd => dd.videos) (fun _ _ => rfl) h14]
    rw [runStage_pres' (fun dd => dd.videos) (fun _ _ => rfl) h13]
    rw [runStage_pres' (fun dd => dd.videos) (fun _ _ => rfl) h12]
    rw [runStage_pres' (fun dd => dd.videos) (fun _ _ => rfl) h11]
    rw [runStage_pres' (fun dd => dd.videos) (fun _ _ => rfl) h10]
    rw [runStage_pres' (fun dd => dd.videos) (fun _ _ => rfl) h9]
    rw [runStage_pres' (fun dd => dd.videos) (fun _ _ => rfl) h8]
  have e8 : dF.controllers = d8.controllers := by
    rw [hvs, vsockStage_controllers]
    rw [runStage_pres' (fun dd => dd.controllers) (fun _ _ => rfl) h19]
    rw [runStage_pres' (fun dd => dd.controllers) (fun _ _ => rfl) h18]
    rw [runStage_pres' (fun dd => dd.controllers) (fun _ _ => rfl) h17]
    rw [memballoonStage_controllers, watchdogStage_controllers]
    rw [runStage_pres' (fun dd => dd.controllers) (fun _ _ => rfl) h16]
    rw [runStage_pres' (fun dd => dd.controllers) (fun _ _ => rfl) h15]
    rw [runStage_pres' (fun dd => dd.controllers) (fun _ _ => rfl) h14]
    rw [runStage_pres' (fun dd => dd.controllers) (fun _ _ => rfl) h13]
    rw [runStage_pres' (fun dd => dd.controllers) (fun _ _ => rfl) h12]
    rw [runStage_pres' (fun dd => dd.controllers) (fun _ _ => rfl) h11]
    rw [runStage_pres' (fun dd => dd.controllers) (fun _ _ => rfl) h10]
    rw [runStage_pres' (fun dd => dd.controllers) (fun _ _ => rfl) h9]
  have e9 : dF.inputs = d9.inputs := by
    rw [hvs, vsockStage_inputs]
    rw [runStage_pres' (fun dd => dd.inputs) (fun _ _ => rfl) h19]
    rw [runStage_pres' (fun dd => dd.inputs) (fun _ _ => rfl) h18]
    rw [runStage_pres' (fun dd => dd.inputs) (fun _ _ => rfl) h17]
    rw [memballoonStage_inputs, watchdogStage_inputs]
    rw [runStage_pres' (fun dd => dd.inputs) (fun _ _ => rfl) h16]
    rw [runStage_pres' (fun dd => dd.inputs) (fun _ _ => rfl) h15]
    rw [runStage_pres' (fun dd => dd.inputs) (fun _ _ => rfl) h14]
    rw [runStage_pres' (fun dd => dd.inputs) (fun _ _ => rfl) h13]
    rw [runStage_pres' (fun dd => dd.inputs) (fun _ _ => rfl) h12]
    rw [runStage_pres' (fun dd => dd.inputs) (fun _ _ => rfl) h11]
    rw [runStage_pres' (fun dd => dd.inputs) (fun _ _ => rfl) h10]
  have e10 : dF.parallels = d10.parallels := by
    rw [hvs, vsockStage_parallels]
    rw [runStage_pres' (fun dd => dd.parallels) (fun _ _ => rfl) h19]
    rw [runStage_pres' (fun dd => dd.parallels) (fun _ _ => rfl) h18]
    rw [runStage_pres' (fun dd => dd.parallels) (fun _ _ => rfl) h17]
    rw [memballoonStage_parallels, watchdogStage_parallels]
    rw [runStage_pres' (fun dd => dd.parallels) (fun _ _ => rfl) h16]
    rw [runStage_pres' (fun dd => dd.parallels) (fun _ _ => rfl) h15]
    rw [runStage_pres' (fun dd => dd.parallels) (fun _ _ => rfl) h14]
    rw [runStage_pres' (fun dd => dd.parallels) (fun _ _ => rfl) h13]
    rw [runStage_pres' (fun dd => dd.parallels) (fun _ _ => rfl) h12]
    rw [runStage_pres' (fun dd => dd.parallels) (fun _ _ => rfl) h11]
  have e11 : dF.serials = d11.serials := by
    rw [hvs, vsockStage_serials]
    rw [runStage_pres' (fun dd => dd.serials) (fun _ _ => rfl) h19]
    rw [runStage_pres' (fun dd => dd.serials) (fun _ _ => rfl) h18]
    rw [runStage_pres' (fun dd => dd.serials) (fun _ _ => rfl) h17]
    rw [memballoonStage_serials, watchdogStage_serials]
    rw [runStage_pres' (fun dd => dd.serials) (fun _ _ => rfl) h16]
    rw [runStage_pres' (fun dd => dd.serials) (fun _ _ => rfl) h15]
    rw [runStage_pres' (fun dd => dd.serials) (fun _ _ => rfl) h14]
    rw [runStage_pres' (fun dd => dd.serials) (fun _ _ => rfl) h13]
    rw [runStage_pres' (fun dd => dd.serials) (fun _ _ => rfl) h12]
  have e12 : dF.channels = d12.channels := by
    rw [hvs, vsockStage_channels]
    rw [runStage_pres' (fun dd => dd.channels) (fun _ _ => rfl) h19]
    rw [runStage_pres' (fun dd => dd.channels) (fun _ _ => rfl) h18]
    rw [runStage_pres' (fun dd => dd.channels) (fun _ _ => rfl) h17]
    rw [memballoonStage_channels, watchdogStage_channels]
    rw [runStage_pres' (fun dd => dd.channels) (fun _ _ => rfl) h16]
    rw [runStage_pres' (fun dd => dd.channels) (fun _ _ => rfl) h15]
    rw [runStage_pres' (fun dd => dd.channels) (fun _ _ => rfl) h14]
    rw [runStage_pres' (fun dd => dd.channels) (fun _ _ => rfl) h13]
  have e13 : dF.consoles = d13.consoles := by
    rw [hvs, vsockStage_consoles]
    rw [runStage_pres' (fun dd => dd.consoles) (fun _ _ => rfl) h19]
    rw [runStage_pres' (fun dd => dd.consoles) (fun _ _ => rfl) h18]
    rw [runStage_pres' (fun dd => dd.consoles) (fun _ _ => rfl) h17]
    rw [memballoonStage_consoles, watchdogStage_consoles]
    rw [runStage_pres' (fun dd => dd.consoles) (fun _ _ => rfl) h16]
    rw [runStage_pres' (fun dd => dd.consoles) (fun _ _ => rfl) h15]
    rw [runStage_pres' (fun dd => dd.consoles) (fun _ _ => rfl) h14]
  have e14 : dF.hubs = d14.hubs := by
    rw [hvs, vsockStage_hubs]
    rw [runStage_pres' (fun dd => dd.hubs) (fun _ _ => rfl) h19]
    rw [runStage_pres' (fun dd => dd.hubs) (fun _ _ => rfl) h18]
    rw [runStage_pres' (fun dd => dd.hubs) (fun _ _ => rfl) h17]
    rw [memballoonStage_hubs, watchdogStage_hubs]
    rw [runStage_pres' (fun dd => dd.hubs) (fun _ _ => rfl) h16]
    rw [runStage_pres' (fun dd => dd.hubs) (fun _ _ => rfl) h15]
  have e15 : dF.shmems = d15.shmems := by
    rw [hvs, vsockStage_shmems]
    rw [runStage_pres' (fun dd => dd.shmems) (fun _ _ => rfl) h19]
    rw [runStage_pres' (fun dd => dd.shmems) (fun _ _ => rfl) h18]
    rw [runStage_pres' (fun dd => dd.shmems) (fun _ _ => rfl) h17]
    rw [memballoonStage_shmems, watchdogStage_shmems]
    rw [runStage_pres' (fun dd => dd.shmems) (fun _ _ => rfl) h16]
  have e16 : dF.smartcards = d16.smartcards := by
    rw [hvs, vsockStage_smartcards]
    rw [runStage_pres' (fun dd => dd.smartcards) (fun _ _ => rfl) h19]
    rw [runStage_pres' (fun dd => dd.smartcards) (fun _ _ => rfl) h18]
    rw [runStage_pres' (fun dd => dd.smartcards) (fun _ _ => rfl) h17]
    rw [memballoonStage_smartcards, watchdogStage_smartcards]
  have e17 : dF.rngs = d17.rngs := by
    rw [hvs, vsockStage_rngs]
    rw [runStage_pres' (fun dd => dd.rngs) (fun _ _ => rfl) h19]
    rw [runStage_pres' (fun dd => dd.rngs) (fun _ _ => rfl) h18]
  have e18 : dF.tpms = d18.tpms := by
    rw [hvs, vsockStage_tpms]
    rw [runStage_pres' (fun dd => dd.tpms) (fun _ _ => rfl) h19]
  have e19 : dF.mems = d19.mems := by
    rw [hvs, vsockStage_mems]
  have pre2 : d1.nets = d.nets := by
    rw [runStage_pres' (fun dd => dd.nets) (fun _ _ => rfl) h1]
  have pre3 : d2.fss = d.fss := by
    rw [runStage_pres' (fun dd => dd.fss) (fun _ _ => rfl) h2]
    rw [runStage_pres' (fun dd => dd.fss) (fun _ _ => rfl) h1]
  have pre4 : d3.sounds = d.sounds := by
    rw [runStage_pres' (fun dd => dd.sounds) (fun _ _ => rfl) h3]
    rw [runStage_pres' (fun dd => dd.sounds) (fun _ _ => rfl) h2]
    rw [runStage_pres' (fun dd => dd.sounds) (fun _ _ => rfl) h1]
  have pre5 : d4.hostdevs = d.hostdevs := by
    rw [runStage_pres' (fun dd => dd.hostdevs) (fun _ _ => rfl) h4]
    rw [runStage_pres' (fun dd => dd.hostdevs) (fun _ _ => rfl) h3]
    rw [runStage_pres' (fun dd => dd.hostdevs) (fun _ _ => rfl) h2]
    rw [runStage_pres' (fun dd => dd.hostdevs) (fun _ _ => rfl) h1]
  have pre6 : d5.redirdevs = d.redirdevs := by
    rw [runStage_pres' (fun dd => dd.redirdevs) (fun _ _ => rfl) h5]
    rw [runStage_pres' (fun dd => dd.redirdevs) (fun _ _ => rfl) h4]
    rw [runStage_pres' (fun dd => dd.redirdevs) (fun _ _ => rfl) h3]
    rw [runStage_pres' (fun dd => dd.redirdevs) (fun _ _ => rfl) h2]
    rw [runStage_pres' (fun dd => dd.redirdevs) (fun _ _ => rfl) h1]
  have pre7 : d6.videos = d.videos := by
    rw [runStage_pres' (fun dd => dd.videos) (fun _ _ => rfl) h6]
    rw [runStage_pres' (fun dd => dd.videos) (fun _ _ => rfl) h5]
    rw [runStage_pres' (fun dd => dd.videos) (fun _ _ => rfl) h4]
    rw [runStage_pres' (fun dd => dd.videos) (fun _ _ => rfl) h3]
    rw [runStage_pres' (fun dd => dd.videos) (fun _ _ => rfl) h2]
    rw [runStage_pres' (fun dd => dd.videos) (fun _ _ => rfl) h1]
  have pre8 : d7.controllers = d.controllers := by
    rw [runStage_pres' (fun dd => dd.controllers) (fun _ _ => rfl) h7]
    rw [runStage_pres' (fun dd => dd.controllers) (fun _ _ => rfl) h6]
    rw [runStage_pres' (fun dd => dd.controllers) (fun _ _ => rfl) h5]
    rw [runStage_pres' (fun dd => dd.controllers) (fun _ _ => rfl) h4]
    rw [runStage_pres' (fun dd => dd.controllers) (fun _ _ => rfl) h3]
    rw [runStage_pres' (fun dd => dd.controllers) (fun _ _ => rfl) h2]
    rw [runStage_pres' (fun dd => dd.controllers) (fun _ _ => rfl) h1]
  have pre9 : d8.inputs = d.inputs := by
    rw [runStage_pres' (fun dd => dd.inputs) (fun _ _ => rfl) h8]
    rw [runStage_pres' (fun dd => dd.inputs) (fun _ _ => rfl) h7]
    rw [runStage_pres' (fun dd => dd.inputs) (fun _ _ => rfl) h6]
    rw [runStage_pres' (fun dd => dd.inputs) (fun _ _ => rfl) h5]
    rw [runStage_pres' (fun dd => dd.inputs) (fun _ _ => rfl) h4]
    rw [runStage_pres' (fun dd => dd.inputs) (fun _ _ => rfl) h3]
    rw [runStage_pres' (fun dd => dd.inputs) (fun _ _ => rfl) h2]
    rw [runStage_pres' (fun dd => dd.inputs) (fun _ _ => rfl) h1]
  have pre10 : d9.parallels = d.parallels := by
    rw [runStage_pres' (fun dd => dd.parallels) (fun _ _ => rfl) h9]
    rw [runStage_pres' (fun dd => dd.parallels) (fun _ _ => rfl) h8]
    rw [runStage_pres' (fun dd => dd.parallels) (fun _ _ => rfl) h7]
    rw [runStage_pres' (fun dd => dd.parallels) (fun _ _ => rfl) h6]
    rw [runStage_pres' (fun dd => dd.parallels) (fun _ _ => rfl) h5]
    rw [runStage_pres' (fun dd => dd.parallels) (fun _ _ => rfl) h4]
    rw [runStage_pres' (fun dd => dd.parallels) (fun _ _ => rfl) h3]
    rw [runStage_pres' (fun dd => dd.parallels) (fun _ _ => rfl) h2]
    rw [runStage_pres' (fun dd => dd.parallels) (fun _ _ => rfl) h1]
  have pre11 : d10.serials = d.serials := by
    rw [runStage_pres' (fun dd => dd.serials) (fun _ _ => rfl) h10]
    rw [runStage_pres' (fun dd => dd.serials) (fun _ _ => rfl) h9]
    rw [runStage_pres' (fun dd => dd.serials) (fun _ _ => rfl) h8]
    rw [runStage_pres' (fun dd => dd.serials) (fun _ _ => rfl) h7]
    rw [runStage_pres' (fun dd => dd.serials) (fun _ _ => rfl) h6]
    rw [runStage_pres' (fun dd => dd.serials) (fun _ _ => rfl) h5]
    rw [runStage_pres' (fun dd => dd.serials) (fun _ _ => rfl) h4]
    rw [runStage_pres' (fun dd => dd.serials) (fun _ _ => rfl) h3]
    rw [runStage_pres' (fun dd => dd.serials) (fun _ _ => rfl) h2]
    rw [runStage_pres' (fun dd => dd.serials) (fun _ _ => rfl) h1]
  have pre12 : d11.channels = d.channels := by
    rw [runStage_pres' (fun dd => dd.channels) (fun _ _ => rfl) h11]
    rw [runStage_pres' (fun dd => dd.channels) (fun _ _ => rfl) h10]
    rw [runStage_pres' (fun dd => dd.channels) (fun _ _ => rfl) h9]
    rw [runStage_pres' (fun dd => dd.channels) (fun _ _ => rfl) h8]
    rw [runStage_pres' (fun dd => dd.channels) (fun _ _ => rfl) h7]
    rw [runStage_pres' (fun dd => dd.channels) (fun _ _ => rfl) h6]
    rw [runStage_pres' (fun dd => dd.channels) (fun _ _ => rfl) h5]
    rw [runStage_pres' (fun dd => dd.channels) (fun _ _ => rfl) h4]
    rw [runStage_pres' (fun dd => dd.channels) (fun _ _ => rfl) h3]
    rw [runStage_pres' (fun dd => dd.channels) (fun _ _ => rfl) h2]
    rw [runStage_pres' (fun dd => dd.channels) (fun _ _ => rfl) h1]
  have pre13 : d12.consoles = d.consoles := by
    rw [runStage_pres' (fun dd => dd.consoles) (fun _ _ => rfl) h12]
    rw [runStage_pres' (fun dd => dd.consoles) (fun _ _ => rfl) h11]
    rw [runStage_pres' (fun dd => dd.consoles) (fun _ _ => rfl) h10]
    rw [runStage_pres' (fun dd => dd.consoles) (fun _ _ => rfl) h9]
    rw [runStage_pres' (fun dd => dd.consoles) (fun _ _ => rfl) h8]
    rw [runStage_pres' (fun dd => dd.consoles) (fun _ _ => rfl) h7]
    rw [runStage_pres' (fun dd => dd.consoles) (fun _ _ => rfl) h6]
    rw [runStage_pres' (fun dd => dd.consoles) (fun _ _ => rfl) h5]
    rw [runStage_pres' (fun dd => dd.consoles) (fun _ _ => rfl) h4]
    rw [runStage_pres' (fun dd => dd.consoles) (fun _ _ => rfl) h3]
    rw [runStage_pres' (fun dd => dd.consoles) (fun _ _ => rfl) h2]
    rw [runStage_pres' (fun dd => dd.consoles) (fun _ _ => rfl) h1]
  have pre14 : d13.hubs = d.hubs := by
    rw [runStage_pres' (fun dd => dd.hubs) (fun _ _ => rfl) h13]
    rw [runStage_pres' (fun dd => dd.hubs) (fun _ _ => rfl) h12]
    rw [runStage_pres' (fun dd => dd.hubs) (fun _ _ => rfl) h11]
    rw [runStage_pres' (fun dd => dd.hubs) (fun _ _ => rfl) h10]
    rw [runStage_pres' (fun dd => dd.hubs) (fun _ _ => rfl) h9]
    rw [runStage_pres' (fun dd => dd.hubs) (fun _ _ => rfl) h8]
    rw [runStage_pres' (fun dd => dd.hubs) (fun _ _ => rfl) h7]
    rw [runStage_pres' (fun dd => dd.hubs) (fun _ _ => rfl) h6]
    rw [runStage_pres' (fun dd => dd.hubs) (fun _ _ => rfl) h5]
    rw [runStage_pres' (fun dd => dd.hubs) (fun _ _ => rfl) h4]
    rw [runStage_pres' (fun dd => dd.hubs) (fun _ _ => rfl) h3]
    rw [runStage_pres' (fun dd => dd.hubs) (fun _ _ => rfl) h2]
    rw [runStage_pres' (fun dd => dd.hubs) (fun _ _ => rfl) h1]
  have pre15 : d14.shmems = d.shmems := by
    rw [runStage_pres' (fun dd => dd.shmems) (fun _ _ => rfl) h14]
    rw [runStage_pres' (fun dd => dd.shmems) (fun _ _ => rfl) h13]
    rw [runStage_pres' (fun dd => dd.shmems) (fun _ _ => rfl) h12]
    rw [runStage_pres' (fun dd => dd.shmems) (fun _ _ => rfl) h11]
    rw [runStage_pres' (fun dd => dd.shmems) (fun _ _ => rfl) h10]
    rw [runStage_pres' (fun dd => dd.shmems) (fun _ _ => rfl) h9]
    rw [runStage_pres' (fun dd => dd.shmems) (fun _ _ => rfl) h8]
    rw [runStage_pres' (fun dd => dd.shmems) (fun _ _ => rfl) h7]
    rw [runStage_pres' (fun dd => dd.shmems) (fun _ _ => rfl) h6]
    rw [runStage_pres' (fun dd => dd.shmems) (fun _ _ => rfl) h5]
    rw [runStage_pres' (fun dd => dd.shmems) (fun _ _ => rfl) h4]
    rw [runStage_pres' (fun dd => dd.shmems) (fun _ _ => rfl) h3]
    rw [runStage_pres' (fun dd => dd.shmems) (fun _ _ => rfl) h2]
    rw [runStage_pres' (fun dd => dd.shmems) (fun _ _ => rfl) h1]
  have pre16 : d15.smartcards = d.smartcards := by
    rw [runStage_pres' (fun dd => dd.smartcards) (fun _ _ => rfl) h15]
    rw [runStage_pres' (fun dd => dd.smartcards) (fun _ _ => rfl) h14]
    rw [runStage_pres' (fun dd => dd.smartcards) (fun _ _ => rfl) h13]
    rw [runStage_pres' (fun dd => dd.smartcards) (fun _ _ => rfl) h12]
    rw [runStage_pres' (fun dd => dd.smartcards) (fun _ _ => rfl) h11]
    rw [runStage_pres' (fun dd => dd.smartcards) (fun _ _ => rfl) h10]
    rw [runStage_pres' (fun dd => dd.smartcards) (fun _ _ => rfl) h9]
    rw [runStage_pres' (fun dd => dd.smartcards) (fun _ _ => rfl) h8]
    rw [runStage_pres' (fun dd => dd.smartcards) (fun _ _ => rfl) h7]
    rw [runStage_pres' (fun dd => dd.smartcards) (fun _ _ => rfl) h6]
    rw [runStage_pres' (fun dd => dd.smartcards) (fun _ _ => rfl) h5]
    rw [runStage_pres' (fun dd => dd.smartcards) (fun _ _ => rfl) h4]
    rw [runStage_pres' (fun dd => dd.smartcards) (fun _ _ => rfl) h3]
    rw [runStage_pres' (fun dd => dd.smartcards) (fun _ _ => rfl) h2]
    rw [runStage_pres' (fun dd => dd.smartcards) (fun _ _ => rfl) h1]
  have pre17 : (memballoonStage (watchdogStage d16)).rngs = d.rngs := by
    rw [memballoonStage_rngs, watchdogStage_rngs]
    rw [runStage_pres' (fun dd => dd.rngs) (fun _ _ => rfl) h16]
    rw [runStage_pres' (fun dd => dd.rngs) (fun _ _ => rfl) h15]
    rw [runStage_pres' (fun dd => dd.rngs) (fun _ _ => rfl) h14]
    rw [runStage_pres' (fun dd => dd.rngs) (fun _ _ => rfl) h13]
    rw [runStage_pres' (fun dd => dd.rngs) (fun _ _ => rfl) h12]
    rw [runStage_pres' (fun dd => dd.rngs) (fun _ _ => rfl) h11]
    rw [runStage_pres' (fun dd => dd.rngs) (fun _ _ => rfl) h10]
    rw [runStage_pres' (fun dd => dd.rngs) (fun _ _ => rfl) h9]
    rw [runStage_pres' (fun dd => dd.rngs) (fun _ _ => rfl) h8]
    rw [runStage_pres' (fun dd => dd.rngs) (fun _ _ => rfl) h7]
    rw [runStage_pres' (fun dd => dd.rngs) (fun _ _ => rfl) h6]
    rw [runStage_pres' (fun dd => dd.rngs) (fun _ _ => rfl) h5]
    rw [runStage_pres' (fun dd => dd.rngs) (fun _ _ => rfl) h4]
    rw [runStage_pres' (fun dd => dd.rngs) (fun _ _ => rfl) h3]
    rw [runStage_pres' (fun dd => dd.rngs) (fun _ _ => rfl) h2]
    rw [runStage_pres' (fun dd => dd.rngs) (fun _ _ => rfl) h1]
  have pre18 : d17.tpms = d.tpms := by
    rw [runStage_pres' (fun dd => dd.tpms) (fun _ _ => rfl) h17]
    rw [memballoonStage_tpms, watchdogStage_tpms]
    rw [runStage_pres' (fun dd => dd.tpms) (fun _ _ => rfl) h16]
    rw [runStage_pres' (fun dd => dd.tpms) (fun _ _ => rfl) h15]
    rw [runStage_pres' (fun dd => dd.tpms) (fun _ _ => rfl) h14]
    rw [runStage_pres' (fun dd => dd.tpms) (fun _ _ => rfl) h13]
    rw [runStage_pres' (fun dd => dd.tpms) (fun _ _ => rfl) h12]
    rw [runStage_pres' (fun dd => dd.tpms) (fun _ _ => rfl) h11]
    rw [runStage_pres' (fun dd => dd.tpms) (fun _ _ => rfl) h10]
    rw [runStage_pres' (fun dd => dd.tpms) (fun _ _ => rfl) h9]
    rw [runStage_pres' (fun dd => dd.tpms) (fun _ _ => rfl) h8]
    rw [runStage_pres' (fun dd => dd.tpms) (fun _ _ => rfl) h7]
    rw [runStage_pres' (fun dd => dd.tpms) (fun _ _ => rfl) h6]
    rw [runStage_pres' (fun dd => dd.tpms) (fun _ _ => rfl) h5]
    rw [runStage_pres' (fun dd => dd.tpms) (fun _ _ => rfl) h4]
    rw [runStage_pres' (fun dd => dd.tpms) (fun _ _ => rfl) h3]
    rw [runStage_pres' (fun dd => dd.tpms) (fun _ _ => rfl) h2]
    rw [runStage_pres' (fun dd => dd.tpms) (fun _ _ => rfl) h1]
  have pre19 : d18.mems = d.mems := by
    rw [runStage_pres' (fun dd => dd.mems) (fun _ _ => rfl) h18]
    rw [runStage_pres' (fun dd => dd.mems) (fun _ _ => rfl) h17]
    rw [memballoonStage_mems, watchdogStage_mems]
    rw [runStage_pres' (fun dd => dd.mems) (fun _ _ => rfl) h16]
    rw [runStage_pres' (fun dd => dd.mems) (fun _ _ => rfl) h15]
    rw [runStage_pres' (fun dd => dd.mems) (fun _ _ => rfl) h14]
    rw [runStage_pres' (fun dd => dd.mems) (fun _ _ => rfl) h13]
    rw [runStage_pres' (fun dd => dd.mems) (fun _ _ => rfl) h12]
    rw [runStage_pres' (fun dd => dd.mems) (fun _ _ => rfl) h11]
    rw [runStage_pres' (fun dd => dd.mems) (fun _ _ => rfl) h10]
    rw [runStage_pres' (fun dd => dd.mems) (fun _ _ => rfl) h9]
    rw [runStage_pres' (fun dd => dd.mems) (fun _ _ => rfl) h8]
    rw [runStage_pres' (fun dd => dd.mems) (fun _ _ => rfl) h7]
    rw [runStage_pres' (fun dd => dd.mems) (fun _ _ => rfl) h6]
    rw [runStage_pres' (fun dd => dd.mems) (fun _ _ => rfl) h5]
    rw [runStage_pres' (fun dd => dd.mems) (fun _ _ => rfl) h4]
    rw [runStage_pres' (fun dd => dd.mems) (fun _ _ => rfl) h3]
    rw [runStage_pres' (fun dd => dd.mems) (fun _ _ => rfl) h2]
    rw [runStage_pres' (fun dd => dd.mems) (fun _ _ => rfl) h1]
  have hfam7 : d7.family = d.family := by
    rw [runStage_pres' (fun dd => dd.family) (fun _ _ => rfl) h7]
    rw [runStage_pres' (fun dd => dd.family) (fun _ _ => rfl) h6]
    rw [runStage_pres' (fun dd => dd.family) (fun _ _ => rfl) h5]
    rw [runStage_pres' (fun dd => dd.family) (fun _ _ => rfl) h4]
    rw [runStage_pres' (fun dd => dd.family) (fun _ _ => rfl) h3]
    rw [runStage_pres' (fun dd => dd.family) (fun _ _ => rfl) h2]
    rw [runStage_pres' (fun dd => dd.family) (fun _ _ => rfl) h1]
  have hnets4 : d4.nets = d2.nets := by
    rw [runStage_pres' (fun dd => dd.nets) (fun _ _ => rfl) h4]
    rw [runStage_pres' (fun dd => dd.nets) (fun _ _ => rfl) h3]
  have ewd : dF.watchdog = (watchdogStage d16).watchdog := by
    rw [hvs, vsockStage_watchdog]
    rw [runStage_pres' (fun dd => dd.watchdog) (fun _ _ => rfl) h19]
    rw [runStage_pres' (fun dd => dd.watchdog) (fun _ _ => rfl) h18]
    rw [runStage_pres' (fun dd => dd.watchdog) (fun _ _ => rfl) h17]
    rw [memballoonStage_watchdog]
  have prewd : d16.watchdog = d.watchdog := by
    rw [runStage_pres' (fun dd => dd.watchdog) (fun _ _ => rfl) h16]
    rw [runStage_pres' (fun dd => dd.watchdog) (fun _ _ => rfl) h15]
    rw [runStage_pres' (fun dd => dd.watchdog) (fun _ _ => rfl) h14]
    rw [runStage_pres' (fun dd => dd.watchdog) (fun _ _ => rfl) h13]
    rw [runStage_pres' (fun dd => dd.watchdog) (fun _ _ => rfl) h12]
    rw [runStage_pres' (fun dd => dd.watchdog) (fun _ _ => rfl) h11]
    rw [runStage_pres' (fun dd => dd.watchdog) (fun _ _ => rfl) h10]
    rw [runStage_pres' (fun dd => dd.watchdog) (fun _ _ => rfl) h9]
    rw [runStage_pres' (fun dd => dd.watchdog) (fun _ _ => rfl) h8]
    rw [runStage_pres' (fun dd => dd.watchdog) (fun _ _ => rfl) h7]
    rw [runStage_pres' (fun dd => dd.watchdog) (fun _ _ => rfl) h6]
    rw [runStage_pres' (fun dd => dd.watchdog) (fun _ _ => rfl) h5]
    rw [runStage_pres' (fun dd => dd.watchdog) (fun _ _ => rfl) h4]
    rw [runStage_pres' (fun dd => dd.watchdog) (fun _ _ => rfl) h3]
    rw [runStage_pres' (fun dd => dd.watchdog) (fun _ _ => rfl) h2]
    rw [runStage_pres' (fun dd => dd.watchdog) (fun _ _ => rfl) h1]
  have emb : dF.memballoon = (memballoonStage (watchdogStage d16)).memballoon := by
    rw [hvs, vsockStage_memballoon]
    rw [runStage_pres' (fun dd => dd.memballoon) (fun _ _ => rfl) h19]
    rw [runStage_pres' (fun dd => dd.memballoon) (fun _ _ => rfl) h18]
    rw [runStage_pres' (fun dd => dd.memballoon) (fun _ _ => rfl) h17]
  have premb : (watchdogStage d16).memballoon = d.memballoon := by
    rw [watchdogStage_memballoon]
    rw [runStage_pres' (fun dd => dd.memballoon) (fun _ _ => rfl) h16]
    rw [runStage_pres' (fun dd => dd.memballoon) (fun _ _ => rfl) h15]
    rw [runStage_pres' (fun dd => dd.memballoon) (fun _ _ => rfl) h14]
    rw [runStage_pres' (fun dd => dd.memballoon) (fun _ _ => rfl) h13]
    rw [runStage_pres' (fun dd => dd.memballoon) (fun _ _ => rfl) h12]
    rw [runStage_pres' (fun dd => dd.memballoon) (fun _ _ => rfl) h11]
    rw [runStage_pres' (fun dd => dd.memballoon) (fun _ _ => rfl) h10]
    rw [runStage_pres' (fun dd => dd.memballoon) (fun _ _ => rfl) h9]
    rw [runStage_pres' (fun dd => dd.memballoon) (fun _ _ => rfl) h8]
    rw [runStage_pres' (fun dd => dd.memballoon) (fun _ _ => rfl) h7]
    rw [runStage_pres' (fun dd => dd.memballoon) (fun _ _ => rfl) h6]
    rw [runStage_pres' (fun dd => dd.memballoon) (fun _ _ => rfl) h5]
    rw [runStage_pres' (fun dd => dd.memballoon) (fun _ _ => rfl) h4]
    rw [runStage_pres' (fun dd => dd.memballoon) (fun _ _ => rfl) h3]
    rw [runStage_pres' (fun dd => dd.memballoon) (fun _ _ => rfl) h2]
    rw [runStage_pres' (fun dd => dd.memballoon) (fun _ _ => rfl) h1]
  have evs : dF.vsock = (vsockStage d19).vsock := by rw [hvs]
  have prevs : d19.vsock = d.vsock := by
    rw [runStage_pres' (fun dd => dd.vsock) (fun _ _ => rfl) h19]
    rw [runStage_pres' (fun dd => dd.vsock) (fun _ _ => rfl) h18]
    rw [runStage_pres' (fun dd => dd.vsock) (fun _ _ => rfl) h17]
    rw [memballoonStage_vsock, watchdogStage_vsock]
    rw [runStage_pres' (fun dd => dd.vsock) (fun _ _ => rfl) h16]
    rw [runStage_pres' (fun dd => dd.vsock) (fun _ _ => rfl) h15]
    rw [runStage_pres' (fun dd => dd.vsock) (fun _ _ => rfl) h14]
    rw [runStage_pres' (fun dd => dd.vsock) (fun _ _ => rfl) h13]
    rw [runStage_pres' (fun dd => dd.vsock) (fun _ _ => rfl) h12]
    rw [runStage_pres' (fun dd => dd.vsock) (fun _ _ => rfl) h11]
    rw [runStage_pres' (fun dd => dd.vsock) (fun _ _ => rfl) h10]
    rw [runStage_pres' (fun dd => dd.vsock) (fun _ _ => rfl) h9]
    rw [runStage_pres' (fun dd => dd.vsock) (fun _ _ => rfl) h8]
    rw [runStage_pres' (fun dd => dd.vsock) (fun _ _ => rfl) h7]
    rw [runStage_pres' (fun dd => dd.vsock) (fun _ _ => rfl) h6]
    rw [runStage_pres' (fun dd => dd.vsock) (fun _ _ => rfl) h5]
    rw [runStage_pres' (fun dd => dd.vsock) (fun _ _ => rfl) h4]
    rw [runStage_pres' (fun dd => dd.vsock) (fun _ _ => rfl) h3]
    rw [runStage_pres' (fun dd => dd.vsock) (fun _ _ => rfl) h2]
    rw [runStage_pres' (fun dd => dd.vsock) (fun _ _ => rfl) h1]
  obtain ⟨proc1, hp1, hfa1⟩ := diskStage_forall caps d d1 h1
  have hfp1 : d1.disks = proc1 := hp1
  have hmap1 : dF.disks.map (fun x => x.aliasOpt) =
      d.disks.map (fun x => diskAliasFor d x) := by
    rw [e1, hfp1]
    exact forall₂_to_map (hfa1.imp (fun _ _ hq hx => (hq hx).1)) f1
  have hP1 : (dF.disks.map (fun x => x.aliasOpt)).Pairwise optNe := by
    rw [hmap1]
    refine List.pairwise_map.mpr ?_
    refine hdisk.imp ?_
    intro a b hdab va vb hva hvb
    exact diskAliasFor_ne d hdab hva hvb
  have hV1 : ∀ o ∈ dF.disks.map (fun x => x.aliasOpt), ∀ a, o = some a →
      ∃ x, diskAliasFor d x = some a := by
    rw [hmap1]
    intro o ho a hoa
    obtain ⟨x, hx, hxe⟩ := List.mem_map.mp ho
    exact ⟨x, by rw [hxe]; exact hoa⟩
  have hW1 := weakShape_disks d hV1
  have hfr2 : ∀ x ∈ d1.nets, x.aliasOpt = none := by
    rw [pre2]
    exact f2
  have hnet := netStage_spec d1 d2 h2 hfr2
  have hFn : (∀ o ∈ dF.nets.map (fun x => x.aliasOpt), netAliasShape o) ∧
      (dF.nets.map (fun x => x.aliasOpt)).Nodup := by
    rw [e2]
    exact hnet
  have hP2 := pairwise_optNe_of_nodup hFn.2
  have hW2 := weakShape_nets hFn.1
  have hfr5 : ∀ x ∈ d4.hostdevs, x.aliasOpt = none := by
    rw [pre5]
    exact f5
  have hnd4 : (d4.nets.map (fun x => x.aliasOpt)).Nodup := by
    rw [hnets4]
    exact hnet.2
  have hhost := hostdevStage_spec d4 d5 h5 hfr5 hnd4
  have hFh : ∀ o ∈ dF.hostdevs.map (fun x => x.aliasOpt), ∃ k : Nat,
      o = some (str "hostdev" ++ decN k) := by
    rw [e5]
    exact hhost.1
  have hjoint : (dF.nets.map (fun x => x.aliasOpt) ++
      dF.hostdevs.map (fun x => x.aliasOpt)).Nodup := by
    rw [e2, e5, ← hnets4]
    exact hhost.2
  have hP5 := pairwise_optNe_of_nodup (List.nodup_append.mp hjoint).2.1
  have hDisj25 : ∀ o1 ∈ dF.nets.map (fun x => x.aliasOpt),
      ∀ o2 ∈ dF.hostdevs.map (fun x => x.aliasOpt), o1 ≠ o2 := by
    intro o1 ho1 o2 ho2 heq
    exact (List.nodup_append.mp hjoint).2.2 ho1 (by rw [heq]; exact ho2)
  have hW5 := weakShape_of_stemIdx hFh
  obtain ⟨proc8, hp8, hfa8⟩ := ctrlStage_forall caps d7 d8 h8
  have hfp8 : d8.controllers = proc8 := hp8
  have hfa8q : List.Forall₂ (fun x y => x.aliasOpt = none →
      y.aliasOpt = some (ctrlAliasFor d caps x)) d.controllers proc8 := by
    have hq := hfa8.imp (fun a _ hq hx => (hq hx).trans
      (congrArg some (ctrlAliasFor_congr hfam7 caps a)))
    rwa [pre8] at hq
  have hmap8 : dF.controllers.map (fun x => x.aliasOpt) =
      d.controllers.map (fun c => some (ctrlAliasFor d caps c)) := by
    rw [e8, hfp8]
    exact forall₂_to_map hfa8q f8
  have hP8 : (dF.controllers.map (fun x => x.aliasOpt)).Pairwise optNe := by
    rw [hmap8]
    refine List.pairwise_map.mpr ?_
    refine hctrl.imp ?_
    intro a b hab va vb hva hvb
    injection hva with hva
    injection hvb with hvb
    rw [← hva, ← hvb]
    exact ctrlAliasFor_ne d caps hab.1 hab.2
  have hV8 : ∀ o ∈ dF.controllers.map (fun x => x.aliasOpt), ∀ a, o = some a →
      ∃ c2, a = ctrlAliasFor d caps c2 := by
    rw [hmap8]
    intro o ho a hoa
    obtain ⟨c2, hc2, hce⟩ := List.mem_map.mp ho
    rw [← hce] at hoa
    injection hoa with hoa
    exact ⟨c2, hoa.symm⟩
  have hW8 := weakShape_ctrl d caps hV8
  obtain ⟨hlen3, hat3⟩ := fssStage_at d2 d3 h3
  have hF3 : (∀ o ∈ dF.fss.map (fun x => x.aliasOpt), ∃ k : Nat,
      o = some (str "fs" ++ decN k)) ∧
      (dF.fss.map (fun x => x.aliasOpt)).Nodup := by
    rw [e3]
    refine stage_at_to_facts hlen3 hat3 ?_
    rw [pre3]
    exact f3
  have hP3 := pairwise_optNe_of_nodup hF3.2
  have hW3 := weakShape_of_stemIdx hF3.1
  obtain ⟨hlen4, hat4⟩ := soundsStage_at d3 d4 h4
  have hF4 : (∀ o ∈ dF.sounds.map (fun x => x.aliasOpt), ∃ k : Nat,
      o = some (str "sound" ++ decN k)) ∧
      (dF.sounds.map (fun x => x.aliasOpt)).Nodup := by
    rw [e4]
    refine stage_at_to_facts hlen4 hat4 ?_
    rw [pre4]
    exact f4
  have hP4 := pairwise_optNe_of_nodup hF4.2
  have hW4 := weakShape_of_stemIdx hF4.1
  obtain ⟨hlen6, hat6⟩ := redirdevsStage_at d5 d6 h6
  have hF6 : (∀ o ∈ dF.redirdevs.map (fun x => x.aliasOpt), ∃ k : Nat,
      o = some (str "redir" ++ decN k)) ∧
      (dF.redirdevs.map (fun x => x.aliasOpt)).Nodup := by
    rw [e6]
    refine stage_at_to_facts hlen6 hat6 ?_
    rw [pre6]
    exact f6
  have hP6 := pairwise_optNe_of_nodup hF6.2
  have hW6 := weakShape_of_stemIdx hF6.1
  obtain ⟨hlen7, hat7⟩ := videosStage_at d6 d7 h7
  have hF7 : (∀ o ∈ dF.videos.map (fun x => x.aliasOpt), ∃ k : Nat,
      o = some (str "video" ++ decN k)) ∧
      (dF.videos.map (fun x => x.aliasOpt)).Nodup := by
    rw [e7]
    refine stage_at_to_facts hlen7 hat7 ?_
    rw [pre7]
    exact f7
  have hP7 := pairwise_optNe_of_nodup hF7.2
  have hW7 := weakShape_of_stemIdx hF7.1
  obtain ⟨hlen9, hat9⟩ := inputsStage_at d8 d9 h9
  have hF9 : (∀ o ∈ dF.inputs.map (fun x => x.aliasOpt), ∃ k : Nat,
      o = some (str "input" ++ decN k)) ∧
      (dF.inputs.map (fun x => x.aliasOpt)).Nodup := by
    rw [e9]
    refine stage_at_to_facts hlen9 hat9 ?_
    rw [pre9]
    exact f9
  have hP9 := pairwise_optNe_of_nodup hF9.2
  have hW9 := weakShape_of_stemIdx hF9.1
  obtain ⟨hlen14, hat14⟩ := hubsStage_at d13 d14 h14
  have hF14 : (∀ o ∈ dF.hubs.map (fun x => x.aliasOpt), ∃ k : Nat,
      o = some (str "hub" ++ decN k)) ∧
      (dF.hubs.map (fun x => x.aliasOpt)).Nodup := by
    rw [e14]
    refine stage_at_to_facts hlen14 hat14 ?_
    rw [pre14]
    exact f14
  have hP14 := pairwise_optNe_of_nodup hF14.2
  have hW14 := weakShape_of_stemIdx hF14.1
  obtain ⟨hlen15, hat15⟩ := shmemsStage_at d14 d15 h15
  have hF15 : (∀ o ∈ dF.shmems.map (fun x => x.aliasOpt), ∃ k : Nat,
      o = some (str "shmem" ++ decN k)) ∧
      (dF.shmems.map (fun x => x.aliasOpt)).Nodup := by
    rw [e15]
    refine stage_at_to_facts hlen15 hat15 ?_
    rw [pre15]
    exact f15
  have hP15 := pairwise_optNe_of_nodup hF15.2
  have hW15 := weakShape_of_stemIdx hF15.1
  obtain ⟨hlen16, hat16⟩ := smartcardsStage_at d15 d16 h16
  have hF16 : (∀ o ∈ dF.smartcards.map (fun x => x.aliasOpt), ∃ k : Nat,
      o = some (str "smartcard" ++ decN k)) ∧
      (dF.smartcards.map (fun x => x.aliasOpt)).Nodup := by
    rw [e16]
    refine stage_at_to_facts hlen16 hat16 ?_
    rw [pre16]
    exact f16
  have hP16 := pairwise_optNe_of_nodup hF16.2
  have hW16 := weakShape_of_stemIdx hF16.1
  obtain ⟨hlen18, hat18⟩ := tpmsStage_at d17 d18 h18
  have hF18 : (∀ o ∈ dF.tpms.map (fun x => x.aliasOpt), ∃ k : Nat,
      o = some (str "tpm" ++ decN k)) ∧
      (dF.tpms.map (fun x => x.aliasOpt)).Nodup := by
    rw [e18]
    refine stage_at_to_facts hlen18 hat18 ?_
    rw [pre18]
    exact f18
  have hP18 := pairwise_optNe_of_nodup hF18.2
  have hW18 := weakShape_of_stemIdx hF18.1
  obtain ⟨hlen10, hat10⟩ := parallelsStage_at d9 d10 h10
  have hF10 : (∀ o ∈ dF.parallels.map (fun x => x.aliasOpt), ∃ k : Nat,
      o = some (str "parallel" ++ decN k)) ∧
      (dF.parallels.map (fun x => x.aliasOpt)).Nodup := by
    rw [e10]
    refine chrStage_to_facts hlen10 hat10 ?_ ?_
    · rw [pre10]
      exact f10
    · rw [pre10]
      exact c10
  have hP10 := pairwise_optNe_of_nodup hF10.2
  have hW10 := weakShape_of_stemIdx hF10.1
  obtain ⟨hlen11, hat11⟩ := serialsStage_at d10 d11 h11
  have hF11 : (∀ o ∈ dF.serials.map (fun x => x.aliasOpt), ∃ k : Nat,
      o = some (str "serial" ++ decN k)) ∧
      (dF.serials.map (fun x => x.aliasOpt)).Nodup := by
    rw [e11]
    refine chrStage_to_facts hlen11 hat11 ?_ ?_
    · rw [pre11]
      exact f11
    · rw [pre11]
      exact c11
  have hP11 := pairwise_optNe_of_nodup hF11.2
  have hW11 := weakShape_of_stemIdx hF11.1
  obtain ⟨hlen12, hat12⟩ := channelsStage_at d11 d12 h12
  have hF12 : (∀ o ∈ dF.channels.map (fun x => x.aliasOpt), ∃ k : Nat,
      o = some (str "channel" ++ decN k)) ∧
      (dF.channels.map (fun x => x.aliasOpt)).Nodup := by
    rw [e12]
    refine chrStage_to_facts hlen12 hat12 ?_ ?_
    · rw [pre12]
      exact f12
    · rw [pre12]
      exact c12
  have hP12 := pairwise_optNe_of_nodup hF12.2
  have hW12 := weakShape_of_stemIdx hF12.1
  obtain ⟨hlen13, hat13⟩ := consolesStage_at d12 d13 h13
  have hF13 : (∀ o ∈ dF.consoles.map (fun x => x.aliasOpt), ∃ k : Nat,
      o = some (str "console" ++ decN k)) ∧
      (dF.consoles.map (fun x => x.aliasOpt)).Nodup := by
    rw [e13]
    refine chrStage_to_facts hlen13 hat13 ?_ ?_
    · rw [pre13]
      exact f13
    · rw [pre13]
      exact c13
  have hP13 := pairwise_optNe_of_nodup hF13.2
  have hW13 := weakShape_of_stemIdx hF13.1
  have hfr17 : ∀ x ∈ (memballoonStage (watchdogStage d16)).rngs,
      x.aliasOpt = none := by
    rw [pre17]
    exact f17
  have hrng := rngStage_spec (memballoonStage (watchdogStage d16)) d17 h17 hfr17
  have hF17 : (∀ o ∈ dF.rngs.map (fun x => x.aliasOpt), ∃ k : Nat,
      o = some (str "rng" ++ decN k)) ∧
      (dF.rngs.map (fun x => x.aliasOpt)).Nodup := by
    rw [e17]
    exact hrng
  have hP17r := pairwise_optNe_of_nodup hF17.2
  have hW17r := weakShape_of_stemIdx hF17.1
  have hfr19 : ∀ x ∈ d18.mems, x.aliasOpt = none := by
    rw [pre19]
    exact f19
  have hpw19 : List.Pairwise memPairHyp d18.mems := by
    rw [pre19]
    exact hmem
  have hmems := memStage_spec d18 d19 h19 hfr19 hpw19
  have hM21 : ∀ o ∈ dF.mems.map (fun x => x.aliasOpt), memShape o := by
    rw [e19]
    exact hmems.1
  have hP21 : (dF.mems.map (fun x => x.aliasOpt)).Pairwise optNe := by
    refine pairwise_optNe_of_nodup ?_
    rw [e19]
    exact hmems.2
  have hW21 := weakShape_mems hM21
  have hwdF : dF.watchdog = none ∨
      ∃ w0, dF.watchdog = some w0 ∧ w0.aliasOpt = some (str "watchdog0") := by
    cases hw : d.watchdog with
    | none =>
      left
      rw [ewd]
      unfold watchdogStage
      rw [prewd, hw]
      exact prewd.trans hw
    | some w =>
      right
      refine ⟨qemuAssignDeviceWatchdogAlias w, ?_, ?_⟩
      · rw [ewd]
        unfold watchdogStage
        rw [prewd, hw]
      · unfold qemuAssignDeviceWatchdogAlias
        rw [if_neg (by simp [f20 w hw])]
  have hmbF : dF.memballoon = none ∨
      (∃ b0, dF.memballoon = some b0 ∧ b0.aliasOpt = none) ∨
      (∃ b0, dF.memballoon = some b0 ∧ b0.aliasOpt = some (str "balloon0")) := by
    cases hb : d.memballoon with
    | none =>
      left
      rw [emb]
      unfold memballoonStage
      rw [premb, hb]
      exact premb.trans hb
    | some b =>
      by_cases hbm : b.model ≠ MemballoonModel.mbNone
      · right
        right
        refine ⟨qemuAssignDeviceMemballoonAlias b 0, ?_, ?_⟩
        · rw [emb]
          unfold memballoonStage
          rw [premb, hb]
          dsimp only
          rw [if_pos hbm]
        · unfold qemuAssignDeviceMemballoonAlias
          rw [if_neg (by simp [f21 b hb])]
          show some (str "balloon" ++ decZ 0) = some (str "balloon0")
          decide
      · right
        left
        refine ⟨b, ?_, f21 b hb⟩
        rw [emb]
        unfold memballoonStage
        rw [premb, hb]
        dsimp only
        rw [if_neg hbm]
        exact premb.trans hb
  have hvsF : dF.vsock = none ∨
      ∃ v0, dF.vsock = some v0 ∧ v0.aliasOpt = some (str "vsock0") := by
    cases hv : d.vsock with
    | none =>
      left
      rw [evs]
      unfold vsockStage
      rw [prevs, hv]
      exact prevs.trans hv
    | some v =>
      right
      refine ⟨qemuAssignDeviceVsockAlias v, ?_, ?_⟩
      · rw [evs]
        unfold vsockStage
        rw [prevs, hv]
      · unfold qemuAssignDeviceVsockAlias
        rw [if_neg (by simp [f22 v hv])]
  have hA17 : (∀ o ∈ (match dF.watchdog with
      | some w => [w.aliasOpt] | none => ([] : List (Option Str))),
      ∀ a, o = some a → a = str "watchdog0") ∧
      List.Pairwise optNe (match dF.watchdog with
      | some w => [w.aliasOpt] | none => ([] : List (Option Str))) := by
    rcases hwdF with hw | ⟨w0, hw, hal⟩ <;> rw [hw]
    · exact ⟨fun o ho => absurd ho (List.not_mem_nil o), List.Pairwise.nil⟩
    · constructor
      · intro o ho a hoa
        rw [List.mem_singleton.mp ho, hal] at hoa
        injection hoa with hoa
        exact hoa.symm
      · show List.Pairwise optNe [w0.aliasOpt]
        simp
  have hA18 : (∀ o ∈ (match dF.memballoon with
      | some b => [b.aliasOpt] | none => ([] : List (Option Str))),
      ∀ a, o = some a → a = str "balloon0") ∧
      List.Pairwise optNe (match dF.memballoon with
      | some b => [b.aliasOpt] | none => ([] : List (Option Str))) := by
    rcases hmbF with hb | ⟨b0, hb, hal⟩ | ⟨b0, hb, hal⟩ <;> rw [hb]
    · exact ⟨fun o ho => absurd ho (List.not_mem_nil o), List.Pairwise.nil⟩
    · constructor
      · intro o ho a hoa
        rw [List.mem_singleton.mp ho, hal] at hoa
        exact absurd hoa (by simp)
      · show List.Pairwise optNe [b0.aliasOpt]
        simp
    · constructor
      · intro o ho a hoa
        rw [List.mem_singleton.mp ho, hal] at hoa
        injection hoa with hoa
        exact hoa.symm
      · show List.Pairwise optNe [b0.aliasOpt]
        simp
  have hA22 : (∀ o ∈ (match dF.vsock with
      | some v => [v.aliasOpt] | none => ([] : List (Option Str))),
      ∀ a, o = some a → a = str "vsock0") ∧
      List.Pairwise optNe (match dF.vsock with
      | some v => [v.aliasOpt] | none => ([] : List (Option Str))) := by
    rcases hvsF with hv | ⟨v0, hv, hal⟩ <;> rw [hv]
    · exact ⟨fun o ho => absurd ho (List.not_mem_nil o), List.Pairwise.nil⟩
    · constructor
      · intro o ho a hoa
        rw [List.mem_singleton.mp ho, hal] at hoa
        injection hoa with hoa
        exact hoa.symm
      · show List.Pairwise optNe [v0.aliasOpt]
        simp
  have hW17s := weakShape_exact hA17.1
  have hW18s := weakShape_exact hA18.1
  have hW22s := weakShape_exact hA22.1
  unfold allAliases
  apply nodup_filterMap_of_pairwise
  unfold allAliasOpts
  refine List.pairwise_append.mpr ⟨hP1, ?_, ?_⟩
  · -- remaining collections
    refine List.pairwise_append.mpr ⟨hP2, ?_, ?_⟩
    · -- remaining collections
      refine List.pairwise_append.mpr ⟨hP3, ?_, ?_⟩
      · -- remaining collections
        refine List.pairwise_append.mpr ⟨hP4, ?_, ?_⟩
        · -- remaining collections
          refine List.pairwise_append.mpr ⟨hP5, ?_, ?_⟩
          · -- remaining collections
            refine List.pairwise_append.mpr ⟨hP6, ?_, ?_⟩
            · -- remaining collections
              refine List.pairwise_append.mpr ⟨hP7, ?_, ?_⟩
              · -- remaining collections
                refine List.pairwise_append.mpr ⟨hP8, ?_, ?_⟩
                · -- remaining collections
                  refine List.pairwise_append.mpr ⟨hP9, ?_, ?_⟩
                  · -- remaining collections
                    refine List.pairwise_append.mpr ⟨hP10, ?_, ?_⟩
                    · -- remaining collections
                      refine List.pairwise_append.mpr ⟨hP11, ?_, ?_⟩
                      · -- remaining collections
                        refine List.pairwise_append.mpr ⟨hP12, ?_, ?_⟩
                        · -- remaining collections
                          refine List.pairwise_append.mpr ⟨hP13, ?_, ?_⟩
                          · -- remaining collections
                            refine List.pairwise_append.mpr ⟨hP14, ?_, ?_⟩
                            · -- remaining collections
                              refine List.pairwise_append.mpr ⟨hP15, ?_, ?_⟩
                              · -- remaining collections
                                refine List.pairwise_append.mpr ⟨hP16, ?_, ?_⟩
                                · -- remaining collections
                                  refine List.pairwise_append.mpr ⟨hA17.2, ?_, ?_⟩
                                  · -- remaining collections
                                    refine List.pairwise_append.mpr ⟨hA18.2, ?_, ?_⟩
                                    · -- remaining collections
                                      refine List.pairwise_append.mpr ⟨hP17r, ?_, ?_⟩
                                      · -- remaining collections
                                        refine List.pairwise_append.mpr ⟨hP18, ?_, ?_⟩
                                        · -- remaining collections
                                          refine List.pairwise_append.mpr ⟨hP21, ?_, ?_⟩
                                          · -- remaining collections
                                            exact hA22.2
                                          · -- 21 against the later collections
                                            intro o1 ho1 o2 ho2
                                            exact cross_optNe_of_stems (by decide) (hW21 o1 ho1) (hW22s o2 ho2)
                                        · -- 20 against the later collections
                                          intro o1 ho1 o2 ho2
                                          rcases List.mem_append.mp ho2 with ho2 | ho2
                                          · exact cross_optNe_of_stems (by decide) (hW18 o1 ho1) (hW21 o2 ho2)
                                          exact cross_optNe_of_stems (by decide) (hW18 o1 ho1) (hW22s o2 ho2)
                                      · -- 19 against the later collections
                                        intro o1 ho1 o2 ho2
                                        rcases List.mem_append.mp ho2 with ho2 | ho2
                                        · exact cross_optNe_of_stems (by decide) (hW17r o1 ho1) (hW18 o2 ho2)
                                        rcases List.mem_append.mp ho2 with ho2 | ho2
                                        · exact cross_optNe_of_stems (by decide) (hW17r o1 ho1) (hW21 o2 ho2)
                                        exact cross_optNe_of_stems (by decide) (hW17r o1 ho1) (hW22s o2 ho2)
                                    · -- 18 against the later collections
                                      intro o1 ho1 o2 ho2
                                      rcases List.mem_append.mp ho2 with ho2 | ho2
                                      · exact cross_optNe_of_stems (by decide) (hW18s o1 ho1) (hW17r o2 ho2)
                                      rcases List.mem_append.mp ho2 with ho2 | ho2
                                      · exact cross_optNe_of_stems (by decide) (hW18s o1 ho1) (hW18 o2 ho2)
                                      rcases List.mem_append.mp ho2 with ho2 | ho2
                                      · exact cross_optNe_of_stems (by decide) (hW18s o1 ho1) (hW21 o2 ho2)
                                      exact cross_optNe_of_stems (by decide) (hW18s o1 ho1) (hW22s o2 ho2)
                                  · -- 17 against the later collections
                                    intro o1 ho1 o2 ho2
                                    rcases List.mem_append.mp ho2 with ho2 | ho2
                                    · exact cross_optNe_of_stems (by decide) (hW17s o1 ho1) (hW18s o2 ho2)
                                    rcases List.mem_append.mp ho2 with ho2 | ho2
                                    · exact cross_optNe_of_stems (by decide) (hW17s o1 ho1) (hW17r o2 ho2)
                                    rcases List.mem_append.mp ho2 with ho2 | ho2
                                    · exact cross_optNe_of_stems (by decide) (hW17s o1 ho1) (hW18 o2 ho2)
                                    rcases List.mem_append.mp ho2 with ho2 | ho2
                                    · exact cross_optNe_of_stems (by decide) (hW17s o1 ho1) (hW21 o2 ho2)
                                    exact cross_optNe_of_stems (by decide) (hW17s o1 ho1) (hW22s o2 ho2)
                                · -- 16 against the later collections
                                  intro o1 ho1 o2 ho2
                                  rcases List.mem_append.mp ho2 with ho2 | ho2
                                  · exact cross_optNe_of_stems (by decide) (hW16 o1 ho1) (hW17s o2 ho2)
                                  rcases List.mem_append.mp ho2 with ho2 | ho2
                                  · exact cross_optNe_of_stems (by decide) (hW16 o1 ho1) (hW18s o2 ho2)
                                  rcases List.mem_append.mp ho2 with ho2 | ho2
                                  · exact cross_optNe_of_stems (by decide) (hW16 o1 ho1) (hW17r o2 ho2)
                                  rcases List.mem_append.mp ho2 with ho2 | ho2
                                  · exact cross_optNe_of_stems (by decide) (hW16 o1 ho1) (hW18 o2 ho2)
                                  rcases List.mem_append.mp ho2 with ho2 | ho2
                                  · exact cross_optNe_of_stems (by decide) (hW16 o1 ho1) (hW21 o2 ho2)
                                  exact cross_optNe_of_stems (by decide) (hW16 o1 ho1) (hW22s o2 ho2)
                              · -- 15 against the later collections
                                intro o1 ho1 o2 ho2
                                rcases List.mem_append.mp ho2 with ho2 | ho2
                                · exact cross_optNe_of_stems (by decide) (hW15 o1 ho1) (hW16 o2 ho2)
                                rcases List.mem_append.mp ho2 with ho2 | ho2
                                · exact cross_optNe_of_stems (by decide) (hW15 o1 ho1) (hW17s o2 ho2)
                                rcases List.mem_append.mp ho2 with ho2 | ho2
                                · exact cross_optNe_of_stems (by decide) (hW15 o1 ho1) (hW18s o2 ho2)
                                rcases List.mem_append.mp ho2 with ho2 | ho2
                                · exact cross_optNe_of_stems (by decide) (hW15 o1 ho1) (hW17r o2 ho2)
                                rcases List.mem_append.mp ho2 with ho2 | ho2
                                · exact cross_optNe_of_stems (by decide) (hW15 o1 ho1) (hW18 o2 ho2)
                                rcases List.mem_append.mp ho2 with ho2 | ho2
                                · exact cross_optNe_of_stems (by decide) (hW15 o1 ho1) (hW21 o2 ho2)
                                exact cross_optNe_of_stems (by decide) (hW15 o1 ho1) (hW22s o2 ho2)
                            · -- 14 against the later collections
                              intro o1 ho1 o2 ho2
                              rcases List.mem_append.mp ho2 with ho2 | ho2
                              · exact cross_optNe_of_stems (by decide) (hW14 o1 ho1) (hW15 o2 ho2)
                              rcases List.mem_append.mp ho2 with ho2 | ho2
                              · exact cross_optNe_of_stems (by decide) (hW14 o1 ho1) (hW16 o2 ho2)
                              rcases List.mem_append.mp ho2 with ho2 | ho2
                              · exact cross_optNe_of_stems (by decide) (hW14 o1 ho1) (hW17s o2 ho2)
                              rcases List.mem_append.mp ho2 with ho2 | ho2
                              · exact cross_optNe_of_stems (by decide) (hW14 o1 ho1) (hW18s o2 ho2)
                              rcases List.mem_append.mp ho2 with ho2 | ho2
                              · exact cross_optNe_of_stems (by decide) (hW14 o1 ho1) (hW17r o2 ho2)
                              rcases List.mem_append.mp ho2 with ho2 | ho2
                              · exact cross_optNe_of_stems (by decide) (hW14 o1 ho1) (hW18 o2 ho2)
                              rcases List.mem_append.mp ho2 with ho2 | ho2
                              · exact cross_optNe_of_stems (by decide) (hW14 o1 ho1) (hW21 o2 ho2)
                              exact cross_optNe_of_stems (by decide) (hW14 o1 ho1) (hW22s o2 ho2)
                          · -- 13 against the later collections
                            intro o1 ho1 o2 ho2
                            rcases List.mem_append.mp ho2 with ho2 | ho2
                            · exact cross_optNe_of_stems (by decide) (hW13 o1 ho1) (hW14 o2 ho2)
                            rcases List.mem_append.mp ho2 with ho2 | ho2
                            · exact cross_optNe_of_stems (by decide) (hW13 o1 ho1) (hW15 o2 ho2)
                            rcases List.mem_append.mp ho2 with ho2 | ho2
                            · exact cross_optNe_of_stems (by decide) (hW13 o1 ho1) (hW16 o2 ho2)
                            rcases List.mem_append.mp ho2 with ho2 | ho2
                            · exact cross_optNe_of_stems (by decide) (hW13 o1 ho1) (hW17s o2 ho2)
                            rcases List.mem_append.mp ho2 with ho2 | ho2
                            · exact cross_optNe_of_stems (by decide) (hW13 o1 ho1) (hW18s o2 ho2)
                            rcases List.mem_append.mp ho2 with ho2 | ho2
                            · exact cross_optNe_of_stems (by decide) (hW13 o1 ho1) (hW17r o2 ho2)
                            rcases List.mem_append.mp ho2 with ho2 | ho2
                            · exact cross_optNe_of_stems (by decide) (hW13 o1 ho1) (hW18 o2 ho2)
                            rcases List.mem_append.mp ho2 with ho2 | ho2
                            · exact cross_optNe_of_stems (by decide) (hW13 o1 ho1) (hW21 o2 ho2)
                            exact cross_optNe_of_stems (by decide) (hW13 o1 ho1) (hW22s o2 ho2)
                        · -- 12 against the later collections
                          intro o1 ho1 o2 ho2
                          rcases List.mem_append.mp ho2 with ho2 | ho2
                          · exact cross_optNe_of_stems (by decide) (hW12 o1 ho1) (hW13 o2 ho2)
                          rcases List.mem_append.mp ho2 with ho2 | ho2
                          · exact cross_optNe_of_stems (by decide) (hW12 o1 ho1) (hW14 o2 ho2)
                          rcases List.mem_append.mp ho2 with ho2 | ho2
                          · exact cross_optNe_of_stems (by decide) (hW12 o1 ho1) (hW15 o2 ho2)
                          rcases List.mem_append.mp ho2 with ho2 | ho2
                          · exact cross_optNe_of_stems (by decide) (hW12 o1 ho1) (hW16 o2 ho2)
                          rcases List.mem_append.mp ho2 with ho2 | ho2
                          · exact cross_optNe_of_stems (by decide) (hW12 o1 ho1) (hW17s o2 ho2)
                          rcases List.mem_append.mp ho2 with ho2 | ho2
                          · exact cross_optNe_of_stems (by decide) (hW12 o1 ho1) (hW18s o2 ho2)
                          rcases List.mem_append.mp ho2 with ho2 | ho2
                          · exact cross_optNe_of_stems (by decide) (hW12 o1 ho1) (hW17r o2 ho2)
                          rcases List.mem_append.mp ho2 with ho2 | ho2
                          · exact cross_optNe_of_stems (by decide) (hW12 o1 ho1) (hW18 o2 ho2)
                          rcases List.mem_append.mp ho2 with ho2 | ho2
                          · exact cross_optNe_of_stems (by decide) (hW12 o1 ho1) (hW21 o2 ho2)
                          exact cross_optNe_of_stems (by decide) (hW12 o1 ho1) (hW22s o2 ho2)
                      · -- 11 against the later collections
                        intro o1 ho1 o2 ho2
                        rcases List.mem_append.mp ho2 with ho2 | ho2
                        · exact cross_optNe_of_stems (by decide) (hW11 o1 ho1) (hW12 o2 ho2)
                        rcases List.mem_append.mp ho2 with ho2 | ho2
                        · exact cross_optNe_of_stems (by decide) (hW11 o1 ho1) (hW13 o2 ho2)
                        rcases List.mem_append.mp ho2 with ho2 | ho2
                        · exact cross_optNe_of_stems (by decide) (hW11 o1 ho1) (hW14 o2 ho2)
                        rcases List.mem_append.mp ho2 with ho2 | ho2
                        · exact cross_optNe_of_stems (by decide) (hW11 o1 ho1) (hW15 o2 ho2)
                        rcases List.mem_append.mp ho2 with ho2 | ho2
                        · exact cross_optNe_of_stems (by decide) (hW11 o1 ho1) (hW16 o2 ho2)
                        rcases List.mem_append.mp ho2 with ho2 | ho2
                        · exact cross_optNe_of_stems (by decide) (hW11 o1 ho1) (hW17s o2 ho2)
                        rcases List.mem_append.mp ho2 with ho2 | ho2
                        · exact cross_optNe_of_stems (by decide) (hW11 o1 ho1) (hW18s o2 ho2)
                        rcases List.mem_append.mp ho2 with ho2 | ho2
                        · exact cross_optNe_of_stems (by decide) (hW11 o1 ho1) (hW17r o2 ho2)
                        rcases List.mem_append.mp ho2 with ho2 | ho2
                        · exact cross_optNe_of_stems (by decide) (hW11 o1 ho1) (hW18 o2 ho2)
                        rcases List.mem_append.mp ho2 with ho2 | ho2
                        · exact cross_optNe_of_stems (by decide) (hW11 o1 ho1) (hW21 o2 ho2)
                        exact cross_optNe_of_stems (by decide) (hW11 o1 ho1) (hW22s o2 ho2)
                    · -- 10 against the later collections
                      intro o1 ho1 o2 ho2
                      rcases List.mem_append.mp ho2 with ho2 | ho2
                      · exact cross_optNe_of_stems (by decide) (hW10 o1 ho1) (hW11 o2 ho2)
                      rcases List.mem_append.mp ho2 with ho2 | ho2
                      · exact cross_optNe_of_stems (by decide) (hW10 o1 ho1) (hW12 o2 ho2)
                      rcases List.mem_append.mp ho2 with ho2 | ho2
                      · exact cross_optNe_of_stems (by decide) (hW10 o1 ho1) (hW13 o2 ho2)
                      rcases List.mem_append.mp ho2 with ho2 | ho2
                      · exact cross_optNe_of_stems (by decide) (hW10 o1 ho1) (hW14 o2 ho2)
                      rcases List.mem_append.mp ho2 with ho2 | ho2
                      · exact cross_optNe_of_stems (by decide) (hW10 o1 ho1) (hW15 o2 ho2)
                      rcases List.mem_append.mp ho2 with ho2 | ho2
                      · exact cross_optNe_of_stems (by decide) (hW10 o1 ho1) (hW16 o2 ho2)
                      rcases List.mem_append.mp ho2 with ho2 | ho2
                      · exact cross_optNe_of_stems (by decide) (hW10 o1 ho1) (hW17s o2 ho2)
                      rcases List.mem_append.mp ho2 with ho2 | ho2
                      · exact cross_optNe_of_stems (by decide) (hW10 o1 ho1) (hW18s o2 ho2)
                      rcases List.mem_append.mp ho2 with ho2 | ho2
                      · exact cross_optNe_of_stems (by decide) (hW10 o1 ho1) (hW17r o2 ho2)
                      rcases List.mem_append.mp ho2 with ho2 | ho2
                      · exact cross_optNe_of_stems (by decide) (hW10 o1 ho1) (hW18 o2 ho2)
                      rcases List.mem_append.mp ho2 with ho2 | ho2
                      · exact cross_optNe_of_stems (by decide) (hW10 o1 ho1) (hW21 o2 ho2)
                      exact cross_optNe_of_stems (by decide) (hW10 o1 ho1) (hW22s o2 ho2)
                  · -- 9 against the later collections
                    intro o1 ho1 o2 ho2
                    rcases List.mem_append.mp ho2 with ho2 | ho2
                    · exact cross_optNe_of_stems (by decide) (hW9 o1 ho1) (hW10 o2 ho2)
                    rcases List.mem_append.mp ho2 with ho2 | ho2
                    · exact cross_optNe_of_stems (by decide) (hW9 o1 ho1) (hW11 o2 ho2)
                    rcases List.mem_append.mp ho2 with ho2 | ho2
                    · exact cross_optNe_of_stems (by decide) (hW9 o1 ho1) (hW12 o2 ho2)
                    rcases List.mem_append.mp ho2 with ho2 | ho2
                    · exact cross_optNe_of_stems (by decide) (hW9 o1 ho1) (hW13 o2 ho2)
                    rcases List.mem_append.mp ho2 with ho2 | ho2
                    · exact cross_optNe_of_stems (by decide) (hW9 o1 ho1) (hW14 o2 ho2)
                    rcases List.mem_append.mp ho2 with ho2 | ho2
                    · exact cross_optNe_of_stems (by decide) (hW9 o1 ho1) (hW15 o2 ho2)
                    rcases List.mem_append.mp ho2 with ho2 | ho2
                    · exact cross_optNe_of_stems (by decide) (hW9 o1 ho1) (hW16 o2 ho2)
                    rcases List.mem_append.mp ho2 with ho2 | ho2
                    · exact cross_optNe_of_stems (by decide) (hW9 o1 ho1) (hW17s o2 ho2)
                    rcases List.mem_append.mp ho2 with ho2 | ho2
                    · exact cross_optNe_of_stems (by decide) (hW9 o1 ho1) (hW18s o2 ho2)
                    rcases List.mem_append.mp ho2 with ho2 | ho2
                    · exact cross_optNe_of_stems (by decide) (hW9 o1 ho1) (hW17r o2 ho2)
                    rcases List.mem_append.mp ho2 with ho2 | ho2
                    · exact cross_optNe_of_stems (by decide) (hW9 o1 ho1) (hW18 o2 ho2)
                    rcases List.mem_append.mp ho2 with ho2 | ho2
                    · exact cross_optNe_of_stems (by decide) (hW9 o1 ho1) (hW21 o2 ho2)
                    exact cross_optNe_of_stems (by decide) (hW9 o1 ho1) (hW22s o2 ho2)
                · -- 8 against the later collections
                  intro o1 ho1 o2 ho2
                  rcases List.mem_append.mp ho2 with ho2 | ho2
                  · exact cross_optNe_of_stems (by decide) (hW8 o1 ho1) (hW9 o2 ho2)
                  rcases List.mem_append.mp ho2 with ho2 | ho2
                  · exact cross_optNe_of_stems (by decide) (hW8 o1 ho1) (hW10 o2 ho2)
                  rcases List.mem_append.mp ho2 with ho2 | ho2
                  · exact cross_optNe_of_stems (by decide) (hW8 o1 ho1) (hW11 o2 ho2)
                  rcases List.mem_append.mp ho2 with ho2 | ho2
                  · exact cross_optNe_of_stems (by decide) (hW8 o1 ho1) (hW12 o2 ho2)
                  rcases List.mem_append.mp ho2 with ho2 | ho2
                  · exact cross_optNe_of_stems (by decide) (hW8 o1 ho1) (hW13 o2 ho2)
                  rcases List.mem_append.mp ho2 with ho2 | ho2
                  · exact cross_optNe_of_stems (by decide) (hW8 o1 ho1) (hW14 o2 ho2)
                  rcases List.mem_append.mp ho2 with ho2 | ho2
                  · exact cross_optNe_of_stems (by decide) (hW8 o1 ho1) (hW15 o2 ho2)
                  rcases List.mem_append.mp ho2 with ho2 | ho2
                  · exact cross_optNe_of_stems (by decide) (hW8 o1 ho1) (hW16 o2 ho2)
                  rcases List.mem_append.mp ho2 with ho2 | ho2
                  · exact cross_optNe_of_stems (by decide) (hW8 o1 ho1) (hW17s o2 ho2)
                  rcases List.mem_append.mp ho2 with ho2 | ho2
                  · exact cross_optNe_of_stems (by decide) (hW8 o1 ho1) (hW18s o2 ho2)
                  rcases List.mem_append.mp ho2 with ho2 | ho2
                  · exact cross_optNe_of_stems (by decide) (hW8 o1 ho1) (hW17r o2 ho2)
                  rcases List.mem_append.mp ho2 with ho2 | ho2
                  · exact cross_optNe_of_stems (by decide) (hW8 o1 ho1) (hW18 o2 ho2)
                  rcases List.mem_append.mp ho2 with ho2 | ho2
                  · exact cross_optNe_of_stems (by decide) (hW8 o1 ho1) (hW21 o2 ho2)
                  exact cross_optNe_of_stems (by decide) (hW8 o1 ho1) (hW22s o2 ho2)
              · -- 7 against the later collections
                intro o1 ho1 o2 ho2
                rcases List.mem_append.mp ho2 with ho2 | ho2
                · exact cross_optNe_of_stems (by decide) (hW7 o1 ho1) (hW8 o2 ho2)
                rcases List.mem_append.mp ho2 with ho2 | ho2
                · exact cross_optNe_of_stems (by decide) (hW7 o1 ho1) (hW9 o2 ho2)
                rcases List.mem_append.mp ho2 with ho2 | ho2
                · exact cross_optNe_of_stems (by decide) (hW7 o1 ho1) (hW10 o2 ho2)
                rcases List.mem_append.mp ho2 with ho2 | ho2
                · exact cross_optNe_of_stems (by decide) (hW7 o1 ho1) (hW11 o2 ho2)
                rcases List.mem_append.mp ho2 with ho2 | ho2
                · exact cross_optNe_of_stems (by decide) (hW7 o1 ho1) (hW12 o2 ho2)
                rcases List.mem_append.mp ho2 with ho2 | ho2
                · exact cross_optNe_of_stems (by decide) (hW7 o1 ho1) (hW13 o2 ho2)
                rcases List.mem_append.mp ho2 with ho2 | ho2
                · exact cross_optNe_of_stems (by decide) (hW7 o1 ho1) (hW14 o2 ho2)
                rcases List.mem_append.mp ho2 with ho2 | ho2
                · exact cross_optNe_of_stems (by decide) (hW7 o1 ho1) (hW15 o2 ho2)
                rcases List.mem_append.mp ho2 with ho2 | ho2
                · exact cross_optNe_of_stems (by decide) (hW7 o1 ho1) (hW16 o2 ho2)
                rcases List.mem_append.mp ho2 with ho2 | ho2
                · exact cross_optNe_of_stems (by decide) (hW7 o1 ho1) (hW17s o2 ho2)
                rcases List.mem_append.mp ho2 with ho2 | ho2
                · exact cross_optNe_of_stems (by decide) (hW7 o1 ho1) (hW18s o2 ho2)
                rcases List.mem_append.mp ho2 with ho2 | ho2
                · exact cross_optNe_of_stems (by decide) (hW7 o1 ho1) (hW17r o2 ho2)
                rcases List.mem_append.mp ho2 with ho2 | ho2
                · exact cross_optNe_of_stems (by decide) (hW7 o1 ho1) (hW18 o2 ho2)
                rcases List.mem_append.mp ho2 with ho2 | ho2
                · exact cross_optNe_of_stems (by decide) (hW7 o1 ho1) (hW21 o2 ho2)
                exact cross_optNe_of_stems (by decide) (hW7 o1 ho1) (hW22s o2 ho2)
            · -- 6 against the later collections
              intro o1 ho1 o2 ho2
              rcases List.mem_append.mp ho2 with ho2 | ho2
              · exact cross_optNe_of_stems (by decide) (hW6 o1 ho1) (hW7 o2 ho2)
              rcases List.mem_append.mp ho2 with ho2 | ho2
              · exact cross_optNe_of_stems (by decide) (hW6 o1 ho1) (hW8 o2 ho2)
              rcases List.mem_append.mp ho2 with ho2 | ho2
              · exact cross_optNe_of_stems (by decide) (hW6 o1 ho1) (hW9 o2 ho2)
              rcases List.mem_append.mp ho2 with ho2 | ho2
              · exact cross_optNe_of_stems (by decide) (hW6 o1 ho1) (hW10 o2 ho2)
              rcases List.mem_append.mp ho2 with ho2 | ho2
              · exact cross_optNe_of_stems (by decide) (hW6 o1 ho1) (hW11 o2 ho2)
              rcases List.mem_append.mp ho2 with ho2 | ho2
              · exact cross_optNe_of_stems (by decide) (hW6 o1 ho1) (hW12 o2 ho2)
              rcases List.mem_append.mp ho2 with ho2 | ho2
              · exact cross_optNe_of_stems (by decide) (hW6 o1 ho1) (hW13 o2 ho2)
              rcases List.mem_append.mp ho2 with ho2 | ho2
              · exact cross_optNe_of_stems (by decide) (hW6 o1 ho1) (hW14 o2 ho2)
              rcases List.mem_append.mp ho2 with ho2 | ho2
              · exact cross_optNe_of_stems (by decide) (hW6 o1 ho1) (hW15 o2 ho2)
              rcases List.mem_append.mp ho2 with ho2 | ho2
              · exact cross_optNe_of_stems (by decide) (hW6 o1 ho1) (hW16 o2 ho2)
              rcases List.mem_append.mp ho2 with ho2 | ho2
              · exact cross_optNe_of_stems (by decide) (hW6 o1 ho1) (hW17s o2 ho2)
              rcases List.mem_append.mp ho2 with ho2 | ho2
              · exact cross_optNe_of_stems (by decide) (hW6 o1 ho1) (hW18s o2 ho2)
              rcases List.mem_append.mp ho2 with ho2 | ho2
              · exact cross_optNe_of_stems (by decide) (hW6 o1 ho1) (hW17r o2 ho2)
              rcases List.mem_append.mp ho2 with ho2 | ho2
              · exact cross_optNe_of_stems (by decide) (hW6 o1 ho1) (hW18 o2 ho2)
              rcases List.mem_append.mp ho2 with ho2 | ho2
              · exact cross_optNe_of_stems (by decide) (hW6 o1 ho1) (hW21 o2 ho2)
              exact cross_optNe_of_stems (by decide) (hW6 o1 ho1) (hW22s o2 ho2)
          · -- 5 against the later collections
            intro o1 ho1 o2 ho2
            rcases List.mem_append.mp ho2 with ho2 | ho2
            · exact cross_optNe_of_stems (by decide) (hW5 o1 ho1) (hW6 o2 ho2)
            rcases List.mem_append.mp ho2 with ho2 | ho2
            · exact cross_optNe_of_stems (by decide) (hW5 o1 ho1) (hW7 o2 ho2)
            rcases List.mem_append.mp ho2 with ho2 | ho2
            · exact cross_optNe_of_stems (by decide) (hW5 o1 ho1) (hW8 o2 ho2)
            rcases List.mem_append.mp ho2 with ho2 | ho2
            · exact cross_optNe_of_stems (by decide) (hW5 o1 ho1) (hW9 o2 ho2)
            rcases List.mem_append.mp ho2 with ho2 | ho2
            · exact cross_optNe_of_stems (by decide) (hW5 o1 ho1) (hW10 o2 ho2)
            rcases List.mem_append.mp ho2 with ho2 | ho2
            · exact cross_optNe_of_stems (by decide) (hW5 o1 ho1) (hW11 o2 ho2)
            rcases List.mem_append.mp ho2 with ho2 | ho2
            · exact cross_optNe_of_stems (by decide) (hW5 o1 ho1) (hW12 o2 ho2)
            rcases List.mem_append.mp ho2 with ho2 | ho2
            · exact cross_optNe_of_stems (by decide) (hW5 o1 ho1) (hW13 o2 ho2)
            rcases List.mem_append.mp ho2 with ho2 | ho2
            · exact cross_optNe_of_stems (by decide) (hW5 o1 ho1) (hW14 o2 ho2)
            rcases List.mem_append.mp ho2 with ho2 | ho2
            · exact cross_optNe_of_stems (by decide) (hW5 o1 ho1) (hW15 o2 ho2)
            rcases List.mem_append.mp ho2 with ho2 | ho2
            · exact cross_optNe_of_stems (by decide) (hW5 o1 ho1) (hW16 o2 ho2)
            rcases List.mem_append.mp ho2 with ho2 | ho2
            · exact cross_optNe_of_stems (by decide) (hW5 o1 ho1) (hW17s o2 ho2)
            rcases List.mem_append.mp ho2 with ho2 | ho2
            · exact cross_optNe_of_stems (by decide) (hW5 o1 ho1) (hW18s o2 ho2)
            rcases List.mem_append.mp ho2 with ho2 | ho2
            · exact cross_optNe_of_stems (by decide) (hW5 o1 ho1) (hW17r o2 ho2)
            rcases List.mem_append.mp ho2 with ho2 | ho2
            · exact cross_optNe_of_stems (by decide) (hW5 o1 ho1) (hW18 o2 ho2)
            rcases List.mem_append.mp ho2 with ho2 | ho2
            · exact cross_optNe_of_stems (by decide) (hW5 o1 ho1) (hW21 o2 ho2)
            exact cross_optNe_of_stems (by decide) (hW5 o1 ho1) (hW22s o2 ho2)
        · -- 4 against the later collections
          intro o1 ho1 o2 ho2
          rcases List.mem_append.mp ho2 with ho2 | ho2
          · exact cross_optNe_of_stems (by decide) (hW4 o1 ho1) (hW5 o2 ho2)
          rcases List.mem_append.mp ho2 with ho2 | ho2
          · exact cross_optNe_of_stems (by decide) (hW4 o1 ho1) (hW6 o2 ho2)
          rcases List.mem_append.mp ho2 with ho2 | ho2
          · exact cross_optNe_of_stems (by decide) (hW4 o1 ho1) (hW7 o2 ho2)
          rcases List.mem_append.mp ho2 with ho2 | ho2
          · exact cross_optNe_of_stems (by decide) (hW4 o1 ho1) (hW8 o2 ho2)
          rcases List.mem_append.mp ho2 with ho2 | ho2
          · exact cross_optNe_of_stems (by decide) (hW4 o1 ho1) (hW9 o2 ho2)
          rcases List.mem_append.mp ho2 with ho2 | ho2
          · exact cross_optNe_of_stems (by decide) (hW4 o1 ho1) (hW10 o2 ho2)
          rcases List.mem_append.mp ho2 with ho2 | ho2
          · exact cross_optNe_of_stems (by decide) (hW4 o1 ho1) (hW11 o2 ho2)
          rcases List.mem_append.mp ho2 with ho2 | ho2
          · exact cross_optNe_of_stems (by decide) (hW4 o1 ho1) (hW12 o2 ho2)
          rcases List.mem_append.mp ho2 with ho2 | ho2
          · exact cross_optNe_of_stems (by decide) (hW4 o1 ho1) (hW13 o2 ho2)
          rcases List.mem_append.mp ho2 with ho2 | ho2
          · exact cross_optNe_of_stems (by decide) (hW4 o1 ho1) (hW14 o2 ho2)
          rcases List.mem_append.mp ho2 with ho2 | ho2
          · exact cross_optNe_of_stems (by decide) (hW4 o1 ho1) (hW15 o2 ho2)
          rcases List.mem_append.mp ho2 with ho2 | ho2
          · exact cross_optNe_of_stems (by decide) (hW4 o1 ho1) (hW16 o2 ho2)
          rcases List.mem_append.mp ho2 with ho2 | ho2
          · exact cross_optNe_of_stems (by decide) (hW4 o1 ho1) (hW17s o2 ho2)
          rcases List.mem_append.mp ho2 with ho2 | ho2
          · exact cross_optNe_of_stems (by decide) (hW4 o1 ho1) (hW18s o2 ho2)
          rcases List.mem_append.mp ho2 with ho2 | ho2
          · exact cross_optNe_of_stems (by decide) (hW4 o1 ho1) (hW17r o2 ho2)
          rcases List.mem_append.mp ho2 with ho2 | ho2
          · exact cross_optNe_of_stems (by decide) (hW4 o1 ho1) (hW18 o2 ho2)
          rcases List.mem_append.mp ho2 with ho2 | ho2
          · exact cross_optNe_of_stems (by decide) (hW4 o1 ho1) (hW21 o2 ho2)
          exact cross_optNe_of_stems (by decide) (hW4 o1 ho1) (hW22s o2 ho2)
      · -- 3 against the later collections
        intro o1 ho1 o2 ho2
        rcases List.mem_append.mp ho2 with ho2 | ho2
        · exact cross_optNe_of_stems (by decide) (hW3 o1 ho1) (hW4 o2 ho2)
        rcases List.mem_append.mp ho2 with ho2 | ho2
        · exact cross_optNe_of_stems (by decide) (hW3 o1 ho1) (hW5 o2 ho2)
        rcases List.mem_append.mp ho2 with ho2 | ho2
        · exact cross_optNe_of_stems (by decide) (hW3 o1 ho1) (hW6 o2 ho2)
        rcases List.mem_append.mp ho2 with ho2 | ho2
        · exact cross_optNe_of_stems (by decide) (hW3 o1 ho1) (hW7 o2 ho2)
        rcases List.mem_append.mp ho2 with ho2 | ho2
        · exact cross_optNe_of_stems (by decide) (hW3 o1 ho1) (hW8 o2 ho2)
        rcases List.mem_append.mp ho2 with ho2 | ho2
        · exact cross_optNe_of_stems (by decide) (hW3 o1 ho1) (hW9 o2 ho2)
        rcases List.mem_append.mp ho2 with ho2 | ho2
        · exact cross_optNe_of_stems (by decide) (hW3 o1 ho1) (hW10 o2 ho2)
        rcases List.mem_append.mp ho2 with ho2 | ho2
        · exact cross_optNe_of_stems (by decide) (hW3 o1 ho1) (hW11 o2 ho2)
        rcases List.mem_append.mp ho2 with ho2 | ho2
        · exact cross_optNe_of_stems (by decide) (hW3 o1 ho1) (hW12 o2 ho2)
        rcases List.mem_append.mp ho2 with ho2 | ho2
        · exact cross_optNe_of_stems (by decide) (hW3 o1 ho1) (hW13 o2 ho2)
        rcases List.mem_append.mp ho2 with ho2 | ho2
        · exact cross_optNe_of_stems (by decide) (hW3 o1 ho1) (hW14 o2 ho2)
        rcases List.mem_append.mp ho2 with ho2 | ho2
        · exact cross_optNe_of_stems (by decide) (hW3 o1 ho1) (hW15 o2 ho2)
        rcases List.mem_append.mp ho2 with ho2 | ho2
        · exact cross_optNe_of_stems (by decide) (hW3 o1 ho1) (hW16 o2 ho2)
        rcases List.mem_append.mp ho2 with ho2 | ho2
        · exact cross_optNe_of_stems (by decide) (hW3 o1 ho1) (hW17s o2 ho2)
        rcases List.mem_append.mp ho2 with ho2 | ho2
        · exact cross_optNe_of_stems (by decide) (hW3 o1 ho1) (hW18s o2 ho2)
        rcases List.mem_append.mp ho2 with ho2 | ho2
        · exact cross_optNe_of_stems (by decide) (hW3 o1 ho1) (hW17r o2 ho2)
        rcases List.mem_append.mp ho2 with ho2 | ho2
        · exact cross_optNe_of_stems (by decide) (hW3 o1 ho1) (hW18 o2 ho2)
        rcases List.mem_append.mp ho2 with ho2 | ho2
        · exact cross_optNe_of_stems (by decide) (hW3 o1 ho1) (hW21 o2 ho2)
        exact cross_optNe_of_stems (by decide) (hW3 o1 ho1) (hW22s o2 ho2)
    · -- 2 against the later collections
      intro o1 ho1 o2 ho2
      rcases List.mem_append.mp ho2 with ho2 | ho2
      · exact cross_optNe_of_stems (by decide) (hW2 o1 ho1) (hW3 o2 ho2)
      rcases List.mem_append.mp ho2 with ho2 | ho2
      · exact cross_optNe_of_stems (by decide) (hW2 o1 ho1) (hW4 o2 ho2)
      rcases List.mem_append.mp ho2 with ho2 | ho2
      · exact optNe_of_ne (hDisj25 o1 ho1 o2 ho2)
      rcases List.mem_append.mp ho2 with ho2 | ho2
      · exact cross_optNe_of_stems (by decide) (hW2 o1 ho1) (hW6 o2 ho2)
      rcases List.mem_append.mp ho2 with ho2 | ho2
      · exact cross_optNe_of_stems (by decide) (hW2 o1 ho1) (hW7 o2 ho2)
      rcases List.mem_append.mp ho2 with ho2 | ho2
      · exact cross_optNe_of_stems (by decide) (hW2 o1 ho1) (hW8 o2 ho2)
      rcases List.mem_append.mp ho2 with ho2 | ho2
      · exact cross_optNe_of_stems (by decide) (hW2 o1 ho1) (hW9 o2 ho2)
      rcases List.mem_append.mp ho2 with ho2 | ho2
      · exact cross_optNe_of_stems (by decide) (hW2 o1 ho1) (hW10 o2 ho2)
      rcases List.mem_append.mp ho2 with ho2 | ho2
      · exact cross_optNe_of_stems (by decide) (hW2 o1 ho1) (hW11 o2 ho2)
      rcases List.mem_append.mp ho2 with ho2 | ho2
      · exact cross_optNe_of_stems (by decide) (hW2 o1 ho1) (hW12 o2 ho2)
      rcases List.mem_append.mp ho2 with ho2 | ho2
      · exact cross_optNe_of_stems (by decide) (hW2 o1 ho1) (hW13 o2 ho2)
      rcases List.mem_append.mp ho2 with ho2 | ho2
      · exact cross_optNe_of_stems (by decide) (hW2 o1 ho1) (hW14 o2 ho2)
      rcases List.mem_append.mp ho2 with ho2 | ho2
      · exact cross_optNe_of_stems (by decide) (hW2 o1 ho1) (hW15 o2 ho2)
      rcases List.mem_append.mp ho2 with ho2 | ho2
      · exact cross_optNe_of_stems (by decide) (hW2 o1 ho1) (hW16 o2 ho2)
      rcases List.mem_append.mp ho2 with ho2 | ho2
      · exact cross_optNe_of_stems (by decide) (hW2 o1 ho1) (hW17s o2 ho2)
      rcases List.mem_append.mp ho2 with ho2 | ho2
      · exact cross_optNe_of_stems (by decide) (hW2 o1 ho1) (hW18s o2 ho2)
      rcases List.mem_append.mp ho2 with ho2 | ho2
      · exact cross_optNe_of_stems (by decide) (hW2 o1 ho1) (hW17r o2 ho2)
      rcases List.mem_append.mp ho2 with ho2 | ho2
      · exact cross_optNe_of_stems (by decide) (hW2 o1 ho1) (hW18 o2 ho2)
      rcases List.mem_append.mp ho2 with ho2 | ho2
      · exact cross_optNe_of_stems (by decide) (hW2 o1 ho1) (hW21 o2 ho2)
      exact cross_optNe_of_stems (by decide) (hW2 o1 ho1) (hW22s o2 ho2)
  · -- 1 against the later collections
    intro o1 ho1 o2 ho2
    rcases List.mem_append.mp ho2 with ho2 | ho2
    · exact cross_optNe_of_stems (by decide) (hW1 o1 ho1) (hW2 o2 ho2)
    rcases List.mem_append.mp ho2 with ho2 | ho2
    · exact cross_optNe_of_stems (by decide) (hW1 o1 ho1) (hW3 o2 ho2)
    rcases List.mem_append.mp ho2 with ho2 | ho2
    · exact cross_optNe_of_stems (by decide) (hW1 o1 ho1) (hW4 o2 ho2)
    rcases List.mem_append.mp ho2 with ho2 | ho2
    · exact cross_optNe_of_stems (by decide) (hW1 o1 ho1) (hW5 o2 ho2)
    rcases List.mem_append.mp ho2 with ho2 | ho2
    · exact cross_optNe_of_stems (by decide) (hW1 o1 ho1) (hW6 o2 ho2)
    rcases List.mem_append.mp ho2 with ho2 | ho2
    · exact cross_optNe_of_stems (by decide) (hW1 o1 ho1) (hW7 o2 ho2)
    rcases List.mem_append.mp ho2 with ho2 | ho2
    · intro a b ha hb
      obtain ⟨x, hx⟩ := hV1 o1 ho1 a ha
      obtain ⟨c2, hc2⟩ := hV8 o2 ho2 b hb
      rw [hc2]
      exact diskVal_ne_ctrlVal d caps hx
    rcases List.mem_append.mp ho2 with ho2 | ho2
    · exact cross_optNe_of_stems (by decide) (hW1 o1 ho1) (hW9 o2 ho2)
    rcases List.mem_append.mp ho2 with ho2 | ho2
    · exact cross_optNe_of_stems (by decide) (hW1 o1 ho1) (hW10 o2 ho2)
    rcases List.mem_append.mp ho2 with ho2 | ho2
    · exact cross_optNe_of_stems (by decide) (hW1 o1 ho1) (hW11 o2 ho2)
    rcases List.mem_append.mp ho2 with ho2 | ho2
    · exact cross_optNe_of_stems (by decide) (hW1 o1 ho1) (hW12 o2 ho2)
    rcases List.mem_append.mp ho2 with ho2 | ho2
    · exact cross_optNe_of_stems (by decide) (hW1 o1 ho1) (hW13 o2 ho2)
    rcases List.mem_append.mp ho2 with ho2 | ho2
    · exact cross_optNe_of_stems (by decide) (hW1 o1 ho1) (hW14 o2 ho2)
    rcases List.mem_append.mp ho2 with ho2 | ho2
    · exact cross_optNe_of_stems (by decide) (hW1 o1 ho1) (hW15 o2 ho2)
    rcases List.mem_append.mp ho2 with ho2 | ho2
    · exact cross_optNe_of_stems (by decide) (hW1 o1 ho1) (hW16 o2 ho2)
    rcases List.mem_append.mp ho2 with ho2 | ho2
    · exact cross_optNe_of_stems (by decide) (hW1 o1 ho1) (hW17s o2 ho2)
    rcases List.mem_append.mp ho2 with ho2 | ho2
    · exact cross_optNe_of_stems (by decide) (hW1 o1 ho1) (hW18s o2 ho2)
    rcases List.mem_append.mp ho2 with ho2 | ho2
    · exact cross_optNe_of_stems (by decide) (hW1 o1 ho1) (hW17r o2 ho2)
    rcases List.mem_append.mp ho2 with ho2 | ho2
    · exact cross_optNe_of_stems (by decide) (hW1 o1 ho1) (hW18 o2 ho2)
    rcases List.mem_append.mp ho2 with ho2 | ho2
    · intro a b ha hb
      obtain ⟨x, hx⟩ := hV1 o1 ho1 a ha
      have hm2 := hM21 o2 ho2
      rw [hb] at hm2
      exact diskVal_ne_memVal d hx hm2
    exact cross_optNe_of_stems (by decide) (hW1 o1 ho1) (hW22s o2 ho2)


instance (d : DomainDef) (x y : DiskDef) : Decidable (diskDistinct d x y) := by
  unfold diskDistinct
  infer_instance

instance (a b : MemoryDef) : Decidable (memPairHyp a b) := by
  unfold memPairHyp
  infer_instance

set_option maxHeartbeats 1600000 in
set_option synthInstance.maxHeartbeats 400000 in
set_option synthInstance.maxSize 512 in
instance (d : DomainDef) : Decidable (freshDomain d) := by
  unfold freshDomain
  infer_instance

instance (d : DomainDef) : Decidable (chrTypesOK d) := by
  unfold chrTypesOK
  infer_instance

/-- Concrete mixed fresh domain for the uniqueness witness. -/
def dC1 : DomainDef :=
  {domain0 with
    disks := [⟨none, DiskBus.virtio, false, ⟨0, 0, 0, 0⟩, str "vda", none⟩],
    nets := [⟨none, false⟩, ⟨none, true⟩],
    sounds := [⟨none⟩],
    hostdevs := [⟨none⟩],
    controllers := [⟨none, CtrlType.usb, CtrlModel.otherModel, 0⟩,
      ⟨none, CtrlType.scsi, CtrlModel.otherModel, 0⟩],
    watchdog := some ⟨none⟩,
    vsock := some ⟨none⟩,
    mems := [⟨none, MemModel.dimm, 2⟩]}

/-- The result the pass computes on dC1. -/
def dC1res : DomainDef :=
  {domain0 with
    disks := [⟨some (str "virtio-disk0"), DiskBus.virtio, false, ⟨0, 0, 0, 0⟩,
      str "vda", none⟩],
    nets := [⟨some (str "net0"), false⟩, ⟨some (str "hostdev0"), true⟩],
    sounds := [⟨some (str "sound0")⟩],
    hostdevs := [⟨some (str "hostdev1")⟩],
    controllers := [⟨some (str "usb"), CtrlType.usb, CtrlModel.otherModel, 0⟩,
      ⟨some (str "scsi0"), CtrlType.scsi, CtrlModel.otherModel, 0⟩],
    watchdog := some ⟨some (str "watchdog0")⟩,
    vsock := some ⟨some (str "vsock0")⟩,
    mems := [⟨some (str "dimm2"), MemModel.dimm, 2⟩]}

/-- Witness for C1: the pass succeeds on the concrete fresh domain and the
assigned aliases are pairwise distinct. -/
theorem C1_witness :
    qemuAssignDeviceAliases dC1 ⟨true, false⟩ = .ok dC1res ∧
    (allAliases dC1res).Nodup := by
  have hrun : qemuAssignDeviceAliases dC1 ⟨true, false⟩ = .ok dC1res := by decide
  refine ⟨hrun, ?_⟩
  exact C1_alias_uniqueness dC1 ⟨true, false⟩ dC1res hrun (by decide) (by decide)
    (by decide) (by decide) (by decide)

end LibvirtModel
